import Mathlib

/-!
# IPP helper (`jni/ipphelper/ipphelper.c`)

A shallow embedding of `ipphelper.c`: version negotiation, retry loops and resource paths on
the request side; the media catalog, printer capabilities, printer state reasons and job
state reasons on the decoding side.

* C pointers that the code tests against `NULL` are `Option` values.
* The process-wide variables `__ipp_version_major` / `__ipp_version_minor` live in `World`,
  together with a log of every request handed to the transport and the number of times
  `wprintIsRunning()` has been read.
* The transport (`cupsDoRequest`, `ippSendRequest`, `cupsLastError`) and the running flag
  (`wprintIsRunning`) are external: an `Env` scripts what the k-th send returns and what the
  k-th read of the flag returns.
* One call of `cupsDoRequest` or of `ippSendRequest` is one send attempt; the HTTP-level
  resend loop inside `ippSendRequest` belongs to the transport.
* Constants that come from headers outside this file are fields of `Config`.
* The request loops of `ipp_doCupsRequest` and `get_JobStatus` need not terminate (a printer
  may answer version-not-supported for ever), so they take a number of rounds to run and
  report when it did not suffice; the probe loop always terminates and is total.
* The `int` retry counters count up from zero and stay below the retry limits plus two, so
  they are natural numbers here.
* A decoded message is a list of attributes with their values in wire order; arrays that the
  code fills through a counter are lists, arrays that it writes without a bound are functions
  from the index.
* Sizes of buffers and limits of arrays that come from headers are fields of `Limits`.
-/

namespace IppHelper

/-! ## Constants and plain data -/

/-- Values of the macros used by `ipphelper.c` whose definitions live in headers. -/
structure Config where
  IPP_SERVICE_ERROR_MAX_RETRIES : Nat
  IPP_BAD_REQUEST_MAX_RETRIES : Nat
  IPP_INTERNAL_ERROR_MAX_RETRIES : Nat
  DEFAULT_IPP_URI_RESOURCE : String
  deriving Repr

/-- The type `status_t`; `OK` is the value 0 that the code compares against. -/
inductive status_t
  | OK
  | ERROR
  deriving DecidableEq, Repr

/-- The enum `ipp_version_state`, the three cases of the switch in `set_ipp_version`. -/
inductive ipp_version_state
  | NEW_REQUEST_SEQUENCE
  | IPP_VERSION_RESOLVED
  | IPP_VERSION_UNSUPPORTED
  deriving DecidableEq, Repr

/-- The type `ipp_status_t` (and `http_status_t` for `HTTP_ERROR`): plain C integers. -/
abbrev ipp_status_t := Int

def IPP_OK : ipp_status_t := 0
def IPP_BAD_REQUEST : ipp_status_t := 0x400
def IPP_NOT_FOUND : ipp_status_t := 0x406
def IPP_INTERNAL_ERROR : ipp_status_t := 0x500
def IPP_SERVICE_UNAVAILABLE : ipp_status_t := 0x502
def IPP_VERSION_NOT_SUPPORTED : ipp_status_t := 0x503
def HTTP_ERROR : ipp_status_t := -1

/-- The operation codes used by the requests built in this file. -/
def IPP_GET_JOB_ATTRIBUTES : Int := 0x9
def IPP_GET_PRINTER_ATTRIBUTES : Int := 0xB

/-- Value tags of attributes, as far as this development reads them. -/
inductive ipp_tag_t
  | IPP_TAG_INTEGER
  | IPP_TAG_BOOLEAN
  | IPP_TAG_ENUM
  | IPP_TAG_KEYWORD
  | IPP_TAG_URI
  | IPP_TAG_NAME
  | IPP_TAG_TEXT
  | IPP_TAG_MIMETYPE
  | IPP_TAG_STRING
  | IPP_TAG_RANGE
  | IPP_TAG_RESOLUTION
  | IPP_TAG_BEGIN_COLLECTION
  deriving DecidableEq, Repr

/-- One value of an attribute that is not a collection: an integer or enum, a boolean, a
string, an octet string (tag `IPP_TAG_STRING`), a range or a resolution. -/
inductive ipp_scalar_t
  | integer (n : Int)
  | boolean (b : Bool)
  | string (s : String)
  | octetString (data : String)
  | range (lower upper : Int)
  | resolution (xres yres units : Int)
  deriving DecidableEq, Repr

/-- An attribute of a collection that lies inside a collection (such as `x-dimension` in
`media-size`). Collections nested deeper than the two levels this file reads are not
represented. -/
structure ipp_inner_attribute_t where
  name : String
  value_tag : ipp_tag_t
  values : List ipp_scalar_t
  deriving DecidableEq, Repr

/-- One value of an attribute of a collection. -/
inductive ipp_member_value_t
  | scalar (v : ipp_scalar_t)
  | collection (attrs : List ipp_inner_attribute_t)
  deriving DecidableEq, Repr

/-- An attribute of a collection that is a value of an attribute of the message (such as
`media-size` or `media-source` in `media-col-ready`). -/
structure ipp_member_attribute_t where
  name : String
  value_tag : ipp_tag_t
  values : List ipp_member_value_t
  deriving DecidableEq, Repr

/-- One value of an attribute of a message. -/
inductive ipp_value_t
  | integer (n : Int)
  | boolean (b : Bool)
  | string (s : String)
  | octetString (data : String)
  | range (lower upper : Int)
  | resolution (xres yres units : Int)
  | collection (attrs : List ipp_member_attribute_t)
  deriving DecidableEq, Repr

/-- A decoded attribute: name, value tag and values in wire order. -/
structure ipp_attribute_t where
  name : String
  value_tag : ipp_tag_t
  values : List ipp_value_t
  deriving DecidableEq, Repr

/-- A decoded IPP message (`ipp_t`): the version stamped on it, the operation or status code
and the attributes in wire order. -/
structure ipp_t where
  version_major : Int
  version_minor : Int
  op_status : Int
  attrs : List ipp_attribute_t
  deriving DecidableEq, Repr

/-- A connection handle (`http_t`); only its being `NULL` or not matters here. -/
structure http_t where
  fd : Int
  deriving DecidableEq, Repr

/-- A printer URI as `httpSeparateURI` splits it and `httpAssembleURIf` puts it together.
The buffer `printer_uri` is represented by its components. -/
structure Uri where
  scheme : String
  username : Option String
  host : String
  port : Int
  resource : String
  deriving DecidableEq, Repr

/-! ## The environment: transport and running flag -/

/-- What one send gives back: the response pointer and the value of `cupsLastError()`. -/
structure Outcome where
  response : Option ipp_t
  lastError : ipp_status_t
  deriving DecidableEq, Repr

/-- Who handed a request to the transport. -/
inductive Sender
  | probe
  | request
  deriving DecidableEq, Repr

/-- One request handed to the transport: the sender, the version stamped on the request, the
resource path it is sent to and the printer URI at that moment. -/
structure SendRecord where
  sender : Sender
  version_major : Int
  version_minor : Int
  resource : String
  printer_uri : Uri
  deriving DecidableEq, Repr

/-- The scripted behaviour of the outside world: `transport k` is the outcome of the k-th
request sent (counting from 0, probes included), `running k` is the value of the k-th call of
`wprintIsRunning()`. -/
structure Env where
  transport : Nat → Outcome
  running : Nat → Bool

/-- Process-wide state: the negotiated version, the requests sent so far (oldest first) and
the number of reads of the running flag so far. -/
structure World where
  ipp_version_major : Int
  ipp_version_minor : Int
  sent : List SendRecord
  polls : Nat
  deriving DecidableEq, Repr

/-- The state at process start: `__ipp_version_major = 2`, `__ipp_version_minor = 0`. -/
def World.initial : World :=
  { ipp_version_major := 2, ipp_version_minor := 0, sent := [], polls := 0 }

/-- Hand a request to the transport: log it and read the scripted outcome. -/
def World.send (env : Env) (w : World) (r : SendRecord) : Outcome × World :=
  (env.transport w.sent.length, { w with sent := w.sent ++ [r] })

/-- Read the running flag once. -/
def wprintIsRunning (env : Env) (w : World) : Bool × World :=
  (env.running w.polls, { w with polls := w.polls + 1 })

/-! ## Library calls on messages -/

/-- The CUPS call `ippNewRequest(op)`: a fresh request, version 2.0, no attribute of interest. -/
def ippNewRequest (op : Int) : ipp_t :=
  { version_major := 2, version_minor := 0, op_status := op, attrs := [] }

/-- The CUPS call `ippSetVersion`. -/
def ippSetVersion (ipp : ipp_t) (major minor : Int) : ipp_t :=
  { ipp with version_major := major, version_minor := minor }

/-- The CUPS call `ippFindAttribute`: the first attribute with this name and value tag. -/
def ippFindAttribute (ipp : ipp_t) (name : String) (tag : ipp_tag_t) : Option ipp_attribute_t :=
  ipp.attrs.find? (fun a => a.name == name && a.value_tag == tag)

/-- The function `getResourceFromURI`: `httpSeparateURI` is run on the URI and only the
resource path is kept. -/
def getResourceFromURI (printer_uri : Uri) : String :=
  printer_uri.resource

/-! ## Version negotiator -/

/-- The struct `ipp_version_supported_t`. -/
structure ipp_version_supported_t where
  supportsIpp10 : Bool
  supportsIpp11 : Bool
  supportsIpp20 : Bool
  deriving DecidableEq, Repr

/-- One round of the loop of `parse_IPPVersions`: an `if / else if` chain of `strcmp`s. -/
def parse_IPPVersions_step (v : ipp_version_supported_t) (x : ipp_value_t) :
    ipp_version_supported_t :=
  if x = .string "1.0" then { v with supportsIpp10 := true }
  else if x = .string "1.1" then { v with supportsIpp11 := true }
  else if x = .string "2.0" then { v with supportsIpp20 := true }
  else v

/-- The function `parse_IPPVersions` (called with a non-NULL `ippVersions`): clear the struct,
then scan the keyword attribute `ipp-versions-supported`. -/
def parse_IPPVersions (response : ipp_t) : ipp_version_supported_t :=
  let zero : ipp_version_supported_t :=
    { supportsIpp10 := false, supportsIpp11 := false, supportsIpp20 := false }
  match ippFindAttribute response "ipp-versions-supported" .IPP_TAG_KEYWORD with
  | none => zero
  | some attrptr => attrptr.values.foldl parse_IPPVersions_step zero

/-- The request a probe sends, as the transport sees it. -/
def probeRecord (printer_uri : Uri) (major minor : Int) : SendRecord :=
  { sender := .probe, version_major := major, version_minor := minor,
    resource := getResourceFromURI printer_uri, printer_uri := printer_uri }

/-- How one round of the loop of `test_and_set_ipp_version` ends: `continue` with the
counters as they are then, or `break` with the value of `return_value`. -/
inductive ProbeStep
  | continue_ (service_unavailable_retry_count bad_request_retry_count : Nat)
  | break_ (return_value : status_t)
  deriving DecidableEq, Repr

/-- One round of the `do { ... } while (1)` loop of `test_and_set_ipp_version`.
`return_value` is `ERROR` on every path except the three that store a version. -/
def test_and_set_ipp_version_body (cfg : Config) (env : Env) (printer_uri : Uri)
    (major minor : Int) (service_unavailable_retry_count bad_request_retry_count : Nat)
    (w : World) : ProbeStep × World :=
  let sent := w.send env (probeRecord printer_uri major minor)
  let ipp_status := sent.1.lastError
  let w1 := sent.2
  match sent.1.response with
  | none =>
    if ipp_status = IPP_INTERNAL_ERROR then (.break_ .ERROR, w1)
    else if ipp_status = IPP_SERVICE_UNAVAILABLE ∧
        service_unavailable_retry_count < cfg.IPP_SERVICE_ERROR_MAX_RETRIES then
      (.continue_ (service_unavailable_retry_count + 1) bad_request_retry_count, w1)
    else if ipp_status = IPP_BAD_REQUEST then
      if bad_request_retry_count > cfg.IPP_BAD_REQUEST_MAX_RETRIES then (.break_ .ERROR, w1)
      else (.continue_ service_unavailable_retry_count (bad_request_retry_count + 1), w1)
    else if ipp_status = IPP_NOT_FOUND then (.break_ .ERROR, w1)
    else (.break_ .ERROR, w1)
  | some response =>
    if ipp_status = IPP_BAD_REQUEST then
      if bad_request_retry_count > cfg.IPP_BAD_REQUEST_MAX_RETRIES then (.break_ .ERROR, w1)
      else (.continue_ service_unavailable_retry_count (bad_request_retry_count + 1), w1)
    else
      let ippVersions := parse_IPPVersions response
      if ippVersions.supportsIpp20 then
        (.break_ .OK, { w1 with ipp_version_major := 2, ipp_version_minor := 0 })
      else if ippVersions.supportsIpp11 then
        (.break_ .OK, { w1 with ipp_version_major := 1, ipp_version_minor := 1 })
      else if ippVersions.supportsIpp10 then
        (.break_ .OK, { w1 with ipp_version_major := 1, ipp_version_minor := 0 })
      else (.break_ .ERROR, w1)

/-- The loop of `test_and_set_ipp_version`, started with the two retry counters at the given
values. Every `continue` raises one counter towards its limit, which is the termination
measure. -/
def test_and_set_ipp_version_loop (cfg : Config) (env : Env) (printer_uri : Uri)
    (major minor : Int) (service_unavailable_retry_count bad_request_retry_count : Nat)
    (w : World) : status_t × World :=
  match _h : test_and_set_ipp_version_body cfg env printer_uri major minor
      service_unavailable_retry_count bad_request_retry_count w with
  | (.break_ return_value, w1) => (return_value, w1)
  | (.continue_ su br, w1) =>
    test_and_set_ipp_version_loop cfg env printer_uri major minor su br w1
termination_by
  (cfg.IPP_SERVICE_ERROR_MAX_RETRIES - service_unavailable_retry_count) +
    (cfg.IPP_BAD_REQUEST_MAX_RETRIES + 1 - bad_request_retry_count)
decreasing_by
  simp_wf
  unfold test_and_set_ipp_version_body at _h
  simp only at _h
  split at _h <;> split_ifs at _h <;> simp only [Prod.mk.injEq, ProbeStep.continue_.injEq,
    reduceCtorEq, false_and] at _h
  all_goals omega

/-- The function `test_and_set_ipp_version`: both counters start at zero. -/
def test_and_set_ipp_version (cfg : Config) (env : Env) (printer_uri : Uri)
    (major minor : Int) (w : World) : status_t × World :=
  test_and_set_ipp_version_loop cfg env printer_uri major minor 0 0 w

/-- The function `determine_ipp_version`: the three probes joined by short-circuit `||`. -/
def determine_ipp_version (cfg : Config) (env : Env) (printer_uri : Uri)
    (http : Option http_t) (w : World) : status_t × World :=
  match http with
  | none => (.ERROR, w)
  | some _ =>
    let r1 := test_and_set_ipp_version cfg env printer_uri 1 1 w
    if r1.1 = .OK then (.OK, r1.2)
    else
      let r2 := test_and_set_ipp_version cfg env printer_uri 1 0 r1.2
      if r2.1 = .OK then (.OK, r2.2)
      else
        let r3 := test_and_set_ipp_version cfg env printer_uri 2 0 r2.2
        if r3.1 = .OK then (.OK, r3.2)
        else (.ERROR, r3.2)

/-- The function `set_ipp_version`. The second component is the request after the call
(`NULL` stays `NULL`; a request is returned unstamped on the `ERROR` paths). -/
def set_ipp_version (cfg : Config) (env : Env) (op_to_set : Option ipp_t) (printer_uri : Uri)
    (http : Option http_t) (use_existing_version : ipp_version_state) (w : World) :
    status_t × Option ipp_t × World :=
  match op_to_set with
  | none => (.ERROR, none, w)
  | some op =>
    match use_existing_version with
    | .NEW_REQUEST_SEQUENCE =>
      let w1 := { w with ipp_version_major := 2, ipp_version_minor := 0 }
      (.OK, some (ippSetVersion op w1.ipp_version_major w1.ipp_version_minor), w1)
    | .IPP_VERSION_RESOLVED =>
      (.OK, some (ippSetVersion op w.ipp_version_major w.ipp_version_minor), w)
    | .IPP_VERSION_UNSUPPORTED =>
      let d := determine_ipp_version cfg env printer_uri http w
      if d.1 ≠ .OK then (.ERROR, some op, d.2)
      else (.OK, some (ippSetVersion op d.2.ipp_version_major d.2.ipp_version_minor), d.2)

/-! ## Resource-path resolver -/

/-- The array `resource_extensions_arr`. -/
def resource_extensions_arr (cfg : Config) : List String :=
  [cfg.DEFAULT_IPP_URI_RESOURCE, "/"]

/-- The `for` loop of `tryNextResourceExtension`: the first index whose entry `strcmp`s equal
to the resource, or the array size when there is none. -/
def resourceIndex (cfg : Config) (resource : String) : Nat :=
  (resource_extensions_arr cfg).findIdx (fun e => e == resource)

/-- The function `tryNextResourceExtension`: the return value and the URI buffer afterwards.
`httpAssembleURIf` is called with a `NULL` username. -/
def tryNextResourceExtension (cfg : Config) (printer_uri : Uri) : Int × Uri :=
  let index := resourceIndex cfg printer_uri.resource
  if h : index ≥ (resource_extensions_arr cfg).length - 1 then (0, printer_uri)
  else
    (1, { scheme := printer_uri.scheme, username := none, host := printer_uri.host,
          port := printer_uri.port,
          resource := (resource_extensions_arr cfg).get ⟨index + 1, by omega⟩ })

/-! ## Request/retry engine: `ipp_doCupsRequest` -/

/-- The local variables and buffers of one `ipp_doCupsRequest` call. -/
structure DoCupsState where
  request : ipp_t
  http_resource : String
  printer_uri : Uri
  response : Option ipp_t
  service_unavailable_retry_count : Nat
  bad_request_retry_count : Nat
  internal_error_retry_count : Nat
  ipp_version_supported : ipp_version_state
  deriving DecidableEq, Repr

/-- How one round of the loop ends: `continue`, or the call returns a response pointer
(`return NULL` at the top of the loop, or `break` followed by `return response`). -/
inductive DoCupsStep
  | continue_ (st : DoCupsState)
  | return_ (r : Option ipp_t) (st : DoCupsState)
  deriving DecidableEq, Repr

/-- The request of `ipp_doCupsRequest` as the transport sees it. One call of `ippSendRequest`
is one send attempt. -/
def requestRecord (st : DoCupsState) (request : ipp_t) : SendRecord :=
  { sender := .request, version_major := request.version_major,
    version_minor := request.version_minor, resource := st.http_resource,
    printer_uri := st.printer_uri }

/-- One round of the `do { ... } while (1)` loop of `ipp_doCupsRequest`. -/
def ipp_doCupsRequest_body (cfg : Config) (env : Env) (http : http_t) (st : DoCupsState)
    (w : World) : DoCupsStep × World :=
  let run := wprintIsRunning env w
  if run.1 = false then (.return_ none st, run.2)
  else
    match set_ipp_version cfg env (some st.request) st.printer_uri (some http)
        st.ipp_version_supported run.2 with
    | (.OK, some request, w1) =>
      let st1 := { st with request := request }
      let sent := w1.send env (requestRecord st request)
      let ipp_status := sent.1.lastError
      let w2 := sent.2
      match sent.1.response with
      | none =>
        let st2 := { st1 with response := none }
        if ipp_status = IPP_INTERNAL_ERROR ∨ ipp_status = HTTP_ERROR then
          let st3 := { st2 with
            internal_error_retry_count := st2.internal_error_retry_count + 1 }
          if st3.internal_error_retry_count > cfg.IPP_INTERNAL_ERROR_MAX_RETRIES then
            (.return_ st3.response st3, w2)
          else (.continue_ st3, w2)
        else if ipp_status = IPP_SERVICE_UNAVAILABLE then
          let st3 := { st2 with
            service_unavailable_retry_count := st2.service_unavailable_retry_count + 1 }
          if st3.service_unavailable_retry_count > cfg.IPP_SERVICE_ERROR_MAX_RETRIES then
            (.return_ st3.response st3, w2)
          else (.continue_ st3, w2)
        else if ipp_status = IPP_BAD_REQUEST then
          let st3 := { st2 with bad_request_retry_count := st2.bad_request_retry_count + 1 }
          if st3.bad_request_retry_count > cfg.IPP_BAD_REQUEST_MAX_RETRIES then
            (.return_ st3.response st3, w2)
          else (.continue_ st3, w2)
        else if ipp_status = IPP_NOT_FOUND then (.return_ st2.response st2, w2)
        else (.return_ st2.response st2, w2)
      | some response =>
        let st2 := { st1 with response := some response }
        if ipp_status = IPP_BAD_REQUEST then
          let st3 := { st2 with bad_request_retry_count := st2.bad_request_retry_count + 1 }
          if st3.bad_request_retry_count > cfg.IPP_BAD_REQUEST_MAX_RETRIES then
            (.return_ st3.response st3, w2)
          else (.continue_ { st3 with response := none }, w2)
        else if ipp_status = IPP_VERSION_NOT_SUPPORTED then
          (.continue_ { st2 with ipp_version_supported := .IPP_VERSION_UNSUPPORTED,
                                 response := none }, w2)
        else (.return_ st2.response st2, w2)
    | (_, _, w1) => (.return_ st.response st, w1)

/-- The loop of `ipp_doCupsRequest`, run for at most `fuel` rounds. The first component is
`none` when the rounds are used up before the call returns. -/
def ipp_doCupsRequest_loop (cfg : Config) (env : Env) (http : http_t) :
    Nat → DoCupsState → World → Option (Option ipp_t) × DoCupsState × World
  | 0, st, w => (none, st, w)
  | fuel + 1, st, w =>
    match ipp_doCupsRequest_body cfg env http st w with
    | (.continue_ st1, w1) => ipp_doCupsRequest_loop cfg env http fuel st1 w1
    | (.return_ r st1, w1) => (some r, st1, w1)

/-- The locals of `ipp_doCupsRequest` at loop entry. -/
def DoCupsState.init (request : ipp_t) (http_resource : String) (printer_uri : Uri) :
    DoCupsState :=
  { request := request, http_resource := http_resource, printer_uri := printer_uri,
    response := none, service_unavailable_retry_count := 0, bad_request_retry_count := 0,
    internal_error_retry_count := 0, ipp_version_supported := .IPP_VERSION_RESOLVED }

/-- The function `ipp_doCupsRequest`. Result: the returned pointer (`none` when `fuel` rounds
did not suffice, `some none` for `NULL`), the locals at exit when the loop was entered,
and the world afterwards. -/
def ipp_doCupsRequest (cfg : Config) (env : Env) (fuel : Nat) (http : Option http_t)
    (request : Option ipp_t) (http_resource : Option String) (printer_uri : Option Uri)
    (w : World) : Option (Option ipp_t) × Option DoCupsState × World :=
  match http, request, http_resource, printer_uri with
  | some http, some request, some http_resource, some printer_uri =>
    let r := ipp_doCupsRequest_loop cfg env http fuel
      (DoCupsState.init request http_resource printer_uri) w
    (r.1, some r.2.1, r.2.2)
  | _, _, _, _ => (some none, none, w)

/-! ## Job status query: `get_JobStatus` -/

/-- The locals and buffers of one `get_JobStatus` call. `decoded` records the response pointer
handed to `set_jobStateDyn` and `parse_jobStateReasons` once the loop reaches them;
`advances` counts the calls of `tryNextResourceExtension` that returned 1. The writes to
`*job_state` and `*job_state_dyn` never feed back into the control flow of the loop and are
left out. -/
structure JobStatusState where
  printer_uri : Uri
  http_resource : String
  service_unavailable_retry_count : Nat
  bad_request_retry_count : Nat
  ipp_version_supported : ipp_version_state
  ipp_status : ipp_status_t
  decoded : Option (Option ipp_t)
  advances : Nat
  deriving DecidableEq, Repr

/-- How one round of the loop of `get_JobStatus` ends. -/
inductive JobStatusStep
  | continue_ (st : JobStatusState)
  | break_ (st : JobStatusState)
  deriving DecidableEq, Repr

/-- The request of `get_JobStatus` as the transport sees it. -/
def jobRequestRecord (st : JobStatusState) (request : ipp_t) : SendRecord :=
  { sender := .request, version_major := request.version_major,
    version_minor := request.version_minor, resource := st.http_resource,
    printer_uri := st.printer_uri }

/-- One round of the `do { ... } while (...)` loop of `get_JobStatus`. -/
def get_JobStatus_body (cfg : Config) (env : Env) (http : Option http_t)
    (st0 : JobStatusState) (w : World) : JobStatusStep × World :=
  let st := { st0 with ipp_status := IPP_OK }
  match set_ipp_version cfg env (some (ippNewRequest IPP_GET_JOB_ATTRIBUTES)) st.printer_uri
      http st.ipp_version_supported w with
  | (.OK, some request, w1) =>
    let sent := w1.send env (jobRequestRecord st request)
    let st1 := { st with ipp_status := sent.1.lastError }
    let w2 := sent.2
    match sent.1.response with
    | none =>
      if st1.ipp_status = IPP_INTERNAL_ERROR then (.break_ st1, w2)
      else if st1.ipp_status = IPP_SERVICE_UNAVAILABLE ∧
          st1.service_unavailable_retry_count < cfg.IPP_SERVICE_ERROR_MAX_RETRIES then
        (.continue_ { st1 with
          service_unavailable_retry_count := st1.service_unavailable_retry_count + 1 }, w2)
      else if st1.ipp_status = IPP_BAD_REQUEST then
        (.continue_ { st1 with bad_request_retry_count := st1.bad_request_retry_count + 1 }, w2)
      else if st1.ipp_status = IPP_NOT_FOUND then
        let next := tryNextResourceExtension cfg st1.printer_uri
        if next.1 ≠ 0 then
          (.continue_ { st1 with printer_uri := next.2,
                                 http_resource := getResourceFromURI next.2,
                                 advances := st1.advances + 1 }, w2)
        else (.break_ { st1 with printer_uri := next.2 }, w2)
      else (.break_ { st1 with decoded := some none }, w2)
    | some response =>
      if st1.ipp_status = IPP_BAD_REQUEST then
        (.continue_ { st1 with bad_request_retry_count := st1.bad_request_retry_count + 1 }, w2)
      else if st1.ipp_status = IPP_VERSION_NOT_SUPPORTED then
        (.continue_ { st1 with ipp_version_supported := .IPP_VERSION_UNSUPPORTED }, w2)
      else (.break_ { st1 with decoded := some (some response) }, w2)
  | (_, _, w1) => (.break_ { st with ipp_status := IPP_VERSION_NOT_SUPPORTED }, w1)

/-- The loop of `get_JobStatus`, run for at most `fuel` rounds; a `continue` jumps to the
loop condition. The first component tells whether the loop was left. -/
def get_JobStatus_loop (cfg : Config) (env : Env) (http : Option http_t) :
    Nat → JobStatusState → World → Bool × JobStatusState × World
  | 0, st, w => (false, st, w)
  | fuel + 1, st, w =>
    match get_JobStatus_body cfg env http st w with
    | (.break_ st1, w1) => (true, st1, w1)
    | (.continue_ st1, w1) =>
      if st1.bad_request_retry_count < cfg.IPP_BAD_REQUEST_MAX_RETRIES ∧
          st1.service_unavailable_retry_count < cfg.IPP_SERVICE_ERROR_MAX_RETRIES then
        get_JobStatus_loop cfg env http fuel st1 w1
      else (true, st1, w1)

/-- The locals of `get_JobStatus` at loop entry. -/
def JobStatusState.init (printer_uri : Uri) : JobStatusState :=
  { printer_uri := printer_uri, http_resource := getResourceFromURI printer_uri,
    service_unavailable_retry_count := 0, bad_request_retry_count := 0,
    ipp_version_supported := .IPP_VERSION_RESOLVED, ipp_status := IPP_OK, decoded := none,
    advances := 0 }

/-- The function `get_JobStatus`, with `job_state_dyn` and `job_state` given as whether the
pointers are non-NULL. Result: the returned status (`none` when `fuel` rounds did not
suffice), the locals at exit, and the world afterwards. -/
def get_JobStatus (cfg : Config) (env : Env) (fuel : Nat) (http : Option http_t)
    (printer_uri : Uri) (job_state_dyn job_state : Option Unit) (w : World) :
    Option ipp_status_t × JobStatusState × World :=
  match job_state_dyn, job_state with
  | some _, some _ =>
    let r := get_JobStatus_loop cfg env http fuel (JobStatusState.init printer_uri) w
    (if r.1 then some r.2.1.ipp_status else none, r.2.1, r.2.2)
  | _, _ => (some IPP_OK, JobStatusState.init printer_uri, w)

/-! ## Media catalog -/

/-- The enumerators of `media_size_t` that the table `SupportedMediaSizes` names. The enum is
declared in a header; the numeric value of each enumerator is a parameter of the table. -/
inductive media_size_enumerator
  | US_LETTER | US_LEGAL | LEDGER | INDEX_CARD_5X7 | ISO_A3 | ISO_A4 | ISO_A5 | JIS_B4 | JIS_B5
  | US_GOVERNMENT_LETTER | INDEX_CARD_4X6 | JPN_HAGAKI_PC | PHOTO_89X119 | CARD_54X86
  | OE_PHOTO_L | ISO_AND_JIS_A0 | ISO_AND_JIS_A1 | ISO_AND_JIS_A2 | ARCH_A | ARCH_B | ARCH_C
  | ARCH_D | ARCH_E | ARCH_E1 | C_SIZE | D_SIZE | E_SIZE | F_SIZE | SUPER_B
  deriving DecidableEq, Repr

/-- The type `media_size_t`: a C enum, that is an integer. -/
abbrev media_size_t := Int

/-- A row of `SupportedMediaSizes`, with the four columns that `ipphelper.c` reads: the
identifier, the PWG keyword and the two sizes in micrometers (`unsigned int`). -/
structure MediaSizeTableElement where
  media_size : media_size_t
  PWGName : String
  WidthInMicrometers : Nat
  HeightInMicrometers : Nat
  deriving DecidableEq, Repr

/-- The table `SupportedMediaSizes`, in source order; `value` gives the number behind each
enumerator. `SUPPORTED_MEDIA_SIZE_COUNT` is the number of rows. -/
def SupportedMediaSizes (value : media_size_enumerator → media_size_t) :
    List MediaSizeTableElement :=
  [ ⟨value .US_LETTER, "na_letter_8.5x11in", 215900, 279400⟩,
    ⟨value .US_LEGAL, "na_legal_8.5x14in", 215900, 355600⟩,
    ⟨value .LEDGER, "na_ledger_11x17in", 279400, 431800⟩,
    ⟨value .INDEX_CARD_5X7, "na_5x7_5x7in", 127000, 177800⟩,
    ⟨value .ISO_A3, "iso_a3_297x420mm", 297000, 420000⟩,
    ⟨value .ISO_A4, "iso_a4_210x297mm", 210000, 297000⟩,
    ⟨value .ISO_A5, "iso_a5_148x210mm", 148000, 210000⟩,
    ⟨value .JIS_B4, "jis_b4_257x364mm", 257000, 364000⟩,
    ⟨value .JIS_B5, "jis_b5_182x257mm", 182000, 257000⟩,
    ⟨value .US_GOVERNMENT_LETTER, "na_govt-letter_8x10in", 203200, 254000⟩,
    ⟨value .INDEX_CARD_4X6, "na_index-4x6_4x6in", 101600, 152400⟩,
    ⟨value .JPN_HAGAKI_PC, "jpn_hagaki_100x148mm", 100000, 148000⟩,
    ⟨value .PHOTO_89X119, "om_dsc-photo_89x119mm", 89000, 119000⟩,
    ⟨value .CARD_54X86, "om_card_54x86mm", 54000, 86000⟩,
    ⟨value .OE_PHOTO_L, "oe_photo-l_3.5x5in", 88900, 127000⟩,
    ⟨value .ISO_AND_JIS_A0, "iso_a0_841x1189mm", 841000, 1189000⟩,
    ⟨value .ISO_AND_JIS_A1, "iso_a1_594x841mm", 594000, 841000⟩,
    ⟨value .ISO_AND_JIS_A2, "iso_a2_420x594mm", 420000, 594000⟩,
    ⟨value .ARCH_A, "na_arch-a_9x12in", 228600, 304800⟩,
    ⟨value .ARCH_B, "na_arch-b_12x18in", 304800, 457200⟩,
    ⟨value .ARCH_C, "na_arch-c_18x24in", 457200, 609600⟩,
    ⟨value .ARCH_D, "na_arch-d_24x36in", 609600, 914400⟩,
    ⟨value .ARCH_E, "na_arch-e_36x48in", 914400, 1219200⟩,
    ⟨value .ARCH_E1, "na_wide-format_30x42in", 762000, 1066800⟩,
    ⟨value .C_SIZE, "na_c_17x22in", 431800, 558800⟩,
    ⟨value .D_SIZE, "na_d_22x34in", 558800, 863600⟩,
    ⟨value .E_SIZE, "na_e_34x44in", 863600, 1117600⟩,
    ⟨value .F_SIZE, "asme_f_28x40in", 711200, 1016000⟩,
    ⟨value .SUPER_B, "na_super-b_13x19in", 330200, 482600⟩ ]

/-- The macro `SUPPORTED_MEDIA_SIZE_COUNT`: the number of rows of the table. -/
def SUPPORTED_MEDIA_SIZE_COUNT : Nat := 29

/-- The function `mapDFMediaToIPPKeyword`: the loop returns the keyword of the first row with
this identifier; when it finds none, the keyword of row 0 is returned. -/
def mapDFMediaToIPPKeyword (value : media_size_enumerator → media_size_t)
    (media_size : media_size_t) : String :=
  let i := (SupportedMediaSizes value).findIdx (fun e => e.media_size == media_size)
  if h : i < (SupportedMediaSizes value).length then
    ((SupportedMediaSizes value).get ⟨i, h⟩).PWGName
  else ((SupportedMediaSizes value).get ⟨0, by simp [SupportedMediaSizes]⟩).PWGName

/-- The function `ipp_find_media_size`: the loop stops at the first row whose keyword
`strcmp`s equal. Result: the return value and the content of `*media_size` afterwards. -/
def ipp_find_media_size (value : media_size_enumerator → media_size_t)
    (ipp_media_keyword : String) (media_size : media_size_t) : Int × media_size_t :=
  let i := (SupportedMediaSizes value).findIdx (fun e => e.PWGName == ipp_media_keyword)
  if h : i < (SupportedMediaSizes value).length then
    ((i : Int), ((SupportedMediaSizes value).get ⟨i, h⟩).media_size)
  else (-1, media_size)

/-- The function `getMediaSizeFromTag`: same search, written with a `return` in the loop. -/
def getMediaSizeFromTag (value : media_size_enumerator → media_size_t)
    (media_size_tag : String) (media_size : media_size_t) : Int × media_size_t :=
  let i := (SupportedMediaSizes value).findIdx (fun e => e.PWGName == media_size_tag)
  if h : i < (SupportedMediaSizes value).length then
    ((i : Int), ((SupportedMediaSizes value).get ⟨i, h⟩).media_size)
  else (-1, media_size)

/-- The function `getMediaSizeNameFromDimens`: the first row whose two sizes, divided by 10,
equal the given `unsigned int` dimensions. -/
def getMediaSizeNameFromDimens (value : media_size_enumerator → media_size_t)
    (mediaColReadyWidth mediaColReadyHeight : Nat) (media_size : media_size_t) :
    Int × media_size_t :=
  let i := (SupportedMediaSizes value).findIdx (fun e =>
    e.WidthInMicrometers / 10 == mediaColReadyWidth &&
      e.HeightInMicrometers / 10 == mediaColReadyHeight)
  if h : i < (SupportedMediaSizes value).length then
    ((i : Int), ((SupportedMediaSizes value).get ⟨i, h⟩).media_size)
  else (-1, media_size)

/-- The struct `media_supported_t`. Both arrays are only ever written at position `sizes_idx`,
which is then incremented, so each is represented by the list of its entries
`[0, sizes_idx)`, and `sizes_idx` is the length of these lists. The capacity
`PAGE_STATUS_MAX` of the arrays is not represented. -/
structure media_supported_t where
  media_size : List media_size_t
  idxKeywordTranTable : List Int
  deriving DecidableEq, Repr

/-- The variable `sizes_idx` that travels with a `media_supported_t`. -/
def media_supported_t.sizes_idx (m : media_supported_t) : Nat :=
  m.idxKeywordTranTable.length

/-- The function `addMediaIfNotDuplicate`: for `idx >= 0`, scan the indices stored so far and
append the pair only when `idx` is not among them. -/
def addMediaIfNotDuplicate (idx : Int) (media_supported : media_supported_t)
    (media_size : media_size_t) : media_supported_t :=
  if idx ≥ 0 then
    let isDuplicate := media_supported.idxKeywordTranTable.any (fun x => x == idx)
    if !isDuplicate then
      { media_size := media_supported.media_size ++ [media_size],
        idxKeywordTranTable := media_supported.idxKeywordTranTable ++ [idx] }
    else media_supported
  else media_supported

/-- The body of the loop of `addRollSupportedSizes` for row `i`, which is `e`. -/
def addRollSupportedSizes_step (width minHeight maxHeight : Nat)
    (media_supported : media_supported_t) (ie : Nat × MediaSizeTableElement) :
    media_supported_t :=
  if ie.2.WidthInMicrometers / 10 ≤ width ∧ ie.2.HeightInMicrometers / 10 ≥ minHeight ∧
      ie.2.HeightInMicrometers / 10 ≤ maxHeight then
    addMediaIfNotDuplicate (ie.1 : Int) media_supported ie.2.media_size
  else media_supported

/-- The function `addRollSupportedSizes`: every row that fits on the roll is offered to
`addMediaIfNotDuplicate`, in table order. The three sizes are `unsigned int`. -/
def addRollSupportedSizes (value : media_size_enumerator → media_size_t)
    (width minHeight maxHeight : Nat) (media_supported : media_supported_t) :
    media_supported_t :=
  (SupportedMediaSizes value).enum.foldl
    (addRollSupportedSizes_step width minHeight maxHeight) media_supported

/-! ## Printer state and state reasons: `get_PrinterStateReason` -/

/-- The type `ipp_pstate_t` of CUPS: a C enum, that is an integer. -/
abbrev ipp_pstate_t := Int

def IPP_PRINTER_IDLE : ipp_pstate_t := 3
def IPP_PRINTER_PROCESSING : ipp_pstate_t := 4
def IPP_PRINTER_STOPPED : ipp_pstate_t := 5

/-- The enumerators of `print_status_t` that `ipphelper.c` names. The enum is declared in a
header; codes are kept as enumerators, their numbers are not used. -/
inductive print_status_t
  | PRINT_STATUS_INITIALIZING
  | PRINT_STATUS_SHUTTING_DOWN
  | PRINT_STATUS_UNABLE_TO_CONNECT
  | PRINT_STATUS_UNKNOWN
  | PRINT_STATUS_OFFLINE
  | PRINT_STATUS_IDLE
  | PRINT_STATUS_PRINTING
  | PRINT_STATUS_OUT_OF_PAPER
  | PRINT_STATUS_OUT_OF_INK
  | PRINT_STATUS_OUT_OF_TONER
  | PRINT_STATUS_JAMMED
  | PRINT_STATUS_DOOR_OPEN
  | PRINT_STATUS_SVC_REQUEST
  | PRINT_STATUS_LOW_ON_INK
  | PRINT_STATUS_LOW_ON_TONER
  | PRINT_STATUS_MAX_STATE
  deriving DecidableEq, Repr

/-- The struct `printer_state_dyn_t`, as far as this file writes it. The array
`printer_reasons` is a map from index to code: the code does not compare the index it writes
with the size of the array, so no size is part of the model. -/
structure printer_state_dyn_t where
  printer_status : print_status_t
  printer_reasons : Nat → print_status_t

/-- The fifteen string macros `IPP_PRNT_*` that `get_PrinterStateReason` tests, in the order
of the tests. Their values are defined in a header. -/
structure StateReasonTokens where
  IPP_PRNT_STATE_NONE : String
  IPP_PRNT_STATE_SPOOL_FULL : String
  IPP_PRNT_STATE_MARKER_SUPPLY_LOW : String
  IPP_PRNT_STATE_TONER_LOW : String
  IPP_PRNT_STATE_OTHER_WARN : String
  IPP_PRNT_STATE_MEDIA_NEEDED : String
  IPP_PRNT_STATE_MEDIA_EMPTY : String
  IPP_PRNT_STATE_TONER_EMPTY : String
  IPP_PRNT_STATE_MARKER_SUPPLY_EMPTY : String
  IPP_PRNT_STATE_DOOR_OPEN : String
  IPP_PRNT_STATE_COVER_OPEN : String
  IPP_PRNT_STATE_MEDIA_JAM : String
  IPP_PRNT_SHUTDOWN : String
  IPP_PRNT_STATE_OTHER_ERR : String
  IPP_PRNT_PAUSED : String
  deriving DecidableEq, Repr

/-- The test `strncmp(s, TOKEN, strlen(TOKEN)) == 0`: the first `strlen(TOKEN)` characters
of `s` are those of `TOKEN`. -/
def startsWithToken (s TOKEN : String) : Bool :=
  TOKEN.data.isPrefixOf s.data

/-- The CUPS call `ippGetInteger(attr, element)`: 0 when there is no such integer. -/
def ippGetInteger (attr : ipp_attribute_t) (element : Nat) : Int :=
  match attr.values[element]? with
  | some (.integer n) => n
  | _ => 0

/-- The `switch` on the state under the tokens `IPP_PRNT_STATE_NONE`; it has no `default`,
so for another state nothing is written. -/
def stateReasonNone (printer_ippstate : ipp_pstate_t) : Option print_status_t :=
  if printer_ippstate = IPP_PRINTER_IDLE then some .PRINT_STATUS_IDLE
  else if printer_ippstate = IPP_PRINTER_PROCESSING then some .PRINT_STATUS_PRINTING
  else if printer_ippstate = IPP_PRINTER_STOPPED then some .PRINT_STATUS_UNKNOWN
  else none

/-- The `switch` on the state under the token `IPP_PRNT_STATE_SPOOL_FULL`, also without
`default`. -/
def stateReasonSpoolFull (printer_ippstate : ipp_pstate_t) : Option print_status_t :=
  if printer_ippstate = IPP_PRINTER_IDLE then some .PRINT_STATUS_UNKNOWN
  else if printer_ippstate = IPP_PRINTER_PROCESSING then some .PRINT_STATUS_PRINTING
  else if printer_ippstate = IPP_PRINTER_STOPPED then some .PRINT_STATUS_UNKNOWN
  else none

/-- The `if / else if` chain in the loop of `get_PrinterStateReason` for one reason string:
the code that is written at `reason_idx`, if one is. -/
def get_PrinterStateReason_code (t : StateReasonTokens) (printer_ippstate : ipp_pstate_t)
    (s : String) : Option print_status_t :=
  if startsWithToken s t.IPP_PRNT_STATE_NONE then stateReasonNone printer_ippstate
  else if startsWithToken s t.IPP_PRNT_STATE_SPOOL_FULL then
    stateReasonSpoolFull printer_ippstate
  else if startsWithToken s t.IPP_PRNT_STATE_MARKER_SUPPLY_LOW then
    some .PRINT_STATUS_LOW_ON_INK
  else if startsWithToken s t.IPP_PRNT_STATE_TONER_LOW then some .PRINT_STATUS_LOW_ON_TONER
  else if startsWithToken s t.IPP_PRNT_STATE_OTHER_WARN then some .PRINT_STATUS_UNKNOWN
  else if startsWithToken s t.IPP_PRNT_STATE_MEDIA_NEEDED then some .PRINT_STATUS_OUT_OF_PAPER
  else if startsWithToken s t.IPP_PRNT_STATE_MEDIA_EMPTY then some .PRINT_STATUS_OUT_OF_PAPER
  else if startsWithToken s t.IPP_PRNT_STATE_TONER_EMPTY then some .PRINT_STATUS_OUT_OF_TONER
  else if startsWithToken s t.IPP_PRNT_STATE_MARKER_SUPPLY_EMPTY then
    some .PRINT_STATUS_OUT_OF_INK
  else if startsWithToken s t.IPP_PRNT_STATE_DOOR_OPEN then some .PRINT_STATUS_DOOR_OPEN
  else if startsWithToken s t.IPP_PRNT_STATE_COVER_OPEN then some .PRINT_STATUS_DOOR_OPEN
  else if startsWithToken s t.IPP_PRNT_STATE_MEDIA_JAM then some .PRINT_STATUS_JAMMED
  else if startsWithToken s t.IPP_PRNT_SHUTDOWN then some .PRINT_STATUS_SHUTTING_DOWN
  else if startsWithToken s t.IPP_PRNT_STATE_OTHER_ERR then some .PRINT_STATUS_SVC_REQUEST
  else if startsWithToken s t.IPP_PRNT_PAUSED then some .PRINT_STATUS_UNKNOWN
  else none

/-- The chain applied to the value `ippGetString(attrptr, idx, NULL)`; the values of a
keyword attribute are strings. -/
def get_PrinterStateReason_valueCode (t : StateReasonTokens) (printer_ippstate : ipp_pstate_t)
    (x : ipp_value_t) : Option print_status_t :=
  match x with
  | .string s => get_PrinterStateReason_code t printer_ippstate s
  | _ => none

/-- One round of the loop over the values of `printer-state-reasons`. The state is the
struct and `reason_idx`; a code is written at `reason_idx`, which then grows by one. -/
def get_PrinterStateReason_step (t : StateReasonTokens) (printer_ippstate : ipp_pstate_t)
    (acc : printer_state_dyn_t × Nat) (x : ipp_value_t) : printer_state_dyn_t × Nat :=
  match get_PrinterStateReason_valueCode t printer_ippstate x with
  | some code =>
    ({ acc.1 with printer_reasons := Function.update acc.1.printer_reasons acc.2 code },
      acc.2 + 1)
  | none => acc

/-- The first half of `get_PrinterStateReason`, about the attribute `printer-state`. Result:
the local `printer_ippstate`, the content of `*printer_state` and the struct afterwards. -/
def get_PrinterStateReason_state (response : ipp_t) (printer_state : ipp_pstate_t)
    (printer_state_dyn : printer_state_dyn_t) :
    ipp_pstate_t × ipp_pstate_t × printer_state_dyn_t :=
  match ippFindAttribute response "printer-state" .IPP_TAG_ENUM with
  | none =>
    (IPP_PRINTER_IDLE, printer_state,
      { printer_status := .PRINT_STATUS_UNABLE_TO_CONNECT,
        printer_reasons :=
          Function.update printer_state_dyn.printer_reasons 0 .PRINT_STATUS_UNABLE_TO_CONNECT })
  | some attrptr =>
    let printer_ippstate := ippGetInteger attrptr 0
    (printer_ippstate, printer_ippstate,
      if printer_ippstate = IPP_PRINTER_IDLE then
        { printer_state_dyn with printer_status := .PRINT_STATUS_IDLE }
      else if printer_ippstate = IPP_PRINTER_PROCESSING then
        { printer_state_dyn with printer_status := .PRINT_STATUS_PRINTING }
      else if printer_ippstate = IPP_PRINTER_STOPPED then
        { printer_state_dyn with printer_status := .PRINT_STATUS_SVC_REQUEST }
      else printer_state_dyn)

/-- The function `get_PrinterStateReason`, called with non-NULL pointers. Result: the content
of `*printer_state` and of `*printer_state_dyn` afterwards. -/
def get_PrinterStateReason (t : StateReasonTokens) (response : ipp_t)
    (printer_state : ipp_pstate_t) (printer_state_dyn : printer_state_dyn_t) :
    ipp_pstate_t × printer_state_dyn_t :=
  let first := get_PrinterStateReason_state response printer_state printer_state_dyn
  match ippFindAttribute response "printer-state-reasons" .IPP_TAG_KEYWORD with
  | none =>
    (first.2.1,
      { printer_status := .PRINT_STATUS_UNABLE_TO_CONNECT,
        printer_reasons :=
          Function.update first.2.2.printer_reasons 0 .PRINT_STATUS_UNABLE_TO_CONNECT })
  | some attrptr =>
    (first.2.1,
      (attrptr.values.foldl (get_PrinterStateReason_step t first.1) (first.2.2, 0)).1)

/-! ## Reading values, and the C string calls used on them -/

/-- The CUPS call `ippGetString(attr, element, NULL)` for one value. Under a string tag the
values are strings; for a value of another kind the call returns `NULL`, a case that the
callers do not test and that is read here as the empty string. -/
def ipp_value_t.text : ipp_value_t → String
  | .string s => s
  | _ => ""

/-- The CUPS call `ippGetString(attr, element, NULL)` on an attribute of a collection. -/
def ippGetString_member (attr : ipp_member_attribute_t) (element : Nat) : String :=
  match attr.values[element]? with
  | some (.scalar (.string s)) => s
  | _ => ""

/-- The CUPS call `ippGetInteger(attr, element)` on an attribute of a collection. -/
def ippGetInteger_member (attr : ipp_member_attribute_t) (element : Nat) : Int :=
  match attr.values[element]? with
  | some (.scalar (.integer n)) => n
  | _ => 0

/-- The CUPS call `ippGetCollection(attr, element)` on an attribute of a collection; `none`
is `NULL`. -/
def ippGetCollection_member (attr : ipp_member_attribute_t) (element : Nat) :
    Option (List ipp_inner_attribute_t) :=
  match attr.values[element]? with
  | some (.collection attrs) => some attrs
  | _ => none

/-- The CUPS call `ippGetInteger(attr, element)` on an attribute of an inner collection. -/
def ippGetInteger_inner (attr : ipp_inner_attribute_t) (element : Nat) : Int :=
  match attr.values[element]? with
  | some (.integer n) => n
  | _ => 0

/-- The CUPS call `ippGetRange(attr, element, &upper)` on an attribute of an inner
collection: the lower bound and the content of `upper` afterwards (both 0 when there is no
such range). -/
def ippGetRange_inner (attr : ipp_inner_attribute_t) (element : Nat) : Int × Int :=
  match attr.values[element]? with
  | some (.range lower upper) => (lower, upper)
  | _ => (0, 0)

/-- The attributes of the collection that is a value of an attribute of the message
(`ippGetCollection` followed by `ippFirstAttribute` / `ippNextAttribute`); `NULL` has none. -/
def ipp_value_t.members : ipp_value_t → List ipp_member_attribute_t
  | .collection attrs => attrs
  | _ => []

/-- The conversion of an `int` argument to an `unsigned int` parameter. -/
def toUnsigned (n : Int) : Nat :=
  (n % 4294967296).toNat

/-- The content of a zeroed buffer of `n + 1` bytes after `strncpy(buffer, src, n)`. -/
def strncpy (src : String) (n : Nat) : String :=
  ⟨src.data.take n⟩

/-- The content of a buffer of `size` bytes after `strlcpy(buffer, src, size)`, for
`size > 0`. -/
def strlcpy (src : String) (size : Nat) : String :=
  ⟨src.data.take (size - 1)⟩

/-- The test `strstr(haystack, needle) != NULL`, on the characters. -/
def strstr_chars (needle : List Char) : List Char → Bool
  | [] => needle.isPrefixOf []
  | c :: cs => needle.isPrefixOf (c :: cs) || strstr_chars needle cs

/-- The test `strstr(haystack, needle) != NULL`. -/
def strstr (haystack needle : String) : Bool :=
  strstr_chars needle.data haystack.data

/-! ## Printer capabilities: `parse_printerAttributes` and its helpers -/

/-- Sizes of buffers and limits of arrays that are fixed in headers. -/
structure Limits where
  MAX_STRING : Nat
  sizeof_mediaDefault : Nat
  sizeof_name : Nat
  sizeof_make : Nat
  sizeof_uuid : Nat
  sizeof_location : Nat
  sizeof_printerUri : Nat
  PAGE_STATUS_MAX : Nat
  MAX_QUALITY_SUPPORTED : Nat
  MAX_MEDIA_TYPES_SUPPORTED : Nat
  MAX_RESOLUTIONS_SUPPORTED : Nat
  STRIPE_HEIGHT : Int
  IPP_SIDES_TWO_SIDED_SHORT_EDGE : String
  IPP_SIDES_TWO_SIDED_LONG_EDGE : String
  deriving Repr

/-- The enumerators of `media_type_t` that `ipphelper.c` names. -/
inductive media_type_t
  | MEDIA_PLAIN
  | MEDIA_PHOTO
  | MEDIA_PHOTO_GLOSSY
  | MEDIA_AUTO
  deriving DecidableEq, Repr

/-- The struct `printer_capabilities_t`, with the fields that `ipphelper.c` writes. An array
that is filled through a counter (`supportedMediaSizes` with `numSupportedMediaSizes`, and
likewise the media types, qualities and resolutions) is the list of its entries below the
counter, and the counter is the length of the list. Character buffers are strings; flags
and numbers are C integers. -/
structure printer_capabilities_t where
  name : String
  make : String
  uuid : String
  location : String
  mediaDefault : String
  printerUri : String
  supportedMediaSizes : List media_size_t
  supportedMediaTypes : List media_type_t
  supportedQuality : List Int
  supportedResolutions : List Int
  color : Int
  canCopy : Int
  canPrintPDF : Int
  canPrintPCLm : Int
  canPrintPWG : Int
  duplex : Int
  ippVersionMajor : Int
  ippVersionMinor : Int
  ePclIppVersion : Int
  printerTopMargin : Int
  printerBottomMargin : Int
  printerLeftMargin : Int
  printerRightMargin : Int
  isMediaSizeNameSupported : Bool
  stripHeight : Int
  canRotateDuplexBackPage : Int
  borderless : Int
  inkjet : Int
  faceDownTray : Int
  docSourceAppName : Int
  docSourceAppVersion : Int
  docSourceOsName : Int
  docSourceOsVersion : Int

/-- The CUPS call `ippGetString(attr, element, NULL)`. -/
def ippGetString (attr : ipp_attribute_t) (element : Nat) : String :=
  match attr.values[element]? with
  | some x => x.text
  | none => ""

/-- The CUPS call `ippGetBoolean(attr, element)`. -/
def ippGetBoolean (attr : ipp_attribute_t) (element : Nat) : Bool :=
  match attr.values[element]? with
  | some (.boolean b) => b
  | _ => false

/-- The CUPS call `ippGetInteger` for one value. -/
def ipp_value_t.int : ipp_value_t → Int
  | .integer n => n
  | _ => 0

/-- The CUPS call `ippGetRange(attr, element, &upper)` for one value: the content of `upper`
afterwards (0 when the value is no range). -/
def ipp_value_t.upper : ipp_value_t → Int
  | .range _ upper => upper
  | _ => 0

/-- The CUPS call `ippGetResolution(attr, element, &yres, &units)` for one value: the
result, `yres` and `units` (all 0 when the value is no resolution). -/
def ipp_value_t.res : ipp_value_t → Int × Int × Int
  | .resolution xres yres units => (xres, yres, units)
  | _ => (0, 0, 0)

/-- The CUPS call `ippGetOctetString(attr, element, &length)` for one value: the bytes
(their number is `length`; none when the value is no octet string). -/
def ipp_value_t.octets : ipp_value_t → List Char
  | .octetString data => data.data
  | _ => []

/-- The CUPS constant `IPP_RES_PER_INCH`. -/
def IPP_RES_PER_INCH : Int := 3

/-- The macro `MAX_URIS` of this file. -/
def MAX_URIS : Nat := 10

/-- The test `strcasestr(haystack, needle) != NULL`: `strstr` without regard to case. -/
def strcasestr (haystack needle : String) : Bool :=
  strstr_chars (needle.data.map Char.toLower) (haystack.data.map Char.toLower)

/-- The loops of the function `strnstr` of this file, after `c = *needle++`: `rest` is
the needle without its first byte `c`, `pos` the index that `s` points to in the buffer and
the last argument the current `len`. Each round tests `len <= needleLen`, decrements `len`
and reads one byte; on a byte equal to `c`, `memcmp` compares the next `needleLen` bytes
with `rest`. The result is the index of the match (`s--` on exit), `none` for `NULL`. -/
def strnstr_loop (c : Char) (rest : List Char) (buffer : List Char) : Nat → Nat → Option Nat
  | _, 0 => none
  | pos, len + 1 =>
    if len + 1 ≤ rest.length then none
    else if buffer[pos]? = some c then
      if (buffer.drop (pos + 1)).take rest.length = rest then some pos
      else strnstr_loop c rest buffer (pos + 1) len
    else strnstr_loop c rest buffer (pos + 1) len

/-- The function `strnstr(s, needle, len)` of this file for a non-empty needle; `buffer`
holds the bytes that `s` points to. Result: the index of the returned pointer, `none` for
`NULL`. -/
def strnstr (buffer : List Char) (needle : List Char) (len : Nat) : Option Nat :=
  match needle with
  | [] => none
  | c :: rest => if len ≤ 0 then none else strnstr_loop c rest buffer 0 len

/-- The function `get_supportedPrinterResolutions`: the loop keeps the square per-inch
values while fewer than `MAX_RESOLUTIONS_SUPPORTED` are stored. -/
def get_supportedPrinterResolutions (lim : Limits) (attrptr : ipp_attribute_t)
    (capabilities : printer_capabilities_t) : printer_capabilities_t :=
  { capabilities with
    supportedResolutions :=
      attrptr.values.foldl (fun (stored : List Int) (x : ipp_value_t) =>
        if x.res.2.2 = IPP_RES_PER_INCH then
          if stored.length < lim.MAX_RESOLUTIONS_SUPPORTED ∧ x.res.1 = x.res.2.1 then
            stored ++ [x.res.1]
          else stored
        else stored) [] }

/-- The function `addMediaType`. -/
def addMediaType (lim : Limits) (capabilities : printer_capabilities_t)
    (mediaType : media_type_t) : printer_capabilities_t :=
  if capabilities.supportedMediaTypes.any (fun x => x == mediaType) then capabilities
  else if capabilities.supportedMediaTypes.length < lim.MAX_MEDIA_TYPES_SUPPORTED then
    { capabilities with
      supportedMediaTypes := capabilities.supportedMediaTypes ++ [mediaType] }
  else capabilities

/-- The function `parse_printerUris`. Entry `i` of `uris` is valid when there is an `i`-th
URI (among the first `MAX_URIS`) and the `i`-th authentication keyword, if there is one, is
`none` or `requesting-user-name`; every valid URI is copied unless the buffer already holds
an `ipps://` URI. -/
def parse_printerUris (lim : Limits) (response : ipp_t)
    (capabilities : printer_capabilities_t) : printer_capabilities_t :=
  let uriValues :=
    match ippFindAttribute response "printer-uri-supported" .IPP_TAG_URI with
    | some attrptr => attrptr.values.take MAX_URIS
    | none => []
  let authValues :=
    match ippFindAttribute response "uri-authentication-supported" .IPP_TAG_KEYWORD with
    | some attrptr => attrptr.values.take MAX_URIS
    | none => []
  uriValues.enum.foldl (fun (cap : printer_capabilities_t) (iu : Nat × ipp_value_t) =>
    let valid : Bool :=
      match authValues[iu.1]? with
      | some a => a.text == "none" || a.text == "requesting-user-name"
      | none => true
    if valid = true ∧ startsWithToken cap.printerUri "ipps://" = false then
      { cap with printerUri := strlcpy iu.2.text lim.sizeof_printerUri }
    else cap) capabilities

/-! ## Ready and supported media: `parse_getMediaSupported` -/

/-- The struct `media_ready_set_t`, with the fields this file uses. -/
structure media_ready_set_t where
  media_tray_tag : String
  x_dimension : Int
  y_dimension : Int
  deriving DecidableEq, Repr

/-- The body of the loop over the attributes of the `media-size` collection. The state is
`mediaReadySet`, `minHeight` and `maxHeight`. -/
def parse_getMediaSupported_dimension (acc : media_ready_set_t × Int × Int)
    (attrptr3 : ipp_inner_attribute_t) : media_ready_set_t × Int × Int :=
  if attrptr3.name = "x-dimension" then
    ({ acc.1 with x_dimension := ippGetInteger_inner attrptr3 0 }, acc.2)
  else if attrptr3.name = "y-dimension" then
    if attrptr3.value_tag = .IPP_TAG_RANGE then
      let r := ippGetRange_inner attrptr3 0
      ({ acc.1 with y_dimension := r.1 }, r.1, r.2)
    else if attrptr3.value_tag = .IPP_TAG_INTEGER then
      ({ acc.1 with y_dimension := ippGetInteger_inner attrptr3 0 }, acc.2)
    else acc
  else acc

/-- The body of the loop over the attributes of one `media-col-ready` collection. -/
def parse_getMediaSupported_member (lim : Limits) (acc : media_ready_set_t × Int × Int)
    (attrptr2 : ipp_member_attribute_t) : media_ready_set_t × Int × Int :=
  if attrptr2.name = "media-size" then
    match ippGetCollection_member attrptr2 0 with
    | some collection_sec => collection_sec.foldl parse_getMediaSupported_dimension acc
    | none => acc
  else if attrptr2.name = "media-source" then
    ({ acc.1 with media_tray_tag := strncpy (ippGetString_member attrptr2 0) lim.MAX_STRING },
      acc.2)
  else acc

/-- The body of the loop over the values of `media-col-ready`. The state is the list built
so far and the local `media_sizeTemp`. -/
def parse_getMediaSupported_colReady (value : media_size_enumerator → media_size_t)
    (lim : Limits) (acc : media_supported_t × media_size_t) (x : ipp_value_t) :
    media_supported_t × media_size_t :=
  let r := x.members.foldl (parse_getMediaSupported_member lim)
    ({ media_tray_tag := "", x_dimension := 0, y_dimension := 0 }, 0, 0)
  let mediaReadySet := r.1
  let minHeight := r.2.1
  let maxHeight := r.2.2
  if minHeight > 0 ∧ maxHeight > 0 ∧ strstr mediaReadySet.media_tray_tag "roll" = true then
    (addRollSupportedSizes value (toUnsigned mediaReadySet.x_dimension) (toUnsigned minHeight)
      (toUnsigned maxHeight) acc.1, acc.2)
  else
    let found := getMediaSizeNameFromDimens value (toUnsigned mediaReadySet.x_dimension)
      (toUnsigned mediaReadySet.y_dimension) acc.2
    (addMediaIfNotDuplicate found.1 acc.1 found.2, found.2)

/-- The body of the loop over the values of `media-ready`. -/
def parse_getMediaSupported_ready (value : media_size_enumerator → media_size_t)
    (lim : Limits) (acc : media_supported_t × media_size_t) (x : ipp_value_t) :
    media_supported_t × media_size_t :=
  let media_size_tag := strncpy x.text lim.MAX_STRING
  let found := getMediaSizeFromTag value media_size_tag acc.2
  (addMediaIfNotDuplicate found.1 acc.1 found.2, found.2)

/-- The body of the loop over the values of `media-supported`: every keyword of the table
is stored, without a look at what is stored already. -/
def parse_getMediaSupported_supported (value : media_size_enumerator → media_size_t)
    (acc : media_supported_t × media_size_t) (x : ipp_value_t) :
    media_supported_t × media_size_t :=
  let found := ipp_find_media_size value x.text acc.2
  if found.1 ≥ 0 then
    ({ media_size := acc.1.media_size ++ [found.2],
       idxKeywordTranTable := acc.1.idxKeywordTranTable ++ [found.1] }, found.2)
  else (acc.1, found.2)

/-- The list and `media_sizeTemp` after the `media-col-ready` part of
`parse_getMediaSupported`; `media_sizeTemp` starts with whatever the stack holds. -/
def parse_getMediaSupported_afterColReady (value : media_size_enumerator → media_size_t)
    (lim : Limits) (response : ipp_t) (media_sizeTemp : media_size_t) :
    media_supported_t × media_size_t :=
  match ippFindAttribute response "media-col-ready" .IPP_TAG_BEGIN_COLLECTION with
  | some attrptr =>
    attrptr.values.foldl (parse_getMediaSupported_colReady value lim)
      ({ media_size := [], idxKeywordTranTable := [] }, media_sizeTemp)
  | none => ({ media_size := [], idxKeywordTranTable := [] }, media_sizeTemp)

/-- The list and `media_sizeTemp` after the `media-ready` part, which runs only when
`sizes_idx` is still 0. -/
def parse_getMediaSupported_afterReady (value : media_size_enumerator → media_size_t)
    (lim : Limits) (response : ipp_t) (media_sizeTemp : media_size_t) :
    media_supported_t × media_size_t :=
  let s := parse_getMediaSupported_afterColReady value lim response media_sizeTemp
  if s.1.sizes_idx = 0 then
    match ippFindAttribute response "media-ready" .IPP_TAG_KEYWORD with
    | some attrptr => attrptr.values.foldl (parse_getMediaSupported_ready value lim) s
    | none => s
  else s

/-- The function `parse_getMediaSupported`. The arrays of `media_supported` are filled from
position 0, so their former content does not enter. Result: the list (positions
`[0, sizes_idx)`) and the content of `*capabilities` afterwards. -/
def parse_getMediaSupported (value : media_size_enumerator → media_size_t) (lim : Limits)
    (response : ipp_t) (media_sizeTemp : media_size_t) (capabilities : printer_capabilities_t) :
    media_supported_t × printer_capabilities_t :=
  let s := parse_getMediaSupported_afterReady value lim response media_sizeTemp
  let capabilities1 :=
    if s.1.sizes_idx > 0 then
      { capabilities with
        mediaDefault := strlcpy (mapDFMediaToIPPKeyword value (s.1.media_size.headD 0))
          lim.sizeof_mediaDefault }
    else capabilities
  match ippFindAttribute response "media-supported" .IPP_TAG_KEYWORD with
  | some attrptr =>
    ((attrptr.values.foldl (parse_getMediaSupported_supported value) s).1, capabilities1)
  | none => (s.1, capabilities1)

/-- In `parse_printerAttributes`: the copy of the sizes found into `supportedMediaSizes`.
The array `media_supported.media_size` was zeroed before it was filled, and the loop copies
its non-zero entries below `PAGE_STATUS_MAX`; `numSupportedMediaTypes` is set to 0. -/
def parse_printerAttributes_mediaSizes (lim : Limits) (media_supported : media_supported_t)
    (capabilities : printer_capabilities_t) : printer_capabilities_t :=
  { capabilities with
    supportedMediaTypes := []
    supportedMediaSizes := capabilities.supportedMediaSizes ++
      (media_supported.media_size.take lim.PAGE_STATUS_MAX).filter (fun m => m != 0) }

/-- In `parse_printerAttributes`: the name (`printer-dns-sd-name`, else `printer-info`, else
`printer-name`), make, UUID and location. -/
def parse_printerAttributes_identity (lim : Limits) (response : ipp_t)
    (capabilities : printer_capabilities_t) : printer_capabilities_t :=
  let c1 :=
    match ippFindAttribute response "printer-dns-sd-name" .IPP_TAG_NAME with
    | some attrptr => { capabilities with name := strlcpy (ippGetString attrptr 0) lim.sizeof_name }
    | none => capabilities
  let c2 :=
    if c1.name = "" then
      match ippFindAttribute response "printer-info" .IPP_TAG_TEXT with
      | some attrptr => { c1 with name := strlcpy (ippGetString attrptr 0) lim.sizeof_name }
      | none => c1
    else c1
  let c3 :=
    if c2.name = "" then
      match ippFindAttribute response "printer-name" .IPP_TAG_TEXT with
      | some attrptr => { c2 with name := strlcpy (ippGetString attrptr 0) lim.sizeof_name }
      | none => c2
    else c2
  let c4 :=
    match ippFindAttribute response "printer-make-and-model" .IPP_TAG_TEXT with
    | some attrptr => { c3 with make := strlcpy (ippGetString attrptr 0) lim.sizeof_make }
    | none => c3
  let c5 :=
    match ippFindAttribute response "printer-uuid" .IPP_TAG_URI with
    | some attrptr => { c4 with uuid := strlcpy (ippGetString attrptr 0) lim.sizeof_uuid }
    | none => c4
  match ippFindAttribute response "printer-location" .IPP_TAG_TEXT with
  | some attrptr => { c5 with location := strlcpy (ippGetString attrptr 0) lim.sizeof_location }
  | none => c5

/-- In `parse_printerAttributes`: the attribute `media-default`, copied only when
`strlen(capabilities->mediaDefault) <= 0`. -/
def parse_printerAttributes_mediaDefault (lim : Limits) (response : ipp_t)
    (capabilities : printer_capabilities_t) : printer_capabilities_t :=
  match ippFindAttribute response "media-default" .IPP_TAG_KEYWORD with
  | some attrptr =>
    if capabilities.mediaDefault.length ≤ 0 then
      { capabilities with
        mediaDefault := strlcpy (ippGetString attrptr 0) lim.sizeof_mediaDefault }
    else capabilities
  | none => capabilities

/-- In `parse_printerAttributes`: `color-supported`, `copies-supported` (the variable `upper`
ends as the upper bound of the last value), `print-color-mode-supported` and
`print-quality-supported`. -/
def parse_printerAttributes_colorCopies (lim : Limits) (response : ipp_t)
    (capabilities : printer_capabilities_t) : printer_capabilities_t :=
  let c1 :=
    match ippFindAttribute response "color-supported" .IPP_TAG_BOOLEAN with
    | some attrptr => if ippGetBoolean attrptr 0 then { capabilities with color := 1 }
                      else capabilities
    | none => capabilities
  let c2 :=
    match ippFindAttribute response "copies-supported" .IPP_TAG_RANGE with
    | some attrptr =>
      let upper := attrptr.values.foldl (fun (_ : Int) (x : ipp_value_t) => x.upper) 0
      if upper > 1 then { c1 with canCopy := 1 } else c1
    | none => c1
  let c3 :=
    match ippFindAttribute response "print-color-mode-supported" .IPP_TAG_KEYWORD with
    | some attrptr =>
      attrptr.values.foldl (fun (c : printer_capabilities_t) (x : ipp_value_t) =>
        if x.text = "color" then { c with color := 1 } else c) c2
    | none => c2
  match ippFindAttribute response "print-quality-supported" .IPP_TAG_ENUM with
  | some attrptr =>
    attrptr.values.foldl (fun (c : printer_capabilities_t) (x : ipp_value_t) =>
      if c.supportedQuality.length < lim.MAX_QUALITY_SUPPORTED then
        { c with supportedQuality := c.supportedQuality ++ [x.int] }
      else c) c3
  | none => c3

/-- In `parse_printerAttributes`: the chain on the values of `document-format-supported`,
with its second test for `application/pdf`, and `sides-supported`. -/
def parse_printerAttributes_formats (lim : Limits) (response : ipp_t)
    (capabilities : printer_capabilities_t) : printer_capabilities_t :=
  let c1 :=
    match ippFindAttribute response "document-format-supported" .IPP_TAG_MIMETYPE with
    | some attrptr =>
      attrptr.values.foldl (fun (c : printer_capabilities_t) (x : ipp_value_t) =>
        if x.text = "image/pdf" then { c with canPrintPDF := 1 }
        else if x.text = "application/pdf" then { c with canPrintPDF := 1 }
        else if x.text = "application/PCLm" then { c with canPrintPCLm := 1 }
        else if x.text = "application/pdf" then { c with canPrintPDF := 1 }
        else if x.text = "image/pwg-raster" then { c with canPrintPWG := 1 }
        else c) capabilities
    | none => capabilities
  match ippFindAttribute response "sides-supported" .IPP_TAG_KEYWORD with
  | some attrptr =>
    attrptr.values.foldl (fun (c : printer_capabilities_t) (x : ipp_value_t) =>
      if x.text = lim.IPP_SIDES_TWO_SIDED_SHORT_EDGE then { c with duplex := 1 }
      else if x.text = lim.IPP_SIDES_TWO_SIDED_LONG_EDGE then { c with duplex := 1 }
      else c) c1
  | none => c1

/-- In `parse_printerAttributes`: `media-type-supported` (keyword tag, else name tag) and the
fall-back to three types when none was recognised. -/
def parse_printerAttributes_mediaTypes (lim : Limits) (response : ipp_t)
    (capabilities : printer_capabilities_t) : printer_capabilities_t :=
  let c0 := { capabilities with supportedMediaTypes := [] }
  let found :=
    match ippFindAttribute response "media-type-supported" .IPP_TAG_KEYWORD with
    | some attrptr => some attrptr
    | none => ippFindAttribute response "media-type-supported" .IPP_TAG_NAME
  let c1 :=
    match found with
    | some attrptr =>
      attrptr.values.foldl (fun (c : printer_capabilities_t) (x : ipp_value_t) =>
        if strcasestr x.text "photographic-glossy" then addMediaType lim c .MEDIA_PHOTO_GLOSSY
        else if strcasestr x.text "photo" then addMediaType lim c .MEDIA_PHOTO
        else if strcasestr x.text "stationery" then addMediaType lim c .MEDIA_PLAIN
        else if strcasestr x.text "auto" then addMediaType lim c .MEDIA_AUTO
        else c) c0
    | none => c0
  if c1.supportedMediaTypes.length = 0 then
    addMediaType lim (addMediaType lim (addMediaType lim c1 .MEDIA_PLAIN) .MEDIA_PHOTO)
      .MEDIA_PHOTO_GLOSSY
  else c1

/-- In `parse_printerAttributes`: the resolutions, from `pclm-source-resolution-supported`
or else from `printer-resolution-supported`. -/
def parse_printerAttributes_resolutions (lim : Limits) (response : ipp_t)
    (capabilities : printer_capabilities_t) : printer_capabilities_t :=
  let c0 := { capabilities with supportedResolutions := [] }
  match ippFindAttribute response "pclm-source-resolution-supported" .IPP_TAG_RESOLUTION with
  | some attrptr => get_supportedPrinterResolutions lim attrptr c0
  | none =>
    match ippFindAttribute response "printer-resolution-supported" .IPP_TAG_RESOLUTION with
    | some attrptr => get_supportedPrinterResolutions lim attrptr c0
    | none => c0

/-- In `parse_printerAttributes`: `ipp-versions-supported` (the version is stored in every
round of the loop, from the flags seen so far) and `epcl-version-supported` under both
tags. -/
def parse_printerAttributes_versions (response : ipp_t)
    (capabilities : printer_capabilities_t) : printer_capabilities_t :=
  let c1 :=
    match ippFindAttribute response "ipp-versions-supported" .IPP_TAG_KEYWORD with
    | some attrptr =>
      (attrptr.values.foldl
        (fun (acc : ipp_version_supported_t × printer_capabilities_t) (x : ipp_value_t) =>
          let v := parse_IPPVersions_step acc.1 x
          (v,
            if v.supportsIpp20 then { acc.2 with ippVersionMajor := 2, ippVersionMinor := 0 }
            else if v.supportsIpp11 then
              { acc.2 with ippVersionMajor := 1, ippVersionMinor := 1 }
            else { acc.2 with ippVersionMajor := 1, ippVersionMinor := 0 }))
        ({ supportsIpp10 := false, supportsIpp11 := false, supportsIpp20 := false },
          capabilities)).2
    | none => capabilities
  let c2 :=
    match ippFindAttribute response "epcl-version-supported" .IPP_TAG_KEYWORD with
    | some attrptr =>
      attrptr.values.foldl (fun (c : printer_capabilities_t) (x : ipp_value_t) =>
        if strstr x.text "1.0" then { c with ePclIppVersion := 1 } else c) c1
    | none => c1
  match ippFindAttribute response "epcl-version-supported" .IPP_TAG_TEXT with
  | some attrptr =>
    attrptr.values.foldl (fun (c : printer_capabilities_t) (x : ipp_value_t) =>
      if strstr x.text "1.0" then { c with ePclIppVersion := 1 } else c) c2
  | none => c2

/-- In `parse_printerAttributes`: the margins of `media-col-default`. The inner loop never
increments `j` and leaves `attrptr` at `NULL`, so the outer loop ends after the first
collection, of which every attribute is read. -/
def parse_printerAttributes_margins (response : ipp_t)
    (capabilities : printer_capabilities_t) : printer_capabilities_t :=
  match ippFindAttribute response "media-col-default" .IPP_TAG_BEGIN_COLLECTION with
  | some attrptr =>
    match attrptr.values with
    | x :: _ =>
      x.members.foldl (fun (c : printer_capabilities_t) (a : ipp_member_attribute_t) =>
        if a.name = "media-top-margin" then
          { c with printerTopMargin := ippGetInteger_member a 0 }
        else if a.name = "media-bottom-margin" then
          { c with printerBottomMargin := ippGetInteger_member a 0 }
        else if a.name = "media-left-margin" then
          { c with printerLeftMargin := ippGetInteger_member a 0 }
        else if a.name = "media-right-margin" then
          { c with printerRightMargin := ippGetInteger_member a 0 }
        else c) capabilities
    | [] => capabilities
  | none => capabilities

/-- In `parse_printerAttributes`: `media-size-name`, `pclm-strip-height-preferred` and the
rotation of the back page. -/
def parse_printerAttributes_strip (lim : Limits) (response : ipp_t)
    (capabilities : printer_capabilities_t) : printer_capabilities_t :=
  let c1 :=
    match ippFindAttribute response "media-size-name" .IPP_TAG_KEYWORD with
    | some _ => { capabilities with isMediaSizeNameSupported := true }
    | none => { capabilities with isMediaSizeNameSupported := false }
  let c2 :=
    match ippFindAttribute response "pclm-strip-height-preferred" .IPP_TAG_INTEGER with
    | some attrptr =>
      if ippGetInteger attrptr 0 = 0 ∨ ippGetInteger attrptr 0 > 256 then
        { c1 with stripHeight := lim.STRIPE_HEIGHT }
      else { c1 with stripHeight := ippGetInteger attrptr 0 }
    | none => { c1 with stripHeight := lim.STRIPE_HEIGHT }
  let c3 := { c2 with canRotateDuplexBackPage := 0 }
  let found :=
    match ippFindAttribute response "pclm-raster-back-side" .IPP_TAG_KEYWORD with
    | some attrptr => some attrptr
    | none => ippFindAttribute response "pwg-raster-document-sheet-back" .IPP_TAG_KEYWORD
  match found with
  | some attrptr =>
    if ippGetString attrptr 0 ≠ "rotated" then { c3 with canRotateDuplexBackPage := 1 } else c3
  | none => c3

/-- In `parse_printerAttributes`: does the integer attribute of this name hold a 0? -/
def parse_printerAttributes_zeroMargin (response : ipp_t) (name : String) : Bool :=
  match ippFindAttribute response name .IPP_TAG_INTEGER with
  | some attrptr => attrptr.values.any (fun x => x.int == 0)
  | none => false

/-- In `parse_printerAttributes`: `borderless` (a 0 among the values of all four
margin attributes), `inkjet`, `faceDownTray` and the document format details. -/
def parse_printerAttributes_trays (response : ipp_t)
    (capabilities : printer_capabilities_t) : printer_capabilities_t :=
  let topsupported := parse_printerAttributes_zeroMargin response "media-top-margin-supported"
  let bottomsupported :=
    parse_printerAttributes_zeroMargin response "media-bottom-margin-supported"
  let rightsupported :=
    parse_printerAttributes_zeroMargin response "media-right-margin-supported"
  let leftsupported := parse_printerAttributes_zeroMargin response "media-left-margin-supported"
  let c1 :=
    if topsupported && bottomsupported && rightsupported && leftsupported then
      { capabilities with borderless := 1 }
    else capabilities
  let c2 :=
    match ippFindAttribute response "printer-device-id" .IPP_TAG_TEXT with
    | some attrptr =>
      if strstr (ippGetString attrptr 0) "PCL3GUI" then { c1 with inkjet := 1 } else c1
    | none => if c1.borderless = 1 then { c1 with inkjet := 1 } else c1
  let c3 := { c2 with faceDownTray := 1 }
  let c4 :=
    match ippFindAttribute response "output-bin-supported" .IPP_TAG_KEYWORD with
    | some attrptr =>
      if strstr (ippGetString attrptr 0) "face-up" then { c3 with faceDownTray := 0 } else c3
    | none => c3
  let c5 :=
    match ippFindAttribute response "printer-output-tray" .IPP_TAG_STRING with
    | some attrptr =>
      attrptr.values.foldl (fun (c : printer_capabilities_t) (x : ipp_value_t) =>
        if x.octets.length > 0 ∧
            (strnstr x.octets "faceUp".data x.octets.length).isSome = true then
          { c with faceDownTray := 0 }
        else c) c4
    | none => c4
  match ippFindAttribute response "document-format-details-supported" .IPP_TAG_KEYWORD with
  | some attrptr =>
    attrptr.values.foldl (fun (c : printer_capabilities_t) (x : ipp_value_t) =>
      if x.text = "document-source-application-name" then { c with docSourceAppName := 1 }
      else if x.text = "document-source-application-version" then
        { c with docSourceAppVersion := 1 }
      else if x.text = "document-source-os-name" then { c with docSourceOsName := 1 }
      else if x.text = "document-source-os-version" then { c with docSourceOsVersion := 1 }
      else c) c5
  | none => c5

/-- The function `parse_printerAttributes`: its blocks in the order of the source.
`media_sizeTemp` is what the stack holds where `parse_getMediaSupported` has its local of
that name. -/
def parse_printerAttributes (value : media_size_enumerator → media_size_t) (lim : Limits)
    (response : ipp_t) (media_sizeTemp : media_size_t) (capabilities : printer_capabilities_t) :
    printer_capabilities_t :=
  let media := parse_getMediaSupported value lim response media_sizeTemp capabilities
  let c1 := parse_printerUris lim response media.2
  let c2 := parse_printerAttributes_mediaSizes lim media.1 c1
  let c3 := parse_printerAttributes_identity lim response c2
  let c4 := parse_printerAttributes_mediaDefault lim response c3
  let c5 := parse_printerAttributes_colorCopies lim response c4
  let c6 := parse_printerAttributes_formats lim response c5
  let c7 := parse_printerAttributes_mediaTypes lim response c6
  let c8 := parse_printerAttributes_resolutions lim response c7
  let c9 := parse_printerAttributes_versions response c8
  let c10 := parse_printerAttributes_margins response c9
  let c11 := parse_printerAttributes_strip lim response c10
  parse_printerAttributes_trays response c11

/-! ## Job state reasons: `parse_jobStateReasons` -/

/-- The enumerators of the job state stored in `job_state_dyn_t` that `ipphelper.c` names;
the enum is declared in a header. -/
inductive ipp_job_state_t
  | IPP_JOB_STATE_UNABLE_TO_CONNECT
  | IPP_JOB_STATE_PENDING
  | IPP_JOB_STATE_PENDING_HELD
  | IPP_JOB_STATE_PROCESSING
  | IPP_JOB_STATE_PROCESSING_STOPPED
  | IPP_JOB_STATE_CANCELED
  | IPP_JOB_STATE_ABORTED
  | IPP_JOB_STATE_COMPLETED
  deriving DecidableEq, Repr

/-- The enumerators of the job state reasons that `ipphelper.c` names; the enum is declared
in a header. Codes are kept as enumerators, their numbers are not used. -/
inductive ipp_job_state_reason_t
  | IPP_JOB_STATE_REASON_UNABLE_TO_CONNECT
  | IPP_JOB_STATE_REASON_JOB_CANCELED_BY_USER
  | IPP_JOB_STATE_REASON_JOB_CANCELED_AT_DEVICE
  | IPP_JOB_STATE_REASON_ABORTED_BY_SYSTEM
  | IPP_JOB_STATE_REASON_UNSUPPORTED_COMPRESSION
  | IPP_JOB_STATE_REASON_COMPRESSION_ERROR
  | IPP_JOB_STATE_REASON_UNSUPPORTED_DOCUMENT_FORMAT
  | IPP_JOB_STATE_REASON_DOCUMENT_FORMAT_ERROR
  | IPP_JOB_STATE_REASON_SERVICE_OFFLINE
  | IPP_JOB_STATE_REASON_DOCUMENT_PASSWORD_ERROR
  | IPP_JOB_STATE_REASON_DOCUMENT_PERMISSION_ERROR
  | IPP_JOB_STATE_REASON_DOCUMENT_SECURITY_ERROR
  | IPP_JOB_STATE_REASON_DOCUMENT_UNPRINTABLE_ERROR
  | IPP_JOB_STATE_REASON_DOCUMENT_ACCESS_ERROR
  | IPP_JOB_STATE_REASON_SUBMISSION_INTERRUPTED
  | IPP_JOB_STATE_REASON_AUTHORIZATION_FAILED
  | IPP_JOB_STATE_REASON_ACCOUNT_CLOSED
  | IPP_JOB_STATE_REASON_ACCOUNT_INFO_NEEDED
  | IPP_JOB_STATE_REASON_ACCOUNT_LIMIT_REACHED
  deriving DecidableEq, Repr

/-- The struct `job_state_dyn_t`, as far as this file writes it. The array
`job_state_reasons` is a map from index to code: the code does not compare the index it
writes with the size of the array. -/
structure job_state_dyn_t where
  job_state : ipp_job_state_t
  job_state_reasons : Nat → ipp_job_state_reason_t

/-- The `if / else if` chain of `strcmp`s in the loop of `parse_jobStateReasons` for one
value `text`: the code written at `reasons_idx`, if one is. -/
def parse_jobStateReasons_code (text : String) : Option ipp_job_state_reason_t :=
  if text = "job-canceled-by-user" then some .IPP_JOB_STATE_REASON_JOB_CANCELED_BY_USER
  else if text = "job-canceled-at-device" then
    some .IPP_JOB_STATE_REASON_JOB_CANCELED_AT_DEVICE
  else if text = "aborted-by-system" then some .IPP_JOB_STATE_REASON_ABORTED_BY_SYSTEM
  else if text = "unsupported-compression" then
    some .IPP_JOB_STATE_REASON_UNSUPPORTED_COMPRESSION
  else if text = "compression-error" then some .IPP_JOB_STATE_REASON_COMPRESSION_ERROR
  else if text = "unsupported-document-format" then
    some .IPP_JOB_STATE_REASON_UNSUPPORTED_DOCUMENT_FORMAT
  else if text = "document-format-error" then
    some .IPP_JOB_STATE_REASON_DOCUMENT_FORMAT_ERROR
  else if text = "service-off-line" then some .IPP_JOB_STATE_REASON_SERVICE_OFFLINE
  else if text = "document-password-error" then
    some .IPP_JOB_STATE_REASON_DOCUMENT_PASSWORD_ERROR
  else if text = "document-permission-error" then
    some .IPP_JOB_STATE_REASON_DOCUMENT_PERMISSION_ERROR
  else if text = "document-security-error" then
    some .IPP_JOB_STATE_REASON_DOCUMENT_SECURITY_ERROR
  else if text = "document-unprintable-error" then
    some .IPP_JOB_STATE_REASON_DOCUMENT_UNPRINTABLE_ERROR
  else if text = "document-access-error" then
    some .IPP_JOB_STATE_REASON_DOCUMENT_ACCESS_ERROR
  else if text = "submission-interrupted" then
    some .IPP_JOB_STATE_REASON_SUBMISSION_INTERRUPTED
  else if text = "account-authorization-failed" then
    some .IPP_JOB_STATE_REASON_AUTHORIZATION_FAILED
  else if text = "account-closed" then some .IPP_JOB_STATE_REASON_ACCOUNT_CLOSED
  else if text = "account-info-needed" then some .IPP_JOB_STATE_REASON_ACCOUNT_INFO_NEEDED
  else if text = "account-limit-reached" then
    some .IPP_JOB_STATE_REASON_ACCOUNT_LIMIT_REACHED
  else none

/-- One round of the loop of `parse_jobStateReasons`. The state is the struct and
`reasons_idx`. -/
def parse_jobStateReasons_step (acc : job_state_dyn_t × Nat) (x : ipp_value_t) :
    job_state_dyn_t × Nat :=
  match parse_jobStateReasons_code x.text with
  | some code =>
    ({ acc.1 with job_state_reasons := Function.update acc.1.job_state_reasons acc.2 code },
      acc.2 + 1)
  | none => acc

/-- The function `parse_jobStateReasons`; `response` may be `NULL`, in which
`ippFindAttribute` finds nothing. -/
def parse_jobStateReasons (response : Option ipp_t) (job_state_dyn : job_state_dyn_t) :
    job_state_dyn_t :=
  match response.bind (fun r => ippFindAttribute r "job-state-reasons" .IPP_TAG_KEYWORD) with
  | none =>
    { job_state := .IPP_JOB_STATE_UNABLE_TO_CONNECT,
      job_state_reasons := Function.update job_state_dyn.job_state_reasons 0
        .IPP_JOB_STATE_REASON_UNABLE_TO_CONNECT }
  | some attr => (attr.values.foldl parse_jobStateReasons_step (job_state_dyn, 0)).1

/-! ## Printer state query: `get_PrinterState` -/

/-- What ends a call that writes through a `NULL` pointer. -/
inductive Trap
  | null_dereference
  deriving DecidableEq, Repr

/-- The CUPS call `cupsLastError()`: the status of the last request sent (`IPP_OK` as long as
none was sent). -/
def cupsLastError (env : Env) (w : World) : ipp_status_t :=
  match w.sent.length with
  | 0 => IPP_OK
  | n + 1 => (env.transport n).lastError

/-- The call `get_PrinterStateReason(response, printer_state, printer_state_dyn)` as
`get_PrinterState` makes it, where `printer_state` may be `NULL`: the function stores
`*printer_state = printer_ippstate` as soon as the response has a `printer-state`
attribute, without a test of the pointer. -/
def get_PrinterStateReason_call (t : StateReasonTokens) (response : ipp_t)
    (printer_state : Option ipp_pstate_t) (printer_state_dyn : printer_state_dyn_t) :
    Except Trap (Option ipp_pstate_t × printer_state_dyn_t) :=
  match printer_state with
  | some ps =>
    let r := get_PrinterStateReason t response ps printer_state_dyn
    .ok (some r.1, r.2)
  | none =>
    match ippFindAttribute response "printer-state" .IPP_TAG_ENUM with
    | some _ => .error .null_dereference
    | none => .ok (none, (get_PrinterStateReason t response IPP_PRINTER_IDLE printer_state_dyn).2)

/-- The function `get_PrinterState`, with a non-NULL `printer_uri`; `printer_state_dyn` and
`printer_state` may be `NULL`. Log statements are not represented. Result: the returned
status (`none` when `fuel` rounds of the request loop did not suffice), the content of
`*printer_state_dyn` and of `*printer_state` afterwards, and the world afterwards. -/
def get_PrinterState (cfg : Config) (t : StateReasonTokens) (env : Env) (fuel : Nat)
    (http : Option http_t) (printer_uri : Uri)
    (printer_state_dyn : Option printer_state_dyn_t) (printer_state : Option ipp_pstate_t)
    (w : World) :
    Except Trap
      (Option ipp_status_t × Option printer_state_dyn_t × Option ipp_pstate_t × World) :=
  let http_resource := getResourceFromURI printer_uri
  match printer_state_dyn with
  | none => .ok (some IPP_OK, none, printer_state, w)
  | some dyn =>
    let printer_state1 := printer_state.map (fun _ => IPP_PRINTER_STOPPED)
    let request := ippNewRequest IPP_GET_PRINTER_ATTRIBUTES
    let r := ipp_doCupsRequest cfg env fuel http (some request) (some http_resource)
      (some printer_uri) w
    match r.1 with
    | none => .ok (none, some dyn, printer_state1, r.2.2)
    | some none =>
      .ok (some (cupsLastError env r.2.2),
        some { printer_status := .PRINT_STATUS_UNABLE_TO_CONNECT,
               printer_reasons :=
                 Function.update dyn.printer_reasons 0 .PRINT_STATUS_UNABLE_TO_CONNECT },
        printer_state1, r.2.2)
    | some (some response) =>
      match get_PrinterStateReason_call t response printer_state1 dyn with
      | .error e => .error e
      | .ok g => .ok (some (cupsLastError env r.2.2), some g.2, g.1, r.2.2)

/-! ## Derived notions used in the statements -/

/-- The call of `set_ipp_version` at the top of a round of `ipp_doCupsRequest`, after the
running flag has been read. -/
def roundStamp (cfg : Config) (env : Env) (http : http_t) (st : DoCupsState) (w : World) :
    status_t × Option ipp_t × World :=
  set_ipp_version cfg env (some st.request) st.printer_uri (some http)
    st.ipp_version_supported (wprintIsRunning env w).2

/-- The record of a request of `ipp_doCupsRequest` stamped with the version held in `w`. -/
def stampedRecord (st : DoCupsState) (w : World) : SendRecord :=
  { sender := .request, version_major := w.ipp_version_major,
    version_minor := w.ipp_version_minor, resource := st.http_resource,
    printer_uri := st.printer_uri }

/-- The number of requests in a log that were sent by the request loops themselves (not by
version probes). -/
def requestSends (l : List SendRecord) : Nat :=
  l.countP (fun r => r.sender == .request)

/-- The version that the chain in `test_and_set_ipp_version` stores for the parsed flags: the
highest of 2.0, 1.1 and 1.0 that is flagged, if any. -/
def negotiatedVersion (v : ipp_version_supported_t) : Option (Int × Int) :=
  if v.supportsIpp20 then some (2, 0)
  else if v.supportsIpp11 then some (1, 1)
  else if v.supportsIpp10 then some (1, 0)
  else none

/-- The state a round of `get_JobStatus` ends in, whichever way it ends. -/
def JobStatusStep.state : JobStatusStep → JobStatusState
  | .continue_ st => st
  | .break_ st => st

/-- The position of the resource path of the URI held by `get_JobStatus` among the
candidates (the array size when it is none of them). -/
def JobStatusState.pathIndex (cfg : Config) (st : JobStatusState) : Nat :=
  resourceIndex cfg st.printer_uri.resource

/-- The test of `addRollSupportedSizes` on a numbered row: the row fits on the roll. -/
def fitsOnRoll (width minHeight maxHeight : Nat) (ie : Nat × MediaSizeTableElement) : Bool :=
  decide (ie.2.WidthInMicrometers / 10 ≤ width ∧ ie.2.HeightInMicrometers / 10 ≥ minHeight ∧
    ie.2.HeightInMicrometers / 10 ≤ maxHeight)

/-- The numbered rows of the table that fit on a roll, in table order. -/
def rollFit (value : media_size_enumerator → media_size_t) (width minHeight maxHeight : Nat) :
    List (Nat × MediaSizeTableElement) :=
  (SupportedMediaSizes value).enum.filter (fitsOnRoll width minHeight maxHeight)

/-- The tokens of `get_PrinterStateReason` in the order of its tests, each with the code
written under it in the given state (none where the `switch` has no case). -/
def knownStateReasonTokens (t : StateReasonTokens) (printer_ippstate : ipp_pstate_t) :
    List (String × Option print_status_t) :=
  [ (t.IPP_PRNT_STATE_NONE, stateReasonNone printer_ippstate),
    (t.IPP_PRNT_STATE_SPOOL_FULL, stateReasonSpoolFull printer_ippstate),
    (t.IPP_PRNT_STATE_MARKER_SUPPLY_LOW, some .PRINT_STATUS_LOW_ON_INK),
    (t.IPP_PRNT_STATE_TONER_LOW, some .PRINT_STATUS_LOW_ON_TONER),
    (t.IPP_PRNT_STATE_OTHER_WARN, some .PRINT_STATUS_UNKNOWN),
    (t.IPP_PRNT_STATE_MEDIA_NEEDED, some .PRINT_STATUS_OUT_OF_PAPER),
    (t.IPP_PRNT_STATE_MEDIA_EMPTY, some .PRINT_STATUS_OUT_OF_PAPER),
    (t.IPP_PRNT_STATE_TONER_EMPTY, some .PRINT_STATUS_OUT_OF_TONER),
    (t.IPP_PRNT_STATE_MARKER_SUPPLY_EMPTY, some .PRINT_STATUS_OUT_OF_INK),
    (t.IPP_PRNT_STATE_DOOR_OPEN, some .PRINT_STATUS_DOOR_OPEN),
    (t.IPP_PRNT_STATE_COVER_OPEN, some .PRINT_STATUS_DOOR_OPEN),
    (t.IPP_PRNT_STATE_MEDIA_JAM, some .PRINT_STATUS_JAMMED),
    (t.IPP_PRNT_SHUTDOWN, some .PRINT_STATUS_SHUTTING_DOWN),
    (t.IPP_PRNT_STATE_OTHER_ERR, some .PRINT_STATUS_SVC_REQUEST),
    (t.IPP_PRNT_PAUSED, some .PRINT_STATUS_UNKNOWN) ]

/-- The fifteen tokens, in the order of the tests. -/
def stateReasonTokenList (t : StateReasonTokens) : List String :=
  (knownStateReasonTokens t IPP_PRINTER_IDLE).map (fun p => p.1)

/-- No token is a prefix of a token tested elsewhere in the chain (in particular no two
tokens are equal and none is empty). -/
def prefixFreeTokens (t : StateReasonTokens) : Prop :=
  (stateReasonTokenList t).Pairwise
    (fun a b => a.data.isPrefixOf b.data = false ∧ b.data.isPrefixOf a.data = false)

instance (t : StateReasonTokens) : Decidable (prefixFreeTokens t) := by
  unfold prefixFreeTokens
  infer_instance

/-- The classification in the words of the specification: among the known tokens that are a
prefix of the keyword take the longest one (the first of these in the table, should several
have that length) and give its code; no code when no known token is a prefix. -/
def longestTokenCode (t : StateReasonTokens) (printer_ippstate : ipp_pstate_t)
    (s : String) : Option print_status_t :=
  match (knownStateReasonTokens t printer_ippstate).filter
      (fun p => p.1.data.isPrefixOf s.data) with
  | [] => none
  | c :: cs =>
    (cs.foldl (fun best p => if best.1.length < p.1.length then p else best) c).2

/-- The codes written by the loop of `get_PrinterStateReason` for a list of values, in the
order of the values. -/
def recordedReasonCodes (t : StateReasonTokens) (printer_ippstate : ipp_pstate_t)
    (values : List ipp_value_t) : List print_status_t :=
  values.filterMap (get_PrinterStateReason_valueCode t printer_ippstate)

/-- The number of the first row of the table whose PWG keyword is `keyword`, if any. -/
def catalogIndex (value : media_size_enumerator → media_size_t) (keyword : String) :
    Option Nat :=
  let i := (SupportedMediaSizes value).findIdx (fun e => e.PWGName == keyword)
  if i < (SupportedMediaSizes value).length then some i else none

/-- The values of the attribute that `ippFindAttribute` finds under this name and tag; none
when there is no such attribute. -/
def attributeValues (response : ipp_t) (name : String) (tag : ipp_tag_t) : List ipp_value_t :=
  match ippFindAttribute response name tag with
  | some attrptr => attrptr.values
  | none => []

/-- The row numbers that a list of keyword values names, in the order of the values; a value
that is no keyword of the table names none. -/
def catalogIndices (value : media_size_enumerator → media_size_t)
    (values : List ipp_value_t) : List Int :=
  values.filterMap (fun x => Option.map Int.ofNat (catalogIndex value x.text))

/-- Append to `stored`, in order, each number of `candidates` that is not stored yet. -/
def appendNewIndices (stored candidates : List Int) : List Int :=
  candidates.foldl (fun l i => if i ∈ l then l else l ++ [i]) stored

/-- Every entry of the list is a row number of the table together with the identifier of
that row. -/
def media_supported_t.consistent (value : media_size_enumerator → media_size_t)
    (m : media_supported_t) : Prop :=
  List.Forall₂
    (fun (media_size : media_size_t) (idx : Int) =>
      ∃ n, ∃ h : n < (SupportedMediaSizes value).length,
        idx = (n : Int) ∧ media_size = ((SupportedMediaSizes value).get ⟨n, h⟩).media_size)
    m.media_size m.idxKeywordTranTable

/-- The table of job state reasons in the words of the specification: a flat table from
eighteen wire keywords to codes. -/
def jobStateReasonTable : List (String × ipp_job_state_reason_t) :=
  [ ("job-canceled-by-user", .IPP_JOB_STATE_REASON_JOB_CANCELED_BY_USER),
    ("job-canceled-at-device", .IPP_JOB_STATE_REASON_JOB_CANCELED_AT_DEVICE),
    ("aborted-by-system", .IPP_JOB_STATE_REASON_ABORTED_BY_SYSTEM),
    ("unsupported-compression", .IPP_JOB_STATE_REASON_UNSUPPORTED_COMPRESSION),
    ("compression-error", .IPP_JOB_STATE_REASON_COMPRESSION_ERROR),
    ("unsupported-document-format", .IPP_JOB_STATE_REASON_UNSUPPORTED_DOCUMENT_FORMAT),
    ("document-format-error", .IPP_JOB_STATE_REASON_DOCUMENT_FORMAT_ERROR),
    ("service-off-line", .IPP_JOB_STATE_REASON_SERVICE_OFFLINE),
    ("document-password-error", .IPP_JOB_STATE_REASON_DOCUMENT_PASSWORD_ERROR),
    ("document-permission-error", .IPP_JOB_STATE_REASON_DOCUMENT_PERMISSION_ERROR),
    ("document-security-error", .IPP_JOB_STATE_REASON_DOCUMENT_SECURITY_ERROR),
    ("document-unprintable-error", .IPP_JOB_STATE_REASON_DOCUMENT_UNPRINTABLE_ERROR),
    ("document-access-error", .IPP_JOB_STATE_REASON_DOCUMENT_ACCESS_ERROR),
    ("submission-interrupted", .IPP_JOB_STATE_REASON_SUBMISSION_INTERRUPTED),
    ("account-authorization-failed", .IPP_JOB_STATE_REASON_AUTHORIZATION_FAILED),
    ("account-closed", .IPP_JOB_STATE_REASON_ACCOUNT_CLOSED),
    ("account-info-needed", .IPP_JOB_STATE_REASON_ACCOUNT_INFO_NEEDED),
    ("account-limit-reached", .IPP_JOB_STATE_REASON_ACCOUNT_LIMIT_REACHED) ]

/-- Look a string up in a flat table: the value of the first entry whose keyword is equal
to the string, character for character. -/
def lookupExact {β : Type} : List (String × β) → String → Option β
  | [], _ => none
  | (keyword, code) :: table, text =>
    if text = keyword then some code else lookupExact table text

/-- The codes written by the loop of `parse_jobStateReasons` for a list of values, in the
order of the values. -/
def recordedJobReasons (values : List ipp_value_t) : List ipp_job_state_reason_t :=
  values.filterMap (fun x => parse_jobStateReasons_code x.text)

/-- The chain on the values of `document-format-supported` with the second test for
`application/pdf` removed, and `sides-supported` as before: the block
`parse_printerAttributes_formats` as the specification reads it. -/
def parse_printerAttributes_formats_single (lim : Limits) (response : ipp_t)
    (capabilities : printer_capabilities_t) : printer_capabilities_t :=
  let c1 :=
    match ippFindAttribute response "document-format-supported" .IPP_TAG_MIMETYPE with
    | some attrptr =>
      attrptr.values.foldl (fun (c : printer_capabilities_t) (x : ipp_value_t) =>
        if x.text = "image/pdf" then { c with canPrintPDF := 1 }
        else if x.text = "application/pdf" then { c with canPrintPDF := 1 }
        else if x.text = "application/PCLm" then { c with canPrintPCLm := 1 }
        else if x.text = "image/pwg-raster" then { c with canPrintPWG := 1 }
        else c) capabilities
    | none => capabilities
  match ippFindAttribute response "sides-supported" .IPP_TAG_KEYWORD with
  | some attrptr =>
    attrptr.values.foldl (fun (c : printer_capabilities_t) (x : ipp_value_t) =>
      if x.text = lim.IPP_SIDES_TWO_SIDED_SHORT_EDGE then { c with duplex := 1 }
      else if x.text = lim.IPP_SIDES_TWO_SIDED_LONG_EDGE then { c with duplex := 1 }
      else c) c1
  | none => c1

/-- Does the response list this document format: is it the text of a value of the first
`document-format-supported` attribute with MIME type tag? -/
def listsFormat (response : ipp_t) (format : String) : Bool :=
  (attributeValues response "document-format-supported" .IPP_TAG_MIMETYPE).any
    (fun x => x.text == format)

/-- Does the first value of the first `output-bin-supported` keyword attribute contain
`face-up`? -/
def firstOutputBinFaceUp (response : ipp_t) : Bool :=
  match ippFindAttribute response "output-bin-supported" .IPP_TAG_KEYWORD with
  | some attrptr => strstr (ippGetString attrptr 0) "face-up"
  | none => false

/-- Does a value of the first `printer-output-tray` octet string attribute contain `faceUp`
among its bytes? -/
def someOutputTrayFaceUp (response : ipp_t) : Bool :=
  (attributeValues response "printer-output-tray" .IPP_TAG_STRING).any
    (fun x => decide ("faceUp".data <:+: x.octets))

/-! ### What each block of `parse_printerAttributes` leaves alone -/

/-- The capabilities with the fields that `parse_printerUris` writes (`printerUri`) blanked. -/
def parse_printerUris_frame (c : printer_capabilities_t) : printer_capabilities_t :=
  { c with
    printerUri := "" }

/-- The capabilities with the fields that `parse_printerAttributes_mediaSizes` writes (`supportedMediaTypes`, `supportedMediaSizes`) blanked. -/
def parse_printerAttributes_mediaSizes_frame (c : printer_capabilities_t) : printer_capabilities_t :=
  { c with
    supportedMediaTypes := [],
    supportedMediaSizes := [] }

/-- The capabilities with the fields that `parse_printerAttributes_identity` writes (`name`, `make`, `uuid`, `location`) blanked. -/
def parse_printerAttributes_identity_frame (c : printer_capabilities_t) : printer_capabilities_t :=
  { c with
    name := "",
    make := "",
    uuid := "",
    location := "" }

/-- The capabilities with the fields that `parse_printerAttributes_mediaDefault` writes (`mediaDefault`) blanked. -/
def parse_printerAttributes_mediaDefault_frame (c : printer_capabilities_t) : printer_capabilities_t :=
  { c with
    mediaDefault := "" }

/-- The capabilities with the fields that `parse_printerAttributes_colorCopies` writes (`color`, `canCopy`, `supportedQuality`) blanked. -/
def parse_printerAttributes_colorCopies_frame (c : printer_capabilities_t) : printer_capabilities_t :=
  { c with
    color := 0,
    canCopy := 0,
    supportedQuality := [] }

/-- The capabilities with the fields that `parse_printerAttributes_formats` writes (`canPrintPDF`, `canPrintPCLm`, `canPrintPWG`, `duplex`) blanked. -/
def parse_printerAttributes_formats_frame (c : printer_capabilities_t) : printer_capabilities_t :=
  { c with
    canPrintPDF := 0,
    canPrintPCLm := 0,
    canPrintPWG := 0,
    duplex := 0 }

/-- The capabilities with the fields that `parse_printerAttributes_mediaTypes` writes (`supportedMediaTypes`) blanked. -/
def parse_printerAttributes_mediaTypes_frame (c : printer_capabilities_t) : printer_capabilities_t :=
  { c with
    supportedMediaTypes := [] }

/-- The capabilities with the fields that `parse_printerAttributes_resolutions` writes (`supportedResolutions`) blanked. -/
def parse_printerAttributes_resolutions_frame (c : printer_capabilities_t) : printer_capabilities_t :=
  { c with
    supportedResolutions := [] }

/-- The capabilities with the fields that `parse_printerAttributes_versions` writes (`ippVersionMajor`, `ippVersionMinor`, `ePclIppVersion`) blanked. -/
def parse_printerAttributes_versions_frame (c : printer_capabilities_t) : printer_capabilities_t :=
  { c with
    ippVersionMajor := 0,
    ippVersionMinor := 0,
    ePclIppVersion := 0 }

/-- The capabilities with the fields that `parse_printerAttributes_margins` writes (`printerTopMargin`, `printerBottomMargin`, `printerLeftMargin`, `printerRightMargin`) blanked. -/
def parse_printerAttributes_margins_frame (c : printer_capabilities_t) : printer_capabilities_t :=
  { c with
    printerTopMargin := 0,
    printerBottomMargin := 0,
    printerLeftMargin := 0,
    printerRightMargin := 0 }

/-- The capabilities with the fields that `parse_printerAttributes_strip` writes (`isMediaSizeNameSupported`, `stripHeight`, `canRotateDuplexBackPage`) blanked. -/
def parse_printerAttributes_strip_frame (c : printer_capabilities_t) : printer_capabilities_t :=
  { c with
    isMediaSizeNameSupported := false,
    stripHeight := 0,
    canRotateDuplexBackPage := 0 }

/-- The capabilities with the fields that `parse_printerAttributes_trays` writes (`borderless`, `inkjet`, `faceDownTray`, `docSourceAppName`, `docSourceAppVersion`, `docSourceOsName`, `docSourceOsVersion`) blanked. -/
def parse_printerAttributes_trays_frame (c : printer_capabilities_t) : printer_capabilities_t :=
  { c with
    borderless := 0,
    inkjet := 0,
    faceDownTray := 0,
    docSourceAppName := 0,
    docSourceAppVersion := 0,
    docSourceOsName := 0,
    docSourceOsVersion := 0 }

/-! ## Further notions: searches, margins, versions, URIs and outcomes of sends -/

/-- The indices of the buffer that the loops of `strnstr` read, in the order of the reads:
`*s++` reads the byte at `pos`; `memcmp`, which runs when that byte equals `c`, reads at
most the `needleLen` bytes that follow it. -/
def strnstr_loop_reads (c : Char) (rest : List Char) (buffer : List Char) :
    Nat → Nat → List Nat
  | _, 0 => []
  | pos, len + 1 =>
    if len + 1 ≤ rest.length then []
    else if buffer[pos]? = some c then
      if (buffer.drop (pos + 1)).take rest.length = rest then
        pos :: List.range' (pos + 1) rest.length
      else
        pos :: (List.range' (pos + 1) rest.length ++
          strnstr_loop_reads c rest buffer (pos + 1) len)
    else pos :: strnstr_loop_reads c rest buffer (pos + 1) len

/-- The indices of the buffer read by one call `strnstr(s, needle, len)`. -/
def strnstr_reads (buffer : List Char) (needle : List Char) (len : Nat) : List Nat :=
  match needle with
  | [] => []
  | c :: rest => if len ≤ 0 then [] else strnstr_loop_reads c rest buffer 0 len

/-- The needle stands in the buffer at index `pos`. -/
def occursAt (buffer needle : List Char) (pos : Nat) : Prop :=
  (buffer.drop pos).take needle.length = needle

instance (buffer needle : List Char) (pos : Nat) : Decidable (occursAt buffer needle pos) := by
  unfold occursAt
  infer_instance

/-- The four margin fields of the capabilities: top, bottom, left, right. -/
def printerMargins (c : printer_capabilities_t) : Int × Int × Int × Int :=
  (c.printerTopMargin, c.printerBottomMargin, c.printerLeftMargin, c.printerRightMargin)

/-- The attributes of the first collection of `media-col-default`, in wire order (none when
the attribute is absent). -/
def mediaColDefaultMembers (response : ipp_t) : List ipp_member_attribute_t :=
  match ippFindAttribute response "media-col-default" .IPP_TAG_BEGIN_COLLECTION with
  | some attrptr =>
    match attrptr.values with
    | x :: _ => x.members
    | [] => []
  | none => []

/-- The first value, read as an integer, of the last attribute called `name` among `attrs`,
if there is such an attribute. -/
def lastMemberInteger (attrs : List ipp_member_attribute_t) (name : String) : Option Int :=
  (attrs.filter (fun a => a.name = name)).getLast?.map (fun a => ippGetInteger_member a 0)

/-- The negotiated version held by the process is one of 2.0, 1.1 and 1.0. -/
def knownVersion (w : World) : Prop :=
  (w.ipp_version_major, w.ipp_version_minor) ∈ [((2 : Int), (0 : Int)), (1, 1), (1, 0)]

instance (w : World) : Decidable (knownVersion w) := by
  unfold knownVersion
  infer_instance

/-- The keyword attribute `ipp-versions-supported` of the response has the value `v`. -/
def listsVersion (response : ipp_t) (v : String) : Bool :=
  match ippFindAttribute response "ipp-versions-supported" .IPP_TAG_KEYWORD with
  | some attrptr => decide (ipp_value_t.string v ∈ attrptr.values)
  | none => false

/-- The URIs that may be used, in wire order: the values of `printer-uri-supported` among
the first `MAX_URIS` for which `uri-authentication-supported` has no value of the same
index, or has there the value `none` or `requesting-user-name`. -/
def validUris (response : ipp_t) : List String :=
  ((((attributeValues response "printer-uri-supported" .IPP_TAG_URI).take MAX_URIS).enum.filter
    (fun iu =>
      match (attributeValues response "uri-authentication-supported" .IPP_TAG_KEYWORD)[iu.1]? with
      | some a => a.text == "none" || a.text == "requesting-user-name"
      | none => true)).map (fun iu => iu.2.text))

/-- The record of a request of `get_JobStatus` stamped with the version held in `w`. -/
def jobStampedRecord (st : JobStatusState) (w : World) : SendRecord :=
  { sender := .request, version_major := w.ipp_version_major,
    version_minor := w.ipp_version_minor, resource := st.http_resource,
    printer_uri := st.printer_uri }

/-- The locals a round of `ipp_doCupsRequest` ends with, whichever way it ends. -/
def DoCupsStep.state : DoCupsStep → DoCupsState
  | .continue_ st => st
  | .return_ _ st => st

/-- The part of a round of `ipp_doCupsRequest` that follows `ippSendRequest`, for the
outcome `o` of the send: the chain of tests on the response pointer and on
`cupsLastError()`. -/
def ipp_doCupsRequest_afterSend (cfg : Config) (st1 : DoCupsState) (o : Outcome) :
    DoCupsStep :=
  let ipp_status := o.lastError
  match o.response with
  | none =>
    let st2 := { st1 with response := none }
    if ipp_status = IPP_INTERNAL_ERROR ∨ ipp_status = HTTP_ERROR then
      let st3 := { st2 with
        internal_error_retry_count := st2.internal_error_retry_count + 1 }
      if st3.internal_error_retry_count > cfg.IPP_INTERNAL_ERROR_MAX_RETRIES then
        .return_ st3.response st3
      else .continue_ st3
    else if ipp_status = IPP_SERVICE_UNAVAILABLE then
      let st3 := { st2 with
        service_unavailable_retry_count := st2.service_unavailable_retry_count + 1 }
      if st3.service_unavailable_retry_count > cfg.IPP_SERVICE_ERROR_MAX_RETRIES then
        .return_ st3.response st3
      else .continue_ st3
    else if ipp_status = IPP_BAD_REQUEST then
      let st3 := { st2 with bad_request_retry_count := st2.bad_request_retry_count + 1 }
      if st3.bad_request_retry_count > cfg.IPP_BAD_REQUEST_MAX_RETRIES then
        .return_ st3.response st3
      else .continue_ st3
    else if ipp_status = IPP_NOT_FOUND then .return_ st2.response st2
    else .return_ st2.response st2
  | some response =>
    let st2 := { st1 with response := some response }
    if ipp_status = IPP_BAD_REQUEST then
      let st3 := { st2 with bad_request_retry_count := st2.bad_request_retry_count + 1 }
      if st3.bad_request_retry_count > cfg.IPP_BAD_REQUEST_MAX_RETRIES then
        .return_ st3.response st3
      else .continue_ { st3 with response := none }
    else if ipp_status = IPP_VERSION_NOT_SUPPORTED then
      .continue_ { st2 with ipp_version_supported := .IPP_VERSION_UNSUPPORTED,
                            response := none }
    else .return_ st2.response st2

/-- The outcomes of the sends made by the request loop itself among the records `l`, the
first of which is send number `k`: probes are left out. -/
def requestOutcomes (env : Env) : Nat → List SendRecord → List Outcome
  | _, [] => []
  | k, r :: rs =>
    if r.sender = .request then env.transport k :: requestOutcomes env (k + 1) rs
    else requestOutcomes env (k + 1) rs

/-- No response, last error internal-error or a transport error: the outcomes counted by
`internal_error_retry_count`. -/
def Outcome.internalError (o : Outcome) : Bool :=
  o.response.isNone &&
    (decide (o.lastError = IPP_INTERNAL_ERROR) || decide (o.lastError = HTTP_ERROR))

/-- No response, last error service-unavailable: the outcomes counted by
`service_unavailable_retry_count`. -/
def Outcome.serviceUnavailable (o : Outcome) : Bool :=
  o.response.isNone && decide (o.lastError = IPP_SERVICE_UNAVAILABLE)

/-- Last error bad-request, with or without a response: the outcomes counted by
`bad_request_retry_count`. -/
def Outcome.badRequest (o : Outcome) : Bool :=
  decide (o.lastError = IPP_BAD_REQUEST)

/-- A response with status version-not-supported. -/
def Outcome.versionNotSupported (o : Outcome) : Bool :=
  o.response.isSome && decide (o.lastError = IPP_VERSION_NOT_SUPPORTED)

/-- The retries that the three counters still allow. -/
def retryRoom (cfg : Config) (st : DoCupsState) : Nat :=
  (cfg.IPP_INTERNAL_ERROR_MAX_RETRIES - st.internal_error_retry_count) +
    (cfg.IPP_SERVICE_ERROR_MAX_RETRIES - st.service_unavailable_retry_count) +
    (cfg.IPP_BAD_REQUEST_MAX_RETRIES - st.bad_request_retry_count)

/-- The outcomes of the sends that the request loop made between the world `w` and the
later world `w1`, in the order of the sends. -/
def callOutcomes (env : Env) (w w1 : World) : List Outcome :=
  requestOutcomes env w.sent.length (w1.sent.drop w.sent.length)

/-! ## Sample inputs -/

def sampleConfig : Config :=
  { IPP_SERVICE_ERROR_MAX_RETRIES := 3, IPP_BAD_REQUEST_MAX_RETRIES := 2,
    IPP_INTERNAL_ERROR_MAX_RETRIES := 1, DEFAULT_IPP_URI_RESOURCE := "/ipp/print" }

def sampleUri : Uri :=
  { scheme := "ipp", username := none, host := "printer.local", port := 631,
    resource := "/ipp/print" }

def sampleHttp : http_t := { fd := 3 }

def sampleRequest : ipp_t := ippNewRequest IPP_GET_PRINTER_ATTRIBUTES

/-- A response whose `ipp-versions-supported` attribute lists the given keywords. -/
def versionsResponse (vs : List String) : ipp_t :=
  { version_major := 2, version_minor := 0, op_status := 0,
    attrs := [{ name := "ipp-versions-supported", value_tag := .IPP_TAG_KEYWORD,
                values := vs.map ipp_value_t.string }] }

/-- Every send gets no response, last error service-unavailable; the flag stays set. -/
def envServiceUnavailable : Env :=
  { transport := fun _ => { response := none, lastError := IPP_SERVICE_UNAVAILABLE },
    running := fun _ => true }

/-- Every send is answered by a response carrying bad-request; the flag stays set. -/
def envBadRequestResponse : Env :=
  { transport := fun _ => { response := some (versionsResponse []), lastError := IPP_BAD_REQUEST },
    running := fun _ => true }

/-- Every send gets no response, last error not-found; the flag stays set. -/
def envNotFound : Env :=
  { transport := fun _ => { response := none, lastError := IPP_NOT_FOUND },
    running := fun _ => true }

/-- The first send is answered by a response carrying version-not-supported, the second (the
first probe) by a response that lists 2.0, every later one by a plain response. -/
def envVersionRejected : Env :=
  { transport := fun k =>
      if k = 0 then { response := some (versionsResponse []),
                      lastError := IPP_VERSION_NOT_SUPPORTED }
      else if k = 1 then { response := some (versionsResponse ["2.0"]), lastError := IPP_OK }
      else { response := some (versionsResponse []), lastError := IPP_OK },
    running := fun _ => true }

/-- Every send is answered by a response that lists all three versions. -/
def envAllVersions : Env :=
  { transport := fun _ =>
      { response := some (versionsResponse ["1.0", "1.1", "2.0"]), lastError := IPP_OK },
    running := fun _ => true }

/-- The running flag is cleared from the start; every send gets no response, last error
internal-error. -/
def envFlagCleared : Env :=
  { transport := fun _ => { response := none, lastError := IPP_INTERNAL_ERROR },
    running := fun _ => false }

/-- A sample numbering of the enumerators of `media_size_t`: 1, 2, 3, ... in the order of
the table. -/
def sampleMediaValue (e : media_size_enumerator) : media_size_t :=
  (e.toCtorIdx : Int) + 1

/-- A sample assignment of the fifteen tokens: the IPP keywords of RFC 8011 they stand for. -/
def sampleTokens : StateReasonTokens :=
  { IPP_PRNT_STATE_NONE := "none",
    IPP_PRNT_STATE_SPOOL_FULL := "spool-area-full",
    IPP_PRNT_STATE_MARKER_SUPPLY_LOW := "marker-supply-low",
    IPP_PRNT_STATE_TONER_LOW := "toner-low",
    IPP_PRNT_STATE_OTHER_WARN := "other-warning",
    IPP_PRNT_STATE_MEDIA_NEEDED := "media-needed",
    IPP_PRNT_STATE_MEDIA_EMPTY := "media-empty",
    IPP_PRNT_STATE_TONER_EMPTY := "toner-empty",
    IPP_PRNT_STATE_MARKER_SUPPLY_EMPTY := "marker-supply-empty",
    IPP_PRNT_STATE_DOOR_OPEN := "door-open",
    IPP_PRNT_STATE_COVER_OPEN := "cover-open",
    IPP_PRNT_STATE_MEDIA_JAM := "media-jam",
    IPP_PRNT_SHUTDOWN := "shutdown",
    IPP_PRNT_STATE_OTHER_ERR := "other-error",
    IPP_PRNT_PAUSED := "paused" }

/-- A response with `printer-state` and `printer-state-reasons`. -/
def stateResponse (state : Int) (reasons : List String) : ipp_t :=
  { version_major := 2, version_minor := 0, op_status := 0,
    attrs := [{ name := "printer-state", value_tag := .IPP_TAG_ENUM,
                values := [.integer state] },
              { name := "printer-state-reasons", value_tag := .IPP_TAG_KEYWORD,
                values := reasons.map ipp_value_t.string }] }

/-- A sample struct: every entry of the array is `PRINT_STATUS_MAX_STATE`. -/
def samplePrinterStateDyn : printer_state_dyn_t :=
  { printer_status := .PRINT_STATUS_INITIALIZING,
    printer_reasons := fun _ => .PRINT_STATUS_MAX_STATE }

/-- Sample sizes and limits. -/
def sampleLimits : Limits :=
  { MAX_STRING := 255, sizeof_mediaDefault := 65, sizeof_name := 256, sizeof_make := 256,
    sizeof_uuid := 256, sizeof_location := 256, sizeof_printerUri := 1024,
    PAGE_STATUS_MAX := 200, MAX_QUALITY_SUPPORTED := 3, MAX_MEDIA_TYPES_SUPPORTED := 20,
    MAX_RESOLUTIONS_SUPPORTED := 10, STRIPE_HEIGHT := 16,
    IPP_SIDES_TWO_SIDED_SHORT_EDGE := "two-sided-short-edge",
    IPP_SIDES_TWO_SIDED_LONG_EDGE := "two-sided-long-edge" }

/-- A zeroed `printer_capabilities_t`. -/
def freshCapabilities : printer_capabilities_t :=
  { name := "", make := "", uuid := "", location := "", mediaDefault := "", printerUri := "",
    supportedMediaSizes := [], supportedMediaTypes := [], supportedQuality := [],
    supportedResolutions := [], color := 0, canCopy := 0, canPrintPDF := 0, canPrintPCLm := 0,
    canPrintPWG := 0, duplex := 0, ippVersionMajor := 0, ippVersionMinor := 0,
    ePclIppVersion := 0, printerTopMargin := 0, printerBottomMargin := 0,
    printerLeftMargin := 0, printerRightMargin := 0, isMediaSizeNameSupported := false,
    stripHeight := 0, canRotateDuplexBackPage := 0, borderless := 0, inkjet := 0,
    faceDownTray := 0, docSourceAppName := 0, docSourceAppVersion := 0, docSourceOsName := 0,
    docSourceOsVersion := 0 }

/-- A keyword attribute with the given values. -/
def keywordAttribute (name : String) (values : List String) : ipp_attribute_t :=
  { name := name, value_tag := .IPP_TAG_KEYWORD, values := values.map ipp_value_t.string }

/-- A response with the given attributes. -/
def responseOf (attrs : List ipp_attribute_t) : ipp_t :=
  { version_major := 2, version_minor := 0, op_status := 0, attrs := attrs }

/-- An attribute with the given name, tag and values. -/
def attributeOf (name : String) (tag : ipp_tag_t) (values : List ipp_value_t) :
    ipp_attribute_t :=
  { name := name, value_tag := tag, values := values }

/-- One value of `media-col-ready`: a tray with a `media-size` of fixed dimensions. -/
def sheetTray (source : String) (x y : Int) : ipp_value_t :=
  .collection
    [ { name := "media-size", value_tag := .IPP_TAG_BEGIN_COLLECTION,
        values := [.collection
          [ { name := "x-dimension", value_tag := .IPP_TAG_INTEGER, values := [.integer x] },
            { name := "y-dimension", value_tag := .IPP_TAG_INTEGER, values := [.integer y] } ]] },
      { name := "media-source", value_tag := .IPP_TAG_KEYWORD,
        values := [.scalar (.string source)] } ]

/-- A struct `job_state_dyn_t` with one code in every entry of the array. -/
def sampleJobStateDyn : job_state_dyn_t :=
  { job_state := .IPP_JOB_STATE_PROCESSING,
    job_state_reasons := fun _ => .IPP_JOB_STATE_REASON_UNABLE_TO_CONNECT }

/-- Every send is answered by a response that reports the state idle and the reason `none`;
the flag stays set. -/
def envPrinterIdle : Env :=
  { transport := fun _ =>
      { response := some (stateResponse IPP_PRINTER_IDLE ["none"]), lastError := IPP_OK },
    running := fun _ => true }

/-- A keyword attribute of a collection. -/
def keywordMember (name value : String) : ipp_member_attribute_t :=
  { name := name, value_tag := .IPP_TAG_KEYWORD, values := [.scalar (.string value)] }

/-- An integer attribute of a collection. -/
def integerMember (name : String) (n : Int) : ipp_member_attribute_t :=
  { name := name, value_tag := .IPP_TAG_INTEGER, values := [.scalar (.integer n)] }

/-- A response whose `media-col-default` holds five attributes that are no margins and,
after them, the four margins. -/
def lateMarginsResponse : ipp_t :=
  responseOf [attributeOf "media-col-default" .IPP_TAG_BEGIN_COLLECTION
    [.collection
      [ keywordMember "media-type" "stationery",
        keywordMember "media-source" "main",
        keywordMember "media-color" "white",
        keywordMember "media-key" "na_letter",
        keywordMember "media-info" "plain",
        integerMember "media-top-margin" 500,
        integerMember "media-bottom-margin" 600,
        integerMember "media-left-margin" 700,
        integerMember "media-right-margin" 800 ]]]

/-- A response with three printer URIs, the second of which asks for authentication by
certificate. -/
def urisResponse : ipp_t :=
  responseOf
    [ attributeOf "printer-uri-supported" .IPP_TAG_URI
        [.string "ipp://printer.local/ipp/print", .string "ipps://printer.local/ipp/secure",
         .string "ipps://printer.local/ipp/print"],
      keywordAttribute "uri-authentication-supported"
        ["requesting-user-name", "certificate", "none"] ]

/-- Every send with an even number is answered by a response carrying
version-not-supported, every send with an odd number by a plain response that lists 2.0;
the flag stays set. In a call of `ipp_doCupsRequest` that starts with an empty log the
requests are the sends with even numbers and the probes those with odd numbers. -/
def envAlwaysRejected : Env :=
  { transport := fun k =>
      if k % 2 = 0 then { response := some (versionsResponse []),
                          lastError := IPP_VERSION_NOT_SUPPORTED }
      else { response := some (versionsResponse ["2.0"]), lastError := IPP_OK },
    running := fun _ => true }

/-! ## General lemmas -/

theorem set_ipp_version_ok (cfg : Config) (env : Env) (op : ipp_t) (u : Uri)
    (http : Option http_t) (s : ipp_version_state) (w : World)
    (h : (set_ipp_version cfg env (some op) u http s w).1 = .OK) :
    ∃ w1, set_ipp_version cfg env (some op) u http s w =
      (.OK, some (ippSetVersion op w1.ipp_version_major w1.ipp_version_minor), w1) := by
  cases s
  · exact ⟨_, rfl⟩
  · exact ⟨_, rfl⟩
  · simp only [set_ipp_version] at h ⊢
    split_ifs at h ⊢ with hd
    exact ⟨_, rfl⟩

/-- One round of `ipp_doCupsRequest` in the resolved state whose send ends in
service-unavailable without a response. -/
theorem doCups_body_su (cfg : Config) (env : Env) (http : http_t) (st : DoCupsState) (w : World)
    (hrun : env.running w.polls = true)
    (hres : st.ipp_version_supported = .IPP_VERSION_RESOLVED)
    (hout : env.transport w.sent.length = ⟨none, IPP_SERVICE_UNAVAILABLE⟩) :
    ipp_doCupsRequest_body cfg env http st w =
      (if st.service_unavailable_retry_count + 1 > cfg.IPP_SERVICE_ERROR_MAX_RETRIES then
          DoCupsStep.return_ none
            { st with request := ippSetVersion st.request w.ipp_version_major w.ipp_version_minor,
                      response := none,
                      service_unavailable_retry_count := st.service_unavailable_retry_count + 1 }
        else
          DoCupsStep.continue_
            { st with request := ippSetVersion st.request w.ipp_version_major w.ipp_version_minor,
                      response := none,
                      service_unavailable_retry_count := st.service_unavailable_retry_count + 1 },
        { w with polls := w.polls + 1, sent := w.sent ++ [stampedRecord st w] }) := by
  simp [ipp_doCupsRequest_body, wprintIsRunning, hrun, hres, set_ipp_version, World.send, hout,
    IPP_SERVICE_UNAVAILABLE, IPP_INTERNAL_ERROR, HTTP_ERROR, requestRecord, stampedRecord,
    ippSetVersion]
  split_ifs <;> rfl

theorem doCups_loop_su (cfg : Config) (env : Env) (http : http_t) :
    ∀ (n : Nat) (st : DoCupsState) (w : World) (fuel : Nat),
      st.ipp_version_supported = .IPP_VERSION_RESOLVED →
      st.service_unavailable_retry_count + n = cfg.IPP_SERVICE_ERROR_MAX_RETRIES →
      (∀ j, j ≤ n → env.running (w.polls + j) = true) →
      (∀ j, j ≤ n → env.transport (w.sent.length + j) = ⟨none, IPP_SERVICE_UNAVAILABLE⟩) →
      n + 1 ≤ fuel →
      ∃ st1, ipp_doCupsRequest_loop cfg env http fuel st w =
        (some none, st1,
          { w with polls := w.polls + (n + 1),
                   sent := w.sent ++ List.replicate (n + 1) (stampedRecord st w) }) ∧
        st1.printer_uri = st.printer_uri ∧ st1.http_resource = st.http_resource := by
  intro n
  induction n with
  | zero =>
    intro st w fuel hres hc hrun hout hfuel
    obtain ⟨f, rfl⟩ : ∃ f, fuel = f + 1 := ⟨fuel - 1, by omega⟩
    have hb := doCups_body_su cfg env http st w (by simpa using hrun 0 (le_refl _)) hres
      (by simpa using hout 0 (le_refl _))
    rw [if_pos (by omega)] at hb
    simp only [ipp_doCupsRequest_loop, hb]
    exact ⟨_, rfl, rfl, rfl⟩
  | succ n ih =>
    intro st w fuel hres hc hrun hout hfuel
    obtain ⟨f, rfl⟩ : ∃ f, fuel = f + 1 := ⟨fuel - 1, by omega⟩
    have hb := doCups_body_su cfg env http st w (by simpa using hrun 0 (by omega)) hres
      (by simpa using hout 0 (by omega))
    rw [if_neg (by omega)] at hb
    simp only [ipp_doCupsRequest_loop, hb]
    obtain ⟨st1, h1, h2, h3⟩ := ih
      { st with request := ippSetVersion st.request w.ipp_version_major w.ipp_version_minor,
                response := none,
                service_unavailable_retry_count := st.service_unavailable_retry_count + 1 }
      { w with polls := w.polls + 1, sent := w.sent ++ [stampedRecord st w] }
      f hres (by simp only; omega)
      (fun j hj => by
        have := hrun (j + 1) (by omega)
        simpa [Nat.add_assoc, Nat.add_comm 1 j] using this)
      (fun j hj => by
        have := hout (j + 1) (by omega)
        simpa [Nat.add_assoc, Nat.add_comm 1 j] using this)
      (by omega)
    refine ⟨st1, ?_, h2, h3⟩
    rw [h1]
    simp [stampedRecord, List.replicate_succ, Nat.add_assoc, Nat.add_comm 1]

/-! ## Lemmas on the version probes -/

theorem probe_body_world (cfg : Config) (env : Env) (u : Uri) (M m : Int) (su br : Nat)
    (w : World) :
    (test_and_set_ipp_version_body cfg env u M m su br w).2.sent = w.sent ++ [probeRecord u M m] ∧
    (test_and_set_ipp_version_body cfg env u M m su br w).2.polls = w.polls := by
  unfold test_and_set_ipp_version_body
  simp only [World.send]
  split <;> split_ifs <;> simp

theorem probe_loop_unfold (cfg : Config) (env : Env) (u : Uri) (M m : Int) (su br : Nat)
    (w : World) :
    test_and_set_ipp_version_loop cfg env u M m su br w =
      match test_and_set_ipp_version_body cfg env u M m su br w with
      | (.break_ r, w1) => (r, w1)
      | (.continue_ su1 br1, w1) => test_and_set_ipp_version_loop cfg env u M m su1 br1 w1 := by
  rw [test_and_set_ipp_version_loop]
  split <;> simp_all

theorem probe_loop_trace (cfg : Config) (env : Env) (u : Uri) (M m : Int) (su br : Nat)
    (w : World) :
    ∃ k, (test_and_set_ipp_version_loop cfg env u M m su br w).2.sent =
        w.sent ++ List.replicate (k + 1) (probeRecord u M m) ∧
      (test_and_set_ipp_version_loop cfg env u M m su br w).2.polls = w.polls := by
  induction su, br, w using test_and_set_ipp_version_loop.induct cfg env u M m with
  | case1 su br w r w1 h =>
    rw [probe_loop_unfold, h]
    have hb := probe_body_world cfg env u M m su br w
    rw [h] at hb
    exact ⟨0, by simpa using hb.1, hb.2⟩
  | case2 su br w su1 br1 w1 h ih =>
    rw [probe_loop_unfold, h]
    have hb := probe_body_world cfg env u M m su br w
    rw [h] at hb
    simp only at hb
    obtain ⟨k, hk, hp⟩ := ih
    refine ⟨k + 1, ?_, ?_⟩
    · rw [hk, hb.1]
      simp [List.replicate_succ]
    · rw [hp, hb.2]

/-- A round of the probe loop that ends with `OK` has received a response, and stored the
version the chain picks for it. -/
theorem probe_body_ok (cfg : Config) (env : Env) (u : Uri) (M m : Int) (su br : Nat)
    (w w1 : World)
    (h : test_and_set_ipp_version_body cfg env u M m su br w = (.break_ .OK, w1)) :
    ∃ resp, (env.transport w.sent.length).response = some resp ∧
      negotiatedVersion (parse_IPPVersions resp) =
        some (w1.ipp_version_major, w1.ipp_version_minor) := by
  unfold test_and_set_ipp_version_body at h
  simp only [World.send] at h
  split at h
  · split_ifs at h <;> simp at h
  · rename_i resp hresp
    refine ⟨resp, hresp, ?_⟩
    unfold negotiatedVersion
    split_ifs at h ⊢ <;> simp at h <;> simp [← h]

/-- A round of the probe loop that ends with `ERROR` leaves the stored version alone. -/
theorem probe_body_error (cfg : Config) (env : Env) (u : Uri) (M m : Int) (su br : Nat)
    (w w1 : World) (s : ProbeStep) (hs : s ≠ .break_ .OK)
    (h : test_and_set_ipp_version_body cfg env u M m su br w = (s, w1)) :
    w1.ipp_version_major = w.ipp_version_major ∧ w1.ipp_version_minor = w.ipp_version_minor := by
  unfold test_and_set_ipp_version_body at h
  simp only [World.send] at h
  split at h <;> split_ifs at h <;> simp at h <;> obtain ⟨h1, h2⟩ := h <;> subst h2 <;>
    first
      | exact ⟨rfl, rfl⟩
      | exact absurd h1.symm hs

theorem probe_loop_ok (cfg : Config) (env : Env) (u : Uri) (M m : Int) (su br : Nat)
    (w : World)
    (h : (test_and_set_ipp_version_loop cfg env u M m su br w).1 = .OK) :
    ∃ k resp, w.sent.length ≤ k ∧
      k + 1 = (test_and_set_ipp_version_loop cfg env u M m su br w).2.sent.length ∧
      (env.transport k).response = some resp ∧
      negotiatedVersion (parse_IPPVersions resp) =
        some ((test_and_set_ipp_version_loop cfg env u M m su br w).2.ipp_version_major,
              (test_and_set_ipp_version_loop cfg env u M m su br w).2.ipp_version_minor) := by
  induction su, br, w using test_and_set_ipp_version_loop.induct cfg env u M m with
  | case1 su br w r w1 hb =>
    rw [probe_loop_unfold, hb] at h ⊢
    simp only at h ⊢
    subst h
    obtain ⟨resp, h1, h2⟩ := probe_body_ok cfg env u M m su br w w1 hb
    have hw := (probe_body_world cfg env u M m su br w).1
    rw [hb] at hw
    simp only at hw
    exact ⟨w.sent.length, resp, le_refl _, by simp [hw], h1, h2⟩
  | case2 su br w su1 br1 w1 hb ih =>
    rw [probe_loop_unfold, hb] at h ⊢
    simp only at h ⊢
    obtain ⟨k, resp, h1, h2, h3, h4⟩ := ih h
    have hw := (probe_body_world cfg env u M m su br w).1
    rw [hb] at hw
    simp only at hw
    exact ⟨k, resp, by rw [hw] at h1; simp at h1; omega, h2, h3, h4⟩

theorem probe_loop_error (cfg : Config) (env : Env) (u : Uri) (M m : Int) (su br : Nat)
    (w : World)
    (h : (test_and_set_ipp_version_loop cfg env u M m su br w).1 ≠ .OK) :
    (test_and_set_ipp_version_loop cfg env u M m su br w).2.ipp_version_major
        = w.ipp_version_major ∧
    (test_and_set_ipp_version_loop cfg env u M m su br w).2.ipp_version_minor
        = w.ipp_version_minor := by
  induction su, br, w using test_and_set_ipp_version_loop.induct cfg env u M m with
  | case1 su br w r w1 hb =>
    rw [probe_loop_unfold, hb] at h ⊢
    simp only at h ⊢
    exact probe_body_error cfg env u M m su br w w1 (.break_ r) (by simpa using h) hb
  | case2 su br w su1 br1 w1 hb ih =>
    rw [probe_loop_unfold, hb] at h ⊢
    simp only at h ⊢
    obtain ⟨h1, h2⟩ := ih h
    obtain ⟨h3, h4⟩ := probe_body_error cfg env u M m su br w w1 (.continue_ su1 br1)
      (by simp) hb
    exact ⟨h1.trans h3, h2.trans h4⟩

/-- The probes do not read the running flag: another script for the flag changes nothing. -/
theorem probe_loop_running (cfg : Config) (t : Nat → Outcome) (r1 r2 : Nat → Bool) (u : Uri)
    (M m : Int) (su br : Nat) (w : World) :
    test_and_set_ipp_version_loop cfg ⟨t, r1⟩ u M m su br w =
      test_and_set_ipp_version_loop cfg ⟨t, r2⟩ u M m su br w := by
  induction su, br, w using test_and_set_ipp_version_loop.induct cfg ⟨t, r1⟩ u M m with
  | case1 su br w r w1 hb =>
    have hb2 : test_and_set_ipp_version_body cfg ⟨t, r2⟩ u M m su br w = (.break_ r, w1) := hb
    rw [probe_loop_unfold, hb, probe_loop_unfold, hb2]
  | case2 su br w su1 br1 w1 hb ih =>
    have hb2 : test_and_set_ipp_version_body cfg ⟨t, r2⟩ u M m su br w =
      (.continue_ su1 br1, w1) := hb
    rw [probe_loop_unfold, hb, probe_loop_unfold, hb2]
    exact ih

theorem probe_trace (cfg : Config) (env : Env) (u : Uri) (M m : Int) (w : World) :
    ∃ k, (test_and_set_ipp_version cfg env u M m w).2.sent =
        w.sent ++ List.replicate (k + 1) (probeRecord u M m) ∧
      (test_and_set_ipp_version cfg env u M m w).2.polls = w.polls :=
  probe_loop_trace cfg env u M m 0 0 w

/-- The log written by `determine_ipp_version`: probes at 1.1, then at 1.0, then at 2.0; the
1.0 block is empty exactly when the 1.1 probe returned `OK`, the 2.0 block is empty exactly
when one of the first two did. -/
theorem determine_trace (cfg : Config) (env : Env) (u : Uri) (http : http_t) (w : World) :
    ∃ a b c,
      (determine_ipp_version cfg env u (some http) w).2.sent =
        w.sent ++ (List.replicate (a + 1) (probeRecord u 1 1) ++
          (List.replicate b (probeRecord u 1 0) ++ List.replicate c (probeRecord u 2 0))) ∧
      (b = 0 ↔ (test_and_set_ipp_version cfg env u 1 1 w).1 = .OK) ∧
      (c = 0 ↔ ((test_and_set_ipp_version cfg env u 1 1 w).1 = .OK ∨
        (test_and_set_ipp_version cfg env u 1 0
          (test_and_set_ipp_version cfg env u 1 1 w).2).1 = .OK)) ∧
      (determine_ipp_version cfg env u (some http) w).2.polls = w.polls := by
  obtain ⟨a, ha, hpa⟩ := probe_trace cfg env u 1 1 w
  obtain ⟨b, hb, hpb⟩ := probe_trace cfg env u 1 0 (test_and_set_ipp_version cfg env u 1 1 w).2
  obtain ⟨c, hc, hpc⟩ := probe_trace cfg env u 2 0
    (test_and_set_ipp_version cfg env u 1 0 (test_and_set_ipp_version cfg env u 1 1 w).2).2
  simp only [determine_ipp_version]
  by_cases h1 : (test_and_set_ipp_version cfg env u 1 1 w).1 = .OK
  · refine ⟨a, 0, 0, ?_, ?_, ?_, ?_⟩ <;> simp [h1, ha, hpa]
  · by_cases h2 : (test_and_set_ipp_version cfg env u 1 0
        (test_and_set_ipp_version cfg env u 1 1 w).2).1 = .OK
    · refine ⟨a, b + 1, 0, ?_, ?_, ?_, ?_⟩ <;> simp [h1, h2, ha, hb, hpa, hpb]
    · refine ⟨a, b + 1, c + 1, ?_, ?_, ?_, ?_⟩
      · simp only [h1, h2, if_false]
        split_ifs <;> simp [hc, hb, ha]
      · simp [h1]
      · simp [h1, h2]
      · simp only [h1, h2, if_false]
        split_ifs <;> simp [hpc, hpb, hpa]

theorem determine_polls (cfg : Config) (env : Env) (u : Uri) (http : Option http_t) (w : World) :
    (determine_ipp_version cfg env u http w).2.polls = w.polls := by
  cases http with
  | none => rfl
  | some h =>
    obtain ⟨_, _, _, _, _, _, hp⟩ := determine_trace cfg env u h w
    exact hp

/-- The requests `determine_ipp_version` sends are all probes. -/
theorem determine_requestSends (cfg : Config) (env : Env) (u : Uri) (http : Option http_t)
    (w : World) :
    requestSends (determine_ipp_version cfg env u http w).2.sent = requestSends w.sent := by
  cases http with
  | none => rfl
  | some h =>
    obtain ⟨a, b, c, hs, _, _, _⟩ := determine_trace cfg env u h w
    rw [hs]
    simp [requestSends, List.countP_append, List.countP_replicate, probeRecord]

/-- When `determine_ipp_version` returns `OK`, the response to the last probe it sent fixes
the stored version. -/
theorem determine_ok (cfg : Config) (env : Env) (u : Uri) (http : Option http_t) (w : World)
    (h : (determine_ipp_version cfg env u http w).1 = .OK) :
    ∃ k resp, w.sent.length ≤ k ∧
      k + 1 = (determine_ipp_version cfg env u http w).2.sent.length ∧
      (env.transport k).response = some resp ∧
      negotiatedVersion (parse_IPPVersions resp) =
        some ((determine_ipp_version cfg env u http w).2.ipp_version_major,
              (determine_ipp_version cfg env u http w).2.ipp_version_minor) := by
  cases http with
  | none => simp [determine_ipp_version] at h
  | some hh =>
    obtain ⟨a, ha, -⟩ := probe_trace cfg env u 1 1 w
    obtain ⟨b, hb, -⟩ := probe_trace cfg env u 1 0 (test_and_set_ipp_version cfg env u 1 1 w).2
    simp only [determine_ipp_version] at h ⊢
    by_cases h1 : (test_and_set_ipp_version cfg env u 1 1 w).1 = .OK
    · simp only [h1, if_true]
      exact probe_loop_ok cfg env u 1 1 0 0 w h1
    · by_cases h2 : (test_and_set_ipp_version cfg env u 1 0
          (test_and_set_ipp_version cfg env u 1 1 w).2).1 = .OK
      · simp only [h1, h2, if_true, if_false]
        obtain ⟨k, resp, q1, q2, q3, q4⟩ := probe_loop_ok cfg env u 1 0 0 0 _ h2
        refine ⟨k, resp, ?_, q2, q3, q4⟩
        rw [ha] at q1
        simp at q1
        omega
      · simp only [h1, h2, if_false] at h ⊢
        split_ifs at h ⊢ with h3
        obtain ⟨k, resp, q1, q2, q3, q4⟩ := probe_loop_ok cfg env u 2 0 0 0 _ h3
        refine ⟨k, resp, ?_, q2, q3, q4⟩
        rw [hb, ha] at q1
        simp at q1
        omega

/-- The running flag plays no part in `determine_ipp_version`. -/
theorem determine_running (cfg : Config) (t : Nat → Outcome) (r1 r2 : Nat → Bool) (u : Uri)
    (http : Option http_t) (w : World) :
    determine_ipp_version cfg ⟨t, r1⟩ u http w = determine_ipp_version cfg ⟨t, r2⟩ u http w := by
  cases http with
  | none => rfl
  | some h =>
    simp only [determine_ipp_version, test_and_set_ipp_version,
      probe_loop_running cfg t r1 r2]

theorem set_ipp_version_polls (cfg : Config) (env : Env) (op : Option ipp_t) (u : Uri)
    (http : Option http_t) (s : ipp_version_state) (w : World) :
    (set_ipp_version cfg env op u http s w).2.2.polls = w.polls := by
  cases op with
  | none => rfl
  | some o =>
    cases s
    · rfl
    · rfl
    · simp only [set_ipp_version]
      split_ifs <;> exact determine_polls cfg env u http w

theorem set_ipp_version_requestSends (cfg : Config) (env : Env) (op : Option ipp_t) (u : Uri)
    (http : Option http_t) (s : ipp_version_state) (w : World) :
    requestSends (set_ipp_version cfg env op u http s w).2.2.sent = requestSends w.sent := by
  cases op with
  | none => rfl
  | some o =>
    cases s
    · rfl
    · rfl
    · simp only [set_ipp_version]
      split_ifs <;> exact determine_requestSends cfg env u http w

theorem set_ipp_version_running (cfg : Config) (t : Nat → Outcome) (r1 r2 : Nat → Bool)
    (op : Option ipp_t) (u : Uri) (http : Option http_t) (s : ipp_version_state) (w : World) :
    set_ipp_version cfg ⟨t, r1⟩ op u http s w = set_ipp_version cfg ⟨t, r2⟩ op u http s w := by
  cases op with
  | none => rfl
  | some o =>
    cases s
    · rfl
    · rfl
    · simp only [set_ipp_version, determine_running cfg t r1 r2]

/-! ## C1: the service-unavailable budget of `ipp_doCupsRequest` -/

/-- C1: with the running flag set and all arguments non-NULL, if each of the first
`IPP_SERVICE_ERROR_MAX_RETRIES + 1` sends of the call gets no response with last error
service-unavailable, then `ipp_doCupsRequest` returns `NULL` after exactly
`IPP_SERVICE_ERROR_MAX_RETRIES + 1` send attempts, each to the unchanged resource and
stamped with the unchanged current version; no probe is sent. -/
theorem C1_service_unavailable_budget (cfg : Config) (env : Env) (http : http_t)
    (request : ipp_t) (http_resource : String) (printer_uri : Uri) (w : World) (fuel : Nat)
    (hrun : ∀ j, j ≤ cfg.IPP_SERVICE_ERROR_MAX_RETRIES → env.running (w.polls + j) = true)
    (hout : ∀ j, j ≤ cfg.IPP_SERVICE_ERROR_MAX_RETRIES →
      env.transport (w.sent.length + j) = ⟨none, IPP_SERVICE_UNAVAILABLE⟩)
    (hfuel : cfg.IPP_SERVICE_ERROR_MAX_RETRIES + 1 ≤ fuel) :
    (ipp_doCupsRequest cfg env fuel (some http) (some request) (some http_resource)
        (some printer_uri) w).1 = some none ∧
    (ipp_doCupsRequest cfg env fuel (some http) (some request) (some http_resource)
        (some printer_uri) w).2.2 =
      { w with
        polls := w.polls + (cfg.IPP_SERVICE_ERROR_MAX_RETRIES + 1),
        sent := w.sent ++ List.replicate (cfg.IPP_SERVICE_ERROR_MAX_RETRIES + 1)
          { sender := .request, version_major := w.ipp_version_major,
            version_minor := w.ipp_version_minor, resource := http_resource,
            printer_uri := printer_uri } } := by
  obtain ⟨st1, h1, -, -⟩ := doCups_loop_su cfg env http cfg.IPP_SERVICE_ERROR_MAX_RETRIES
    (DoCupsState.init request http_resource printer_uri) w fuel rfl
    (by simp [DoCupsState.init]) hrun hout hfuel
  simp only [ipp_doCupsRequest, h1, true_and]
  rfl

/-- C1, instance: three retries allowed, four sends made, `NULL` returned. -/
theorem C1_service_unavailable_budget_witness :
    (ipp_doCupsRequest sampleConfig envServiceUnavailable 4 (some sampleHttp)
        (some sampleRequest) (some "/ipp/print") (some sampleUri) World.initial).1 = some none ∧
    (ipp_doCupsRequest sampleConfig envServiceUnavailable 4 (some sampleHttp)
        (some sampleRequest) (some "/ipp/print") (some sampleUri) World.initial).2.2.sent.length
      = 4 := by
  have h := C1_service_unavailable_budget sampleConfig envServiceUnavailable sampleHttp
    sampleRequest "/ipp/print" sampleUri World.initial 4 (fun _ _ => rfl) (fun _ _ => rfl)
    (by decide)
  refine ⟨h.1, ?_⟩
  rw [h.2]
  rfl

/-! ## C2: what is returned when a retry counter is exceeded -/

/-- C2: at the sample configuration (`IPP_BAD_REQUEST_MAX_RETRIES = 2`), when every attempt
is answered by a response carrying bad-request, the third attempt raises the bad-request
counter to 3, the loop is left, and `ipp_doCupsRequest` returns that third response, not
`NULL`. -/
theorem C2_bad_request_response_returned :
    (ipp_doCupsRequest sampleConfig envBadRequestResponse 3 (some sampleHttp)
        (some sampleRequest) (some "/ipp/print") (some sampleUri) World.initial).1
      = some (some (versionsResponse [])) ∧
    ((ipp_doCupsRequest sampleConfig envBadRequestResponse 3 (some sampleHttp)
        (some sampleRequest) (some "/ipp/print") (some sampleUri) World.initial).2.1.map
          (fun st => st.bad_request_retry_count)) = some 3 ∧
    (ipp_doCupsRequest sampleConfig envBadRequestResponse 3 (some sampleHttp)
        (some sampleRequest) (some "/ipp/print") (some sampleUri) World.initial).2.2.sent.length
      = 3 := by
  decide

/-- What a probe does when its first send is answered by a response whose status is not
bad-request. -/
theorem probe_answered (cfg : Config) (env : Env) (u : Uri) (M m : Int) (w : World)
    (resp : ipp_t) (s : ipp_status_t)
    (h : env.transport w.sent.length = ⟨some resp, s⟩) (hs : s ≠ IPP_BAD_REQUEST) :
    test_and_set_ipp_version cfg env u M m w =
      match negotiatedVersion (parse_IPPVersions resp) with
      | some v =>
        (.OK, { w with sent := w.sent ++ [probeRecord u M m],
                       ipp_version_major := v.1, ipp_version_minor := v.2 })
      | none => (.ERROR, { w with sent := w.sent ++ [probeRecord u M m] }) := by
  rw [test_and_set_ipp_version, probe_loop_unfold]
  simp only [test_and_set_ipp_version_body, World.send, h, hs, if_false, negotiatedVersion]
  split_ifs <;> rfl

/-- What a probe does when its first send gets no response with last error internal-error. -/
theorem probe_internal_error (cfg : Config) (env : Env) (u : Uri) (M m : Int) (w : World)
    (h : env.transport w.sent.length = ⟨none, IPP_INTERNAL_ERROR⟩) :
    test_and_set_ipp_version cfg env u M m w =
      (.ERROR, { w with sent := w.sent ++ [probeRecord u M m] }) := by
  rw [test_and_set_ipp_version, probe_loop_unfold]
  simp [test_and_set_ipp_version_body, World.send, h]

/-- One round of `ipp_doCupsRequest` while the flag is set and the version call succeeds:
the request is sent once, stamped with the version then current. -/
theorem doCups_body_sends (cfg : Config) (env : Env) (http : http_t) (st : DoCupsState)
    (w : World) (hrun : env.running w.polls = true)
    (hset : (roundStamp cfg env http st w).1 = .OK) :
    (ipp_doCupsRequest_body cfg env http st w).2 =
      { (roundStamp cfg env http st w).2.2 with
        sent := (roundStamp cfg env http st w).2.2.sent ++
          [stampedRecord st (roundStamp cfg env http st w).2.2] } := by
  obtain ⟨w1, hw1⟩ := set_ipp_version_ok cfg env _ _ _ _ _ hset
  have hrun1 : (wprintIsRunning env w).1 = true := hrun
  unfold roundStamp at hset ⊢
  unfold ipp_doCupsRequest_body
  simp only [hrun1, hw1, World.send, Bool.true_eq_false, if_false]
  split <;> split_ifs <;> rfl

/-! ## C3: not-found in `ipp_doCupsRequest` -/

/-- C3, as stated, fails: the resource of the sample URI is candidate 0 of the two, so a
further candidate exists (`tryNextResourceExtension` would return 1), yet on not-found
`ipp_doCupsRequest` returns `NULL` after a single send and leaves the URI as it was. -/
theorem C3_counterexample :
    (resource_extensions_arr sampleConfig)[0]? = some sampleUri.resource ∧
    (tryNextResourceExtension sampleConfig sampleUri).1 = 1 ∧
    (ipp_doCupsRequest sampleConfig envNotFound 5 (some sampleHttp) (some sampleRequest)
        (some "/ipp/print") (some sampleUri) World.initial).1 = some none ∧
    (ipp_doCupsRequest sampleConfig envNotFound 5 (some sampleHttp) (some sampleRequest)
        (some "/ipp/print") (some sampleUri) World.initial).2.2.sent.length = 1 ∧
    (ipp_doCupsRequest sampleConfig envNotFound 5 (some sampleHttp) (some sampleRequest)
        (some "/ipp/print") (some sampleUri) World.initial).2.1.map (fun st => st.printer_uri)
      = some sampleUri := by
  decide

/-- C3, amended: in any round of `ipp_doCupsRequest` (any counters, any resource path) in
which the flag is set, the version call succeeds and the send gets no response with last
error not-found, the call returns `NULL` in that round: the request was sent once, and
neither the URI nor the resource path is rewritten. -/
theorem C3_not_found_ends_call (cfg : Config) (env : Env) (http : http_t) (st : DoCupsState)
    (w : World) (fuel : Nat)
    (hrun : env.running w.polls = true)
    (hset : (roundStamp cfg env http st w).1 = .OK)
    (hout : env.transport (roundStamp cfg env http st w).2.2.sent.length =
        { response := none, lastError := IPP_NOT_FOUND }) :
    (ipp_doCupsRequest_loop cfg env http (fuel + 1) st w).1 = some none ∧
    (ipp_doCupsRequest_loop cfg env http (fuel + 1) st w).2.1.printer_uri = st.printer_uri ∧
    (ipp_doCupsRequest_loop cfg env http (fuel + 1) st w).2.1.http_resource
      = st.http_resource ∧
    (ipp_doCupsRequest_loop cfg env http (fuel + 1) st w).2.2.sent =
      (roundStamp cfg env http st w).2.2.sent ++
        [stampedRecord st (roundStamp cfg env http st w).2.2] := by
  obtain ⟨w1, hw1⟩ := set_ipp_version_ok cfg env _ _ _ _ _ hset
  unfold roundStamp at hout ⊢
  rw [hw1] at hout
  simp only at hout
  have hrun1 : (wprintIsRunning env w).1 = true := hrun
  have hb : ipp_doCupsRequest_body cfg env http st w =
      (.return_ none { st with
          request := ippSetVersion st.request w1.ipp_version_major w1.ipp_version_minor,
          response := none },
        { w1 with sent := w1.sent ++ [requestRecord st
          (ippSetVersion st.request w1.ipp_version_major w1.ipp_version_minor)] }) := by
    unfold ipp_doCupsRequest_body
    simp only [hrun1, hw1, World.send, hout, Bool.true_eq_false, if_false]
    simp [IPP_NOT_FOUND, IPP_INTERNAL_ERROR, HTTP_ERROR, IPP_SERVICE_UNAVAILABLE, IPP_BAD_REQUEST]
  simp only [ipp_doCupsRequest_loop, hb, hw1, true_and]
  rfl

/-- C3, amended, instance: the default path, one send, `NULL`. -/
theorem C3_not_found_ends_call_witness :
    (ipp_doCupsRequest_loop sampleConfig envNotFound sampleHttp 1
      (DoCupsState.init sampleRequest "/ipp/print" sampleUri) World.initial).1 = some none ∧
    (ipp_doCupsRequest_loop sampleConfig envNotFound sampleHttp 1
      (DoCupsState.init sampleRequest "/ipp/print" sampleUri) World.initial).2.1.printer_uri
        = sampleUri :=
  have h := C3_not_found_ends_call sampleConfig envNotFound sampleHttp
    (DoCupsState.init sampleRequest "/ipp/print" sampleUri) World.initial 0 rfl rfl rfl
  ⟨h.1, h.2.1⟩

/-! ## C4: a version-not-supported response -/

/-- C4: in a round of `ipp_doCupsRequest` whose send is answered by a response carrying
version-not-supported, the round ends with `continue`; the three retry counters are
unchanged, the response variable is `NULL` again, and the version state is
`IPP_VERSION_UNSUPPORTED`. In the next round the version call is `determine_ipp_version`:
its log starts with a probe, and when the flag is still set either it fails and the call
returns without sending the request, or the request is sent after the probes, stamped with
the version the re-resolution stored. -/
theorem C4_version_not_supported_round (cfg : Config) (env : Env) (http : http_t)
    (st : DoCupsState) (w : World) (response : ipp_t)
    (hrun : env.running w.polls = true)
    (hset : (roundStamp cfg env http st w).1 = .OK)
    (hout : env.transport (roundStamp cfg env http st w).2.2.sent.length =
        { response := some response, lastError := IPP_VERSION_NOT_SUPPORTED }) :
    ∃ st1 w1, ipp_doCupsRequest_body cfg env http st w = (.continue_ st1, w1) ∧
      st1.internal_error_retry_count = st.internal_error_retry_count ∧
      st1.service_unavailable_retry_count = st.service_unavailable_retry_count ∧
      st1.bad_request_retry_count = st.bad_request_retry_count ∧
      st1.response = none ∧
      st1.ipp_version_supported = .IPP_VERSION_UNSUPPORTED ∧
      (roundStamp cfg env http st1 w1).1 =
        (determine_ipp_version cfg env st1.printer_uri (some http)
          (wprintIsRunning env w1).2).1 ∧
      (roundStamp cfg env http st1 w1).2.2 =
        (determine_ipp_version cfg env st1.printer_uri (some http)
          (wprintIsRunning env w1).2).2 ∧
      (∃ rest, (roundStamp cfg env http st1 w1).2.2.sent =
        w1.sent ++ probeRecord st1.printer_uri 1 1 :: rest) ∧
      (env.running w1.polls = true →
        ((roundStamp cfg env http st1 w1).1 = .ERROR →
          ipp_doCupsRequest_body cfg env http st1 w1 =
            (.return_ none st1, (roundStamp cfg env http st1 w1).2.2)) ∧
        ((roundStamp cfg env http st1 w1).1 = .OK →
          (ipp_doCupsRequest_body cfg env http st1 w1).2.sent =
            (roundStamp cfg env http st1 w1).2.2.sent ++
              [stampedRecord st1 (roundStamp cfg env http st1 w1).2.2])) := by
  obtain ⟨w1, hw1⟩ := set_ipp_version_ok cfg env _ _ _ _ _ hset
  unfold roundStamp at hout
  rw [hw1] at hout
  simp only at hout
  have hrun1 : (wprintIsRunning env w).1 = true := hrun
  have hb : ipp_doCupsRequest_body cfg env http st w =
      (.continue_ { st with
          request := ippSetVersion st.request w1.ipp_version_major w1.ipp_version_minor,
          response := none,
          ipp_version_supported := .IPP_VERSION_UNSUPPORTED },
        { w1 with sent := w1.sent ++ [requestRecord st
          (ippSetVersion st.request w1.ipp_version_major w1.ipp_version_minor)] }) := by
    unfold ipp_doCupsRequest_body
    simp only [hrun1, hw1, World.send, hout, Bool.true_eq_false, if_false]
    simp [IPP_VERSION_NOT_SUPPORTED, IPP_BAD_REQUEST]
  refine ⟨_, _, hb, rfl, rfl, rfl, rfl, rfl, ?_⟩
  generalize hst : ({ st with
      request := ippSetVersion st.request w1.ipp_version_major w1.ipp_version_minor,
      response := none,
      ipp_version_supported := ipp_version_state.IPP_VERSION_UNSUPPORTED } : DoCupsState) = st1
  generalize ({ w1 with sent := w1.sent ++ [requestRecord st
      (ippSetVersion st.request w1.ipp_version_major w1.ipp_version_minor)] } : World) = w2
  have hu : st1.ipp_version_supported = .IPP_VERSION_UNSUPPORTED := by rw [← hst]
  have hr1 : (roundStamp cfg env http st1 w2).1 =
      (determine_ipp_version cfg env st1.printer_uri (some http)
        (wprintIsRunning env w2).2).1 := by
    simp only [roundStamp, hu, set_ipp_version]
    split_ifs with hd
    · cases hdd : (determine_ipp_version cfg env st1.printer_uri (some http)
          (wprintIsRunning env w2).2).1
      · exact absurd hdd hd
      · rfl
    · exact (not_not.mp hd).symm
  have hr2 : (roundStamp cfg env http st1 w2).2.2 =
      (determine_ipp_version cfg env st1.printer_uri (some http)
        (wprintIsRunning env w2).2).2 := by
    simp only [roundStamp, hu, set_ipp_version]
    split_ifs <;> rfl
  refine ⟨hr1, hr2, ?_, ?_⟩
  · obtain ⟨a, b, c, hs, -⟩ := determine_trace cfg env st1.printer_uri http
      (wprintIsRunning env w2).2
    rw [hr2, hs]
    exact ⟨List.replicate a (probeRecord st1.printer_uri 1 1) ++
      (List.replicate b (probeRecord st1.printer_uri 1 0) ++
        List.replicate c (probeRecord st1.printer_uri 2 0)),
      by simp [wprintIsRunning, List.replicate_succ]⟩
  · intro hrun2
    refine ⟨fun herr => ?_, fun hok => ?_⟩
    · have hrun3 : (wprintIsRunning env w2).1 = true := hrun2
      have hd : (determine_ipp_version cfg env st1.printer_uri (some http)
          (wprintIsRunning env w2).2).1 ≠ .OK := by
        rw [← hr1, herr]
        decide
      rw [hr2]
      unfold ipp_doCupsRequest_body
      simp only [hrun3, Bool.true_eq_false, if_false, hu, set_ipp_version, hd, ne_eq,
        not_false_eq_true, if_true]
      have : st1.response = none := by rw [← hst]
      rw [this]
    · rw [doCups_body_sends cfg env http st1 w2 hrun2 hok]

/-- C4, instance: the first round of the sample call, answered with version-not-supported,
ends with `continue` and the version state set to unsupported. -/
theorem C4_version_not_supported_round_witness :
    ∃ st1 w1, ipp_doCupsRequest_body sampleConfig envVersionRejected sampleHttp
        (DoCupsState.init sampleRequest "/ipp/print" sampleUri) World.initial
          = (.continue_ st1, w1) ∧
      st1.bad_request_retry_count = 0 ∧
      st1.ipp_version_supported = .IPP_VERSION_UNSUPPORTED := by
  obtain ⟨st1, w1, h, _, _, h3, _, h5, _⟩ :=
    C4_version_not_supported_round sampleConfig envVersionRejected sampleHttp
      (DoCupsState.init sampleRequest "/ipp/print" sampleUri) World.initial
      (versionsResponse []) rfl rfl rfl
  exact ⟨st1, w1, h, h3, h5⟩

theorem set_ipp_version_error (cfg : Config) (env : Env) (op : ipp_t) (u : Uri)
    (http : Option http_t) (s : ipp_version_state) (w : World)
    (h : (set_ipp_version cfg env (some op) u http s w).1 ≠ .OK) :
    ∃ w1, set_ipp_version cfg env (some op) u http s w = (.ERROR, some op, w1) := by
  cases s
  · simp [set_ipp_version] at h
  · simp [set_ipp_version] at h
  · simp only [set_ipp_version] at h ⊢
    split_ifs at h ⊢ with hd
    · exact ⟨_, rfl⟩
    · simp at h

/-- A round of `ipp_doCupsRequest` that finds the flag cleared returns `NULL` at once. -/
theorem doCups_body_stopped (cfg : Config) (env : Env) (http : http_t) (st : DoCupsState)
    (w : World) (hrun : env.running w.polls = false) :
    ipp_doCupsRequest_body cfg env http st w =
      (.return_ none st, { w with polls := w.polls + 1 }) := by
  have hrun1 : (wprintIsRunning env w).1 = false := hrun
  unfold ipp_doCupsRequest_body
  simp only [hrun1, if_true]
  rfl

/-- A round of `ipp_doCupsRequest` whose version call fails leaves the loop without sending
the request. -/
theorem doCups_body_stamp_fails (cfg : Config) (env : Env) (http : http_t) (st : DoCupsState)
    (w : World) (hrun : env.running w.polls = true)
    (hset : (roundStamp cfg env http st w).1 ≠ .OK) :
    ipp_doCupsRequest_body cfg env http st w =
      (.return_ st.response st, (roundStamp cfg env http st w).2.2) := by
  obtain ⟨w1, hw1⟩ := set_ipp_version_error cfg env _ _ _ _ _ hset
  have hrun1 : (wprintIsRunning env w).1 = true := hrun
  unfold roundStamp
  unfold ipp_doCupsRequest_body
  simp only [hrun1, hw1, Bool.true_eq_false, if_false]

/-- Every round of `ipp_doCupsRequest` reads the running flag exactly once and sends the
request at most once. -/
theorem doCups_body_counts (cfg : Config) (env : Env) (http : http_t) (st : DoCupsState)
    (w : World) :
    (ipp_doCupsRequest_body cfg env http st w).2.polls = w.polls + 1 ∧
    requestSends (ipp_doCupsRequest_body cfg env http st w).2.sent ≤ requestSends w.sent + 1 := by
  have hp := set_ipp_version_polls cfg env (some st.request) st.printer_uri (some http)
    st.ipp_version_supported (wprintIsRunning env w).2
  have hs := set_ipp_version_requestSends cfg env (some st.request) st.printer_uri (some http)
    st.ipp_version_supported (wprintIsRunning env w).2
  cases hrun : env.running w.polls with
  | false =>
    rw [doCups_body_stopped cfg env http st w hrun]
    exact ⟨rfl, Nat.le_succ _⟩
  | true =>
    by_cases hset : (roundStamp cfg env http st w).1 = .OK
    · rw [doCups_body_sends cfg env http st w hrun hset]
      unfold roundStamp
      refine ⟨hp, ?_⟩
      simp only [requestSends, List.countP_append] at hs ⊢
      rw [hs]
      simp [wprintIsRunning, stampedRecord]
    · rw [doCups_body_stamp_fails cfg env http st w hrun hset]
      unfold roundStamp
      refine ⟨hp, ?_⟩
      rw [hs]
      exact Nat.le_succ _

theorem doCups_loop_counts (cfg : Config) (env : Env) (http : http_t) :
    ∀ (fuel : Nat) (st : DoCupsState) (w : World),
      requestSends (ipp_doCupsRequest_loop cfg env http fuel st w).2.2.sent + w.polls ≤
        requestSends w.sent + (ipp_doCupsRequest_loop cfg env http fuel st w).2.2.polls := by
  intro fuel
  induction fuel with
  | zero => intro st w; simp [ipp_doCupsRequest_loop]
  | succ n ih =>
    intro st w
    have hb := doCups_body_counts cfg env http st w
    rw [ipp_doCupsRequest_loop]
    split
    · rename_i st1 w1 heq
      rw [heq] at hb
      have := ih st1 w1
      simp only at hb
      omega
    · rename_i r st1 w1 heq
      rw [heq] at hb
      simp only at hb ⊢
      omega

/-- The running flag plays no part in a round of `get_JobStatus`, which does not read it. -/
theorem jobStatus_body_running (cfg : Config) (t : Nat → Outcome) (r1 r2 : Nat → Bool)
    (http : Option http_t) (st : JobStatusState) (w : World) :
    get_JobStatus_body cfg ⟨t, r1⟩ http st w = get_JobStatus_body cfg ⟨t, r2⟩ http st w := by
  simp only [get_JobStatus_body, set_ipp_version_running cfg t r1 r2, World.send]

theorem jobStatus_loop_running (cfg : Config) (t : Nat → Outcome) (r1 r2 : Nat → Bool)
    (http : Option http_t) :
    ∀ (fuel : Nat) (st : JobStatusState) (w : World),
      get_JobStatus_loop cfg ⟨t, r1⟩ http fuel st w =
        get_JobStatus_loop cfg ⟨t, r2⟩ http fuel st w := by
  intro fuel
  induction fuel with
  | zero => intro st w; rfl
  | succ n ih =>
    intro st w
    simp only [get_JobStatus_loop, jobStatus_body_running cfg t r1 r2, ih]

theorem jobStatus_body_polls (cfg : Config) (env : Env) (http : Option http_t)
    (st : JobStatusState) (w : World) :
    (get_JobStatus_body cfg env http st w).2.polls = w.polls := by
  have hp := set_ipp_version_polls cfg env (some (ippNewRequest IPP_GET_JOB_ATTRIBUTES))
    st.printer_uri http st.ipp_version_supported w
  unfold get_JobStatus_body
  simp only [World.send]
  split
  · rename_i request w1 heq
    rw [heq] at hp
    split <;> split_ifs <;> exact hp
  · rename_i x1 x2 w1 hne heq
    rw [heq] at hp
    exact hp

theorem jobStatus_loop_polls (cfg : Config) (env : Env) (http : Option http_t) :
    ∀ (fuel : Nat) (st : JobStatusState) (w : World),
      (get_JobStatus_loop cfg env http fuel st w).2.2.polls = w.polls := by
  intro fuel
  induction fuel with
  | zero => intro st w; rfl
  | succ n ih =>
    intro st w
    have hb := jobStatus_body_polls cfg env http st w
    rw [get_JobStatus_loop]
    split
    · rename_i st1 w1 heq
      rw [heq] at hb
      exact hb
    · rename_i st1 w1 heq
      rw [heq] at hb
      split_ifs
      · rw [ih]; exact hb
      · exact hb

/-! ## C5: who reads the running flag -/

/-- C5, as stated, fails: with the running flag cleared from the start, `get_JobStatus` and
`test_and_set_ipp_version` each still send a request and never read the flag, while
`ipp_doCupsRequest` reads it once and sends nothing. -/
theorem C5_counterexample :
    (get_JobStatus sampleConfig envFlagCleared 5 (some sampleHttp) sampleUri (some ()) (some ())
        World.initial).2.2.sent.length = 1 ∧
    (get_JobStatus sampleConfig envFlagCleared 5 (some sampleHttp) sampleUri (some ()) (some ())
        World.initial).2.2.polls = 0 ∧
    (test_and_set_ipp_version sampleConfig envFlagCleared sampleUri 1 1
        World.initial).2.sent.length = 1 ∧
    (test_and_set_ipp_version sampleConfig envFlagCleared sampleUri 1 1
        World.initial).2.polls = 0 ∧
    (ipp_doCupsRequest sampleConfig envFlagCleared 5 (some sampleHttp) (some sampleRequest)
        (some "/ipp/print") (some sampleUri) World.initial).2.2.sent.length = 0 ∧
    (ipp_doCupsRequest sampleConfig envFlagCleared 5 (some sampleHttp) (some sampleRequest)
        (some "/ipp/print") (some sampleUri) World.initial).2.2.polls = 1 := by
  refine ⟨by decide, by decide, ?_, ?_, by decide, by decide⟩
  · rw [probe_internal_error sampleConfig envFlagCleared sampleUri 1 1 World.initial rfl]
    rfl
  · rw [probe_internal_error sampleConfig envFlagCleared sampleUri 1 1 World.initial rfl]
    rfl

/-- C5, amended: of the three retry loops only `ipp_doCupsRequest` consults the running flag.
Each of its rounds starts by reading the flag; a round that reads it cleared makes the call
return `NULL` without sending anything, and over a whole call the number of its send
attempts never exceeds the number of its reads of the flag. `get_JobStatus` and
`test_and_set_ipp_version` never read the flag: they behave the same under any other
script for the flag and leave the number of reads unchanged. -/
theorem C5_running_flag (cfg : Config) (env : Env) (http : http_t) (st : DoCupsState)
    (w : World) (fuel : Nat) (running2 : Nat → Bool) (ohttp : Option http_t) (u : Uri)
    (job_state_dyn job_state : Option Unit) (M m : Int) :
    (env.running w.polls = false →
      ipp_doCupsRequest_loop cfg env http (fuel + 1) st w =
        (some none, st, { w with polls := w.polls + 1 })) ∧
    (ipp_doCupsRequest_body cfg env http st w).2.polls = w.polls + 1 ∧
    requestSends (ipp_doCupsRequest_loop cfg env http fuel st w).2.2.sent + w.polls ≤
      requestSends w.sent + (ipp_doCupsRequest_loop cfg env http fuel st w).2.2.polls ∧
    get_JobStatus cfg env fuel ohttp u job_state_dyn job_state w =
      get_JobStatus cfg { env with running := running2 } fuel ohttp u job_state_dyn job_state w ∧
    (get_JobStatus cfg env fuel ohttp u job_state_dyn job_state w).2.2.polls = w.polls ∧
    test_and_set_ipp_version cfg env u M m w =
      test_and_set_ipp_version cfg { env with running := running2 } u M m w ∧
    (test_and_set_ipp_version cfg env u M m w).2.polls = w.polls := by
  refine ⟨fun hrun => ?_, (doCups_body_counts cfg env http st w).1,
    doCups_loop_counts cfg env http fuel st w, ?_, ?_, ?_, ?_⟩
  · simp only [ipp_doCupsRequest_loop, doCups_body_stopped cfg env http st w hrun]
  · unfold get_JobStatus
    rw [jobStatus_loop_running cfg env.transport env.running running2]
  · unfold get_JobStatus
    split
    · exact jobStatus_loop_polls cfg env ohttp fuel _ w
    · rfl
  · exact probe_loop_running cfg env.transport env.running running2 u M m 0 0 w
  · exact (probe_trace cfg env u M m w).choose_spec.2

/-- C5, amended, instance: with the flag cleared the sample call returns `NULL` after one
read of the flag and no send. -/
theorem C5_running_flag_witness :
    ipp_doCupsRequest_loop sampleConfig envFlagCleared sampleHttp 1
        (DoCupsState.init sampleRequest "/ipp/print" sampleUri) World.initial =
      (some none, DoCupsState.init sampleRequest "/ipp/print" sampleUri,
        { World.initial with polls := 1 }) :=
  (C5_running_flag sampleConfig envFlagCleared sampleHttp
    (DoCupsState.init sampleRequest "/ipp/print" sampleUri) World.initial 0 (fun _ => true)
    (some sampleHttp) sampleUri (some ()) (some ()) 1 1).1 rfl

/-! ## C6: `set_ipp_version` without re-resolution -/

/-- C6: for a non-NULL request, `set_ipp_version` with `NEW_REQUEST_SEQUENCE` sets the
process-wide version to (2,0), stamps the request with 2.0 and returns `OK`; with
`IPP_VERSION_RESOLVED` it leaves the process-wide version as it is, stamps the request with
it and returns `OK`. In both cases the log of sent requests is unchanged: no probe. -/
theorem C6_set_ipp_version_stamps (cfg : Config) (env : Env) (op : ipp_t) (u : Uri)
    (http : Option http_t) (w : World) :
    set_ipp_version cfg env (some op) u http .NEW_REQUEST_SEQUENCE w =
      (.OK, some (ippSetVersion op 2 0),
        { w with ipp_version_major := 2, ipp_version_minor := 0 }) ∧
    set_ipp_version cfg env (some op) u http .IPP_VERSION_RESOLVED w =
      (.OK, some (ippSetVersion op w.ipp_version_major w.ipp_version_minor), w) ∧
    (set_ipp_version cfg env (some op) u http .NEW_REQUEST_SEQUENCE w).2.2.sent = w.sent ∧
    (set_ipp_version cfg env (some op) u http .IPP_VERSION_RESOLVED w).2.2.sent = w.sent ∧
    (ippSetVersion op 2 0).version_major = 2 ∧ (ippSetVersion op 2 0).version_minor = 0 :=
  ⟨rfl, rfl, rfl, rfl, rfl, rfl⟩

/-! ## C7: the order of the probes -/

/-- C7, as stated, fails: when every probe is answered by a response listing all three
versions, `determine_ipp_version` sends exactly one probe, and it is stamped 1.1, not 2.0. -/
theorem C7_counterexample :
    (determine_ipp_version sampleConfig envAllVersions sampleUri (some sampleHttp)
        World.initial).1 = .OK ∧
    (determine_ipp_version sampleConfig envAllVersions sampleUri (some sampleHttp)
        World.initial).2.sent = [probeRecord sampleUri 1 1] ∧
    (probeRecord sampleUri 1 1).version_major = 1 ∧
    (probeRecord sampleUri 1 1).version_minor = 1 := by
  have hv : negotiatedVersion (parse_IPPVersions (versionsResponse ["1.0", "1.1", "2.0"]))
      = some (2, 0) := by decide
  have h := probe_answered sampleConfig envAllVersions sampleUri 1 1 World.initial
    (versionsResponse ["1.0", "1.1", "2.0"]) IPP_OK rfl (by decide)
  rw [hv] at h
  simp only [determine_ipp_version, h, if_true]
  exact ⟨trivial, rfl, rfl, rfl⟩

/-- C7, amended: `determine_ipp_version` issues its probes in the order 1.1 first, then 1.0,
then 2.0. The log it writes is a block of sends at 1.1 (at least one), then a block at 1.0,
then a block at 2.0; the 1.0 block is empty exactly when the 1.1 probe returned `OK`, the
2.0 block is empty exactly when the 1.1 or the 1.0 probe returned `OK`, and the result is
`OK` exactly when one of the probes made returned `OK`. -/
theorem C7_probe_order (cfg : Config) (env : Env) (u : Uri) (http : http_t) (w : World) :
    ∃ a b c,
      (determine_ipp_version cfg env u (some http) w).2.sent =
        w.sent ++ (List.replicate (a + 1) (probeRecord u 1 1) ++
          (List.replicate b (probeRecord u 1 0) ++ List.replicate c (probeRecord u 2 0))) ∧
      (b = 0 ↔ (test_and_set_ipp_version cfg env u 1 1 w).1 = .OK) ∧
      (c = 0 ↔ ((test_and_set_ipp_version cfg env u 1 1 w).1 = .OK ∨
        (test_and_set_ipp_version cfg env u 1 0
          (test_and_set_ipp_version cfg env u 1 1 w).2).1 = .OK)) ∧
      ((determine_ipp_version cfg env u (some http) w).1 = .OK ↔
        ((test_and_set_ipp_version cfg env u 1 1 w).1 = .OK ∨
          (test_and_set_ipp_version cfg env u 1 0
            (test_and_set_ipp_version cfg env u 1 1 w).2).1 = .OK ∨
          (test_and_set_ipp_version cfg env u 2 0
            (test_and_set_ipp_version cfg env u 1 0
              (test_and_set_ipp_version cfg env u 1 1 w).2).2).1 = .OK)) := by
  obtain ⟨a, b, c, h1, h2, h3, -⟩ := determine_trace cfg env u http w
  refine ⟨a, b, c, h1, h2, h3, ?_⟩
  simp only [determine_ipp_version]
  split_ifs <;> simp_all

/-- The sample call under `envVersionRejected`, run for two rounds: the log. -/
theorem sample_rejected_log :
    (ipp_doCupsRequest sampleConfig envVersionRejected 2 (some sampleHttp) (some sampleRequest)
        (some "/ipp/print") (some sampleUri) World.initial).2.2.sent =
      [{ sender := .request, version_major := 2, version_minor := 0, resource := "/ipp/print",
         printer_uri := sampleUri },
       probeRecord sampleUri 1 1,
       { sender := .request, version_major := 2, version_minor := 0, resource := "/ipp/print",
         printer_uri := sampleUri }] := by
  have hv : negotiatedVersion (parse_IPPVersions (versionsResponse ["2.0"])) = some (2, 0) := by
    decide
  have hb1 : ipp_doCupsRequest_body sampleConfig envVersionRejected sampleHttp
      (DoCupsState.init sampleRequest "/ipp/print" sampleUri) World.initial =
      (.continue_
        { request := sampleRequest, http_resource := "/ipp/print", printer_uri := sampleUri,
          response := none, service_unavailable_retry_count := 0, bad_request_retry_count := 0,
          internal_error_retry_count := 0,
          ipp_version_supported := .IPP_VERSION_UNSUPPORTED },
        { ipp_version_major := 2, ipp_version_minor := 0, polls := 1,
          sent := [{ sender := .request, version_major := 2, version_minor := 0,
                     resource := "/ipp/print", printer_uri := sampleUri }] }) := by
    decide
  have hp := probe_answered sampleConfig envVersionRejected sampleUri 1 1
    { ipp_version_major := 2, ipp_version_minor := 0, polls := 1 + 1,
      sent := [{ sender := .request, version_major := 2, version_minor := 0,
                 resource := "/ipp/print", printer_uri := sampleUri }] }
    (versionsResponse ["2.0"]) IPP_OK rfl (by decide)
  rw [hv] at hp
  simp only at hp
  simp only [ipp_doCupsRequest, ipp_doCupsRequest_loop, hb1]
  simp only [ipp_doCupsRequest_body, wprintIsRunning, set_ipp_version, determine_ipp_version, hp]
  rfl

/-- The requests `set_ipp_version` sends are appended to the log and are all probes. -/
theorem set_ipp_version_log (cfg : Config) (env : Env) (op : Option ipp_t) (u : Uri)
    (http : Option http_t) (s : ipp_version_state) (w : World) :
    ∃ P, (set_ipp_version cfg env op u http s w).2.2.sent = w.sent ++ P ∧
      ∀ p ∈ P, p.sender = Sender.probe := by
  have hnil : ∃ P, w.sent = w.sent ++ P ∧ ∀ p ∈ P, p.sender = Sender.probe :=
    ⟨[], by simp, by simp⟩
  have hdet : ∃ P, (determine_ipp_version cfg env u http w).2.sent = w.sent ++ P ∧
      ∀ p ∈ P, p.sender = Sender.probe := by
    cases http with
    | none => exact hnil
    | some h =>
      obtain ⟨a, b, c, hs, -⟩ := determine_trace cfg env u h w
      refine ⟨_, hs, ?_⟩
      intro p hp
      simp only [List.mem_append, List.mem_replicate] at hp
      rcases hp with ⟨-, rfl⟩ | ⟨-, rfl⟩ | ⟨-, rfl⟩ <;> rfl
  cases op with
  | none => exact hnil
  | some o =>
    cases s
    · exact hnil
    · exact hnil
    · simp only [set_ipp_version]
      split_ifs <;> exact hdet

/-- What one round of `ipp_doCupsRequest` adds to the log: either probes only, and then the
call returns; or probes followed by the request itself. In the second case, if the version
state was unsupported, the response to the last probe selects the version stamped on the
request; and if the round ends with `continue`, the version state stays unsupported when it
was, and becomes unsupported when the request was answered by a response carrying
version-not-supported. -/
theorem doCups_body_summary (cfg : Config) (env : Env) (http : http_t) (st : DoCupsState)
    (w : World) :
    ((∃ r st1, (ipp_doCupsRequest_body cfg env http st w).1 = .return_ r st1) ∧
      ∃ P, (ipp_doCupsRequest_body cfg env http st w).2.sent = w.sent ++ P ∧
        ∀ p ∈ P, p.sender = Sender.probe) ∨
    (∃ P rec, (ipp_doCupsRequest_body cfg env http st w).2.sent = w.sent ++ P ++ [rec] ∧
      (∀ p ∈ P, p.sender = Sender.probe) ∧
      (st.ipp_version_supported = .IPP_VERSION_UNSUPPORTED →
        ∃ k resp, w.sent.length ≤ k ∧ k + 1 = (w.sent ++ P).length ∧
          (env.transport k).response = some resp ∧
          negotiatedVersion (parse_IPPVersions resp) =
            some (rec.version_major, rec.version_minor)) ∧
      ∀ st1, (ipp_doCupsRequest_body cfg env http st w).1 = .continue_ st1 →
        (st.ipp_version_supported = .IPP_VERSION_UNSUPPORTED →
          st1.ipp_version_supported = .IPP_VERSION_UNSUPPORTED) ∧
        (∀ resp, env.transport (w.sent ++ P).length =
            ⟨some resp, IPP_VERSION_NOT_SUPPORTED⟩ →
          st1.ipp_version_supported = .IPP_VERSION_UNSUPPORTED)) := by
  cases hrun : env.running w.polls with
  | false =>
    left
    rw [doCups_body_stopped cfg env http st w hrun]
    exact ⟨⟨_, _, rfl⟩, [], by simp, by simp⟩
  | true =>
    obtain ⟨P, hP, hprobe⟩ := set_ipp_version_log cfg env (some st.request) st.printer_uri
      (some http) st.ipp_version_supported (wprintIsRunning env w).2
    have hP2 : (roundStamp cfg env http st w).2.2.sent = w.sent ++ P := hP
    by_cases hset : (roundStamp cfg env http st w).1 = .OK
    · right
      refine ⟨P, stampedRecord st (roundStamp cfg env http st w).2.2, ?_, hprobe, ?_, ?_⟩
      · rw [doCups_body_sends cfg env http st w hrun hset, hP2]
      · intro hu
        have hd : (determine_ipp_version cfg env st.printer_uri (some http)
            (wprintIsRunning env w).2).1 = .OK := by
          simp only [roundStamp, hu, set_ipp_version] at hset
          split_ifs at hset with hd
          exact not_not.mp hd
        have hrs : (roundStamp cfg env http st w).2.2 =
            (determine_ipp_version cfg env st.printer_uri (some http)
              (wprintIsRunning env w).2).2 := by
          simp only [roundStamp, hu, set_ipp_version]
          split_ifs <;> rfl
        obtain ⟨k, resp, q1, q2, q3, q4⟩ := determine_ok cfg env st.printer_uri (some http)
          (wprintIsRunning env w).2 hd
        refine ⟨k, resp, q1, ?_, q3, ?_⟩
        · rw [← hP2, hrs]; exact q2
        · rw [hrs]; exact q4
      · intro st1 hst1
        obtain ⟨w1, hw1⟩ := set_ipp_version_ok cfg env _ _ _ _ _ hset
        have hlen : (w.sent ++ P).length = w1.sent.length := by
          have := hP2
          unfold roundStamp at this
          rw [hw1] at this
          rw [← this]
        have hrun1 : (wprintIsRunning env w).1 = true := hrun
        rw [hlen]
        unfold ipp_doCupsRequest_body at hst1
        simp only [hrun1, hw1, World.send, Bool.true_eq_false, if_false] at hst1
        split at hst1
        · rename_i hresp
          split_ifs at hst1 <;> simp only [DoCupsStep.continue_.injEq, reduceCtorEq] at hst1 <;>
            subst hst1 <;> exact ⟨fun h => h, fun resp h => by rw [h] at hresp; simp at hresp⟩
        · rename_i r hresp
          split_ifs at hst1 with c1 c2 c3 <;>
            simp only [DoCupsStep.continue_.injEq, reduceCtorEq] at hst1 <;>
            subst hst1
          · refine ⟨fun h => h, fun resp h => ?_⟩
            rw [h] at c1
            simp [IPP_VERSION_NOT_SUPPORTED, IPP_BAD_REQUEST] at c1
          · exact ⟨fun _ => rfl, fun _ _ => rfl⟩
    · left
      rw [doCups_body_stamp_fails cfg env http st w hrun hset]
      exact ⟨⟨_, _, rfl⟩, P, hP2, hprobe⟩

/-- The log only grows during `ipp_doCupsRequest`. -/
theorem doCups_loop_extends (cfg : Config) (env : Env) (http : http_t) :
    ∀ (fuel : Nat) (st : DoCupsState) (w : World),
      ∃ N, (ipp_doCupsRequest_loop cfg env http fuel st w).2.2.sent = w.sent ++ N := by
  intro fuel
  induction fuel with
  | zero => intro st w; exact ⟨[], by simp [ipp_doCupsRequest_loop]⟩
  | succ n ih =>
    intro st w
    have hb : ∃ N, (ipp_doCupsRequest_body cfg env http st w).2.sent = w.sent ++ N := by
      rcases doCups_body_summary cfg env http st w with ⟨-, P, hP, -⟩ | ⟨P, rec, hP, -⟩
      · exact ⟨P, hP⟩
      · exact ⟨P ++ [rec], by rw [hP, List.append_assoc]⟩
    obtain ⟨N, hN⟩ := hb
    rw [ipp_doCupsRequest_loop]
    split
    · rename_i st1 w1 heq
      rw [heq] at hN
      simp only at hN
      obtain ⟨N2, hN2⟩ := ih st1 w1
      exact ⟨N ++ N2, by rw [hN2, hN, List.append_assoc]⟩
    · rename_i r st1 w1 heq
      rw [heq] at hN
      exact ⟨N, hN⟩

/-- The invariant behind C8: in the log of an `ipp_doCupsRequest` loop, a request that is
sent while the version state is unsupported, or after a request of the same loop that was
answered by a response carrying version-not-supported, stands directly after a probe whose
response selects the version stamped on the request. -/
theorem doCups_loop_reresolved (cfg : Config) (env : Env) (http : http_t) :
    ∀ (fuel : Nat) (st : DoCupsState) (w : World) (j : Nat) (rj : SendRecord),
      w.sent.length ≤ j →
      (ipp_doCupsRequest_loop cfg env http fuel st w).2.2.sent[j]? = some rj →
      rj.sender = Sender.request →
      (st.ipp_version_supported = .IPP_VERSION_UNSUPPORTED ∨
        ∃ i ri resp, w.sent.length ≤ i ∧ i < j ∧
          (ipp_doCupsRequest_loop cfg env http fuel st w).2.2.sent[i]? = some ri ∧
          ri.sender = Sender.request ∧
          env.transport i = ⟨some resp, IPP_VERSION_NOT_SUPPORTED⟩) →
      ∃ p resp, 1 ≤ j ∧
        (ipp_doCupsRequest_loop cfg env http fuel st w).2.2.sent[j - 1]? = some p ∧
        p.sender = Sender.probe ∧
        (env.transport (j - 1)).response = some resp ∧
        negotiatedVersion (parse_IPPVersions resp) =
          some (rj.version_major, rj.version_minor) := by
  intro fuel
  induction fuel with
  | zero =>
    intro st w j rj hj hrj
    simp only [ipp_doCupsRequest_loop] at hrj
    rw [List.getElem?_eq_none (by omega)] at hrj
    exact absurd hrj (by simp)
  | succ n ih =>
    intro st w j rj hj hrj hsj hcause
    -- the log of the whole loop extends the log after the first round
    have hext : ∃ N, (ipp_doCupsRequest_loop cfg env http (n + 1) st w).2.2.sent =
        (ipp_doCupsRequest_body cfg env http st w).2.sent ++ N := by
      rw [ipp_doCupsRequest_loop]
      split
      · rename_i st1 w1 heq
        rw [heq]
        exact doCups_loop_extends cfg env http n st1 w1
      · rename_i r st1 w1 heq
        rw [heq]
        exact ⟨[], by simp⟩
    obtain ⟨N, hN⟩ := hext
    -- a probe in the part of the log written by this round is not a request
    have hprobe_not : ∀ (P : List SendRecord) (x : SendRecord) (a : Nat),
        (∀ p ∈ P, p.sender = Sender.probe) → P[a]? = some x → x.sender = Sender.request →
        False := by
      intro P x a hP hx hs
      have := hP x (List.getElem?_mem hx)
      rw [this] at hs
      exact absurd hs (by decide)
    rcases doCups_body_summary cfg env http st w with
      ⟨⟨r, st1, hret⟩, P, hP, hprobe⟩ | ⟨P, rec, hP, hprobe, hlast, hstep⟩
    · -- the round returns: everything new is a probe
      exfalso
      have hL : (ipp_doCupsRequest_loop cfg env http (n + 1) st w).2.2.sent = w.sent ++ P := by
        rw [ipp_doCupsRequest_loop]
        split
        · rename_i st2 w2 heq
          rw [heq] at hret
          simp at hret
        · rename_i r2 st2 w2 heq
          rw [heq] at hP
          exact hP
      rw [hL, List.getElem?_append_right hj] at hrj
      exact hprobe_not P rj _ hprobe hrj hsj
    · -- the round sends the request at position `(w.sent ++ P).length`
      have hL : (ipp_doCupsRequest_loop cfg env http (n + 1) st w).2.2.sent =
          (w.sent ++ P ++ [rec]) ++ N := by rw [hN, hP]
      have hnoreq : ∀ (a : Nat) (x : SendRecord), w.sent.length ≤ a → a < (w.sent ++ P).length →
          (ipp_doCupsRequest_loop cfg env http (n + 1) st w).2.2.sent[a]? = some x →
          x.sender = Sender.request → False := by
        intro a x ha1 ha2 hx hs
        rw [hL, List.append_assoc, List.getElem?_append_left ha2,
          List.getElem?_append_right ha1] at hx
        exact hprobe_not P x _ hprobe hx hs
      rcases Nat.lt_trichotomy j (w.sent ++ P).length with hlt | heq | hgt
      · exact absurd (hnoreq j rj hj hlt hrj hsj) id
      · -- the request of this round
        have hrec : rj = rec := by
          rw [hL, List.append_assoc, List.getElem?_append_right (by omega), heq] at hrj
          simpa using hrj.symm
        have hu : st.ipp_version_supported = .IPP_VERSION_UNSUPPORTED := by
          rcases hcause with hu | ⟨i, ri, resp, hi1, hi2, hri, hsi, -⟩
          · exact hu
          · exact absurd (hnoreq i ri hi1 (by omega) hri hsi) id
        obtain ⟨k, resp, q1, q2, q3, q4⟩ := hlast hu
        have hk : j - 1 = k := by omega
        have hkP : ∃ p, P[k - w.sent.length]? = some p := by
          have : k - w.sent.length < P.length := by
            simp only [List.length_append] at q2
            omega
          exact ⟨P[k - w.sent.length], by simp [this]⟩
        obtain ⟨p, hp⟩ := hkP
        refine ⟨p, resp, by omega, ?_, hprobe p (List.getElem?_mem hp), ?_, ?_⟩
        · rw [hk, hL, List.append_assoc, List.getElem?_append_left (by omega),
            List.getElem?_append_right q1]
          exact hp
        · rw [hk]; exact q3
        · rw [hrec]; exact q4
      · -- a request of a later round
        have hW1 : (ipp_doCupsRequest_body cfg env http st w).2.sent.length =
            (w.sent ++ P).length + 1 := by
          rw [hP]; simp [Nat.add_assoc]
        cases hb : ipp_doCupsRequest_body cfg env http st w with
        | mk step w1 =>
          rw [hb] at hW1 hstep
          simp only at hW1 hstep
          cases step with
          | return_ r st1 =>
            exfalso
            have hL2 : (ipp_doCupsRequest_loop cfg env http (n + 1) st w).2.2.sent
                = w1.sent := by
              rw [ipp_doCupsRequest_loop, hb]
            rw [hL2, List.getElem?_eq_none (by omega)] at hrj
            exact absurd hrj (by simp)
          | continue_ st1 =>
            have hL2 : ipp_doCupsRequest_loop cfg env http (n + 1) st w =
                ipp_doCupsRequest_loop cfg env http n st1 w1 := by
              rw [ipp_doCupsRequest_loop, hb]
            rw [hL2] at hrj hcause ⊢
            obtain ⟨hsticky, hrej⟩ := hstep st1 rfl
            refine ih st1 w1 j rj (by omega) hrj hsj ?_
            rcases hcause with hu | ⟨i, ri, resp, hi1, hi2, hri, hsi, hvi⟩
            · exact Or.inl (hsticky hu)
            · rcases Nat.lt_trichotomy i (w.sent ++ P).length with hilt | hieq | higt
              · rw [← hL2] at hri
                exact absurd (hnoreq i ri hi1 hilt hri hsi) id
              · exact Or.inl (hrej resp (by rw [← hieq]; exact hvi))
              · exact Or.inr ⟨i, ri, resp, by omega, hi2, hri, hsi, hvi⟩

/-! ## C8: the version stamped after a version-not-supported answer -/

/-- C8, as stated, fails: in the sample call the first attempt is stamped 2.0 and answered
with version-not-supported; the probe that follows is answered by a response listing 2.0,
and the next attempt of the same call is stamped 2.0 again. -/
theorem C8_counterexample :
    (ipp_doCupsRequest sampleConfig envVersionRejected 2 (some sampleHttp) (some sampleRequest)
        (some "/ipp/print") (some sampleUri) World.initial).2.2.sent.map
          (fun r => (r.sender, r.version_major, r.version_minor)) =
      [(Sender.request, 2, 0), (Sender.probe, 1, 1), (Sender.request, 2, 0)] ∧
    (envVersionRejected.transport 0).lastError = IPP_VERSION_NOT_SUPPORTED ∧
    (envVersionRejected.transport 0).response = some (versionsResponse []) := by
  rw [sample_rejected_log]
  exact ⟨rfl, rfl, rfl⟩

/-- C8, amended: within one `ipp_doCupsRequest` call, if the attempt logged at position `i`
is answered by a response carrying version-not-supported, then every later attempt of the
same call (logged at a position `j > i`) stands directly after a version probe and is
stamped with the version which that probe's response selects: the highest of 2.0, 1.1 and
1.0 flagged by `parse_IPPVersions`. Nothing excludes the rejected version. -/
theorem C8_restamp_after_rejection (cfg : Config) (env : Env) (http : http_t)
    (request : ipp_t) (http_resource : String) (printer_uri : Uri) (w : World) (fuel : Nat)
    (i j : Nat) (ri rj : SendRecord) (resp_i : ipp_t)
    (hi : w.sent.length ≤ i) (hij : i < j)
    (hri : (ipp_doCupsRequest cfg env fuel (some http) (some request) (some http_resource)
      (some printer_uri) w).2.2.sent[i]? = some ri)
    (hsi : ri.sender = Sender.request)
    (hvi : env.transport i = ⟨some resp_i, IPP_VERSION_NOT_SUPPORTED⟩)
    (hrj : (ipp_doCupsRequest cfg env fuel (some http) (some request) (some http_resource)
      (some printer_uri) w).2.2.sent[j]? = some rj)
    (hsj : rj.sender = Sender.request) :
    ∃ p resp, 1 ≤ j ∧
      (ipp_doCupsRequest cfg env fuel (some http) (some request) (some http_resource)
        (some printer_uri) w).2.2.sent[j - 1]? = some p ∧
      p.sender = Sender.probe ∧
      (env.transport (j - 1)).response = some resp ∧
      negotiatedVersion (parse_IPPVersions resp) =
        some (rj.version_major, rj.version_minor) := by
  simp only [ipp_doCupsRequest] at hri hrj ⊢
  exact doCups_loop_reresolved cfg env http fuel _ w j rj (by omega) hrj hsj
    (Or.inr ⟨i, ri, resp_i, hi, hij, hri, hsi, hvi⟩)

/-- C8, amended, instance: in the sample call the attempt at position 2 follows the probe at
position 1, whose response selects 2.0. -/
theorem C8_restamp_after_rejection_witness :
    ∃ p resp, 1 ≤ 2 ∧
      (ipp_doCupsRequest sampleConfig envVersionRejected 2 (some sampleHttp)
        (some sampleRequest) (some "/ipp/print") (some sampleUri)
        World.initial).2.2.sent[2 - 1]? = some p ∧
      p.sender = Sender.probe ∧
      (envVersionRejected.transport (2 - 1)).response = some resp ∧
      negotiatedVersion (parse_IPPVersions resp) = some (2, 0) :=
  C8_restamp_after_rejection sampleConfig envVersionRejected sampleHttp sampleRequest
    "/ipp/print" sampleUri World.initial 2 0 2
    { sender := .request, version_major := 2, version_minor := 0, resource := "/ipp/print",
      printer_uri := sampleUri }
    { sender := .request, version_major := 2, version_minor := 0, resource := "/ipp/print",
      printer_uri := sampleUri }
    (versionsResponse []) (by decide) (by decide)
    (by rw [sample_rejected_log]; rfl) rfl rfl
    (by rw [sample_rejected_log]; rfl) rfl

/-! ## C9: `tryNextResourceExtension` -/

/-- C9: `tryNextResourceExtension` returns 1 exactly when the resource of the URI equals
`resource_extensions_arr[k]` for some index `k` that is not the last one, and 0 otherwise.
When it returns 1 the URI keeps scheme, host and port and its resource becomes
`resource_extensions_arr[k+1]`; when it returns 0 the URI is unchanged. -/
theorem C9_tryNextResourceExtension (cfg : Config) (printer_uri : Uri) :
    ((tryNextResourceExtension cfg printer_uri).1 = 1 ∨
      (tryNextResourceExtension cfg printer_uri).1 = 0) ∧
    ((tryNextResourceExtension cfg printer_uri).1 = 1 ↔
      ∃ k, k + 1 < (resource_extensions_arr cfg).length ∧
        (resource_extensions_arr cfg)[k]? = some printer_uri.resource) ∧
    ((tryNextResourceExtension cfg printer_uri).1 = 1 →
      (tryNextResourceExtension cfg printer_uri).2.scheme = printer_uri.scheme ∧
      (tryNextResourceExtension cfg printer_uri).2.host = printer_uri.host ∧
      (tryNextResourceExtension cfg printer_uri).2.port = printer_uri.port ∧
      ∀ k, k + 1 < (resource_extensions_arr cfg).length →
        (resource_extensions_arr cfg)[k]? = some printer_uri.resource →
        (resource_extensions_arr cfg)[k + 1]? =
          some (tryNextResourceExtension cfg printer_uri).2.resource) ∧
    ((tryNextResourceExtension cfg printer_uri).1 = 0 →
      (tryNextResourceExtension cfg printer_uri).2 = printer_uri) := by
  by_cases h : cfg.DEFAULT_IPP_URI_RESOURCE = printer_uri.resource
  · have hi : resourceIndex cfg printer_uri.resource = 0 := by
      simp [resourceIndex, resource_extensions_arr, List.findIdx_cons, h]
    have ht : tryNextResourceExtension cfg printer_uri =
        (1, { scheme := printer_uri.scheme, username := none, host := printer_uri.host,
              port := printer_uri.port, resource := "/" }) := by
      simp [tryNextResourceExtension, hi, resource_extensions_arr]
    rw [ht]
    refine ⟨Or.inl rfl, ⟨fun _ => ⟨0, by simp [resource_extensions_arr], by
      simp [resource_extensions_arr, h]⟩, fun _ => rfl⟩, fun _ => ⟨rfl, rfl, rfl, ?_⟩, ?_⟩
    · intro k hk _
      have : k = 0 := by simp [resource_extensions_arr] at hk; omega
      subst this
      simp [resource_extensions_arr]
    · intro h0
      simp at h0
  · have hi : 1 ≤ resourceIndex cfg printer_uri.resource := by
      simp only [resourceIndex, resource_extensions_arr, List.findIdx_cons]
      have hb : (cfg.DEFAULT_IPP_URI_RESOURCE == printer_uri.resource) = false := by
        simpa using h
      rw [hb]
      simp
    have ht : tryNextResourceExtension cfg printer_uri = (0, printer_uri) := by
      unfold tryNextResourceExtension
      simp only [resource_extensions_arr, List.length_cons, List.length_nil] at hi ⊢
      rw [dif_pos (by simpa using hi)]
    rw [ht]
    refine ⟨Or.inr rfl, ⟨fun h1 => by simp at h1, ?_⟩, fun h1 => by simp at h1, fun _ => rfl⟩
    rintro ⟨k, hk, hk2⟩
    have : k = 0 := by simp [resource_extensions_arr] at hk; omega
    subst this
    simp [resource_extensions_arr] at hk2
    exact absurd hk2 h

/-- C9, instance: from the default path the sample URI advances to the path "/". -/
theorem C9_tryNextResourceExtension_witness :
    (tryNextResourceExtension sampleConfig sampleUri).2.scheme = "ipp" ∧
    (tryNextResourceExtension sampleConfig sampleUri).2.host = "printer.local" ∧
    (tryNextResourceExtension sampleConfig sampleUri).2.port = 631 ∧
    (resource_extensions_arr sampleConfig)[0 + 1]? =
      some (tryNextResourceExtension sampleConfig sampleUri).2.resource :=
  have h := (C9_tryNextResourceExtension sampleConfig sampleUri).2.2.1 (by decide)
  ⟨h.1, h.2.1, h.2.2.1, h.2.2.2 0 (by decide) (by decide)⟩

/-! ## C10: not-found in `get_JobStatus` -/

/-- When the default path differs from "/", a successful advance goes from candidate 0 to
candidate 1, and a failed one leaves the URI alone. -/
theorem tryNext_index (cfg : Config) (u : Uri) (hne : cfg.DEFAULT_IPP_URI_RESOURCE ≠ "/") :
    ((tryNextResourceExtension cfg u).1 ≠ 0 →
      resourceIndex cfg u.resource = 0 ∧
      (tryNextResourceExtension cfg u).2.resource = "/" ∧
      resourceIndex cfg (tryNextResourceExtension cfg u).2.resource = 1) ∧
    ((tryNextResourceExtension cfg u).1 = 0 → (tryNextResourceExtension cfg u).2 = u) := by
  have hb2 : (cfg.DEFAULT_IPP_URI_RESOURCE == "/") = false := by simpa using hne
  by_cases h : cfg.DEFAULT_IPP_URI_RESOURCE = u.resource
  · have hi : resourceIndex cfg u.resource = 0 := by
      simp [resourceIndex, resource_extensions_arr, List.findIdx_cons, h]
    have ht : tryNextResourceExtension cfg u =
        (1, { scheme := u.scheme, username := none, host := u.host,
              port := u.port, resource := "/" }) := by
      simp [tryNextResourceExtension, hi, resource_extensions_arr]
    rw [ht]
    refine ⟨fun _ => ⟨hi, rfl, ?_⟩, fun h0 => by simp at h0⟩
    simp [resourceIndex, resource_extensions_arr, List.findIdx_cons, hb2]
  · have hi : 1 ≤ resourceIndex cfg u.resource := by
      simp only [resourceIndex, resource_extensions_arr, List.findIdx_cons]
      have hb : (cfg.DEFAULT_IPP_URI_RESOURCE == u.resource) = false := by
        simpa using h
      rw [hb]
      simp
    have ht : tryNextResourceExtension cfg u = (0, u) := by
      unfold tryNextResourceExtension
      simp only [resource_extensions_arr, List.length_cons, List.length_nil] at hi ⊢
      rw [dif_pos (by simpa using hi)]
    rw [ht]
    exact ⟨fun h1 => by simp at h1, fun _ => rfl⟩

/-- One round of `get_JobStatus` in the resolved state whose send ends in not-found without
a response. -/
theorem jobStatus_body_not_found (cfg : Config) (env : Env) (http : Option http_t)
    (st : JobStatusState) (w : World)
    (hres : st.ipp_version_supported = .IPP_VERSION_RESOLVED)
    (hout : env.transport w.sent.length = ⟨none, IPP_NOT_FOUND⟩) :
    get_JobStatus_body cfg env http st w =
      (if (tryNextResourceExtension cfg st.printer_uri).1 ≠ 0 then
          JobStatusStep.continue_
            { st with ipp_status := IPP_NOT_FOUND,
                      printer_uri := (tryNextResourceExtension cfg st.printer_uri).2,
                      http_resource :=
                        getResourceFromURI (tryNextResourceExtension cfg st.printer_uri).2,
                      advances := st.advances + 1 }
        else
          JobStatusStep.break_
            { st with ipp_status := IPP_NOT_FOUND,
                      printer_uri := (tryNextResourceExtension cfg st.printer_uri).2 },
        { w with sent := w.sent ++
            [{ sender := .request, version_major := w.ipp_version_major,
               version_minor := w.ipp_version_minor, resource := st.http_resource,
               printer_uri := st.printer_uri }] }) := by
  simp only [get_JobStatus_body, hres, set_ipp_version, World.send, hout]
  simp [IPP_NOT_FOUND, IPP_INTERNAL_ERROR, IPP_SERVICE_UNAVAILABLE, IPP_BAD_REQUEST,
    jobRequestRecord, ippSetVersion]
  split_ifs <;> rfl

/-- The bookkeeping of one round of `get_JobStatus`: the count of advances and the path index
move together, and the index moves at most from 0 to 1. -/
theorem jobStatus_body_path (cfg : Config) (env : Env) (http : Option http_t)
    (st : JobStatusState) (w : World) (hne : cfg.DEFAULT_IPP_URI_RESOURCE ≠ "/") :
    (get_JobStatus_body cfg env http st w).1.state.advances + st.pathIndex cfg =
        st.advances + (get_JobStatus_body cfg env http st w).1.state.pathIndex cfg ∧
    st.pathIndex cfg ≤ (get_JobStatus_body cfg env http st w).1.state.pathIndex cfg ∧
    (get_JobStatus_body cfg env http st w).1.state.pathIndex cfg ≤ max (st.pathIndex cfg) 1 := by
  obtain ⟨hadv, hstay⟩ := tryNext_index cfg st.printer_uri hne
  by_cases ht : (tryNextResourceExtension cfg st.printer_uri).1 = 0
  · have hs := hstay ht
    unfold get_JobStatus_body
    simp only
    split
    · split <;> split_ifs <;>
        first
          | exact absurd ht (by assumption)
          | simp [JobStatusStep.state, JobStatusState.pathIndex, hs]
    · simp [JobStatusStep.state, JobStatusState.pathIndex]
  · obtain ⟨q1, q2, q3⟩ := hadv ht
    unfold get_JobStatus_body
    simp only
    split
    · split <;> split_ifs <;>
        first
          | exact absurd (not_not.mp (by assumption)) ht
          | simp [JobStatusStep.state, JobStatusState.pathIndex, q1, q3, Nat.add_assoc]
    · simp [JobStatusStep.state, JobStatusState.pathIndex]

theorem jobStatus_loop_path (cfg : Config) (env : Env) (http : Option http_t)
    (hne : cfg.DEFAULT_IPP_URI_RESOURCE ≠ "/") :
    ∀ (fuel : Nat) (st : JobStatusState) (w : World),
      (get_JobStatus_loop cfg env http fuel st w).2.1.advances + st.pathIndex cfg =
          st.advances + (get_JobStatus_loop cfg env http fuel st w).2.1.pathIndex cfg ∧
      st.pathIndex cfg ≤ (get_JobStatus_loop cfg env http fuel st w).2.1.pathIndex cfg ∧
      (get_JobStatus_loop cfg env http fuel st w).2.1.pathIndex cfg
        ≤ max (st.pathIndex cfg) 1 := by
  intro fuel
  induction fuel with
  | zero => intro st w; simp [get_JobStatus_loop]
  | succ n ih =>
    intro st w
    have hb := jobStatus_body_path cfg env http st w hne
    rw [get_JobStatus_loop]
    split
    · rename_i st1 w1 heq
      rw [heq] at hb
      exact hb
    · rename_i st1 w1 heq
      rw [heq] at hb
      simp only [JobStatusStep.state] at hb
      split_ifs
      · have := ih st1 w1
        omega
      · exact hb

/-- C10: in `get_JobStatus` (with `DEFAULT_IPP_URI_RESOURCE` different from "/", so that the
two candidates are distinct). First, starting from a URI on the default path, with both
retry limits positive and non-NULL out-pointers, if the first two sends both get no
response with last error not-found, the call makes exactly two send attempts (one per
candidate path) and returns `IPP_NOT_FOUND`. Second, for every script of outcomes and
every number of rounds run, the number of path advances of the call is at most the number
of candidates minus one, and from any point of the loop on the path index never decreases
and never moves past candidate 1 (no wrap-around). -/
theorem C10_not_found_path_exhaustion (cfg : Config) (env : Env) (http : Option http_t)
    (u : Uri) (w : World) (fuel : Nat) (st : JobStatusState)
    (job_state_dyn job_state : Option Unit)
    (hne : cfg.DEFAULT_IPP_URI_RESOURCE ≠ "/") :
    (u.resource = cfg.DEFAULT_IPP_URI_RESOURCE →
      0 < cfg.IPP_BAD_REQUEST_MAX_RETRIES → 0 < cfg.IPP_SERVICE_ERROR_MAX_RETRIES →
      env.transport w.sent.length = ⟨none, IPP_NOT_FOUND⟩ →
      env.transport (w.sent.length + 1) = ⟨none, IPP_NOT_FOUND⟩ →
      2 ≤ fuel →
      (get_JobStatus cfg env fuel http u (some ()) (some ()) w).1 = some IPP_NOT_FOUND ∧
      (get_JobStatus cfg env fuel http u (some ()) (some ()) w).2.2.sent =
        w.sent ++
          [{ sender := .request, version_major := w.ipp_version_major,
             version_minor := w.ipp_version_minor, resource := cfg.DEFAULT_IPP_URI_RESOURCE,
             printer_uri := u },
           { sender := .request, version_major := w.ipp_version_major,
             version_minor := w.ipp_version_minor, resource := "/",
             printer_uri := (tryNextResourceExtension cfg u).2 }]) ∧
    (get_JobStatus cfg env fuel http u job_state_dyn job_state w).2.1.advances ≤
      (resource_extensions_arr cfg).length - 1 ∧
    st.pathIndex cfg ≤ (get_JobStatus_loop cfg env http fuel st w).2.1.pathIndex cfg ∧
    (get_JobStatus_loop cfg env http fuel st w).2.1.pathIndex cfg ≤ max (st.pathIndex cfg) 1 ∧
    (get_JobStatus_loop cfg env http fuel st w).2.1.advances ≤ st.advances + 1 := by
  refine ⟨?_, ?_, (jobStatus_loop_path cfg env http hne fuel st w).2.1,
    (jobStatus_loop_path cfg env http hne fuel st w).2.2, ?_⟩
  · intro hres hbr hsu h0 h1 hfuel
    obtain ⟨f, rfl⟩ : ∃ f, fuel = f + 2 := ⟨fuel - 2, by omega⟩
    obtain ⟨hadv, hstay⟩ := tryNext_index cfg u hne
    have hi : resourceIndex cfg u.resource = 0 := by
      simp [resourceIndex, resource_extensions_arr, List.findIdx_cons, hres]
    have ht : tryNextResourceExtension cfg u =
        (1, { scheme := u.scheme, username := none, host := u.host,
              port := u.port, resource := "/" }) := by
      simp [tryNextResourceExtension, hi, resource_extensions_arr]
    have hb2 : (cfg.DEFAULT_IPP_URI_RESOURCE == "/") = false := by simpa using hne
    have hi2 : resourceIndex cfg "/" = 1 := by
      simp [resourceIndex, resource_extensions_arr, List.findIdx_cons, hb2]
    have ht2 : tryNextResourceExtension cfg
        { scheme := u.scheme, username := none, host := u.host, port := u.port,
          resource := "/" } =
        (0, { scheme := u.scheme, username := none, host := u.host, port := u.port,
              resource := "/" }) := by
      simp [tryNextResourceExtension, hi2, resource_extensions_arr]
    have hb1 := jobStatus_body_not_found cfg env http (JobStatusState.init u) w rfl h0
    have ht1 : tryNextResourceExtension cfg (JobStatusState.init u).printer_uri =
        (1, { scheme := u.scheme, username := none, host := u.host,
              port := u.port, resource := "/" }) := ht
    rw [ht1, if_pos (by simp)] at hb1
    obtain ⟨S1, W1, e1, p1, p2, p3, p4, p5, p6⟩ : ∃ S1 W1,
        get_JobStatus_body cfg env http (JobStatusState.init u) w = (.continue_ S1, W1) ∧
        S1.ipp_version_supported = .IPP_VERSION_RESOLVED ∧
        S1.printer_uri = { scheme := u.scheme, username := none, host := u.host,
                           port := u.port, resource := "/" } ∧
        S1.http_resource = "/" ∧ S1.bad_request_retry_count = 0 ∧
        S1.service_unavailable_retry_count = 0 ∧
        W1 = { w with sent := w.sent ++
            [{ sender := .request, version_major := w.ipp_version_major,
               version_minor := w.ipp_version_minor, resource := u.resource,
               printer_uri := u }] } :=
      ⟨_, _, hb1, rfl, rfl, rfl, rfl, rfl, rfl⟩
    have hb3 := jobStatus_body_not_found cfg env http S1 W1 p1 (by rw [p6]; simpa using h1)
    rw [p2, ht2, if_neg (by simp)] at hb3
    unfold get_JobStatus
    simp only [get_JobStatus_loop, e1, p4, p5, hbr, hsu, and_self, if_true, hb3]
    simp [p6, p3, hres, ht]
  · unfold get_JobStatus
    split
    · have := jobStatus_loop_path cfg env http hne fuel (JobStatusState.init u) w
      simp only [JobStatusState.init, resource_extensions_arr, List.length_cons,
        List.length_nil] at this ⊢
      omega
    · simp [JobStatusState.init]
  · have := jobStatus_loop_path cfg env http hne fuel st w
    omega

/-- C10, instance: the sample URI on the default path, two not-found outcomes, two sends. -/
theorem C10_not_found_path_exhaustion_witness :
    (get_JobStatus sampleConfig envNotFound 2 (some sampleHttp) sampleUri (some ()) (some ())
        World.initial).1 = some IPP_NOT_FOUND ∧
    (get_JobStatus sampleConfig envNotFound 2 (some sampleHttp) sampleUri (some ()) (some ())
        World.initial).2.2.sent.length = 2 := by
  have h := (C10_not_found_path_exhaustion sampleConfig envNotFound (some sampleHttp) sampleUri
    World.initial 2 (JobStatusState.init sampleUri) (some ()) (some ()) (by decide)).1
    rfl (by decide) (by decide) rfl rfl (le_refl _)
  refine ⟨h.1, ?_⟩
  rw [h.2]
  rfl

/-! ## Lemmas on searching a list by a key -/

/-- The first position whose key equals `k` is at most any position with that key. -/
theorem findIdx_key_le {α κ : Type} [DecidableEq κ] (key : α → κ) (l : List α) (k : κ)
    (i : Nat) (h : i < l.length) (hk : key (l.get ⟨i, h⟩) = k) :
    l.findIdx (fun e => key e == k) ≤ i := by
  by_contra hlt
  have := @List.not_of_lt_findIdx α (fun e => key e == k) l i (Nat.lt_of_not_le hlt)
  simp only [beq_eq_false_iff_ne, ne_eq] at this
  exact this hk

/-- The entry at the first position whose key equals `k` has key `k`. -/
theorem findIdx_key_get {α κ : Type} [DecidableEq κ] (key : α → κ) (l : List α) (k : κ)
    (h : l.findIdx (fun e => key e == k) < l.length) :
    key (l.get ⟨l.findIdx (fun e => key e == k), h⟩) = k := by
  have := @List.findIdx_getElem α (fun e => key e == k) l h
  simpa using this

/-- Keys are pairwise distinct exactly when searching for the key of any entry finds that
entry. -/
theorem nodup_keys_iff_findIdx {α κ : Type} [DecidableEq κ] (key : α → κ) (l : List α) :
    (l.map key).Nodup ↔
      ∀ i (h : i < l.length), l.findIdx (fun e => key e == key (l.get ⟨i, h⟩)) = i := by
  constructor
  · intro hn i h
    rw [List.findIdx_eq h]
    refine ⟨by simp, fun j hji => ?_⟩
    simp only [beq_eq_false_iff_ne, ne_eq, List.get_eq_getElem]
    intro heq
    have hj : j < (l.map key).length := by simp; omega
    have hi : i < (l.map key).length := by simp; omega
    have := (@List.Nodup.getElem_inj_iff κ (l.map key) hn j hj i hi).mp (by simpa using heq)
    omega
  · intro hf
    rw [List.nodup_iff_injective_get]
    intro a b hab
    have ha : a.1 < l.length := by simpa using a.2
    have hb : b.1 < l.length := by simpa using b.2
    have hab2 : key (l.get ⟨a.1, ha⟩) = key (l.get ⟨b.1, hb⟩) := by
      simpa using hab
    have h1 := hf a.1 ha
    have h2 := hf b.1 hb
    rw [hab2, h2] at h1
    exact Fin.ext h1.symm

/-! ## Lemmas on the media catalog -/

theorem SupportedMediaSizes_length (value : media_size_enumerator → media_size_t) :
    (SupportedMediaSizes value).length = 29 := rfl

theorem SupportedMediaSizes_keywords_nodup (value : media_size_enumerator → media_size_t) :
    ((SupportedMediaSizes value).map (fun e => e.PWGName)).Nodup := by
  simp only [SupportedMediaSizes, List.map]
  decide

theorem SupportedMediaSizes_dimens_nodup (value : media_size_enumerator → media_size_t) :
    ((SupportedMediaSizes value).map
      (fun e => (e.WidthInMicrometers / 10, e.HeightInMicrometers / 10))).Nodup := by
  simp only [SupportedMediaSizes, List.map]
  decide

/-- The identifiers of the table, in order, are the values of the 29 enumerators. -/
theorem SupportedMediaSizes_ids (value : media_size_enumerator → media_size_t) :
    (SupportedMediaSizes value).map (fun e => e.media_size) =
      [media_size_enumerator.US_LETTER, .US_LEGAL, .LEDGER, .INDEX_CARD_5X7, .ISO_A3, .ISO_A4,
       .ISO_A5, .JIS_B4, .JIS_B5, .US_GOVERNMENT_LETTER, .INDEX_CARD_4X6, .JPN_HAGAKI_PC,
       .PHOTO_89X119, .CARD_54X86, .OE_PHOTO_L, .ISO_AND_JIS_A0, .ISO_AND_JIS_A1,
       .ISO_AND_JIS_A2, .ARCH_A, .ARCH_B, .ARCH_C, .ARCH_D, .ARCH_E, .ARCH_E1, .C_SIZE,
       .D_SIZE, .E_SIZE, .F_SIZE, .SUPER_B].map value := rfl

theorem SupportedMediaSizes_ids_nodup (value : media_size_enumerator → media_size_t)
    (hinj : Function.Injective value) :
    ((SupportedMediaSizes value).map (fun e => e.media_size)).Nodup := by
  rw [SupportedMediaSizes_ids]
  exact List.Nodup.map hinj (by decide)

theorem sampleMediaValue_injective : Function.Injective sampleMediaValue := by
  intro a b h
  have h2 : a.toCtorIdx = b.toCtorIdx := by
    simp only [sampleMediaValue, add_left_inj] at h
    exact_mod_cast h
  cases a <;> cases b <;> first | rfl | exact absurd h2 (by decide)

/-- The searches of `ipp_find_media_size` and `getMediaSizeFromTag`, by position. -/
theorem ipp_find_media_size_eq (value : media_size_enumerator → media_size_t) (kw : String)
    (m0 : media_size_t) (i : Nat) (h : i < (SupportedMediaSizes value).length)
    (hi : (SupportedMediaSizes value).findIdx (fun e => e.PWGName == kw) = i) :
    ipp_find_media_size value kw m0 =
      ((i : Int), ((SupportedMediaSizes value).get ⟨i, h⟩).media_size) := by
  unfold ipp_find_media_size
  simp only [hi, h, dite_true]

theorem mapDFMediaToIPPKeyword_eq (value : media_size_enumerator → media_size_t)
    (m : media_size_t) (i : Nat) (h : i < (SupportedMediaSizes value).length)
    (hi : (SupportedMediaSizes value).findIdx (fun e => e.media_size == m) = i) :
    mapDFMediaToIPPKeyword value m = ((SupportedMediaSizes value).get ⟨i, h⟩).PWGName := by
  unfold mapDFMediaToIPPKeyword
  simp only [hi, h, dite_true]

/-! ## C11: keyword of an identifier and back -/

/-- C11: the PWG keywords of `SupportedMediaSizes` are pairwise distinct. The round trip
`ipp_find_media_size(mapDFMediaToIPPKeyword(SupportedMediaSizes[i].media_size))` returns
`i` and writes `SupportedMediaSizes[i].media_size` for every row `i` exactly when the
identifiers of the rows are pairwise distinct; and they are, so the round trip holds,
whenever distinct enumerators of `media_size_t` stand for distinct numbers. -/
theorem C11_media_round_trip (value : media_size_enumerator → media_size_t) :
    ((SupportedMediaSizes value).map (fun e => e.PWGName)).Nodup ∧
    ((∀ i (h : i < (SupportedMediaSizes value).length) (m0 : media_size_t),
        ipp_find_media_size value
          (mapDFMediaToIPPKeyword value ((SupportedMediaSizes value).get ⟨i, h⟩).media_size) m0
          = ((i : Int), ((SupportedMediaSizes value).get ⟨i, h⟩).media_size)) ↔
      ((SupportedMediaSizes value).map (fun e => e.media_size)).Nodup) ∧
    (Function.Injective value →
      ((SupportedMediaSizes value).map (fun e => e.media_size)).Nodup ∧
      ∀ i (h : i < (SupportedMediaSizes value).length) (m0 : media_size_t),
        ipp_find_media_size value
          (mapDFMediaToIPPKeyword value ((SupportedMediaSizes value).get ⟨i, h⟩).media_size) m0
          = ((i : Int), ((SupportedMediaSizes value).get ⟨i, h⟩).media_size)) := by
  have hkw := SupportedMediaSizes_keywords_nodup value
  have hkwf := (nodup_keys_iff_findIdx (fun e : MediaSizeTableElement => e.PWGName)
    (SupportedMediaSizes value)).mp hkw
  -- with distinct identifiers the two searches find row `i` itself
  have hback : ((SupportedMediaSizes value).map (fun e => e.media_size)).Nodup →
      ∀ i (h : i < (SupportedMediaSizes value).length) (m0 : media_size_t),
        ipp_find_media_size value
          (mapDFMediaToIPPKeyword value ((SupportedMediaSizes value).get ⟨i, h⟩).media_size) m0
          = ((i : Int), ((SupportedMediaSizes value).get ⟨i, h⟩).media_size) := by
    intro hid i h m0
    have hidf := (nodup_keys_iff_findIdx (fun e : MediaSizeTableElement => e.media_size)
      (SupportedMediaSizes value)).mp hid
    rw [mapDFMediaToIPPKeyword_eq value _ i h (hidf i h)]
    exact ipp_find_media_size_eq value _ m0 i h (hkwf i h)
  refine ⟨hkw, ⟨fun hrt => ?_, hback⟩, fun hinj =>
    ⟨SupportedMediaSizes_ids_nodup value hinj,
      hback (SupportedMediaSizes_ids_nodup value hinj)⟩⟩
  -- the round trip at every row forces the identifier search to find the row itself
  rw [nodup_keys_iff_findIdx]
  intro i h
  have hle : (SupportedMediaSizes value).findIdx
      (fun e => e.media_size == ((SupportedMediaSizes value).get ⟨i, h⟩).media_size) ≤ i :=
    findIdx_key_le (fun e : MediaSizeTableElement => e.media_size)
      (SupportedMediaSizes value) _ i h rfl
  have hlt : (SupportedMediaSizes value).findIdx
      (fun e => e.media_size == ((SupportedMediaSizes value).get ⟨i, h⟩).media_size)
        < (SupportedMediaSizes value).length := by omega
  have h1 := hrt i h 0
  rw [mapDFMediaToIPPKeyword_eq value _ _ hlt rfl,
    ipp_find_media_size_eq value _ 0 _ hlt (hkwf _ hlt)] at h1
  have h2 := congrArg Prod.fst h1
  simp only at h2
  exact_mod_cast h2

/-- C11, instance: with the sample numbering, the round trip for row 5 (A4). -/
theorem C11_media_round_trip_witness :
    ipp_find_media_size sampleMediaValue
        (mapDFMediaToIPPKeyword sampleMediaValue (sampleMediaValue .ISO_A4)) 0
      = (5, sampleMediaValue .ISO_A4) :=
  ((C11_media_round_trip sampleMediaValue).2.2 sampleMediaValue_injective).2 5 (by decide) 0

/-! ## C12: the keyword of an unknown identifier -/

/-- C12: for a `media_size` value that is the identifier of no row of `SupportedMediaSizes`,
`mapDFMediaToIPPKeyword` returns the keyword of row 0, "na_letter_8.5x11in". -/
theorem C12_unknown_media_keyword (value : media_size_enumerator → media_size_t)
    (media_size : media_size_t)
    (h : ∀ e ∈ SupportedMediaSizes value, e.media_size ≠ media_size) :
    mapDFMediaToIPPKeyword value media_size = "na_letter_8.5x11in" ∧
    mapDFMediaToIPPKeyword value media_size =
      ((SupportedMediaSizes value).get ⟨0, by simp [SupportedMediaSizes]⟩).PWGName := by
  have hlen : (SupportedMediaSizes value).findIdx (fun e => e.media_size == media_size)
      = (SupportedMediaSizes value).length := by
    rw [List.findIdx_eq_length]
    intro e he
    simpa using h e he
  unfold mapDFMediaToIPPKeyword
  simp only [hlen, lt_self_iff_false, dite_false]
  exact ⟨rfl, trivial⟩

/-- C12, instance: the number 1000 is no identifier in the sample numbering. -/
theorem C12_unknown_media_keyword_witness :
    mapDFMediaToIPPKeyword sampleMediaValue 1000 = "na_letter_8.5x11in" :=
  (C12_unknown_media_keyword sampleMediaValue 1000 (by decide)).1

/-! ## C13: lookup by dimensions -/

/-- C13: `getMediaSizeNameFromDimens(w, h)` returns `i` exactly when row `i` has
`WidthInMicrometers / 10 = w` and `HeightInMicrometers / 10 = h` (equality, no tolerance),
and then writes the identifier of row `i`; it returns -1, writing nothing, exactly when no
row has both dimensions. No two rows share a dimension pair, so looking up the dimensions
of row `i` returns `i`. -/
theorem C13_lookup_by_dimensions (value : media_size_enumerator → media_size_t)
    (w h : Nat) (m0 : media_size_t) :
    (∀ i (hi : i < (SupportedMediaSizes value).length),
      (getMediaSizeNameFromDimens value w h m0).1 = (i : Int) ↔
        (((SupportedMediaSizes value).get ⟨i, hi⟩).WidthInMicrometers / 10 = w ∧
         ((SupportedMediaSizes value).get ⟨i, hi⟩).HeightInMicrometers / 10 = h)) ∧
    (∀ i (hi : i < (SupportedMediaSizes value).length),
      (getMediaSizeNameFromDimens value w h m0).1 = (i : Int) →
        (getMediaSizeNameFromDimens value w h m0).2 =
          ((SupportedMediaSizes value).get ⟨i, hi⟩).media_size) ∧
    ((getMediaSizeNameFromDimens value w h m0).1 = -1 ↔
      ∀ e ∈ SupportedMediaSizes value,
        ¬(e.WidthInMicrometers / 10 = w ∧ e.HeightInMicrometers / 10 = h)) ∧
    ((getMediaSizeNameFromDimens value w h m0).1 = -1 →
      (getMediaSizeNameFromDimens value w h m0).2 = m0) ∧
    ((SupportedMediaSizes value).map
      (fun e => (e.WidthInMicrometers / 10, e.HeightInMicrometers / 10))).Nodup ∧
    (∀ i (hi : i < (SupportedMediaSizes value).length),
      getMediaSizeNameFromDimens value
          (((SupportedMediaSizes value).get ⟨i, hi⟩).WidthInMicrometers / 10)
          (((SupportedMediaSizes value).get ⟨i, hi⟩).HeightInMicrometers / 10) m0 =
        ((i : Int), ((SupportedMediaSizes value).get ⟨i, hi⟩).media_size)) := by
  have hnd := SupportedMediaSizes_dimens_nodup value
  have hndf := (nodup_keys_iff_findIdx
    (fun e : MediaSizeTableElement => (e.WidthInMicrometers / 10, e.HeightInMicrometers / 10))
    (SupportedMediaSizes value)).mp hnd
  -- the search of the function is the search for the pair as a key
  have hp : ∀ a b : Nat,
      (fun e : MediaSizeTableElement =>
        e.WidthInMicrometers / 10 == a && e.HeightInMicrometers / 10 == b) =
      (fun e : MediaSizeTableElement => @BEq.beq (Nat × Nat) instBEqOfDecidableEq
        (e.WidthInMicrometers / 10, e.HeightInMicrometers / 10) (a, b)) := by
    intro a b
    funext e
    rw [Bool.eq_iff_iff]
    simp only [Bool.and_eq_true, beq_iff_eq]
    show _ ↔ decide ((e.WidthInMicrometers / 10, e.HeightInMicrometers / 10) = (a, b)) = true
    rw [decide_eq_true_iff, Prod.mk.injEq]
  have hself : ∀ i (hi : i < (SupportedMediaSizes value).length) (m : media_size_t),
      getMediaSizeNameFromDimens value
          (((SupportedMediaSizes value).get ⟨i, hi⟩).WidthInMicrometers / 10)
          (((SupportedMediaSizes value).get ⟨i, hi⟩).HeightInMicrometers / 10) m =
        ((i : Int), ((SupportedMediaSizes value).get ⟨i, hi⟩).media_size) := by
    intro i hi m
    have hidx : (SupportedMediaSizes value).findIdx (fun e =>
        e.WidthInMicrometers / 10 ==
            ((SupportedMediaSizes value).get ⟨i, hi⟩).WidthInMicrometers / 10 &&
          e.HeightInMicrometers / 10 ==
            ((SupportedMediaSizes value).get ⟨i, hi⟩).HeightInMicrometers / 10) = i := by
      rw [hp]
      exact hndf i hi
    unfold getMediaSizeNameFromDimens
    simp only [hidx, hi, dite_true]
  by_cases hfound : (SupportedMediaSizes value).findIdx (fun e =>
      e.WidthInMicrometers / 10 == w && e.HeightInMicrometers / 10 == h)
        < (SupportedMediaSizes value).length
  · -- some row matches: let `k` be the first one
    have hk := @List.findIdx_getElem _ _ _ hfound
    simp only [Bool.and_eq_true, beq_iff_eq] at hk
    have hval : getMediaSizeNameFromDimens value w h m0 =
        ((((SupportedMediaSizes value).findIdx (fun e =>
            e.WidthInMicrometers / 10 == w && e.HeightInMicrometers / 10 == h) : Nat) : Int),
          ((SupportedMediaSizes value).get ⟨_, hfound⟩).media_size) := by
      unfold getMediaSizeNameFromDimens
      simp only [hfound, dite_true]
    have huniq : ∀ i (hi : i < (SupportedMediaSizes value).length),
        (((SupportedMediaSizes value).get ⟨i, hi⟩).WidthInMicrometers / 10 = w ∧
         ((SupportedMediaSizes value).get ⟨i, hi⟩).HeightInMicrometers / 10 = h) →
        (SupportedMediaSizes value).findIdx (fun e =>
          e.WidthInMicrometers / 10 == w && e.HeightInMicrometers / 10 == h) = i := by
      intro i hi ⟨h1, h2⟩
      have := hndf i hi
      simp only [h1, h2] at this
      rw [hp]
      exact this
    refine ⟨fun i hi => ⟨fun h1 => ?_, fun h1 => ?_⟩, fun i hi h1 => ?_, ⟨fun h1 => ?_, fun h1 => ?_⟩,
      fun h1 => ?_, hnd, fun i hi => hself i hi m0⟩
    · rw [hval] at h1
      simp only at h1
      have h2 : (SupportedMediaSizes value).findIdx (fun e =>
          e.WidthInMicrometers / 10 == w && e.HeightInMicrometers / 10 == h) = i := by
        exact_mod_cast h1
      subst h2
      exact hk
    · rw [hval]
      simp only
      exact_mod_cast huniq i hi h1
    · rw [hval] at h1 ⊢
      simp only at h1 ⊢
      have h2 : (SupportedMediaSizes value).findIdx (fun e =>
          e.WidthInMicrometers / 10 == w && e.HeightInMicrometers / 10 == h) = i := by
        exact_mod_cast h1
      subst h2
      rfl
    · rw [hval] at h1
      simp only at h1
      omega
    · exact absurd hk (h1 _ (List.getElem_mem _))
    · rw [hval] at h1
      simp only at h1
      omega
  · -- no row matches
    have hval : getMediaSizeNameFromDimens value w h m0 = (-1, m0) := by
      unfold getMediaSizeNameFromDimens
      simp only [hfound, dite_false]
    have hnone : ∀ e ∈ SupportedMediaSizes value,
        ¬(e.WidthInMicrometers / 10 = w ∧ e.HeightInMicrometers / 10 = h) := by
      have := hfound
      rw [List.findIdx_lt_length] at this
      intro e he hc
      exact this ⟨e, he, by simpa using hc⟩
    refine ⟨fun i hi => ⟨fun h1 => ?_, fun h1 => ?_⟩, fun i hi h1 => ?_, ⟨fun _ => hnone, fun _ => ?_⟩,
      fun _ => ?_, hnd, fun i hi => hself i hi m0⟩
    · rw [hval] at h1
      simp only at h1
      omega
    · exact absurd h1 (hnone _ (List.getElem_mem _))
    · rw [hval] at h1
      simp only at h1
      omega
    · rw [hval]
    · rw [hval]

/-- C13, instance: 21590 x 27940 is row 0 (letter); 21590 x 27941 is no row. -/
theorem C13_lookup_by_dimensions_witness :
    (getMediaSizeNameFromDimens sampleMediaValue 21590 27940 0).2 = sampleMediaValue .US_LETTER ∧
    (getMediaSizeNameFromDimens sampleMediaValue 21590 27941 0).2 = 0 :=
  ⟨(C13_lookup_by_dimensions sampleMediaValue 21590 27940 0).2.1 0 (by decide) (by decide),
   (C13_lookup_by_dimensions sampleMediaValue 21590 27941 0).2.2.2.1 (by decide)⟩

/-! ## C14: sizes that fit on a roll -/

theorem addMediaIfNotDuplicate_new (idx : Nat) (ms : media_supported_t) (m : media_size_t)
    (h : (idx : Int) ∉ ms.idxKeywordTranTable) :
    addMediaIfNotDuplicate (idx : Int) ms m =
      { media_size := ms.media_size ++ [m],
        idxKeywordTranTable := ms.idxKeywordTranTable ++ [(idx : Int)] } := by
  unfold addMediaIfNotDuplicate
  have h1 : ((idx : Int) ≥ 0) := Int.ofNat_nonneg idx
  have h2 : ms.idxKeywordTranTable.any (fun x => x == (idx : Int)) = false := by
    rw [Bool.eq_false_iff]
    intro hc
    rw [List.any_eq_true] at hc
    obtain ⟨x, hx, hxe⟩ := hc
    rw [beq_iff_eq] at hxe
    exact h (hxe ▸ hx)
  simp only [h1, if_true, h2, Bool.not_false]

theorem addMediaIfNotDuplicate_old (idx : Int) (ms : media_supported_t) (m : media_size_t)
    (h : idx ∈ ms.idxKeywordTranTable) :
    addMediaIfNotDuplicate idx ms m = ms := by
  unfold addMediaIfNotDuplicate
  have h2 : ms.idxKeywordTranTable.any (fun x => x == idx) = true := by
    rw [List.any_eq_true]
    exact ⟨idx, h, by simp⟩
  simp only [h2, Bool.not_true, Bool.false_eq_true, if_false, ite_self]

theorem enumFrom_fst_ge {α : Type} (l : List α) (n : Nat) (ie : Nat × α)
    (h : ie ∈ l.enumFrom n) : n ≤ ie.1 := by
  induction l generalizing n with
  | nil => simp at h
  | cons a l ih =>
    simp only [List.enumFrom_cons, List.mem_cons] at h
    rcases h with h | h
    · subst h
      exact le_refl _
    · exact le_trans (Nat.le_succ n) (ih (n + 1) h)

theorem addRollSupportedSizes_fold (width minHeight maxHeight : Nat) :
    ∀ (l : List MediaSizeTableElement) (n : Nat) (ms : media_supported_t),
      ((l.enumFrom n).foldl (addRollSupportedSizes_step width minHeight maxHeight)
          ms).idxKeywordTranTable =
        ms.idxKeywordTranTable ++
          (((l.enumFrom n).filter (fitsOnRoll width minHeight maxHeight)).filter
            (fun ie => decide ((ie.1 : Int) ∉ ms.idxKeywordTranTable))).map
              (fun ie => (ie.1 : Int)) ∧
      ((l.enumFrom n).foldl (addRollSupportedSizes_step width minHeight maxHeight)
          ms).media_size =
        ms.media_size ++
          (((l.enumFrom n).filter (fitsOnRoll width minHeight maxHeight)).filter
            (fun ie => decide ((ie.1 : Int) ∉ ms.idxKeywordTranTable))).map
              (fun ie => ie.2.media_size) := by
  intro l
  induction l with
  | nil => intro n ms; simp
  | cons e l ih =>
    intro n ms
    simp only [List.enumFrom_cons, List.foldl_cons]
    by_cases hfit : e.WidthInMicrometers / 10 ≤ width ∧ e.HeightInMicrometers / 10 ≥ minHeight ∧
        e.HeightInMicrometers / 10 ≤ maxHeight
    · have hf : fitsOnRoll width minHeight maxHeight (n, e) = true := by
        simp only [fitsOnRoll, decide_eq_true_eq]
        exact hfit
      by_cases hin : (n : Int) ∈ ms.idxKeywordTranTable
      · have hstep : addRollSupportedSizes_step width minHeight maxHeight ms (n, e) = ms := by
          simp only [addRollSupportedSizes_step, hfit, and_self, if_true]
          exact addMediaIfNotDuplicate_old _ ms _ hin
        rw [hstep, List.filter_cons_of_pos hf, List.filter_cons_of_neg (by simpa using hin)]
        exact ih (n + 1) ms
      · have hstep : addRollSupportedSizes_step width minHeight maxHeight ms (n, e) =
            { media_size := ms.media_size ++ [e.media_size],
              idxKeywordTranTable := ms.idxKeywordTranTable ++ [(n : Int)] } := by
          simp only [addRollSupportedSizes_step, hfit, and_self, if_true]
          exact addMediaIfNotDuplicate_new n ms _ hin
        rw [hstep, List.filter_cons_of_pos hf, List.filter_cons_of_pos (by simpa using hin)]
        have hcongr : List.filter (fun ie : Nat × MediaSizeTableElement =>
              decide ((ie.1 : Int) ∉ ms.idxKeywordTranTable ++ [(n : Int)]))
              (List.filter (fitsOnRoll width minHeight maxHeight) (l.enumFrom (n + 1))) =
            List.filter (fun ie : Nat × MediaSizeTableElement =>
              decide ((ie.1 : Int) ∉ ms.idxKeywordTranTable))
              (List.filter (fitsOnRoll width minHeight maxHeight) (l.enumFrom (n + 1))) := by
          apply List.filter_congr
          intro ie hie
          have hge := enumFrom_fst_ge l (n + 1) ie (List.mem_of_mem_filter hie)
          have hne : (ie.1 : Int) ≠ (n : Int) := by omega
          simp [hne]
        have := ih (n + 1) (media_supported_t.mk (ms.media_size ++ [e.media_size])
          (ms.idxKeywordTranTable ++ [(n : Int)]))
        simp only [hcongr] at this
        simp only [this, List.map_cons, List.append_assoc, List.singleton_append, and_self]
    · have hf : fitsOnRoll width minHeight maxHeight (n, e) = false := by
        simp only [fitsOnRoll, decide_eq_false_iff_not]
        exact hfit
      have hstep : addRollSupportedSizes_step width minHeight maxHeight ms (n, e) = ms := by
        simp only [addRollSupportedSizes_step, hfit, if_false]
      rw [hstep, List.filter_cons_of_neg (by simp [hf])]
      exact ih (n + 1) ms

theorem rollFit_indices_sublist (value : media_size_enumerator → media_size_t)
    (width minHeight maxHeight : Nat) :
    ((rollFit value width minHeight maxHeight).map (fun ie => ie.1)).Sublist
      (List.range (SupportedMediaSizes value).length) := by
  have h : (rollFit value width minHeight maxHeight).Sublist (SupportedMediaSizes value).enum :=
    List.filter_sublist _
  have h2 := h.map (fun ie : Nat × MediaSizeTableElement => ie.1)
  have h3 : (SupportedMediaSizes value).enum.map (fun ie => ie.1) =
      List.range (SupportedMediaSizes value).length := List.enum_map_fst _
  rw [h3] at h2
  exact h2

theorem rollFit_mem (value : media_size_enumerator → media_size_t)
    (width minHeight maxHeight : Nat) (i : Nat) (e : MediaSizeTableElement) :
    (i, e) ∈ rollFit value width minHeight maxHeight ↔
      (SupportedMediaSizes value)[i]? = some e ∧
        (e.WidthInMicrometers / 10 ≤ width ∧ e.HeightInMicrometers / 10 ≥ minHeight ∧
          e.HeightInMicrometers / 10 ≤ maxHeight) := by
  unfold rollFit
  rw [List.mem_filter, List.mk_mem_enum_iff_getElem?]
  simp only [fitsOnRoll, decide_eq_true_eq]

/-- C14: `addRollSupportedSizes` on an empty list stores exactly the numbers of the rows with
`WidthInMicrometers / 10 <= width` and
`minHeight <= HeightInMicrometers / 10 <= maxHeight`, each once and in ascending order,
together with the identifiers of these rows; on any list it appends, in the same order, those
of these rows whose number is not stored yet, and a list without repetition stays so. -/
theorem C14_roll_supported_sizes (value : media_size_enumerator → media_size_t)
    (width minHeight maxHeight : Nat) :
    (addRollSupportedSizes value width minHeight maxHeight ⟨[], []⟩).idxKeywordTranTable =
      (rollFit value width minHeight maxHeight).map (fun ie => (ie.1 : Int)) ∧
    (addRollSupportedSizes value width minHeight maxHeight ⟨[], []⟩).media_size =
      (rollFit value width minHeight maxHeight).map (fun ie => ie.2.media_size) ∧
    (∀ i : Nat, i ∈ (rollFit value width minHeight maxHeight).map (fun ie => ie.1) ↔
      ∃ h : i < (SupportedMediaSizes value).length,
        ((SupportedMediaSizes value).get ⟨i, h⟩).WidthInMicrometers / 10 ≤ width ∧
        minHeight ≤ ((SupportedMediaSizes value).get ⟨i, h⟩).HeightInMicrometers / 10 ∧
        ((SupportedMediaSizes value).get ⟨i, h⟩).HeightInMicrometers / 10 ≤ maxHeight) ∧
    (∀ ie ∈ rollFit value width minHeight maxHeight,
      (SupportedMediaSizes value)[ie.1]? = some ie.2) ∧
    ((rollFit value width minHeight maxHeight).map (fun ie => ie.1)).Pairwise (· < ·) ∧
    (∀ ms : media_supported_t,
      (addRollSupportedSizes value width minHeight maxHeight ms).idxKeywordTranTable =
        ms.idxKeywordTranTable ++
          ((rollFit value width minHeight maxHeight).filter
            (fun ie => decide ((ie.1 : Int) ∉ ms.idxKeywordTranTable))).map
              (fun ie => (ie.1 : Int)) ∧
      (addRollSupportedSizes value width minHeight maxHeight ms).media_size =
        ms.media_size ++
          ((rollFit value width minHeight maxHeight).filter
            (fun ie => decide ((ie.1 : Int) ∉ ms.idxKeywordTranTable))).map
              (fun ie => ie.2.media_size)) ∧
    (∀ ms : media_supported_t, ms.idxKeywordTranTable.Nodup →
      (addRollSupportedSizes value width minHeight maxHeight ms).idxKeywordTranTable.Nodup) := by
  have hgen : ∀ ms : media_supported_t,
      (addRollSupportedSizes value width minHeight maxHeight ms).idxKeywordTranTable =
        ms.idxKeywordTranTable ++
          ((rollFit value width minHeight maxHeight).filter
            (fun ie => decide ((ie.1 : Int) ∉ ms.idxKeywordTranTable))).map
              (fun ie => (ie.1 : Int)) ∧
      (addRollSupportedSizes value width minHeight maxHeight ms).media_size =
        ms.media_size ++
          ((rollFit value width minHeight maxHeight).filter
            (fun ie => decide ((ie.1 : Int) ∉ ms.idxKeywordTranTable))).map
              (fun ie => ie.2.media_size) := fun ms =>
    addRollSupportedSizes_fold width minHeight maxHeight (SupportedMediaSizes value) 0 ms
  have hasc : ((rollFit value width minHeight maxHeight).map (fun ie => ie.1)).Pairwise
      (· < ·) :=
    List.Pairwise.sublist (rollFit_indices_sublist value width minHeight maxHeight)
      (List.pairwise_lt_range _)
  refine ⟨?_, ?_, ?_, ?_, hasc, hgen, ?_⟩
  · have := (hgen ⟨[], []⟩).1
    simpa using this
  · have := (hgen ⟨[], []⟩).2
    simpa using this
  · intro i
    rw [List.mem_map]
    constructor
    · rintro ⟨⟨j, e⟩, hmem, rfl⟩
      rw [rollFit_mem] at hmem
      obtain ⟨hget, hfit⟩ := hmem
      obtain ⟨hj, he⟩ := List.getElem?_eq_some_iff.mp hget
      refine ⟨hj, ?_⟩
      have : (SupportedMediaSizes value).get ⟨j, hj⟩ = e := he
      rw [this]
      exact hfit
    · rintro ⟨hi, hfit⟩
      refine ⟨(i, (SupportedMediaSizes value).get ⟨i, hi⟩), ?_, rfl⟩
      rw [rollFit_mem]
      exact ⟨List.getElem?_eq_getElem hi, hfit⟩
  · rintro ⟨j, e⟩ hmem
    exact ((rollFit_mem value width minHeight maxHeight j e).mp hmem).1
  · intro ms hnd
    rw [(hgen ms).1]
    rw [List.nodup_append]
    refine ⟨hnd, ?_, ?_⟩
    · have hinj : Function.Injective (fun n : Nat => (n : Int)) := fun a b h => by
        simp only at h
        exact_mod_cast h
      have h1 : ((rollFit value width minHeight maxHeight).map (fun ie => ie.1)).Nodup :=
        hasc.imp (fun h => Nat.ne_of_lt h)
      have h2 : ((rollFit value width minHeight maxHeight).filter
          (fun ie => decide ((ie.1 : Int) ∉ ms.idxKeywordTranTable))).Sublist
            (rollFit value width minHeight maxHeight) := List.filter_sublist _
      have h3 := (h2.map (fun ie : Nat × MediaSizeTableElement => ie.1)).nodup h1
      have h4 := h3.map hinj
      rw [List.map_map] at h4
      exact h4
    · intro x hx hx2
      rw [List.mem_map] at hx2
      obtain ⟨ie, hie, rfl⟩ := hx2
      have := (List.mem_filter.mp hie).2
      simp only [decide_eq_true_eq] at this
      exact this hx

/-- C14, instance: for width 2160, heights 1000 to 20000, no row fits (the narrowest row is
5400 wide), so the empty list stays empty; for width 21590, heights 10000 to 30000, ten rows
fit. -/
theorem C14_roll_supported_sizes_witness :
    (addRollSupportedSizes sampleMediaValue 2160 1000 20000 ⟨[], []⟩).idxKeywordTranTable = [] ∧
    (addRollSupportedSizes sampleMediaValue 21590 10000 30000 ⟨[], []⟩).idxKeywordTranTable =
      [0, 3, 5, 6, 8, 9, 10, 11, 12, 14] :=
  ⟨(C14_roll_supported_sizes sampleMediaValue 2160 1000 20000).1.trans (by decide),
   (C14_roll_supported_sizes sampleMediaValue 21590 10000 30000).1.trans (by decide)⟩

/-! ## Lemmas on the chain of prefix tests -/

theorem find_bind_cons {α β : Type} (p : α → Bool) (f : α → Option β) (a : α) (l : List α) :
    ((a :: l).find? p).bind f = if p a = true then f a else (l.find? p).bind f := by
  cases h : p a <;> simp [List.find?_cons, h]

theorem get_PrinterStateReason_code_eq_find (t : StateReasonTokens) (st : ipp_pstate_t)
    (s : String) :
    get_PrinterStateReason_code t st s =
      ((knownStateReasonTokens t st).find? (fun p => p.1.data.isPrefixOf s.data)).bind
        (fun p => p.2) := by
  unfold get_PrinterStateReason_code knownStateReasonTokens startsWithToken
  simp only [find_bind_cons, List.find?_nil, Option.none_bind]

/-- Two lists that are prefixes of one list: one is a prefix of the other. -/
theorem isPrefixOf_common {a b s : List Char} (ha : a.isPrefixOf s = true)
    (hb : b.isPrefixOf s = true) : a.isPrefixOf b = true ∨ b.isPrefixOf a = true := by
  rw [List.isPrefixOf_iff_prefix] at ha hb
  rcases List.prefix_or_prefix_of_prefix ha hb with h | h
  · exact Or.inl (List.isPrefixOf_iff_prefix.mpr h)
  · exact Or.inr (List.isPrefixOf_iff_prefix.mpr h)

/-- In a table whose keys are prefix-free, an entry whose key is a prefix of `s` is the one
the search for a prefix of `s` finds, and it is the only entry the filter keeps. -/
theorem prefixFree_find {β : Type} (s : List Char) :
    ∀ (l : List (String × β)),
      (l.map (fun p => p.1)).Pairwise
        (fun a b => a.data.isPrefixOf b.data = false ∧ b.data.isPrefixOf a.data = false) →
      ∀ p ∈ l, p.1.data.isPrefixOf s = true →
        l.find? (fun q => q.1.data.isPrefixOf s) = some p ∧
        l.filter (fun q => q.1.data.isPrefixOf s) = [p] := by
  intro l
  induction l with
  | nil => intro _ p hp; simp at hp
  | cons a l ih =>
    intro hpw p hp hps
    rw [List.map_cons, List.pairwise_cons] at hpw
    obtain ⟨ha, hl⟩ := hpw
    have hrest : ∀ q ∈ l, q.1.data.isPrefixOf s = true → a.1.data.isPrefixOf s = false := by
      intro q hq hqs
      by_contra hc
      rw [Bool.not_eq_false] at hc
      have := ha q.1 (List.mem_map.mpr ⟨q, hq, rfl⟩)
      rcases isPrefixOf_common hc hqs with h | h
      · rw [this.1] at h
        exact Bool.false_ne_true h
      · rw [this.2] at h
        exact Bool.false_ne_true h
    rcases List.mem_cons.mp hp with h | h
    · subst h
      have hnone : l.filter (fun q => q.1.data.isPrefixOf s) = [] := by
        rw [List.filter_eq_nil_iff]
        intro q hq hqs
        have := hrest q hq hqs
        rw [hps] at this
        exact Bool.noConfusion this
      constructor
      · simp [List.find?_cons, hps]
      · simp [List.filter_cons, hps, hnone]
    · have haf := hrest p h hps
      obtain ⟨h1, h2⟩ := ih hl p h hps
      constructor
      · simp only [List.find?_cons, haf]
        exact h1
      · simp only [List.filter_cons, haf, Bool.false_eq_true, if_false]
        exact h2

theorem knownStateReasonTokens_keys (t : StateReasonTokens) (st : ipp_pstate_t) :
    (knownStateReasonTokens t st).map (fun p => p.1) = stateReasonTokenList t := rfl

/-- The loop over the reason values writes the codes at `reason_idx`, `reason_idx + 1`, ... in
the order of the values, and touches nothing else. -/
theorem get_PrinterStateReason_loop (t : StateReasonTokens) (st : ipp_pstate_t) :
    ∀ (values : List ipp_value_t) (d : printer_state_dyn_t) (k : Nat),
      (values.foldl (get_PrinterStateReason_step t st) (d, k)).2 =
        k + (recordedReasonCodes t st values).length ∧
      (values.foldl (get_PrinterStateReason_step t st) (d, k)).1.printer_status =
        d.printer_status ∧
      ∀ j, (values.foldl (get_PrinterStateReason_step t st) (d, k)).1.printer_reasons j =
        if j < k then d.printer_reasons j
        else ((recordedReasonCodes t st values)[j - k]?).getD (d.printer_reasons j) := by
  intro values
  induction values with
  | nil =>
    intro d k
    simp [recordedReasonCodes]
  | cons x xs ih =>
    intro d k
    rw [List.foldl_cons]
    cases hx : get_PrinterStateReason_valueCode t st x with
    | none =>
      have hstep : get_PrinterStateReason_step t st (d, k) x = (d, k) := by
        unfold get_PrinterStateReason_step
        rw [hx]
      have hrec : recordedReasonCodes t st (x :: xs) = recordedReasonCodes t st xs := by
        unfold recordedReasonCodes
        rw [List.filterMap_cons, hx]
      rw [hstep, hrec]
      exact ih d k
    | some code =>
      have hstep : get_PrinterStateReason_step t st (d, k) x =
          (printer_state_dyn_t.mk d.printer_status
            (Function.update d.printer_reasons k code), k + 1) := by
        unfold get_PrinterStateReason_step
        rw [hx]
      have hrec : recordedReasonCodes t st (x :: xs) =
          code :: recordedReasonCodes t st xs := by
        unfold recordedReasonCodes
        rw [List.filterMap_cons, hx]
      rw [hstep, hrec]
      obtain ⟨h1, h2, h3⟩ := ih (printer_state_dyn_t.mk d.printer_status
        (Function.update d.printer_reasons k code)) (k + 1)
      refine ⟨?_, ?_, ?_⟩
      · rw [h1, List.length_cons]
        omega
      · rw [h2]
      · intro j
        rw [h3 j]
        by_cases hjk : j < k
        · have : j < k + 1 := by omega
          simp only [this, hjk, if_true]
          rw [Function.update_noteq (by omega)]
        · by_cases hje : j = k
          · subst hje
            simp
          · have h4 : ¬ j < k + 1 := by omega
            have h5 : j - k = (j - (k + 1)) + 1 := by omega
            simp only [h4, hjk, if_false]
            rw [h5, List.getElem?_cons_succ, Function.update_noteq hje]

theorem prefixFree_code_of_mem (t : StateReasonTokens) (hpf : prefixFreeTokens t)
    (st : ipp_pstate_t) (s : String) (p : String × Option print_status_t)
    (hp : p ∈ knownStateReasonTokens t st) (hps : p.1.data.isPrefixOf s.data = true) :
    get_PrinterStateReason_code t st s = p.2 ∧ longestTokenCode t st s = p.2 := by
  have hpw : ((knownStateReasonTokens t st).map (fun p => p.1)).Pairwise
      (fun a b => a.data.isPrefixOf b.data = false ∧ b.data.isPrefixOf a.data = false) := by
    rw [knownStateReasonTokens_keys]
    exact hpf
  obtain ⟨h1, h2⟩ := prefixFree_find s.data (knownStateReasonTokens t st) hpw p hp hps
  constructor
  · rw [get_PrinterStateReason_code_eq_find, h1]
    rfl
  · unfold longestTokenCode
    rw [h2]
    rfl

theorem get_PrinterStateReason_reasons (t : StateReasonTokens) (response : ipp_t)
    (printer_state : ipp_pstate_t) (d : printer_state_dyn_t) (attrptr : ipp_attribute_t)
    (hattr : ippFindAttribute response "printer-state-reasons" .IPP_TAG_KEYWORD =
      some attrptr) (j : Nat) :
    (get_PrinterStateReason t response printer_state d).2.printer_reasons j =
      ((recordedReasonCodes t (get_PrinterStateReason_state response printer_state d).1
          attrptr.values)[j]?).getD
        ((get_PrinterStateReason_state response printer_state d).2.2.printer_reasons j) := by
  unfold get_PrinterStateReason
  simp only [hattr]
  have := (get_PrinterStateReason_loop t
    (get_PrinterStateReason_state response printer_state d).1 attrptr.values
    (get_PrinterStateReason_state response printer_state d).2.2 0).2.2 j
  simpa using this

theorem recordedReasonCodes_strings (t : StateReasonTokens) (st : ipp_pstate_t)
    (strs : List String) :
    recordedReasonCodes t st (strs.map ipp_value_t.string) =
      strs.filterMap (get_PrinterStateReason_code t st) := by
  unfold recordedReasonCodes
  rw [List.filterMap_map]
  rfl

/-! ## C18: the spool-full reason in the three states -/

/-- C18, counterexample: for the keyword `spool-area-full`, the code written in state idle
and the code written in state stopped are the same, `PRINT_STATUS_UNKNOWN`, in the chain and
in the array that `get_PrinterStateReason` fills. -/
theorem C18_counterexample :
    get_PrinterStateReason_code sampleTokens IPP_PRINTER_IDLE "spool-area-full" =
      some .PRINT_STATUS_UNKNOWN ∧
    get_PrinterStateReason_code sampleTokens IPP_PRINTER_STOPPED "spool-area-full" =
      some .PRINT_STATUS_UNKNOWN ∧
    (get_PrinterStateReason sampleTokens (stateResponse IPP_PRINTER_IDLE ["spool-area-full"])
        IPP_PRINTER_STOPPED samplePrinterStateDyn).2.printer_reasons 0 =
      (get_PrinterStateReason sampleTokens
        (stateResponse IPP_PRINTER_STOPPED ["spool-area-full"])
        IPP_PRINTER_STOPPED samplePrinterStateDyn).2.printer_reasons 0 := by
  refine ⟨by decide, by decide, by decide⟩

/-- C18, amended: for a keyword that begins with the spool-full token (and not with the
token tested before it), the code written is `PRINT_STATUS_UNKNOWN` in state idle,
`PRINT_STATUS_PRINTING` in state processing and `PRINT_STATUS_UNKNOWN` in state stopped, and
nothing is written in any other state: processing differs from the other two, idle and
stopped do not differ. -/
theorem C18_spool_full_codes (t : StateReasonTokens) (s : String)
    (hnone : startsWithToken s t.IPP_PRNT_STATE_NONE = false)
    (hspool : startsWithToken s t.IPP_PRNT_STATE_SPOOL_FULL = true) :
    get_PrinterStateReason_code t IPP_PRINTER_IDLE s = some .PRINT_STATUS_UNKNOWN ∧
    get_PrinterStateReason_code t IPP_PRINTER_PROCESSING s = some .PRINT_STATUS_PRINTING ∧
    get_PrinterStateReason_code t IPP_PRINTER_STOPPED s = some .PRINT_STATUS_UNKNOWN ∧
    (∀ st : ipp_pstate_t, st ≠ IPP_PRINTER_IDLE → st ≠ IPP_PRINTER_PROCESSING →
      st ≠ IPP_PRINTER_STOPPED → get_PrinterStateReason_code t st s = none) := by
  have hcode : ∀ st, get_PrinterStateReason_code t st s = stateReasonSpoolFull st := by
    intro st
    unfold get_PrinterStateReason_code
    simp only [hnone, hspool, Bool.false_eq_true, if_false, if_true]
  refine ⟨?_, ?_, ?_, ?_⟩
  · rw [hcode]
    rfl
  · rw [hcode]
    rfl
  · rw [hcode]
    rfl
  · intro st h1 h2 h3
    rw [hcode]
    unfold stateReasonSpoolFull
    simp only [h1, h2, h3, if_false]

/-- C18, instance: the keyword `spool-area-full-warning` with the sample tokens. -/
theorem C18_spool_full_codes_witness :
    get_PrinterStateReason_code sampleTokens IPP_PRINTER_IDLE "spool-area-full-warning" =
        some .PRINT_STATUS_UNKNOWN ∧
    get_PrinterStateReason_code sampleTokens IPP_PRINTER_PROCESSING "spool-area-full-warning" =
        some .PRINT_STATUS_PRINTING ∧
    get_PrinterStateReason_code sampleTokens IPP_PRINTER_STOPPED "spool-area-full-warning" =
        some .PRINT_STATUS_UNKNOWN :=
  have h := C18_spool_full_codes sampleTokens "spool-area-full-warning" (by decide) (by decide)
  ⟨h.1, h.2.1, h.2.2.1⟩

/-! ## C19: classification by the first known token that matches -/

/-- C20: when no token is a prefix of another token, a known token followed by any suffix,
in particular by `-error`, `-warning` or `-report`, gets in every state the code of the token
alone, and a response whose only reason is the token with the suffix fills the array as the
response whose only reason is the token. -/
theorem C20_suffix_ignored (t : StateReasonTokens) (hpf : prefixFreeTokens t)
    (st : ipp_pstate_t) (tok : String) (htok : tok ∈ stateReasonTokenList t)
    (suffix : String) :
    get_PrinterStateReason_code t st (tok ++ suffix) = get_PrinterStateReason_code t st tok ∧
    (∀ (printer_state : ipp_pstate_t) (d : printer_state_dyn_t) (j : Nat),
      (get_PrinterStateReason t (stateResponse st [tok ++ suffix]) printer_state
          d).2.printer_reasons j =
        (get_PrinterStateReason t (stateResponse st [tok]) printer_state
          d).2.printer_reasons j) := by
  have hcode : ∀ st2, get_PrinterStateReason_code t st2 (tok ++ suffix) =
      get_PrinterStateReason_code t st2 tok := by
    intro st2
    have htok2 := htok
    rw [← knownStateReasonTokens_keys t st2] at htok2
    obtain ⟨p, hp, rfl⟩ := List.mem_map.mp htok2
    have h1 : p.1.data.isPrefixOf (p.1 ++ suffix).data = true := by
      rw [List.isPrefixOf_iff_prefix, String.data_append]
      exact List.prefix_append _ _
    have h2 : p.1.data.isPrefixOf p.1.data = true := by
      rw [List.isPrefixOf_iff_prefix]
    rw [(prefixFree_code_of_mem t hpf st2 _ p hp h1).1,
      (prefixFree_code_of_mem t hpf st2 _ p hp h2).1]
  refine ⟨hcode st, ?_⟩
  intro printer_state d j
  have hfind : ∀ strs : List String,
      ippFindAttribute (stateResponse st strs) "printer-state-reasons" .IPP_TAG_KEYWORD =
        some { name := "printer-state-reasons", value_tag := .IPP_TAG_KEYWORD,
               values := strs.map ipp_value_t.string } := by
    intro strs
    unfold ippFindAttribute stateResponse
    simp only [List.find?_cons]
    have e1 : ("printer-state" == "printer-state-reasons") = false := by decide
    have e2 : ("printer-state-reasons" == "printer-state-reasons") = true := by decide
    have e3 : (ipp_tag_t.IPP_TAG_KEYWORD == ipp_tag_t.IPP_TAG_KEYWORD) = true := by decide
    simp only [e1, e2, e3, Bool.false_and, Bool.and_self]
  have hstate : ∀ strs strs2 : List String,
      get_PrinterStateReason_state (stateResponse st strs) printer_state d =
        get_PrinterStateReason_state (stateResponse st strs2) printer_state d := by
    intro strs strs2
    unfold get_PrinterStateReason_state ippFindAttribute stateResponse
    simp only [List.find?_cons]
    have e1 : ("printer-state" == "printer-state") = true := by decide
    have e3 : (ipp_tag_t.IPP_TAG_ENUM == ipp_tag_t.IPP_TAG_ENUM) = true := by decide
    simp only [e1, e3, Bool.and_self]
  rw [get_PrinterStateReason_reasons t _ printer_state d _ (hfind [tok ++ suffix]) j,
    get_PrinterStateReason_reasons t _ printer_state d _ (hfind [tok]) j,
    recordedReasonCodes_strings, recordedReasonCodes_strings,
    hstate [tok ++ suffix] [tok]]
  simp only [List.filterMap_cons, hcode, List.filterMap_nil]

/-- C20, instance: `media-jam-error` and `media-jam` in state stopped, sample tokens. -/
theorem C20_suffix_ignored_witness :
    get_PrinterStateReason_code sampleTokens IPP_PRINTER_STOPPED ("media-jam" ++ "-error") =
      get_PrinterStateReason_code sampleTokens IPP_PRINTER_STOPPED "media-jam" ∧
    get_PrinterStateReason_code sampleTokens IPP_PRINTER_STOPPED "media-jam" =
      some .PRINT_STATUS_JAMMED :=
  ⟨(C20_suffix_ignored sampleTokens (by decide) IPP_PRINTER_STOPPED "media-jam" (by decide)
      "-error").1, by decide⟩

/-! ## Lemmas on `parse_getMediaSupported` -/

theorem ipp_find_media_size_none (value : media_size_enumerator → media_size_t)
    (kw : String) (m0 : media_size_t) (h : catalogIndex value kw = none) :
    ipp_find_media_size value kw m0 = (-1, m0) ∧
    getMediaSizeFromTag value kw m0 = (-1, m0) := by
  unfold catalogIndex at h
  simp only at h
  split at h
  · exact absurd h (by simp)
  · rename_i hlt
    unfold ipp_find_media_size getMediaSizeFromTag
    simp only [hlt, dite_false, and_self]

theorem ipp_find_media_size_some (value : media_size_enumerator → media_size_t)
    (kw : String) (m0 : media_size_t) (i : Nat) (h : catalogIndex value kw = some i) :
    ∃ hi : i < (SupportedMediaSizes value).length,
      ipp_find_media_size value kw m0 =
        ((i : Int), ((SupportedMediaSizes value).get ⟨i, hi⟩).media_size) ∧
      getMediaSizeFromTag value kw m0 =
        ((i : Int), ((SupportedMediaSizes value).get ⟨i, hi⟩).media_size) := by
  unfold catalogIndex at h
  simp only at h
  split at h
  · rename_i hlt
    have hi : (SupportedMediaSizes value).findIdx (fun e => e.PWGName == kw) = i := by
      simpa using h
    subst hi
    refine ⟨hlt, ?_, ?_⟩
    · unfold ipp_find_media_size
      simp only [hlt, dite_true]
    · unfold getMediaSizeFromTag
      simp only [hlt, dite_true]
  · exact absurd h (by simp)

theorem consistent_nil (value : media_size_enumerator → media_size_t) :
    media_supported_t.consistent value { media_size := [], idxKeywordTranTable := [] } :=
  List.Forall₂.nil

theorem consistent_append (value : media_size_enumerator → media_size_t)
    (ms : media_supported_t) (hc : ms.consistent value) (n : Nat)
    (h : n < (SupportedMediaSizes value).length) :
    media_supported_t.consistent value
      { media_size := ms.media_size ++ [((SupportedMediaSizes value).get ⟨n, h⟩).media_size],
        idxKeywordTranTable := ms.idxKeywordTranTable ++ [(n : Int)] } := by
  unfold media_supported_t.consistent at hc ⊢
  exact List.rel_append hc (List.Forall₂.cons ⟨n, h, rfl, rfl⟩ List.Forall₂.nil)

/-- What `addMediaIfNotDuplicate` does with the number of a row. -/
theorem addMediaIfNotDuplicate_row (n : Nat) (ms : media_supported_t) (m : media_size_t) :
    addMediaIfNotDuplicate (n : Int) ms m =
      if (n : Int) ∈ ms.idxKeywordTranTable then ms
      else { media_size := ms.media_size ++ [m],
             idxKeywordTranTable := ms.idxKeywordTranTable ++ [(n : Int)] } := by
  by_cases h : (n : Int) ∈ ms.idxKeywordTranTable
  · rw [if_pos h]
    exact addMediaIfNotDuplicate_old _ ms m h
  · rw [if_neg h]
    exact addMediaIfNotDuplicate_new n ms m h

theorem addMediaIfNotDuplicate_neg (ms : media_supported_t) (m : media_size_t) :
    addMediaIfNotDuplicate (-1) ms m = ms := by
  unfold addMediaIfNotDuplicate
  simp

theorem addMediaIfNotDuplicate_keeps (value : media_size_enumerator → media_size_t)
    (n : Nat) (h : n < (SupportedMediaSizes value).length) (ms : media_supported_t)
    (hnd : ms.idxKeywordTranTable.Nodup) (hc : ms.consistent value) :
    (addMediaIfNotDuplicate (n : Int) ms
        ((SupportedMediaSizes value).get ⟨n, h⟩).media_size).idxKeywordTranTable.Nodup ∧
    (addMediaIfNotDuplicate (n : Int) ms
        ((SupportedMediaSizes value).get ⟨n, h⟩).media_size).consistent value := by
  rw [addMediaIfNotDuplicate_row]
  by_cases hin : (n : Int) ∈ ms.idxKeywordTranTable
  · rw [if_pos hin]
    exact ⟨hnd, hc⟩
  · rw [if_neg hin]
    refine ⟨?_, consistent_append value ms hc n h⟩
    simp only
    rw [List.nodup_append]
    refine ⟨hnd, List.nodup_singleton _, ?_⟩
    intro x hx hx2
    rw [List.mem_singleton] at hx2
    exact hin (hx2 ▸ hx)

theorem addRollSupportedSizes_keeps (value : media_size_enumerator → media_size_t)
    (width minHeight maxHeight : Nat) (ms : media_supported_t)
    (hnd : ms.idxKeywordTranTable.Nodup) (hc : ms.consistent value) :
    (addRollSupportedSizes value width minHeight maxHeight ms).idxKeywordTranTable.Nodup ∧
    (addRollSupportedSizes value width minHeight maxHeight ms).consistent value := by
  unfold addRollSupportedSizes
  have hall : ∀ ie ∈ (SupportedMediaSizes value).enum,
      (SupportedMediaSizes value)[ie.1]? = some ie.2 := by
    rintro ⟨i, e⟩ hie
    exact List.mk_mem_enum_iff_getElem?.mp hie
  revert hall
  generalize (SupportedMediaSizes value).enum = l
  intro hall
  induction l generalizing ms with
  | nil => exact ⟨hnd, hc⟩
  | cons ie l ih =>
    rw [List.foldl_cons]
    have hie := hall ie (List.mem_cons_self _ _)
    obtain ⟨hlt, hget⟩ := List.getElem?_eq_some_iff.mp hie
    have hstep : (addRollSupportedSizes_step width minHeight maxHeight ms
          ie).idxKeywordTranTable.Nodup ∧
        (addRollSupportedSizes_step width minHeight maxHeight ms ie).consistent value := by
      unfold addRollSupportedSizes_step
      split
      · have hg : (SupportedMediaSizes value).get ⟨ie.1, hlt⟩ = ie.2 := hget
        have := addMediaIfNotDuplicate_keeps value ie.1 hlt ms hnd hc
        rw [hg] at this
        exact this
      · exact ⟨hnd, hc⟩
    exact ih _ hstep.1 hstep.2 (fun x hx => hall x (List.mem_cons_of_mem _ hx))

theorem getMediaSizeNameFromDimens_cases (value : media_size_enumerator → media_size_t)
    (w h : Nat) (m0 : media_size_t) :
    getMediaSizeNameFromDimens value w h m0 = (-1, m0) ∨
    ∃ n, ∃ hn : n < (SupportedMediaSizes value).length,
      getMediaSizeNameFromDimens value w h m0 =
        ((n : Int), ((SupportedMediaSizes value).get ⟨n, hn⟩).media_size) := by
  unfold getMediaSizeNameFromDimens
  simp only
  split
  · rename_i hlt
    exact Or.inr ⟨_, hlt, rfl⟩
  · exact Or.inl rfl

theorem parse_getMediaSupported_colReady_keeps (value : media_size_enumerator → media_size_t)
    (lim : Limits) (acc : media_supported_t × media_size_t) (x : ipp_value_t)
    (hnd : acc.1.idxKeywordTranTable.Nodup) (hc : acc.1.consistent value) :
    (parse_getMediaSupported_colReady value lim acc x).1.idxKeywordTranTable.Nodup ∧
    (parse_getMediaSupported_colReady value lim acc x).1.consistent value := by
  unfold parse_getMediaSupported_colReady
  simp only
  split
  · exact addRollSupportedSizes_keeps value _ _ _ acc.1 hnd hc
  · rcases getMediaSizeNameFromDimens_cases value
      (toUnsigned (x.members.foldl (parse_getMediaSupported_member lim)
        ({ media_tray_tag := "", x_dimension := 0, y_dimension := 0 }, 0, 0)).1.x_dimension)
      (toUnsigned (x.members.foldl (parse_getMediaSupported_member lim)
        ({ media_tray_tag := "", x_dimension := 0, y_dimension := 0 }, 0, 0)).1.y_dimension)
      acc.2 with h | ⟨n, hn, h⟩
    · rw [h]
      simp only
      rw [addMediaIfNotDuplicate_neg]
      exact ⟨hnd, hc⟩
    · rw [h]
      exact addMediaIfNotDuplicate_keeps value n hn acc.1 hnd hc

theorem parse_getMediaSupported_afterColReady_keeps
    (value : media_size_enumerator → media_size_t) (lim : Limits) (response : ipp_t)
    (tmp : media_size_t) :
    (parse_getMediaSupported_afterColReady value lim response tmp).1.idxKeywordTranTable.Nodup ∧
    (parse_getMediaSupported_afterColReady value lim response tmp).1.consistent value := by
  unfold parse_getMediaSupported_afterColReady
  split
  · rename_i attrptr _
    have hgen : ∀ (l : List ipp_value_t) (acc : media_supported_t × media_size_t),
        acc.1.idxKeywordTranTable.Nodup → acc.1.consistent value →
        (l.foldl (parse_getMediaSupported_colReady value lim) acc).1.idxKeywordTranTable.Nodup ∧
        (l.foldl (parse_getMediaSupported_colReady value lim) acc).1.consistent value := by
      intro l
      induction l with
      | nil => intro acc h1 h2; exact ⟨h1, h2⟩
      | cons x xs ih =>
        intro acc h1 h2
        rw [List.foldl_cons]
        have := parse_getMediaSupported_colReady_keeps value lim acc x h1 h2
        exact ih _ this.1 this.2
    exact hgen _ _ List.nodup_nil (consistent_nil value)
  · exact ⟨List.nodup_nil, consistent_nil value⟩

theorem parse_getMediaSupported_supported_fold (value : media_size_enumerator → media_size_t) :
    ∀ (values : List ipp_value_t) (acc : media_supported_t × media_size_t),
      (values.foldl (parse_getMediaSupported_supported value) acc).1.idxKeywordTranTable =
        acc.1.idxKeywordTranTable ++ catalogIndices value values ∧
      (acc.1.consistent value →
        (values.foldl (parse_getMediaSupported_supported value) acc).1.consistent value) := by
  intro values
  induction values with
  | nil => intro acc; simp [catalogIndices]
  | cons x xs ih =>
    intro acc
    rw [List.foldl_cons]
    cases hci : catalogIndex value x.text with
    | none =>
      have hstep : parse_getMediaSupported_supported value acc x = (acc.1, acc.2) := by
        unfold parse_getMediaSupported_supported
        rw [(ipp_find_media_size_none value x.text acc.2 hci).1]
        simp
      have hrec : catalogIndices value (x :: xs) = catalogIndices value xs := by
        unfold catalogIndices
        rw [List.filterMap_cons, hci]
        rfl
      rw [hstep, hrec]
      exact ih (acc.1, acc.2)
    | some i =>
      obtain ⟨hi, hfind, _⟩ := ipp_find_media_size_some value x.text acc.2 i hci
      have hstep : parse_getMediaSupported_supported value acc x =
          (media_supported_t.mk
            (acc.1.media_size ++ [((SupportedMediaSizes value).get ⟨i, hi⟩).media_size])
            (acc.1.idxKeywordTranTable ++ [(i : Int)]),
            ((SupportedMediaSizes value).get ⟨i, hi⟩).media_size) := by
        unfold parse_getMediaSupported_supported
        rw [hfind]
        have : ((i : Int) ≥ 0) := Int.ofNat_nonneg i
        simp only [this, if_true]
      have hrec : catalogIndices value (x :: xs) = (i : Int) :: catalogIndices value xs := by
        unfold catalogIndices
        rw [List.filterMap_cons, hci]
        rfl
      rw [hstep, hrec]
      obtain ⟨h1, h2⟩ := ih (media_supported_t.mk
            (acc.1.media_size ++ [((SupportedMediaSizes value).get ⟨i, hi⟩).media_size])
            (acc.1.idxKeywordTranTable ++ [(i : Int)]),
            ((SupportedMediaSizes value).get ⟨i, hi⟩).media_size)
      refine ⟨?_, fun hc => h2 (consistent_append value acc.1 hc i hi)⟩
      rw [h1]
      simp

/-- The row numbers named by the values of `media-ready` as the loop sees them, that is
after the copy into the buffer of `MAX_STRING + 1` bytes. -/
theorem parse_getMediaSupported_ready_fold (value : media_size_enumerator → media_size_t)
    (lim : Limits) :
    ∀ (values : List ipp_value_t) (acc : media_supported_t × media_size_t),
      acc.1.idxKeywordTranTable.Nodup → acc.1.consistent value →
      (values.foldl (parse_getMediaSupported_ready value lim) acc).1.idxKeywordTranTable =
        appendNewIndices acc.1.idxKeywordTranTable
          (values.filterMap (fun x =>
            Option.map Int.ofNat (catalogIndex value (strncpy x.text lim.MAX_STRING)))) ∧
      (values.foldl (parse_getMediaSupported_ready value lim) acc).1.idxKeywordTranTable.Nodup ∧
      (values.foldl (parse_getMediaSupported_ready value lim) acc).1.consistent value := by
  intro values
  induction values with
  | nil => intro acc h1 h2; exact ⟨rfl, h1, h2⟩
  | cons x xs ih =>
    intro acc hnd hc
    rw [List.foldl_cons]
    cases hci : catalogIndex value (strncpy x.text lim.MAX_STRING) with
    | none =>
      have hstep : parse_getMediaSupported_ready value lim acc x = (acc.1, acc.2) := by
        unfold parse_getMediaSupported_ready
        simp only
        rw [(ipp_find_media_size_none value _ acc.2 hci).2]
        simp only
        rw [addMediaIfNotDuplicate_neg]
      rw [hstep, List.filterMap_cons, hci]
      exact ih (acc.1, acc.2) hnd hc
    | some i =>
      obtain ⟨hi, _, hfind⟩ := ipp_find_media_size_some value _ acc.2 i hci
      have hstep : parse_getMediaSupported_ready value lim acc x =
          (addMediaIfNotDuplicate (i : Int) acc.1
            ((SupportedMediaSizes value).get ⟨i, hi⟩).media_size,
            ((SupportedMediaSizes value).get ⟨i, hi⟩).media_size) := by
        unfold parse_getMediaSupported_ready
        simp only
        rw [hfind]
      have hkeep := addMediaIfNotDuplicate_keeps value i hi acc.1 hnd hc
      rw [hstep, List.filterMap_cons, hci]
      obtain ⟨h1, h2, h3⟩ := ih (addMediaIfNotDuplicate (i : Int) acc.1
            ((SupportedMediaSizes value).get ⟨i, hi⟩).media_size,
            ((SupportedMediaSizes value).get ⟨i, hi⟩).media_size) hkeep.1 hkeep.2
      refine ⟨?_, h2, h3⟩
      rw [h1]
      simp only [Option.map_some', appendNewIndices, List.foldl_cons]
      rw [addMediaIfNotDuplicate_row]
      by_cases hin : (i : Int) ∈ acc.1.idxKeywordTranTable
      · have hin2 : Int.ofNat i ∈ acc.1.idxKeywordTranTable := hin
        simp only [hin, hin2, if_true]
      · have hin2 : ¬ Int.ofNat i ∈ acc.1.idxKeywordTranTable := hin
        simp only [hin, hin2, if_false]
        rfl

theorem SupportedMediaSizes_keyword_length (value : media_size_enumerator → media_size_t) :
    ∀ e ∈ SupportedMediaSizes value, e.PWGName.length ≤ 22 := by
  intro e he
  simp only [SupportedMediaSizes, List.mem_cons, List.mem_singleton, List.not_mem_nil,
    or_false] at he
  rcases he with h | h | h | h | h | h | h | h | h | h | h | h | h | h | h | h | h | h | h |
    h | h | h | h | h | h | h | h | h | h <;> subst h <;> dsimp only <;> decide

/-- A keyword of the table is not changed by the copy into a buffer that is longer, and a
string that the copy shortens is no keyword of the table before or after. -/
theorem catalogIndex_strncpy (value : media_size_enumerator → media_size_t) (t : String)
    (n : Nat) (hn : 22 < n) :
    catalogIndex value (strncpy t n) = catalogIndex value t := by
  by_cases hlen : t.length ≤ n
  · have : strncpy t n = t := by
      unfold strncpy
      have h2 : t.data.take n = t.data := List.take_of_length_le hlen
      rw [h2]
    rw [this]
  · have hkey : ∀ s : String, n ≤ s.length →
        (SupportedMediaSizes value).findIdx (fun e => e.PWGName == s) =
          (SupportedMediaSizes value).length := by
      intro s hs
      rw [List.findIdx_eq_length]
      intro e he
      have hl := SupportedMediaSizes_keyword_length value e he
      have hne : e.PWGName ≠ s := by
        intro hc
        rw [hc] at hl
        omega
      simpa using hne
    have h1 : n ≤ (strncpy t n).length := by
      unfold strncpy
      show n ≤ (t.data.take n).length
      rw [List.length_take]
      have : n < t.data.length := by
        have : t.length = t.data.length := rfl
        omega
      omega
    have h2 : n ≤ t.length := by omega
    unfold catalogIndex
    simp only [hkey _ h1, hkey _ h2]

theorem appendNewIndices_spec :
    ∀ (candidates stored : List Int), stored.Nodup →
      ∃ rest, appendNewIndices stored candidates = stored ++ rest ∧
        rest.Sublist candidates ∧ (stored ++ rest).Nodup ∧
        ∀ i ∈ candidates, i ∈ stored ∨ i ∈ rest := by
  intro candidates
  induction candidates with
  | nil =>
    intro stored hnd
    exact ⟨[], by simp [appendNewIndices], List.Sublist.refl _, by simpa using hnd, by simp⟩
  | cons c cs ih =>
    intro stored hnd
    by_cases hc : c ∈ stored
    · obtain ⟨rest, h1, h2, h3, h4⟩ := ih stored hnd
      refine ⟨rest, ?_, h2.cons c, h3, ?_⟩
      · unfold appendNewIndices at h1 ⊢
        rw [List.foldl_cons]
        simp only [hc, if_true]
        exact h1
      · intro i hi
        rcases List.mem_cons.mp hi with h | h
        · exact Or.inl (h ▸ hc)
        · exact h4 i h
    · have hnd2 : (stored ++ [c]).Nodup := by
        rw [List.nodup_append]
        refine ⟨hnd, List.nodup_singleton _, ?_⟩
        intro x hx hx2
        rw [List.mem_singleton] at hx2
        exact hc (hx2 ▸ hx)
      obtain ⟨rest, h1, h2, h3, h4⟩ := ih (stored ++ [c]) hnd2
      refine ⟨c :: rest, ?_, h2.cons₂ c, ?_, ?_⟩
      · unfold appendNewIndices at h1 ⊢
        rw [List.foldl_cons]
        simp only [hc, if_false]
        rw [h1]
        simp
      · have : stored ++ c :: rest = stored ++ [c] ++ rest := by simp
        rw [this]
        exact h3
      · intro i hi
        rcases List.mem_cons.mp hi with h | h
        · exact Or.inr (h ▸ List.mem_cons_self _ _)
        · rcases h4 i h with h5 | h5
          · rcases List.mem_append.mp h5 with h6 | h6
            · exact Or.inl h6
            · exact Or.inr (by
                rw [List.mem_singleton] at h6
                exact h6 ▸ List.mem_cons_self _ _)
          · exact Or.inr (List.mem_cons_of_mem _ h5)

theorem parse_getMediaSupported_afterReady_keeps
    (value : media_size_enumerator → media_size_t) (lim : Limits) (response : ipp_t)
    (tmp : media_size_t) :
    (parse_getMediaSupported_afterReady value lim response tmp).1.idxKeywordTranTable.Nodup ∧
    (parse_getMediaSupported_afterReady value lim response tmp).1.consistent value := by
  have hc := parse_getMediaSupported_afterColReady_keeps value lim response tmp
  unfold parse_getMediaSupported_afterReady
  simp only
  split
  · split
    · exact (parse_getMediaSupported_ready_fold value lim _ _ hc.1 hc.2).2
    · exact hc
  · exact hc

theorem parse_getMediaSupported_list (value : media_size_enumerator → media_size_t)
    (lim : Limits) (response : ipp_t) (tmp : media_size_t)
    (capabilities : printer_capabilities_t) :
    (parse_getMediaSupported value lim response tmp capabilities).1.idxKeywordTranTable =
      (parse_getMediaSupported_afterReady value lim response tmp).1.idxKeywordTranTable ++
        catalogIndices value (attributeValues response "media-supported" .IPP_TAG_KEYWORD) ∧
    (parse_getMediaSupported value lim response tmp capabilities).1.consistent value := by
  have hk := parse_getMediaSupported_afterReady_keeps value lim response tmp
  unfold parse_getMediaSupported attributeValues
  simp only
  split
  · rename_i attrptr hattr
    have := parse_getMediaSupported_supported_fold value attrptr.values
      (parse_getMediaSupported_afterReady value lim response tmp)
    exact ⟨this.1, this.2 hk.2⟩
  · refine ⟨?_, hk.2⟩
    simp [catalogIndices]

/-! ## C15: repeated entries in the list of supported media -/

/-- C15, counterexample: `media-ready` names A4, `media-supported` names letter, A4 and
letter again. The list of row numbers that `parse_getMediaSupported` produces is 5, 0, 5, 0:
both rows occur twice. -/
theorem C15_counterexample :
    (parse_getMediaSupported sampleMediaValue sampleLimits
      (responseOf [keywordAttribute "media-ready" ["iso_a4_210x297mm"],
        keywordAttribute "media-supported"
          ["na_letter_8.5x11in", "iso_a4_210x297mm", "na_letter_8.5x11in"]])
      0 freshCapabilities).1.idxKeywordTranTable = [5, 0, 5, 0] ∧
    ¬ ([5, 0, 5, 0] : List Int).Nodup := by
  constructor
  · decide
  · decide

/-- C15, amended: the entries that come from `media-col-ready` and `media-ready` contain no
row number twice. After them `parse_getMediaSupported` appends one entry for every value of
`media-supported` that is a keyword of the table, in the order of the values and without a
look at what is stored: the whole list is free of repetitions exactly when the row numbers
named by `media-supported` are pairwise different and different from the earlier entries.
Every entry is a row number with the identifier of that row. -/
theorem C15_media_supported_appended (value : media_size_enumerator → media_size_t)
    (lim : Limits) (response : ipp_t) (media_sizeTemp : media_size_t)
    (capabilities : printer_capabilities_t) :
    (parse_getMediaSupported_afterReady value lim response
      media_sizeTemp).1.idxKeywordTranTable.Nodup ∧
    (parse_getMediaSupported value lim response media_sizeTemp
        capabilities).1.idxKeywordTranTable =
      (parse_getMediaSupported_afterReady value lim response
        media_sizeTemp).1.idxKeywordTranTable ++
        catalogIndices value (attributeValues response "media-supported" .IPP_TAG_KEYWORD) ∧
    ((parse_getMediaSupported value lim response media_sizeTemp
        capabilities).1.idxKeywordTranTable.Nodup ↔
      (catalogIndices value
          (attributeValues response "media-supported" .IPP_TAG_KEYWORD)).Nodup ∧
        ∀ i ∈ catalogIndices value
            (attributeValues response "media-supported" .IPP_TAG_KEYWORD),
          i ∉ (parse_getMediaSupported_afterReady value lim response
            media_sizeTemp).1.idxKeywordTranTable) ∧
    (parse_getMediaSupported value lim response media_sizeTemp
        capabilities).1.consistent value := by
  have hk := parse_getMediaSupported_afterReady_keeps value lim response media_sizeTemp
  have hl := parse_getMediaSupported_list value lim response media_sizeTemp capabilities
  refine ⟨hk.1, hl.1, ?_, hl.2⟩
  rw [hl.1, List.nodup_append]
  constructor
  · rintro ⟨_, h2, h3⟩
    exact ⟨h2, fun i hi hi2 => h3 hi2 hi⟩
  · rintro ⟨h2, h3⟩
    exact ⟨hk.1, h2, fun a ha ha2 => h3 a ha2 ha⟩

/-! ## C17: when `media-ready` is used -/

/-- C17: with a buffer `media_size_tag` longer than every keyword of the table, the
`media-ready` part of `parse_getMediaSupported` adds nothing when `media-col-ready` gave at
least one entry; when it gave none (no such attribute, or no row of these dimensions), the
list afterwards holds the row numbers named by the values of `media-ready` that are keywords
of the table, each once, at its first occurrence in the order of the values (nothing when
`media-ready` is absent), with the identifiers of these rows. -/
theorem C17_media_ready_fallback (value : media_size_enumerator → media_size_t)
    (lim : Limits) (hmax : 22 < lim.MAX_STRING) (response : ipp_t)
    (media_sizeTemp : media_size_t) :
    ((parse_getMediaSupported_afterColReady value lim response media_sizeTemp).1.sizes_idx > 0 →
      parse_getMediaSupported_afterReady value lim response media_sizeTemp =
        parse_getMediaSupported_afterColReady value lim response media_sizeTemp) ∧
    ((parse_getMediaSupported_afterColReady value lim response media_sizeTemp).1.sizes_idx = 0 →
      (parse_getMediaSupported_afterReady value lim response
          media_sizeTemp).1.idxKeywordTranTable =
        appendNewIndices []
          (catalogIndices value (attributeValues response "media-ready" .IPP_TAG_KEYWORD)) ∧
      (parse_getMediaSupported_afterReady value lim response
          media_sizeTemp).1.idxKeywordTranTable.Nodup ∧
      (parse_getMediaSupported_afterReady value lim response
          media_sizeTemp).1.idxKeywordTranTable.Sublist
        (catalogIndices value (attributeValues response "media-ready" .IPP_TAG_KEYWORD)) ∧
      (∀ i, i ∈ (parse_getMediaSupported_afterReady value lim response
            media_sizeTemp).1.idxKeywordTranTable ↔
          i ∈ catalogIndices value
            (attributeValues response "media-ready" .IPP_TAG_KEYWORD)) ∧
      (parse_getMediaSupported_afterReady value lim response
          media_sizeTemp).1.consistent value) := by
  have hc := parse_getMediaSupported_afterColReady_keeps value lim response media_sizeTemp
  have hk := parse_getMediaSupported_afterReady_keeps value lim response media_sizeTemp
  constructor
  · intro hpos
    unfold parse_getMediaSupported_afterReady
    simp only
    rw [if_neg (by omega)]
  · intro hzero
    have hnil : (parse_getMediaSupported_afterColReady value lim response
        media_sizeTemp).1.idxKeywordTranTable = [] :=
      List.length_eq_zero.mp hzero
    have hfun : (fun x : ipp_value_t =>
        Option.map Int.ofNat (catalogIndex value (strncpy x.text lim.MAX_STRING))) =
        (fun x : ipp_value_t => Option.map Int.ofNat (catalogIndex value x.text)) := by
      funext x
      rw [catalogIndex_strncpy value x.text lim.MAX_STRING hmax]
    have heq : (parse_getMediaSupported_afterReady value lim response
          media_sizeTemp).1.idxKeywordTranTable =
        appendNewIndices []
          (catalogIndices value (attributeValues response "media-ready" .IPP_TAG_KEYWORD)) := by
      unfold parse_getMediaSupported_afterReady attributeValues
      simp only
      rw [if_pos hzero]
      split
      · rename_i attrptr hattr
        rw [(parse_getMediaSupported_ready_fold value lim attrptr.values _ hc.1 hc.2).1,
          hnil, hfun]
        rfl
      · rw [hnil]
        rfl
    obtain ⟨rest, h1, h2, _, h4⟩ := appendNewIndices_spec
      (catalogIndices value (attributeValues response "media-ready" .IPP_TAG_KEYWORD)) []
      List.nodup_nil
    rw [List.nil_append] at h1
    refine ⟨heq, hk.1, ?_, ?_, hk.2⟩
    · rw [heq, h1]
      exact h2
    · intro i
      rw [heq, h1]
      constructor
      · intro hi
        exact h2.subset hi
      · intro hi
        rcases h4 i hi with h | h
        · exact absurd h (List.not_mem_nil _)
        · exact h

/-- C17, instances: without `media-col-ready`, the values A4, an unknown keyword, letter,
A4 of `media-ready` give the rows 5, 0; with a `media-col-ready` tray of A4 dimensions the
value letter of `media-ready` is not added. -/
theorem C17_media_ready_fallback_witness :
    (parse_getMediaSupported_afterReady sampleMediaValue sampleLimits
      (responseOf [keywordAttribute "media-ready"
        ["iso_a4_210x297mm", "custom_thing", "na_letter_8.5x11in", "iso_a4_210x297mm"]])
      0).1.idxKeywordTranTable = [5, 0] ∧
    (parse_getMediaSupported_afterReady sampleMediaValue sampleLimits
      (responseOf [{ name := "media-col-ready", value_tag := .IPP_TAG_BEGIN_COLLECTION,
                     values := [sheetTray "main" 21000 29700] },
        keywordAttribute "media-ready" ["na_letter_8.5x11in"]])
      0).1.idxKeywordTranTable = [5] :=
  ⟨((C17_media_ready_fallback sampleMediaValue sampleLimits (by decide)
      (responseOf [keywordAttribute "media-ready"
        ["iso_a4_210x297mm", "custom_thing", "na_letter_8.5x11in", "iso_a4_210x297mm"]])
      0).2 (by decide)).1.trans (by decide),
   (congrArg (fun s => s.1.idxKeywordTranTable)
      ((C17_media_ready_fallback sampleMediaValue sampleLimits (by decide)
        (responseOf [{ name := "media-col-ready", value_tag := .IPP_TAG_BEGIN_COLLECTION,
                       values := [sheetTray "main" 21000 29700] },
          keywordAttribute "media-ready" ["na_letter_8.5x11in"]])
        0).1 (by decide))).trans (by decide)⟩

/-! ## Lemmas on `parse_printerAttributes`: who writes `mediaDefault` -/

theorem foldl_mediaDefault {α : Type} (f : printer_capabilities_t → α → printer_capabilities_t)
    (h : ∀ c x, (f c x).mediaDefault = c.mediaDefault) :
    ∀ (l : List α) (c : printer_capabilities_t), (l.foldl f c).mediaDefault = c.mediaDefault := by
  intro l
  induction l with
  | nil => intro c; rfl
  | cons x xs ih =>
    intro c
    rw [List.foldl_cons, ih, h]

theorem foldl_mediaDefault_of {α : Type}
    (f : printer_capabilities_t → α → printer_capabilities_t) (l : List α)
    (c : printer_capabilities_t) (d : String)
    (h : ∀ c x, (f c x).mediaDefault = c.mediaDefault) (hc : c.mediaDefault = d) :
    (l.foldl f c).mediaDefault = d := by
  rw [foldl_mediaDefault f h, hc]

theorem parse_printerUris_mediaDefault (lim : Limits) (response : ipp_t)
    (c : printer_capabilities_t) :
    (parse_printerUris lim response c).mediaDefault = c.mediaDefault := by
  unfold parse_printerUris
  apply foldl_mediaDefault
  intro c x
  simp only
  split <;> rfl

theorem parse_printerAttributes_mediaSizes_mediaDefault (lim : Limits)
    (ms : media_supported_t) (c : printer_capabilities_t) :
    (parse_printerAttributes_mediaSizes lim ms c).mediaDefault = c.mediaDefault := rfl

theorem parse_printerAttributes_identity_mediaDefault (lim : Limits) (response : ipp_t)
    (c : printer_capabilities_t) :
    (parse_printerAttributes_identity lim response c).mediaDefault = c.mediaDefault := by
  unfold parse_printerAttributes_identity
  simp only
  repeat' split
  all_goals rfl

theorem addMediaType_mediaDefault (lim : Limits) (c : printer_capabilities_t)
    (m : media_type_t) : (addMediaType lim c m).mediaDefault = c.mediaDefault := by
  unfold addMediaType
  repeat' split
  all_goals rfl

theorem parse_printerAttributes_colorCopies_mediaDefault (lim : Limits) (response : ipp_t)
    (c : printer_capabilities_t) :
    (parse_printerAttributes_colorCopies lim response c).mediaDefault = c.mediaDefault := by
  unfold parse_printerAttributes_colorCopies
  simp only
  repeat' first
    | rfl
    | (apply foldl_mediaDefault_of
       · intro c x
         dsimp only
         repeat' split
         all_goals rfl)
    | split

theorem parse_printerAttributes_formats_mediaDefault (lim : Limits) (response : ipp_t)
    (c : printer_capabilities_t) :
    (parse_printerAttributes_formats lim response c).mediaDefault = c.mediaDefault := by
  unfold parse_printerAttributes_formats
  simp only
  repeat' first
    | rfl
    | (apply foldl_mediaDefault_of
       · intro c x
         dsimp only
         repeat' split
         all_goals rfl)
    | split

theorem parse_printerAttributes_mediaTypes_mediaDefault (lim : Limits) (response : ipp_t)
    (c : printer_capabilities_t) :
    (parse_printerAttributes_mediaTypes lim response c).mediaDefault = c.mediaDefault := by
  unfold parse_printerAttributes_mediaTypes
  simp only
  repeat' first
    | rfl
    | rw [addMediaType_mediaDefault]
    | (apply foldl_mediaDefault_of
       · intro c x
         dsimp only
         repeat' split
         all_goals first | rfl | rw [addMediaType_mediaDefault])
    | split

theorem parse_printerAttributes_resolutions_mediaDefault (lim : Limits) (response : ipp_t)
    (c : printer_capabilities_t) :
    (parse_printerAttributes_resolutions lim response c).mediaDefault = c.mediaDefault := by
  unfold parse_printerAttributes_resolutions get_supportedPrinterResolutions
  simp only
  repeat' split
  all_goals rfl

theorem parse_printerAttributes_versions_mediaDefault (response : ipp_t)
    (c : printer_capabilities_t) :
    (parse_printerAttributes_versions response c).mediaDefault = c.mediaDefault := by
  have hpair : ∀ (l : List ipp_value_t) (acc : ipp_version_supported_t × printer_capabilities_t),
      (l.foldl
        (fun (acc : ipp_version_supported_t × printer_capabilities_t) (x : ipp_value_t) =>
          let v := parse_IPPVersions_step acc.1 x
          (v,
            if v.supportsIpp20 then { acc.2 with ippVersionMajor := 2, ippVersionMinor := 0 }
            else if v.supportsIpp11 then
              { acc.2 with ippVersionMajor := 1, ippVersionMinor := 1 }
            else { acc.2 with ippVersionMajor := 1, ippVersionMinor := 0 }))
        acc).2.mediaDefault = acc.2.mediaDefault := by
    intro l
    induction l with
    | nil => intro acc; rfl
    | cons x xs ih =>
      intro acc
      rw [List.foldl_cons, ih]
      dsimp only
      repeat' split
      all_goals rfl
  unfold parse_printerAttributes_versions
  simp only
  repeat' first
    | rfl
    | rw [hpair]
    | (apply foldl_mediaDefault_of
       · intro c x
         dsimp only
         repeat' split
         all_goals rfl)
    | split

theorem parse_printerAttributes_margins_mediaDefault (response : ipp_t)
    (c : printer_capabilities_t) :
    (parse_printerAttributes_margins response c).mediaDefault = c.mediaDefault := by
  unfold parse_printerAttributes_margins
  repeat' first
    | rfl
    | (apply foldl_mediaDefault_of
       · intro c x
         dsimp only
         repeat' split
         all_goals rfl)
    | split

theorem parse_printerAttributes_strip_mediaDefault (lim : Limits) (response : ipp_t)
    (c : printer_capabilities_t) :
    (parse_printerAttributes_strip lim response c).mediaDefault = c.mediaDefault := by
  unfold parse_printerAttributes_strip
  simp only
  repeat' split
  all_goals rfl

theorem parse_printerAttributes_trays_mediaDefault (response : ipp_t)
    (c : printer_capabilities_t) :
    (parse_printerAttributes_trays response c).mediaDefault = c.mediaDefault := by
  unfold parse_printerAttributes_trays
  simp only
  repeat' first
    | rfl
    | (apply foldl_mediaDefault_of
       · intro c x
         dsimp only
         repeat' split
         all_goals rfl)
    | split

/-- The field `mediaDefault` after `parse_printerAttributes`: what
`parse_getMediaSupported` left, unless that is empty and `media-default` is present. -/
theorem parse_printerAttributes_mediaDefault_eq (value : media_size_enumerator → media_size_t)
    (lim : Limits) (response : ipp_t) (tmp : media_size_t) (c : printer_capabilities_t) :
    (parse_printerAttributes value lim response tmp c).mediaDefault =
      match ippFindAttribute response "media-default" .IPP_TAG_KEYWORD with
      | some attrptr =>
        if (parse_getMediaSupported value lim response tmp c).2.mediaDefault.length ≤ 0 then
          strlcpy (ippGetString attrptr 0) lim.sizeof_mediaDefault
        else (parse_getMediaSupported value lim response tmp c).2.mediaDefault
      | none => (parse_getMediaSupported value lim response tmp c).2.mediaDefault := by
  unfold parse_printerAttributes
  simp only
  rw [parse_printerAttributes_trays_mediaDefault, parse_printerAttributes_strip_mediaDefault,
    parse_printerAttributes_margins_mediaDefault, parse_printerAttributes_versions_mediaDefault,
    parse_printerAttributes_resolutions_mediaDefault,
    parse_printerAttributes_mediaTypes_mediaDefault,
    parse_printerAttributes_formats_mediaDefault,
    parse_printerAttributes_colorCopies_mediaDefault]
  have hbefore : (parse_printerAttributes_identity lim response
      (parse_printerAttributes_mediaSizes lim
        (parse_getMediaSupported value lim response tmp c).1
        (parse_printerUris lim response
          (parse_getMediaSupported value lim response tmp c).2))).mediaDefault =
      (parse_getMediaSupported value lim response tmp c).2.mediaDefault := by
    rw [parse_printerAttributes_identity_mediaDefault,
      parse_printerAttributes_mediaSizes_mediaDefault, parse_printerUris_mediaDefault]
  unfold parse_printerAttributes_mediaDefault
  cases hfind : ippFindAttribute response "media-default" .IPP_TAG_KEYWORD with
  | none => exact hbefore
  | some attrptr =>
    simp only
    rw [hbefore]
    by_cases hlen : (parse_getMediaSupported value lim response tmp c).2.mediaDefault.length ≤ 0
    · rw [if_pos hlen, if_pos hlen]
    · rw [if_neg hlen, if_neg hlen]
      exact hbefore

theorem parse_getMediaSupported_mediaDefault (value : media_size_enumerator → media_size_t)
    (lim : Limits) (response : ipp_t) (tmp : media_size_t) (c : printer_capabilities_t) :
    (parse_getMediaSupported value lim response tmp c).2.mediaDefault =
      if (parse_getMediaSupported_afterReady value lim response tmp).1.sizes_idx > 0 then
        strlcpy (mapDFMediaToIPPKeyword value
          ((parse_getMediaSupported_afterReady value lim response tmp).1.media_size.headD 0))
          lim.sizeof_mediaDefault
      else c.mediaDefault := by
  unfold parse_getMediaSupported
  simp only
  repeat' split
  all_goals rfl

/-- With distinct identifiers, the keyword of the identifier of row `n` is the keyword of
row `n`, and a buffer longer than every keyword holds it in full. -/
theorem strlcpy_keyword (value : media_size_enumerator → media_size_t)
    (hinj : Function.Injective value) (size : Nat) (hsize : 22 < size) (n : Nat)
    (hn : n < (SupportedMediaSizes value).length) :
    strlcpy (mapDFMediaToIPPKeyword value ((SupportedMediaSizes value).get ⟨n, hn⟩).media_size)
      size = ((SupportedMediaSizes value).get ⟨n, hn⟩).PWGName := by
  have hfind := (nodup_keys_iff_findIdx (fun e : MediaSizeTableElement => e.media_size)
    (SupportedMediaSizes value)).mp (SupportedMediaSizes_ids_nodup value hinj) n hn
  rw [mapDFMediaToIPPKeyword_eq value _ n hn hfind]
  have hlen := SupportedMediaSizes_keyword_length value _ (List.get_mem _ n hn)
  unfold strlcpy
  have h2 : ((SupportedMediaSizes value).get ⟨n, hn⟩).PWGName.data.take (size - 1) =
      ((SupportedMediaSizes value).get ⟨n, hn⟩).PWGName.data := by
    apply List.take_of_length_le
    have : ((SupportedMediaSizes value).get ⟨n, hn⟩).PWGName.length =
      ((SupportedMediaSizes value).get ⟨n, hn⟩).PWGName.data.length := rfl
    omega
  rw [h2]

theorem SupportedMediaSizes_keyword_nonempty (value : media_size_enumerator → media_size_t) :
    ∀ e ∈ SupportedMediaSizes value, 0 < e.PWGName.length := by
  intro e he
  simp only [SupportedMediaSizes, List.mem_cons, List.mem_singleton, List.not_mem_nil,
    or_false] at he
  rcases he with h | h | h | h | h | h | h | h | h | h | h | h | h | h | h | h | h | h | h |
    h | h | h | h | h | h | h | h | h | h <;> subst h <;> dsimp only <;> decide

/-! ## C16: the default medium -/

/-- C16: with distinct identifiers in the table and a buffer `mediaDefault` longer than every
keyword, whenever `media-col-ready` or `media-ready` gave an entry, `mediaDefault` is after
`parse_printerAttributes` the PWG keyword of the row of the first entry, whatever the
capabilities held before and whatever `media-default` says; when they gave no entry,
`mediaDefault` is what it was before, unless that is empty and `media-default` is present,
in which case the first value of `media-default` is copied. -/
theorem C16_media_default (value : media_size_enumerator → media_size_t)
    (hinj : Function.Injective value) (lim : Limits) (hsize : 22 < lim.sizeof_mediaDefault)
    (response : ipp_t) (media_sizeTemp : media_size_t) (capabilities : printer_capabilities_t) :
    (∀ n (hn : n < (SupportedMediaSizes value).length),
      (parse_getMediaSupported_afterReady value lim response
        media_sizeTemp).1.idxKeywordTranTable.head? = some (n : Int) →
      (parse_printerAttributes value lim response media_sizeTemp capabilities).mediaDefault =
        ((SupportedMediaSizes value).get ⟨n, hn⟩).PWGName) ∧
    ((parse_getMediaSupported_afterReady value lim response media_sizeTemp).1.sizes_idx > 0 →
      ∃ n, n < (SupportedMediaSizes value).length ∧
        (parse_getMediaSupported_afterReady value lim response
          media_sizeTemp).1.idxKeywordTranTable.head? = some (n : Int)) ∧
    ((parse_getMediaSupported_afterReady value lim response media_sizeTemp).1.sizes_idx = 0 →
      (parse_printerAttributes value lim response media_sizeTemp capabilities).mediaDefault =
        match ippFindAttribute response "media-default" .IPP_TAG_KEYWORD with
        | some attrptr =>
          if capabilities.mediaDefault.length ≤ 0 then
            strlcpy (ippGetString attrptr 0) lim.sizeof_mediaDefault
          else capabilities.mediaDefault
        | none => capabilities.mediaDefault) := by
  have hk := (parse_getMediaSupported_afterReady_keeps value lim response media_sizeTemp).2
  unfold media_supported_t.consistent at hk
  refine ⟨?_, ?_, ?_⟩
  · intro n hn hhead
    cases hidx : (parse_getMediaSupported_afterReady value lim response
        media_sizeTemp).1.idxKeywordTranTable with
    | nil => rw [hidx] at hhead; exact absurd hhead (by simp)
    | cons i tl =>
      rw [hidx] at hhead hk
      have hi : i = (n : Int) := by simpa using hhead
      obtain ⟨m, ms, ⟨n2, hn2, hin2, hm⟩, _, hms⟩ := List.forall₂_cons_right_iff.mp hk
      have hnn : n2 = n := by
        rw [hi] at hin2
        exact_mod_cast hin2.symm
      subst hnn
      have hpos : (parse_getMediaSupported_afterReady value lim response
          media_sizeTemp).1.sizes_idx > 0 := by
        unfold media_supported_t.sizes_idx
        rw [hidx]
        simp
      have hmd : (parse_getMediaSupported value lim response media_sizeTemp
          capabilities).2.mediaDefault = ((SupportedMediaSizes value).get ⟨n2, hn⟩).PWGName := by
        rw [parse_getMediaSupported_mediaDefault, if_pos hpos, hms]
        simp only [List.headD_cons]
        rw [hm]
        exact strlcpy_keyword value hinj _ hsize n2 hn
      have hne : ¬ ((parse_getMediaSupported value lim response media_sizeTemp
          capabilities).2.mediaDefault.length ≤ 0) := by
        rw [hmd]
        have := SupportedMediaSizes_keyword_nonempty value _ (List.get_mem _ n2 hn)
        omega
      rw [parse_printerAttributes_mediaDefault_eq]
      cases ippFindAttribute response "media-default" .IPP_TAG_KEYWORD with
      | none => exact hmd
      | some attrptr =>
        simp only
        rw [if_neg hne]
        exact hmd
  · intro hpos
    cases hidx : (parse_getMediaSupported_afterReady value lim response
        media_sizeTemp).1.idxKeywordTranTable with
    | nil =>
      unfold media_supported_t.sizes_idx at hpos
      rw [hidx] at hpos
      simp at hpos
    | cons i tl =>
      rw [hidx] at hk
      obtain ⟨m, ms, ⟨n2, hn2, hin2, hm⟩, _, hms⟩ := List.forall₂_cons_right_iff.mp hk
      exact ⟨n2, hn2, by simp [hin2]⟩
  · intro hzero
    have hmd : (parse_getMediaSupported value lim response media_sizeTemp
        capabilities).2.mediaDefault = capabilities.mediaDefault := by
      rw [parse_getMediaSupported_mediaDefault, if_neg (by omega)]
    rw [parse_printerAttributes_mediaDefault_eq, hmd]

/-- C16, instances: `media-ready` names A4 and `media-default` says letter: the default is
the keyword of A4. Without `media-ready` the default is the value of `media-default`. -/
theorem C16_media_default_witness :
    (parse_printerAttributes sampleMediaValue sampleLimits
      (responseOf [keywordAttribute "media-ready" ["iso_a4_210x297mm", "na_legal_8.5x14in"],
        keywordAttribute "media-default" ["na_letter_8.5x11in"]])
      0 freshCapabilities).mediaDefault = "iso_a4_210x297mm" ∧
    (parse_printerAttributes sampleMediaValue sampleLimits
      (responseOf [keywordAttribute "media-default" ["na_letter_8.5x11in"]])
      0 freshCapabilities).mediaDefault = "na_letter_8.5x11in" :=
  ⟨((C16_media_default sampleMediaValue sampleMediaValue_injective sampleLimits (by decide)
      (responseOf [keywordAttribute "media-ready" ["iso_a4_210x297mm", "na_legal_8.5x14in"],
        keywordAttribute "media-default" ["na_letter_8.5x11in"]])
      0 freshCapabilities).1 5 (by decide) (by decide)).trans (by decide),
   ((C16_media_default sampleMediaValue sampleMediaValue_injective sampleLimits (by decide)
      (responseOf [keywordAttribute "media-default" ["na_letter_8.5x11in"]])
      0 freshCapabilities).2.2 (by decide)).trans (by decide)⟩

/-- C15, instance: `media-ready` names A4 and `media-supported` names letter and legal; no
row is named twice, and the list 5, 0, 1 has no repetition. -/
theorem C15_media_supported_appended_witness :
    (parse_getMediaSupported sampleMediaValue sampleLimits
      (responseOf [keywordAttribute "media-ready" ["iso_a4_210x297mm"],
        keywordAttribute "media-supported" ["na_letter_8.5x11in", "na_legal_8.5x14in"]])
      0 freshCapabilities).1.idxKeywordTranTable.Nodup ∧
    (parse_getMediaSupported sampleMediaValue sampleLimits
      (responseOf [keywordAttribute "media-ready" ["iso_a4_210x297mm"],
        keywordAttribute "media-supported" ["na_letter_8.5x11in", "na_legal_8.5x14in"]])
      0 freshCapabilities).1.idxKeywordTranTable = [5, 0, 1] :=
  ⟨(C15_media_supported_appended sampleMediaValue sampleLimits
      (responseOf [keywordAttribute "media-ready" ["iso_a4_210x297mm"],
        keywordAttribute "media-supported" ["na_letter_8.5x11in", "na_legal_8.5x14in"]])
      0 freshCapabilities).2.2.1.mpr ⟨by decide, by decide⟩,
   (C15_media_supported_appended sampleMediaValue sampleLimits
      (responseOf [keywordAttribute "media-ready" ["iso_a4_210x297mm"],
        keywordAttribute "media-supported" ["na_letter_8.5x11in", "na_legal_8.5x14in"]])
      0 freshCapabilities).2.1.trans (by decide)⟩

/-! ## The substring search of `strstr` -/

theorem strstr_chars_iff (needle : List Char) :
    ∀ hay : List Char, strstr_chars needle hay = true ↔ needle <:+: hay := by
  intro hay
  induction hay with
  | nil =>
    unfold strstr_chars
    rw [List.isPrefixOf_iff_prefix]
    constructor
    · intro h
      exact h.isInfix
    · intro h
      have : needle = [] := List.infix_nil.mp h
      rw [this]
  | cons c cs ih =>
    unfold strstr_chars
    rw [Bool.or_eq_true, List.isPrefixOf_iff_prefix, ih, List.infix_cons_iff]

/-! ## C21: job state reasons -/

theorem parse_jobStateReasons_code_eq_lookup (text : String) :
    parse_jobStateReasons_code text = lookupExact jobStateReasonTable text := rfl

theorem lookupExact_some {β : Type} (table : List (String × β))
    (hnd : (table.map (fun p => p.1)).Nodup) (text : String) (c : β) :
    lookupExact table text = some c ↔ (text, c) ∈ table := by
  induction table with
  | nil => simp [lookupExact]
  | cons a l ih =>
    obtain ⟨k, v⟩ := a
    rw [List.map_cons, List.nodup_cons] at hnd
    unfold lookupExact
    by_cases h : text = k
    · subst h
      simp only [if_true, Option.some.injEq, List.mem_cons, Prod.mk.injEq, true_and]
      constructor
      · intro hv
        exact Or.inl hv.symm
      · rintro (hv | hmem)
        · exact hv.symm
        · exact absurd (List.mem_map.mpr ⟨(text, c), hmem, rfl⟩) hnd.1
    · simp only [h, if_false, List.mem_cons, Prod.mk.injEq, false_and, false_or]
      exact ih hnd.2

theorem lookupExact_none {β : Type} (table : List (String × β)) (text : String) :
    lookupExact table text = none ↔ text ∉ table.map (fun p => p.1) := by
  induction table with
  | nil => simp [lookupExact]
  | cons a l ih =>
    obtain ⟨k, v⟩ := a
    unfold lookupExact
    by_cases h : text = k
    · simp [h]
    · simp only [h, if_false, List.map_cons, List.mem_cons, false_or]
      exact ih

theorem parse_jobStateReasons_loop :
    ∀ (values : List ipp_value_t) (d : job_state_dyn_t) (k : Nat),
      (values.foldl parse_jobStateReasons_step (d, k)).1.job_state = d.job_state ∧
      ∀ j, (values.foldl parse_jobStateReasons_step (d, k)).1.job_state_reasons j =
        if j < k then d.job_state_reasons j
        else ((recordedJobReasons values)[j - k]?).getD (d.job_state_reasons j) := by
  intro values
  induction values with
  | nil =>
    intro d k
    simp [recordedJobReasons]
  | cons x xs ih =>
    intro d k
    rw [List.foldl_cons]
    cases hx : parse_jobStateReasons_code x.text with
    | none =>
      have hstep : parse_jobStateReasons_step (d, k) x = (d, k) := by
        unfold parse_jobStateReasons_step
        rw [hx]
      have hrec : recordedJobReasons (x :: xs) = recordedJobReasons xs := by
        unfold recordedJobReasons
        rw [List.filterMap_cons, hx]
      rw [hstep, hrec]
      exact ih d k
    | some code =>
      have hstep : parse_jobStateReasons_step (d, k) x =
          (job_state_dyn_t.mk d.job_state (Function.update d.job_state_reasons k code),
            k + 1) := by
        unfold parse_jobStateReasons_step
        rw [hx]
      have hrec : recordedJobReasons (x :: xs) = code :: recordedJobReasons xs := by
        unfold recordedJobReasons
        rw [List.filterMap_cons, hx]
      rw [hstep, hrec]
      obtain ⟨h2, h3⟩ := ih (job_state_dyn_t.mk d.job_state
        (Function.update d.job_state_reasons k code)) (k + 1)
      refine ⟨?_, ?_⟩
      · rw [h2]
      · intro j
        rw [h3 j]
        by_cases hjk : j < k
        · have : j < k + 1 := by omega
          simp only [this, hjk, if_true]
          rw [Function.update_noteq (by omega)]
        · by_cases hje : j = k
          · subst hje
            simp
          · have h4 : ¬ j < k + 1 := by omega
            have h5 : j - k = (j - (k + 1)) + 1 := by omega
            simp only [h4, hjk, if_false]
            rw [h5, List.getElem?_cons_succ, Function.update_noteq hje]

theorem jobStateReasonTable_keys_nodup :
    (jobStateReasonTable.map (fun p => p.1)).Nodup := by
  simp only [jobStateReasonTable, List.map]
  decide

theorem jobStateReasonTable_no_infix :
    ∀ k ∈ jobStateReasonTable.map (fun p => p.1),
      ∀ k2 ∈ jobStateReasonTable.map (fun p => p.1), strstr k2 k = true → k = k2 := by
  simp only [jobStateReasonTable, List.map]
  decide

theorem parse_jobStateReasons_reasons (response : ipp_t) (d : job_state_dyn_t)
    (attr : ipp_attribute_t)
    (hattr : ippFindAttribute response "job-state-reasons" .IPP_TAG_KEYWORD = some attr)
    (j : Nat) :
    (parse_jobStateReasons (some response) d).job_state_reasons j =
      ((recordedJobReasons attr.values)[j]?).getD (d.job_state_reasons j) ∧
    (parse_jobStateReasons (some response) d).job_state = d.job_state := by
  unfold parse_jobStateReasons
  simp only [Option.some_bind, hattr]
  have := parse_jobStateReasons_loop attr.values d 0
  exact ⟨by simpa using this.2 j, this.1⟩

/-- C21: the chain of `parse_jobStateReasons` is the exact lookup in a table of eighteen
keywords, which are pairwise distinct and have pairwise distinct codes: a value gets the
code `c` exactly when the table holds the pair of the value and `c`, and a keyword of the
table with anything before or after it gets no code. When `job-state-reasons` is present,
entry `j` of the array is afterwards the `j`-th code so obtained, in the order of the
values, the other entries and `job_state` are as before, and the array does not depend on
the job state held by the struct. -/
theorem C21_job_state_reasons :
    (∀ text, parse_jobStateReasons_code text = lookupExact jobStateReasonTable text) ∧
    jobStateReasonTable.length = 18 ∧
    (jobStateReasonTable.map (fun p => p.1)).Nodup ∧
    (jobStateReasonTable.map (fun p => p.2)).Nodup ∧
    (∀ text c, parse_jobStateReasons_code text = some c ↔ (text, c) ∈ jobStateReasonTable) ∧
    (∀ text, parse_jobStateReasons_code text = none ↔
      text ∉ jobStateReasonTable.map (fun p => p.1)) ∧
    (∀ k ∈ jobStateReasonTable.map (fun p => p.1), ∀ before after : String,
      parse_jobStateReasons_code (before ++ k ++ after) ≠ none → before = "" ∧ after = "") ∧
    (∀ (response : ipp_t) (d : job_state_dyn_t) (attr : ipp_attribute_t),
      ippFindAttribute response "job-state-reasons" .IPP_TAG_KEYWORD = some attr →
      (∀ j, (parse_jobStateReasons (some response) d).job_state_reasons j =
        ((recordedJobReasons attr.values)[j]?).getD (d.job_state_reasons j)) ∧
      (parse_jobStateReasons (some response) d).job_state = d.job_state) ∧
    (∀ (response : Option ipp_t) (d : job_state_dyn_t) (job_state : ipp_job_state_t),
      (parse_jobStateReasons response { d with job_state := job_state }).job_state_reasons =
        (parse_jobStateReasons response d).job_state_reasons) := by
  refine ⟨fun _ => rfl, rfl, jobStateReasonTable_keys_nodup, ?_, ?_, ?_, ?_, ?_, ?_⟩
  · simp only [jobStateReasonTable, List.map]
    decide
  · intro text c
    rw [parse_jobStateReasons_code_eq_lookup]
    exact lookupExact_some _ jobStateReasonTable_keys_nodup text c
  · intro text
    rw [parse_jobStateReasons_code_eq_lookup]
    exact lookupExact_none _ text
  · intro k hk before after hne
    have hmem : before ++ k ++ after ∈ jobStateReasonTable.map (fun p => p.1) := by
      by_contra hc
      apply hne
      rw [parse_jobStateReasons_code_eq_lookup]
      exact (lookupExact_none _ _).mpr hc
    have hinfix : strstr (before ++ k ++ after) k = true := by
      unfold strstr
      rw [strstr_chars_iff]
      exact ⟨before.data, after.data, by simp [String.data_append]⟩
    have heq := jobStateReasonTable_no_infix k hk _ hmem hinfix
    have hlen : (before ++ k ++ after).data.length = k.data.length := by
      rw [← heq]
    simp only [String.data_append, List.length_append] at hlen
    have hb : before.data = [] := List.length_eq_zero.mp (by omega)
    have ha : after.data = [] := List.length_eq_zero.mp (by omega)
    exact ⟨String.ext hb, String.ext ha⟩
  · intro response d attr hattr
    exact ⟨fun j => (parse_jobStateReasons_reasons response d attr hattr j).1,
      (parse_jobStateReasons_reasons response d attr hattr 0).2⟩
  · intro response d job_state
    funext j
    cases response with
    | none => rfl
    | some r =>
      cases hattr : ippFindAttribute r "job-state-reasons" .IPP_TAG_KEYWORD with
      | none =>
        unfold parse_jobStateReasons
        simp only [Option.some_bind, hattr]
      | some attr =>
        rw [(parse_jobStateReasons_reasons r _ attr hattr j).1,
          (parse_jobStateReasons_reasons r d attr hattr j).1]

/-- C21, instance: the values `aborted-by-system`, `aborted-by-system-error`, `paused`,
`account-closed` give the two codes of the first and the last value at entries 0 and 1, and
entry 2 is left as it was. -/
theorem C21_job_state_reasons_witness :
    (parse_jobStateReasons
      (some (responseOf [keywordAttribute "job-state-reasons"
        ["aborted-by-system", "aborted-by-system-error", "paused", "account-closed"]]))
      sampleJobStateDyn).job_state_reasons 0 = .IPP_JOB_STATE_REASON_ABORTED_BY_SYSTEM ∧
    (parse_jobStateReasons
      (some (responseOf [keywordAttribute "job-state-reasons"
        ["aborted-by-system", "aborted-by-system-error", "paused", "account-closed"]]))
      sampleJobStateDyn).job_state_reasons 1 = .IPP_JOB_STATE_REASON_ACCOUNT_CLOSED ∧
    (parse_jobStateReasons
      (some (responseOf [keywordAttribute "job-state-reasons"
        ["aborted-by-system", "aborted-by-system-error", "paused", "account-closed"]]))
      sampleJobStateDyn).job_state_reasons 2 = .IPP_JOB_STATE_REASON_UNABLE_TO_CONNECT :=
  have h := (C21_job_state_reasons.2.2.2.2.2.2.2.1
    (responseOf [keywordAttribute "job-state-reasons"
      ["aborted-by-system", "aborted-by-system-error", "paused", "account-closed"]])
    sampleJobStateDyn
    (keywordAttribute "job-state-reasons"
      ["aborted-by-system", "aborted-by-system-error", "paused", "account-closed"])
    (by decide)).1
  ⟨(h 0).trans (by decide), (h 1).trans (by decide), (h 2).trans (by decide)⟩

/-! ## C22: supported resolutions -/

theorem get_supportedPrinterResolutions_fold (lim : Limits) :
    ∀ (values : List ipp_value_t) (stored : List Int),
      values.foldl (fun (stored : List Int) (x : ipp_value_t) =>
        if x.res.2.2 = IPP_RES_PER_INCH then
          if stored.length < lim.MAX_RESOLUTIONS_SUPPORTED ∧ x.res.1 = x.res.2.1 then
            stored ++ [x.res.1]
          else stored
        else stored) stored =
      stored ++ ((values.filter (fun x =>
        decide (x.res.2.2 = IPP_RES_PER_INCH ∧ x.res.1 = x.res.2.1))).map
          (fun x => x.res.1)).take (lim.MAX_RESOLUTIONS_SUPPORTED - stored.length) := by
  intro values
  induction values with
  | nil => intro stored; simp
  | cons x xs ih =>
    intro stored
    rw [List.foldl_cons]
    by_cases hm : x.res.2.2 = IPP_RES_PER_INCH ∧ x.res.1 = x.res.2.1
    · rw [List.filter_cons_of_pos (by simpa using hm), List.map_cons]
      by_cases hlen : stored.length < lim.MAX_RESOLUTIONS_SUPPORTED
      · simp only [hm.1, hm.2, hlen, and_self, if_true]
        rw [ih]
        have h1 : lim.MAX_RESOLUTIONS_SUPPORTED - stored.length =
            (lim.MAX_RESOLUTIONS_SUPPORTED - (stored ++ [x.res.2.1]).length) + 1 := by
          rw [List.length_append, List.length_singleton]
          omega
        rw [h1, List.take_succ_cons]
        simp
      · simp only [hm.1, hm.2, hlen, false_and, if_true, if_false]
        rw [ih]
        have h1 : lim.MAX_RESOLUTIONS_SUPPORTED - stored.length = 0 := by omega
        rw [h1, List.take_zero, List.take_zero]
    · rw [List.filter_cons_of_neg (by simpa using hm)]
      have hstep : (if x.res.2.2 = IPP_RES_PER_INCH then
          if stored.length < lim.MAX_RESOLUTIONS_SUPPORTED ∧ x.res.1 = x.res.2.1 then
            stored ++ [x.res.1]
          else stored
        else stored) = stored := by
        by_cases hu : x.res.2.2 = IPP_RES_PER_INCH
        · have hxy : ¬ x.res.1 = x.res.2.1 := fun h => hm ⟨hu, h⟩
          simp only [hu, hxy, and_false, if_true, if_false]
        · simp only [hu, if_false]
      rw [hstep]
      exact ih stored

/-- C22: `get_supportedPrinterResolutions` stores the x-values of the values of the
attribute whose unit is per-inch and whose x equals y, in the order of the values, cut after
`MAX_RESOLUTIONS_SUPPORTED` of them; `numSupportedResolutions` is their number; values in
another unit or with x different from y, and values that are no resolution, are left out. -/
theorem C22_supported_resolutions (lim : Limits) (attrptr : ipp_attribute_t)
    (capabilities : printer_capabilities_t) :
    (get_supportedPrinterResolutions lim attrptr capabilities).supportedResolutions =
      ((attrptr.values.filter (fun x =>
        decide (x.res.2.2 = IPP_RES_PER_INCH ∧ x.res.1 = x.res.2.1))).map
          (fun x => x.res.1)).take lim.MAX_RESOLUTIONS_SUPPORTED ∧
    (get_supportedPrinterResolutions lim attrptr capabilities).supportedResolutions.length =
      min lim.MAX_RESOLUTIONS_SUPPORTED
        (attrptr.values.filter (fun x =>
          decide (x.res.2.2 = IPP_RES_PER_INCH ∧ x.res.1 = x.res.2.1))).length ∧
    get_supportedPrinterResolutions lim attrptr capabilities =
      { capabilities with
        supportedResolutions :=
          (get_supportedPrinterResolutions lim attrptr capabilities).supportedResolutions } := by
  have h : (get_supportedPrinterResolutions lim attrptr capabilities).supportedResolutions =
      ((attrptr.values.filter (fun x =>
        decide (x.res.2.2 = IPP_RES_PER_INCH ∧ x.res.1 = x.res.2.1))).map
          (fun x => x.res.1)).take lim.MAX_RESOLUTIONS_SUPPORTED := by
    unfold get_supportedPrinterResolutions
    simp only
    rw [get_supportedPrinterResolutions_fold]
    simp
  refine ⟨h, ?_, rfl⟩
  rw [h, List.length_take, List.length_map]

/-! ## C30: `addMediaType` -/

/-- C30: `addMediaType` leaves a list without repetition of at most
`MAX_MEDIA_TYPES_SUPPORTED` types such a list; a type that is in the list, or any type when
the list holds `MAX_MEDIA_TYPES_SUPPORTED` types or more, changes nothing; otherwise the
type is appended at the end, the count growing by one. No other field is written. -/
theorem C30_addMediaType (lim : Limits) (capabilities : printer_capabilities_t)
    (mediaType : media_type_t) :
    (capabilities.supportedMediaTypes.Nodup →
      capabilities.supportedMediaTypes.length ≤ lim.MAX_MEDIA_TYPES_SUPPORTED →
      (addMediaType lim capabilities mediaType).supportedMediaTypes.Nodup ∧
      (addMediaType lim capabilities mediaType).supportedMediaTypes.length ≤
        lim.MAX_MEDIA_TYPES_SUPPORTED) ∧
    (mediaType ∈ capabilities.supportedMediaTypes →
      addMediaType lim capabilities mediaType = capabilities) ∧
    (lim.MAX_MEDIA_TYPES_SUPPORTED ≤ capabilities.supportedMediaTypes.length →
      addMediaType lim capabilities mediaType = capabilities) ∧
    (mediaType ∉ capabilities.supportedMediaTypes →
      capabilities.supportedMediaTypes.length < lim.MAX_MEDIA_TYPES_SUPPORTED →
      addMediaType lim capabilities mediaType =
        { capabilities with
          supportedMediaTypes := capabilities.supportedMediaTypes ++ [mediaType] } ∧
      (addMediaType lim capabilities mediaType).supportedMediaTypes.length =
        capabilities.supportedMediaTypes.length + 1) := by
  have hany : capabilities.supportedMediaTypes.any (fun x => x == mediaType) = true ↔
      mediaType ∈ capabilities.supportedMediaTypes := by
    rw [List.any_eq_true]
    constructor
    · rintro ⟨x, hx, hxe⟩
      rw [beq_iff_eq] at hxe
      exact hxe ▸ hx
    · intro h
      exact ⟨mediaType, h, by simp⟩
  have hin : mediaType ∈ capabilities.supportedMediaTypes →
      addMediaType lim capabilities mediaType = capabilities := by
    intro h
    unfold addMediaType
    rw [if_pos (hany.mpr h)]
  have hfull : lim.MAX_MEDIA_TYPES_SUPPORTED ≤ capabilities.supportedMediaTypes.length →
      addMediaType lim capabilities mediaType = capabilities := by
    intro h
    unfold addMediaType
    split
    · rfl
    · rw [if_neg (by omega)]
  have hnew : mediaType ∉ capabilities.supportedMediaTypes →
      capabilities.supportedMediaTypes.length < lim.MAX_MEDIA_TYPES_SUPPORTED →
      addMediaType lim capabilities mediaType =
        { capabilities with
          supportedMediaTypes := capabilities.supportedMediaTypes ++ [mediaType] } := by
    intro h hlen
    unfold addMediaType
    rw [if_neg (fun hc => h (hany.mp hc)), if_pos hlen]
  refine ⟨?_, hin, hfull, ?_⟩
  · intro hnd hle
    by_cases h : mediaType ∈ capabilities.supportedMediaTypes
    · rw [hin h]
      exact ⟨hnd, hle⟩
    · by_cases hlen : capabilities.supportedMediaTypes.length < lim.MAX_MEDIA_TYPES_SUPPORTED
      · rw [hnew h hlen]
        simp only [List.length_append, List.length_singleton]
        refine ⟨?_, by omega⟩
        rw [List.nodup_append]
        refine ⟨hnd, List.nodup_singleton _, ?_⟩
        intro x hx hx2
        rw [List.mem_singleton] at hx2
        exact h (hx2 ▸ hx)
      · rw [hfull (by omega)]
        exact ⟨hnd, hle⟩
  · intro h hlen
    refine ⟨hnew h hlen, ?_⟩
    rw [hnew h hlen]
    simp

/-- C30, instance: adding `MEDIA_PHOTO` to the list plain, photo changes nothing; adding
`MEDIA_AUTO` appends it. -/
theorem C30_addMediaType_witness :
    addMediaType sampleLimits
        { freshCapabilities with supportedMediaTypes := [.MEDIA_PLAIN, .MEDIA_PHOTO] }
        .MEDIA_PHOTO =
      { freshCapabilities with supportedMediaTypes := [.MEDIA_PLAIN, .MEDIA_PHOTO] } ∧
    (addMediaType sampleLimits
        { freshCapabilities with supportedMediaTypes := [.MEDIA_PLAIN, .MEDIA_PHOTO] }
        .MEDIA_AUTO).supportedMediaTypes = [.MEDIA_PLAIN, .MEDIA_PHOTO, .MEDIA_AUTO] :=
  ⟨(C30_addMediaType sampleLimits
      { freshCapabilities with supportedMediaTypes := [.MEDIA_PLAIN, .MEDIA_PHOTO] }
      .MEDIA_PHOTO).2.1 (by decide),
   congrArg (fun c => c.supportedMediaTypes)
     ((C30_addMediaType sampleLimits
      { freshCapabilities with supportedMediaTypes := [.MEDIA_PLAIN, .MEDIA_PHOTO] }
      .MEDIA_AUTO).2.2.2 (by decide) (by decide)).1⟩

/-! ## Lemmas on `parse_printerAttributes`: each block writes its own fields only -/

theorem foldl_keeps {α β : Type} (π : printer_capabilities_t → β)
    (f : printer_capabilities_t → α → printer_capabilities_t) (l : List α)
    (c : printer_capabilities_t) (d : β)
    (h : ∀ c x, π (f c x) = π c) (hc : π c = d) : π (l.foldl f c) = d := by
  induction l generalizing c with
  | nil => exact hc
  | cons x xs ih =>
    rw [List.foldl_cons]
    exact ih _ ((h c x).trans hc)

theorem addMediaType_frame (lim : Limits) (c : printer_capabilities_t) (m : media_type_t) :
    parse_printerAttributes_mediaTypes_frame (addMediaType lim c m) =
      parse_printerAttributes_mediaTypes_frame c := by
  unfold addMediaType
  repeat' split
  all_goals rfl

theorem parse_printerUris_frame_eq (lim : Limits) (response : ipp_t) (c : printer_capabilities_t) :
    parse_printerUris_frame (parse_printerUris lim response c) = parse_printerUris_frame c := by
  unfold parse_printerUris
  apply foldl_keeps parse_printerUris_frame
  · intro c x
    dsimp only
    split <;> rfl
  · rfl

theorem parse_printerAttributes_mediaSizes_frame_eq (lim : Limits)
    (media_supported : media_supported_t)
    (c : printer_capabilities_t) :
    parse_printerAttributes_mediaSizes_frame
        (parse_printerAttributes_mediaSizes lim media_supported c) =
      parse_printerAttributes_mediaSizes_frame c := by
  rfl

theorem parse_printerAttributes_identity_frame_eq (lim : Limits) (response : ipp_t)
    (c : printer_capabilities_t) :
    parse_printerAttributes_identity_frame (parse_printerAttributes_identity lim response c) =
      parse_printerAttributes_identity_frame c := by
  unfold parse_printerAttributes_identity
  simp only
  repeat' split
  all_goals rfl

theorem parse_printerAttributes_mediaDefault_frame_eq (lim : Limits) (response : ipp_t)
    (c : printer_capabilities_t) :
    parse_printerAttributes_mediaDefault_frame
        (parse_printerAttributes_mediaDefault lim response c) =
      parse_printerAttributes_mediaDefault_frame c := by
  unfold parse_printerAttributes_mediaDefault
  repeat' split
  all_goals rfl

theorem parse_printerAttributes_colorCopies_frame_eq (lim : Limits) (response : ipp_t)
    (c : printer_capabilities_t) :
    parse_printerAttributes_colorCopies_frame (parse_printerAttributes_colorCopies lim response c) =
      parse_printerAttributes_colorCopies_frame c := by
  unfold parse_printerAttributes_colorCopies
  simp only
  repeat' first
    | rfl
    | (apply foldl_keeps parse_printerAttributes_colorCopies_frame
       · intro c x
         dsimp only
         repeat' split
         all_goals rfl)
    | split

theorem parse_printerAttributes_formats_frame_eq (lim : Limits) (response : ipp_t)
    (c : printer_capabilities_t) :
    parse_printerAttributes_formats_frame (parse_printerAttributes_formats lim response c) =
      parse_printerAttributes_formats_frame c := by
  unfold parse_printerAttributes_formats
  simp only
  repeat' first
    | rfl
    | (apply foldl_keeps parse_printerAttributes_formats_frame
       · intro c x
         dsimp only
         repeat' split
         all_goals rfl)
    | split

theorem parse_printerAttributes_mediaTypes_frame_eq (lim : Limits) (response : ipp_t)
    (c : printer_capabilities_t) :
    parse_printerAttributes_mediaTypes_frame (parse_printerAttributes_mediaTypes lim response c) =
      parse_printerAttributes_mediaTypes_frame c := by
  unfold parse_printerAttributes_mediaTypes
  simp only
  repeat' first
    | rfl
    | rw [addMediaType_frame]
    | (apply foldl_keeps parse_printerAttributes_mediaTypes_frame
       · intro c x
         dsimp only
         repeat' split
         all_goals first | rfl | rw [addMediaType_frame])
    | split

theorem parse_printerAttributes_resolutions_frame_eq (lim : Limits) (response : ipp_t)
    (c : printer_capabilities_t) :
    parse_printerAttributes_resolutions_frame (parse_printerAttributes_resolutions lim response c) =
      parse_printerAttributes_resolutions_frame c := by
  unfold parse_printerAttributes_resolutions get_supportedPrinterResolutions
  simp only
  repeat' split
  all_goals rfl

theorem parse_printerAttributes_versions_frame_eq (response : ipp_t) (c : printer_capabilities_t) :
    parse_printerAttributes_versions_frame (parse_printerAttributes_versions response c) =
      parse_printerAttributes_versions_frame c := by
  have hpair : ∀ (l : List ipp_value_t) (acc : ipp_version_supported_t × printer_capabilities_t),
      parse_printerAttributes_versions_frame (l.foldl
        (fun (acc : ipp_version_supported_t × printer_capabilities_t) (x : ipp_value_t) =>
          let v := parse_IPPVersions_step acc.1 x
          (v,
            if v.supportsIpp20 then { acc.2 with ippVersionMajor := 2, ippVersionMinor := 0 }
            else if v.supportsIpp11 then
              { acc.2 with ippVersionMajor := 1, ippVersionMinor := 1 }
            else { acc.2 with ippVersionMajor := 1, ippVersionMinor := 0 }))
        acc).2 = parse_printerAttributes_versions_frame acc.2 := by
    intro l
    induction l with
    | nil => intro acc; rfl
    | cons x xs ih =>
      intro acc
      rw [List.foldl_cons, ih]
      dsimp only
      repeat' split
      all_goals rfl
  unfold parse_printerAttributes_versions
  simp only
  repeat' first
    | rfl
    | rw [hpair]
    | (apply foldl_keeps parse_printerAttributes_versions_frame
       · intro c x
         dsimp only
         repeat' split
         all_goals rfl)
    | split

theorem parse_printerAttributes_margins_frame_eq (response : ipp_t) (c : printer_capabilities_t) :
    parse_printerAttributes_margins_frame (parse_printerAttributes_margins response c) =
      parse_printerAttributes_margins_frame c := by
  unfold parse_printerAttributes_margins
  repeat' first
    | rfl
    | (apply foldl_keeps parse_printerAttributes_margins_frame
       · intro c x
         dsimp only
         repeat' split
         all_goals rfl)
    | split

theorem parse_printerAttributes_strip_frame_eq (lim : Limits) (response : ipp_t)
    (c : printer_capabilities_t) :
    parse_printerAttributes_strip_frame (parse_printerAttributes_strip lim response c) =
      parse_printerAttributes_strip_frame c := by
  unfold parse_printerAttributes_strip
  simp only
  repeat' split
  all_goals rfl

theorem parse_printerAttributes_trays_frame_eq (response : ipp_t) (c : printer_capabilities_t) :
    parse_printerAttributes_trays_frame (parse_printerAttributes_trays response c) =
      parse_printerAttributes_trays_frame c := by
  unfold parse_printerAttributes_trays
  simp only
  repeat' first
    | rfl
    | (apply foldl_keeps parse_printerAttributes_trays_frame
       · intro c x
         dsimp only
         repeat' split
         all_goals rfl)
    | split

theorem parse_getMediaSupported_frame_eq (value : media_size_enumerator → media_size_t)
    (lim : Limits) (response : ipp_t) (tmp : media_size_t) (c : printer_capabilities_t) :
    parse_printerAttributes_mediaDefault_frame
        (parse_getMediaSupported value lim response tmp c).2 =
      parse_printerAttributes_mediaDefault_frame c := by
  unfold parse_getMediaSupported
  simp only
  repeat' split
  all_goals rfl

/-! ## Lemmas on `parse_printerAttributes`: the blocks that keep a given field -/

theorem parse_getMediaSupported_canCopy (value : media_size_enumerator → media_size_t)
    (lim : Limits) (response : ipp_t) (tmp : media_size_t) (c : printer_capabilities_t) :
    (parse_getMediaSupported value lim response tmp c).2.canCopy = c.canCopy :=
  congrArg (fun x => x.canCopy) (parse_getMediaSupported_frame_eq value lim response tmp c)

theorem parse_printerUris_canCopy (lim : Limits) (response : ipp_t)
    (c : printer_capabilities_t) :
    (parse_printerUris lim response c).canCopy = c.canCopy :=
  congrArg (fun x => x.canCopy) (parse_printerUris_frame_eq lim response c)

theorem parse_printerAttributes_mediaSizes_canCopy (lim : Limits) (media_supported : media_supported_t)
    (c : printer_capabilities_t) :
    (parse_printerAttributes_mediaSizes lim media_supported c).canCopy = c.canCopy :=
  congrArg (fun x => x.canCopy) (parse_printerAttributes_mediaSizes_frame_eq lim media_supported c)

theorem parse_printerAttributes_identity_canCopy (lim : Limits) (response : ipp_t)
    (c : printer_capabilities_t) :
    (parse_printerAttributes_identity lim response c).canCopy = c.canCopy :=
  congrArg (fun x => x.canCopy) (parse_printerAttributes_identity_frame_eq lim response c)

theorem parse_printerAttributes_mediaDefault_canCopy (lim : Limits) (response : ipp_t)
    (c : printer_capabilities_t) :
    (parse_printerAttributes_mediaDefault lim response c).canCopy = c.canCopy :=
  congrArg (fun x => x.canCopy) (parse_printerAttributes_mediaDefault_frame_eq lim response c)

theorem parse_printerAttributes_formats_canCopy (lim : Limits) (response : ipp_t)
    (c : printer_capabilities_t) :
    (parse_printerAttributes_formats lim response c).canCopy = c.canCopy :=
  congrArg (fun x => x.canCopy) (parse_printerAttributes_formats_frame_eq lim response c)

theorem parse_printerAttributes_mediaTypes_canCopy (lim : Limits) (response : ipp_t)
    (c : printer_capabilities_t) :
    (parse_printerAttributes_mediaTypes lim response c).canCopy = c.canCopy :=
  congrArg (fun x => x.canCopy) (parse_printerAttributes_mediaTypes_frame_eq lim response c)

theorem parse_printerAttributes_resolutions_canCopy (lim : Limits) (response : ipp_t)
    (c : printer_capabilities_t) :
    (parse_printerAttributes_resolutions lim response c).canCopy = c.canCopy :=
  congrArg (fun x => x.canCopy) (parse_printerAttributes_resolutions_frame_eq lim response c)

theorem parse_printerAttributes_versions_canCopy (response : ipp_t)
    (c : printer_capabilities_t) :
    (parse_printerAttributes_versions response c).canCopy = c.canCopy :=
  congrArg (fun x => x.canCopy) (parse_printerAttributes_versions_frame_eq response c)

theorem parse_printerAttributes_margins_canCopy (response : ipp_t)
    (c : printer_capabilities_t) :
    (parse_printerAttributes_margins response c).canCopy = c.canCopy :=
  congrArg (fun x => x.canCopy) (parse_printerAttributes_margins_frame_eq response c)

theorem parse_printerAttributes_strip_canCopy (lim : Limits) (response : ipp_t)
    (c : printer_capabilities_t) :
    (parse_printerAttributes_strip lim response c).canCopy = c.canCopy :=
  congrArg (fun x => x.canCopy) (parse_printerAttributes_strip_frame_eq lim response c)

theorem parse_printerAttributes_trays_canCopy (response : ipp_t)
    (c : printer_capabilities_t) :
    (parse_printerAttributes_trays response c).canCopy = c.canCopy :=
  congrArg (fun x => x.canCopy) (parse_printerAttributes_trays_frame_eq response c)

theorem parse_getMediaSupported_canPrintPDF (value : media_size_enumerator → media_size_t)
    (lim : Limits) (response : ipp_t) (tmp : media_size_t) (c : printer_capabilities_t) :
    (parse_getMediaSupported value lim response tmp c).2.canPrintPDF = c.canPrintPDF :=
  congrArg (fun x => x.canPrintPDF) (parse_getMediaSupported_frame_eq value lim response tmp c)

theorem parse_printerUris_canPrintPDF (lim : Limits) (response : ipp_t)
    (c : printer_capabilities_t) :
    (parse_printerUris lim response c).canPrintPDF = c.canPrintPDF :=
  congrArg (fun x => x.canPrintPDF) (parse_printerUris_frame_eq lim response c)

theorem parse_printerAttributes_mediaSizes_canPrintPDF (lim : Limits) (media_supported : media_supported_t)
    (c : printer_capabilities_t) :
    (parse_printerAttributes_mediaSizes lim media_supported c).canPrintPDF = c.canPrintPDF :=
  congrArg (fun x => x.canPrintPDF) (parse_printerAttributes_mediaSizes_frame_eq lim media_supported c)

theorem parse_printerAttributes_identity_canPrintPDF (lim : Limits) (response : ipp_t)
    (c : printer_capabilities_t) :
    (parse_printerAttributes_identity lim response c).canPrintPDF = c.canPrintPDF :=
  congrArg (fun x => x.canPrintPDF) (parse_printerAttributes_identity_frame_eq lim response c)

theorem parse_printerAttributes_mediaDefault_canPrintPDF (lim : Limits) (response : ipp_t)
    (c : printer_capabilities_t) :
    (parse_printerAttributes_mediaDefault lim response c).canPrintPDF = c.canPrintPDF :=
  congrArg (fun x => x.canPrintPDF) (parse_printerAttributes_mediaDefault_frame_eq lim response c)

theorem parse_printerAttributes_colorCopies_canPrintPDF (lim : Limits) (response : ipp_t)
    (c : printer_capabilities_t) :
    (parse_printerAttributes_colorCopies lim response c).canPrintPDF = c.canPrintPDF :=
  congrArg (fun x => x.canPrintPDF) (parse_printerAttributes_colorCopies_frame_eq lim response c)

theorem parse_printerAttributes_mediaTypes_canPrintPDF (lim : Limits) (response : ipp_t)
    (c : printer_capabilities_t) :
    (parse_printerAttributes_mediaTypes lim response c).canPrintPDF = c.canPrintPDF :=
  congrArg (fun x => x.canPrintPDF) (parse_printerAttributes_mediaTypes_frame_eq lim response c)

theorem parse_printerAttributes_resolutions_canPrintPDF (lim : Limits) (response : ipp_t)
    (c : printer_capabilities_t) :
    (parse_printerAttributes_resolutions lim response c).canPrintPDF = c.canPrintPDF :=
  congrArg (fun x => x.canPrintPDF) (parse_printerAttributes_resolutions_frame_eq lim response c)

theorem parse_printerAttributes_versions_canPrintPDF (response : ipp_t)
    (c : printer_capabilities_t) :
    (parse_printerAttributes_versions response c).canPrintPDF = c.canPrintPDF :=
  congrArg (fun x => x.canPrintPDF) (parse_printerAttributes_versions_frame_eq response c)

theorem parse_printerAttributes_margins_canPrintPDF (response : ipp_t)
    (c : printer_capabilities_t) :
    (parse_printerAttributes_margins response c).canPrintPDF = c.canPrintPDF :=
  congrArg (fun x => x.canPrintPDF) (parse_printerAttributes_margins_frame_eq response c)

theorem parse_printerAttributes_strip_canPrintPDF (lim : Limits) (response : ipp_t)
    (c : printer_capabilities_t) :
    (parse_printerAttributes_strip lim response c).canPrintPDF = c.canPrintPDF :=
  congrArg (fun x => x.canPrintPDF) (parse_printerAttributes_strip_frame_eq lim response c)

theorem parse_printerAttributes_trays_canPrintPDF (response : ipp_t)
    (c : printer_capabilities_t) :
    (parse_printerAttributes_trays response c).canPrintPDF = c.canPrintPDF :=
  congrArg (fun x => x.canPrintPDF) (parse_printerAttributes_trays_frame_eq response c)

theorem parse_getMediaSupported_canPrintPCLm (value : media_size_enumerator → media_size_t)
    (lim : Limits) (response : ipp_t) (tmp : media_size_t) (c : printer_capabilities_t) :
    (parse_getMediaSupported value lim response tmp c).2.canPrintPCLm = c.canPrintPCLm :=
  congrArg (fun x => x.canPrintPCLm) (parse_getMediaSupported_frame_eq value lim response tmp c)

theorem parse_printerUris_canPrintPCLm (lim : Limits) (response : ipp_t)
    (c : printer_capabilities_t) :
    (parse_printerUris lim response c).canPrintPCLm = c.canPrintPCLm :=
  congrArg (fun x => x.canPrintPCLm) (parse_printerUris_frame_eq lim response c)

theorem parse_printerAttributes_mediaSizes_canPrintPCLm (lim : Limits) (media_supported : media_supported_t)
    (c : printer_capabilities_t) :
    (parse_printerAttributes_mediaSizes lim media_supported c).canPrintPCLm = c.canPrintPCLm :=
  congrArg (fun x => x.canPrintPCLm) (parse_printerAttributes_mediaSizes_frame_eq lim media_supported c)

theorem parse_printerAttributes_identity_canPrintPCLm (lim : Limits) (response : ipp_t)
    (c : printer_capabilities_t) :
    (parse_printerAttributes_identity lim response c).canPrintPCLm = c.canPrintPCLm :=
  congrArg (fun x => x.canPrintPCLm) (parse_printerAttributes_identity_frame_eq lim response c)

theorem parse_printerAttributes_mediaDefault_canPrintPCLm (lim : Limits) (response : ipp_t)
    (c : printer_capabilities_t) :
    (parse_printerAttributes_mediaDefault lim response c).canPrintPCLm = c.canPrintPCLm :=
  congrArg (fun x => x.canPrintPCLm) (parse_printerAttributes_mediaDefault_frame_eq lim response c)

theorem parse_printerAttributes_colorCopies_canPrintPCLm (lim : Limits) (response : ipp_t)
    (c : printer_capabilities_t) :
    (parse_printerAttributes_colorCopies lim response c).canPrintPCLm = c.canPrintPCLm :=
  congrArg (fun x => x.canPrintPCLm) (parse_printerAttributes_colorCopies_frame_eq lim response c)

theorem parse_printerAttributes_mediaTypes_canPrintPCLm (lim : Limits) (response : ipp_t)
    (c : printer_capabilities_t) :
    (parse_printerAttributes_mediaTypes lim response c).canPrintPCLm = c.canPrintPCLm :=
  congrArg (fun x => x.canPrintPCLm) (parse_printerAttributes_mediaTypes_frame_eq lim response c)

theorem parse_printerAttributes_resolutions_canPrintPCLm (lim : Limits) (response : ipp_t)
    (c : printer_capabilities_t) :
    (parse_printerAttributes_resolutions lim response c).canPrintPCLm = c.canPrintPCLm :=
  congrArg (fun x => x.canPrintPCLm) (parse_printerAttributes_resolutions_frame_eq lim response c)

theorem parse_printerAttributes_versions_canPrintPCLm (response : ipp_t)
    (c : printer_capabilities_t) :
    (parse_printerAttributes_versions response c).canPrintPCLm = c.canPrintPCLm :=
  congrArg (fun x => x.canPrintPCLm) (parse_printerAttributes_versions_frame_eq response c)

theorem parse_printerAttributes_margins_canPrintPCLm (response : ipp_t)
    (c : printer_capabilities_t) :
    (parse_printerAttributes_margins response c).canPrintPCLm = c.canPrintPCLm :=
  congrArg (fun x => x.canPrintPCLm) (parse_printerAttributes_margins_frame_eq response c)

theorem parse_printerAttributes_strip_canPrintPCLm (lim : Limits) (response : ipp_t)
    (c : printer_capabilities_t) :
    (parse_printerAttributes_strip lim response c).canPrintPCLm = c.canPrintPCLm :=
  congrArg (fun x => x.canPrintPCLm) (parse_printerAttributes_strip_frame_eq lim response c)

theorem parse_printerAttributes_trays_canPrintPCLm (response : ipp_t)
    (c : printer_capabilities_t) :
    (parse_printerAttributes_trays response c).canPrintPCLm = c.canPrintPCLm :=
  congrArg (fun x => x.canPrintPCLm) (parse_printerAttributes_trays_frame_eq response c)

theorem parse_getMediaSupported_canPrintPWG (value : media_size_enumerator → media_size_t)
    (lim : Limits) (response : ipp_t) (tmp : media_size_t) (c : printer_capabilities_t) :
    (parse_getMediaSupported value lim response tmp c).2.canPrintPWG = c.canPrintPWG :=
  congrArg (fun x => x.canPrintPWG) (parse_getMediaSupported_frame_eq value lim response tmp c)

theorem parse_printerUris_canPrintPWG (lim : Limits) (response : ipp_t)
    (c : printer_capabilities_t) :
    (parse_printerUris lim response c).canPrintPWG = c.canPrintPWG :=
  congrArg (fun x => x.canPrintPWG) (parse_printerUris_frame_eq lim response c)

theorem parse_printerAttributes_mediaSizes_canPrintPWG (lim : Limits) (media_supported : media_supported_t)
    (c : printer_capabilities_t) :
    (parse_printerAttributes_mediaSizes lim media_supported c).canPrintPWG = c.canPrintPWG :=
  congrArg (fun x => x.canPrintPWG) (parse_printerAttributes_mediaSizes_frame_eq lim media_supported c)

theorem parse_printerAttributes_identity_canPrintPWG (lim : Limits) (response : ipp_t)
    (c : printer_capabilities_t) :
    (parse_printerAttributes_identity lim response c).canPrintPWG = c.canPrintPWG :=
  congrArg (fun x => x.canPrintPWG) (parse_printerAttributes_identity_frame_eq lim response c)

theorem parse_printerAttributes_mediaDefault_canPrintPWG (lim : Limits) (response : ipp_t)
    (c : printer_capabilities_t) :
    (parse_printerAttributes_mediaDefault lim response c).canPrintPWG = c.canPrintPWG :=
  congrArg (fun x => x.canPrintPWG) (parse_printerAttributes_mediaDefault_frame_eq lim response c)

theorem parse_printerAttributes_colorCopies_canPrintPWG (lim : Limits) (response : ipp_t)
    (c : printer_capabilities_t) :
    (parse_printerAttributes_colorCopies lim response c).canPrintPWG = c.canPrintPWG :=
  congrArg (fun x => x.canPrintPWG) (parse_printerAttributes_colorCopies_frame_eq lim response c)

theorem parse_printerAttributes_mediaTypes_canPrintPWG (lim : Limits) (response : ipp_t)
    (c : printer_capabilities_t) :
    (parse_printerAttributes_mediaTypes lim response c).canPrintPWG = c.canPrintPWG :=
  congrArg (fun x => x.canPrintPWG) (parse_printerAttributes_mediaTypes_frame_eq lim response c)

theorem parse_printerAttributes_resolutions_canPrintPWG (lim : Limits) (response : ipp_t)
    (c : printer_capabilities_t) :
    (parse_printerAttributes_resolutions lim response c).canPrintPWG = c.canPrintPWG :=
  congrArg (fun x => x.canPrintPWG) (parse_printerAttributes_resolutions_frame_eq lim response c)

theorem parse_printerAttributes_versions_canPrintPWG (response : ipp_t)
    (c : printer_capabilities_t) :
    (parse_printerAttributes_versions response c).canPrintPWG = c.canPrintPWG :=
  congrArg (fun x => x.canPrintPWG) (parse_printerAttributes_versions_frame_eq response c)

theorem parse_printerAttributes_margins_canPrintPWG (response : ipp_t)
    (c : printer_capabilities_t) :
    (parse_printerAttributes_margins response c).canPrintPWG = c.canPrintPWG :=
  congrArg (fun x => x.canPrintPWG) (parse_printerAttributes_margins_frame_eq response c)

theorem parse_printerAttributes_strip_canPrintPWG (lim : Limits) (response : ipp_t)
    (c : printer_capabilities_t) :
    (parse_printerAttributes_strip lim response c).canPrintPWG = c.canPrintPWG :=
  congrArg (fun x => x.canPrintPWG) (parse_printerAttributes_strip_frame_eq lim response c)

theorem parse_printerAttributes_trays_canPrintPWG (response : ipp_t)
    (c : printer_capabilities_t) :
    (parse_printerAttributes_trays response c).canPrintPWG = c.canPrintPWG :=
  congrArg (fun x => x.canPrintPWG) (parse_printerAttributes_trays_frame_eq response c)

theorem parse_getMediaSupported_stripHeight (value : media_size_enumerator → media_size_t)
    (lim : Limits) (response : ipp_t) (tmp : media_size_t) (c : printer_capabilities_t) :
    (parse_getMediaSupported value lim response tmp c).2.stripHeight = c.stripHeight :=
  congrArg (fun x => x.stripHeight) (parse_getMediaSupported_frame_eq value lim response tmp c)

theorem parse_printerUris_stripHeight (lim : Limits) (response : ipp_t)
    (c : printer_capabilities_t) :
    (parse_printerUris lim response c).stripHeight = c.stripHeight :=
  congrArg (fun x => x.stripHeight) (parse_printerUris_frame_eq lim response c)

theorem parse_printerAttributes_mediaSizes_stripHeight (lim : Limits) (media_supported : media_supported_t)
    (c : printer_capabilities_t) :
    (parse_printerAttributes_mediaSizes lim media_supported c).stripHeight = c.stripHeight :=
  congrArg (fun x => x.stripHeight) (parse_printerAttributes_mediaSizes_frame_eq lim media_supported c)

theorem parse_printerAttributes_identity_stripHeight (lim : Limits) (response : ipp_t)
    (c : printer_capabilities_t) :
    (parse_printerAttributes_identity lim response c).stripHeight = c.stripHeight :=
  congrArg (fun x => x.stripHeight) (parse_printerAttributes_identity_frame_eq lim response c)

theorem parse_printerAttributes_mediaDefault_stripHeight (lim : Limits) (response : ipp_t)
    (c : printer_capabilities_t) :
    (parse_printerAttributes_mediaDefault lim response c).stripHeight = c.stripHeight :=
  congrArg (fun x => x.stripHeight) (parse_printerAttributes_mediaDefault_frame_eq lim response c)

theorem parse_printerAttributes_colorCopies_stripHeight (lim : Limits) (response : ipp_t)
    (c : printer_capabilities_t) :
    (parse_printerAttributes_colorCopies lim response c).stripHeight = c.stripHeight :=
  congrArg (fun x => x.stripHeight) (parse_printerAttributes_colorCopies_frame_eq lim response c)

theorem parse_printerAttributes_formats_stripHeight (lim : Limits) (response : ipp_t)
    (c : printer_capabilities_t) :
    (parse_printerAttributes_formats lim response c).stripHeight = c.stripHeight :=
  congrArg (fun x => x.stripHeight) (parse_printerAttributes_formats_frame_eq lim response c)

theorem parse_printerAttributes_mediaTypes_stripHeight (lim : Limits) (response : ipp_t)
    (c : printer_capabilities_t) :
    (parse_printerAttributes_mediaTypes lim response c).stripHeight = c.stripHeight :=
  congrArg (fun x => x.stripHeight) (parse_printerAttributes_mediaTypes_frame_eq lim response c)

theorem parse_printerAttributes_resolutions_stripHeight (lim : Limits) (response : ipp_t)
    (c : printer_capabilities_t) :
    (parse_printerAttributes_resolutions lim response c).stripHeight = c.stripHeight :=
  congrArg (fun x => x.stripHeight) (parse_printerAttributes_resolutions_frame_eq lim response c)

theorem parse_printerAttributes_versions_stripHeight (response : ipp_t)
    (c : printer_capabilities_t) :
    (parse_printerAttributes_versions response c).stripHeight = c.stripHeight :=
  congrArg (fun x => x.stripHeight) (parse_printerAttributes_versions_frame_eq response c)

theorem parse_printerAttributes_margins_stripHeight (response : ipp_t)
    (c : printer_capabilities_t) :
    (parse_printerAttributes_margins response c).stripHeight = c.stripHeight :=
  congrArg (fun x => x.stripHeight) (parse_printerAttributes_margins_frame_eq response c)

theorem parse_printerAttributes_trays_stripHeight (response : ipp_t)
    (c : printer_capabilities_t) :
    (parse_printerAttributes_trays response c).stripHeight = c.stripHeight :=
  congrArg (fun x => x.stripHeight) (parse_printerAttributes_trays_frame_eq response c)

theorem parse_getMediaSupported_faceDownTray (value : media_size_enumerator → media_size_t)
    (lim : Limits) (response : ipp_t) (tmp : media_size_t) (c : printer_capabilities_t) :
    (parse_getMediaSupported value lim response tmp c).2.faceDownTray = c.faceDownTray :=
  congrArg (fun x => x.faceDownTray) (parse_getMediaSupported_frame_eq value lim response tmp c)

theorem parse_printerUris_faceDownTray (lim : Limits) (response : ipp_t)
    (c : printer_capabilities_t) :
    (parse_printerUris lim response c).faceDownTray = c.faceDownTray :=
  congrArg (fun x => x.faceDownTray) (parse_printerUris_frame_eq lim response c)

theorem parse_printerAttributes_mediaSizes_faceDownTray (lim : Limits) (media_supported : media_supported_t)
    (c : printer_capabilities_t) :
    (parse_printerAttributes_mediaSizes lim media_supported c).faceDownTray = c.faceDownTray :=
  congrArg (fun x => x.faceDownTray) (parse_printerAttributes_mediaSizes_frame_eq lim media_supported c)

theorem parse_printerAttributes_identity_faceDownTray (lim : Limits) (response : ipp_t)
    (c : printer_capabilities_t) :
    (parse_printerAttributes_identity lim response c).faceDownTray = c.faceDownTray :=
  congrArg (fun x => x.faceDownTray) (parse_printerAttributes_identity_frame_eq lim response c)

theorem parse_printerAttributes_mediaDefault_faceDownTray (lim : Limits) (response : ipp_t)
    (c : printer_capabilities_t) :
    (parse_printerAttributes_mediaDefault lim response c).faceDownTray = c.faceDownTray :=
  congrArg (fun x => x.faceDownTray) (parse_printerAttributes_mediaDefault_frame_eq lim response c)

theorem parse_printerAttributes_colorCopies_faceDownTray (lim : Limits) (response : ipp_t)
    (c : printer_capabilities_t) :
    (parse_printerAttributes_colorCopies lim response c).faceDownTray = c.faceDownTray :=
  congrArg (fun x => x.faceDownTray) (parse_printerAttributes_colorCopies_frame_eq lim response c)

theorem parse_printerAttributes_formats_faceDownTray (lim : Limits) (response : ipp_t)
    (c : printer_capabilities_t) :
    (parse_printerAttributes_formats lim response c).faceDownTray = c.faceDownTray :=
  congrArg (fun x => x.faceDownTray) (parse_printerAttributes_formats_frame_eq lim response c)

theorem parse_printerAttributes_mediaTypes_faceDownTray (lim : Limits) (response : ipp_t)
    (c : printer_capabilities_t) :
    (parse_printerAttributes_mediaTypes lim response c).faceDownTray = c.faceDownTray :=
  congrArg (fun x => x.faceDownTray) (parse_printerAttributes_mediaTypes_frame_eq lim response c)

theorem parse_printerAttributes_resolutions_faceDownTray (lim : Limits) (response : ipp_t)
    (c : printer_capabilities_t) :
    (parse_printerAttributes_resolutions lim response c).faceDownTray = c.faceDownTray :=
  congrArg (fun x => x.faceDownTray) (parse_printerAttributes_resolutions_frame_eq lim response c)

theorem parse_printerAttributes_versions_faceDownTray (response : ipp_t)
    (c : printer_capabilities_t) :
    (parse_printerAttributes_versions response c).faceDownTray = c.faceDownTray :=
  congrArg (fun x => x.faceDownTray) (parse_printerAttributes_versions_frame_eq response c)

theorem parse_printerAttributes_margins_faceDownTray (response : ipp_t)
    (c : printer_capabilities_t) :
    (parse_printerAttributes_margins response c).faceDownTray = c.faceDownTray :=
  congrArg (fun x => x.faceDownTray) (parse_printerAttributes_margins_frame_eq response c)

theorem parse_printerAttributes_strip_faceDownTray (lim : Limits) (response : ipp_t)
    (c : printer_capabilities_t) :
    (parse_printerAttributes_strip lim response c).faceDownTray = c.faceDownTray :=
  congrArg (fun x => x.faceDownTray) (parse_printerAttributes_strip_frame_eq lim response c)

/-! ## C23: `canCopy` -/

theorem foldl_last_upper :
    ∀ (values : List ipp_value_t) (init : Int),
      values.foldl (fun (_ : Int) (x : ipp_value_t) => x.upper) init =
        (values.getLast?.map (fun x => x.upper)).getD init := by
  intro values
  induction values with
  | nil => intro init; rfl
  | cons x xs ih =>
    intro init
    rw [List.foldl_cons, ih]
    cases xs with
    | nil => rfl
    | cons y ys =>
      rw [List.getLast?_cons_cons]
      cases hl : (y :: ys).getLast? with
      | none => exact absurd hl (by simp)
      | some z => rfl

theorem parse_printerAttributes_colorCopies_canCopy (lim : Limits) (response : ipp_t)
    (c : printer_capabilities_t) :
    (parse_printerAttributes_colorCopies lim response c).canCopy =
      if ((attributeValues response "copies-supported" .IPP_TAG_RANGE).getLast?.map
          (fun x => x.upper)).getD 0 > 1 then 1
      else c.canCopy := by
  unfold parse_printerAttributes_colorCopies attributeValues
  simp only [foldl_last_upper]
  cases ippFindAttribute response "copies-supported" .IPP_TAG_RANGE with
  | none =>
    simp only [List.getLast?_nil, Option.map_none', Option.getD_none]
    rw [if_neg (by decide)]
    repeat' first
      | rfl
      | (apply foldl_keeps (fun x => x.canCopy)
         · intro c x
           dsimp only
           repeat' split
           all_goals rfl)
      | split
  | some attrptr =>
    simp only
    by_cases hup : (attrptr.values.getLast?.map (fun x => x.upper)).getD 0 > 1
    · simp only [hup, if_true]
      repeat' first
        | rfl
        | (apply foldl_keeps (fun x => x.canCopy)
           · intro c x
             dsimp only
             repeat' split
             all_goals rfl)
        | split
    · simp only [hup, if_false]
      repeat' first
        | rfl
        | (apply foldl_keeps (fun x => x.canCopy)
           · intro c x
             dsimp only
             repeat' split
             all_goals rfl)
        | split

theorem parse_printerAttributes_canCopy (value : media_size_enumerator → media_size_t)
    (lim : Limits) (response : ipp_t) (tmp : media_size_t) (c : printer_capabilities_t) :
    (parse_printerAttributes value lim response tmp c).canCopy =
      if ((attributeValues response "copies-supported" .IPP_TAG_RANGE).getLast?.map
          (fun x => x.upper)).getD 0 > 1 then 1
      else c.canCopy := by
  unfold parse_printerAttributes
  simp only
  rw [parse_printerAttributes_trays_canCopy, parse_printerAttributes_strip_canCopy,
    parse_printerAttributes_margins_canCopy, parse_printerAttributes_versions_canCopy,
    parse_printerAttributes_resolutions_canCopy, parse_printerAttributes_mediaTypes_canCopy,
    parse_printerAttributes_formats_canCopy, parse_printerAttributes_colorCopies_canCopy,
    parse_printerAttributes_mediaDefault_canCopy, parse_printerAttributes_identity_canCopy,
    parse_printerAttributes_mediaSizes_canCopy, parse_printerUris_canCopy,
    parse_getMediaSupported_canCopy]

/-- C23, counterexample: `copies-supported` holds the ranges 1 to 99 and 1 to 1. It
contains a range whose upper bound exceeds 1, and `canCopy` stays 0 for a fresh
structure. -/
theorem C23_counterexample :
    (parse_printerAttributes sampleMediaValue sampleLimits
      (responseOf [attributeOf "copies-supported" .IPP_TAG_RANGE
        [.range 1 99, .range 1 1]])
      0 freshCapabilities).canCopy = 0 ∧
    ipp_value_t.range 1 99 ∈ attributeValues
      (responseOf [attributeOf "copies-supported" .IPP_TAG_RANGE [.range 1 99, .range 1 1]])
      "copies-supported" .IPP_TAG_RANGE := by
  constructor
  · rw [parse_printerAttributes_canCopy]
    decide
  · decide

/-- C23, amended: after `parse_printerAttributes`, `canCopy` is 1 when the last value of
the first `copies-supported` attribute with range tag is a range whose upper bound exceeds
1 (the loop keeps the upper bound of the value it read last), and is what it was before in
every other case; so for a structure that starts with `canCopy` 0 it is 1 exactly in that
case. -/
theorem C23_canCopy (value : media_size_enumerator → media_size_t) (lim : Limits)
    (response : ipp_t) (media_sizeTemp : media_size_t) (capabilities : printer_capabilities_t) :
    (parse_printerAttributes value lim response media_sizeTemp capabilities).canCopy =
      (if ((attributeValues response "copies-supported" .IPP_TAG_RANGE).getLast?.map
          (fun x => x.upper)).getD 0 > 1 then 1
      else capabilities.canCopy) ∧
    (capabilities.canCopy = 0 →
      ((parse_printerAttributes value lim response media_sizeTemp capabilities).canCopy = 1 ↔
        ∃ lower upper,
          (attributeValues response "copies-supported" .IPP_TAG_RANGE).getLast? =
            some (.range lower upper) ∧ upper > 1)) := by
  refine ⟨parse_printerAttributes_canCopy value lim response media_sizeTemp capabilities, ?_⟩
  intro hfresh
  rw [parse_printerAttributes_canCopy, hfresh]
  constructor
  · intro h
    split at h
    · rename_i hup
      cases hlast : (attributeValues response "copies-supported" .IPP_TAG_RANGE).getLast? with
      | none =>
        rw [hlast] at hup
        exact absurd hup (by decide)
      | some x =>
        rw [hlast] at hup
        cases x with
        | range lower upper => exact ⟨lower, upper, rfl, hup⟩
        | _ =>
          have h0 : ¬ ((0 : Int) > 1) := by decide
          exact absurd hup h0
    · exact absurd h (by decide)
  · rintro ⟨lower, upper, hlast, hup⟩
    rw [hlast]
    have : (Option.map (fun x => x.upper) (some (ipp_value_t.range lower upper))).getD 0 > 1 :=
      hup
    rw [if_pos this]

/-- C23, instance: `copies-supported` with the single range 1 to 99 sets `canCopy`. -/
theorem C23_canCopy_witness :
    (parse_printerAttributes sampleMediaValue sampleLimits
      (responseOf [attributeOf "copies-supported" .IPP_TAG_RANGE [.range 1 99]])
      0 freshCapabilities).canCopy = 1 :=
  ((C23_canCopy sampleMediaValue sampleLimits
      (responseOf [attributeOf "copies-supported" .IPP_TAG_RANGE [.range 1 99]])
      0 freshCapabilities).2 rfl).mpr ⟨1, 99, by decide, by decide⟩

/-! ## C24: the document format flags -/

theorem formats_fold_flags :
    ∀ (values : List ipp_value_t) (c : printer_capabilities_t),
      (values.foldl (fun (c : printer_capabilities_t) (x : ipp_value_t) =>
        if x.text = "image/pdf" then { c with canPrintPDF := 1 }
        else if x.text = "application/pdf" then { c with canPrintPDF := 1 }
        else if x.text = "application/PCLm" then { c with canPrintPCLm := 1 }
        else if x.text = "application/pdf" then { c with canPrintPDF := 1 }
        else if x.text = "image/pwg-raster" then { c with canPrintPWG := 1 }
        else c) c).canPrintPDF =
        (if values.any (fun x => x.text == "image/pdf") ||
            values.any (fun x => x.text == "application/pdf") then 1 else c.canPrintPDF) ∧
      (values.foldl (fun (c : printer_capabilities_t) (x : ipp_value_t) =>
        if x.text = "image/pdf" then { c with canPrintPDF := 1 }
        else if x.text = "application/pdf" then { c with canPrintPDF := 1 }
        else if x.text = "application/PCLm" then { c with canPrintPCLm := 1 }
        else if x.text = "application/pdf" then { c with canPrintPDF := 1 }
        else if x.text = "image/pwg-raster" then { c with canPrintPWG := 1 }
        else c) c).canPrintPCLm =
        (if values.any (fun x => x.text == "application/PCLm") then 1 else c.canPrintPCLm) ∧
      (values.foldl (fun (c : printer_capabilities_t) (x : ipp_value_t) =>
        if x.text = "image/pdf" then { c with canPrintPDF := 1 }
        else if x.text = "application/pdf" then { c with canPrintPDF := 1 }
        else if x.text = "application/PCLm" then { c with canPrintPCLm := 1 }
        else if x.text = "application/pdf" then { c with canPrintPDF := 1 }
        else if x.text = "image/pwg-raster" then { c with canPrintPWG := 1 }
        else c) c).canPrintPWG =
        (if values.any (fun x => x.text == "image/pwg-raster") then 1 else c.canPrintPWG) := by
  intro values
  induction values with
  | nil => intro c; simp
  | cons x xs ih =>
    intro c
    rw [List.foldl_cons]
    obtain ⟨h1, h2, h3⟩ := ih
      (if x.text = "image/pdf" then { c with canPrintPDF := 1 }
        else if x.text = "application/pdf" then { c with canPrintPDF := 1 }
        else if x.text = "application/PCLm" then { c with canPrintPCLm := 1 }
        else if x.text = "application/pdf" then { c with canPrintPDF := 1 }
        else if x.text = "image/pwg-raster" then { c with canPrintPWG := 1 }
        else c)
    rw [h1, h2, h3]
    simp only [List.any_cons, beq_iff_eq]
    by_cases ha : x.text = "image/pdf"
    · have hb : ¬ x.text = "application/pdf" := by rw [ha]; decide
      have hc : ¬ x.text = "application/PCLm" := by rw [ha]; decide
      have hd : ¬ x.text = "image/pwg-raster" := by rw [ha]; decide
      simp [ha]
    · by_cases hb : x.text = "application/pdf"
      · simp [hb]
      · by_cases hc : x.text = "application/PCLm"
        · simp [hc]
        · by_cases hd : x.text = "image/pwg-raster"
          · simp [hd]
          · simp [ha, hb, hc, hd]

theorem parse_printerAttributes_formats_flags (lim : Limits) (response : ipp_t)
    (c : printer_capabilities_t) :
    (parse_printerAttributes_formats lim response c).canPrintPDF =
      (if listsFormat response "image/pdf" || listsFormat response "application/pdf" then 1
        else c.canPrintPDF) ∧
    (parse_printerAttributes_formats lim response c).canPrintPCLm =
      (if listsFormat response "application/PCLm" then 1 else c.canPrintPCLm) ∧
    (parse_printerAttributes_formats lim response c).canPrintPWG =
      (if listsFormat response "image/pwg-raster" then 1 else c.canPrintPWG) := by
  have hsides : ∀ (l : List ipp_value_t) (c0 : printer_capabilities_t),
      (l.foldl (fun (c : printer_capabilities_t) (x : ipp_value_t) =>
        if x.text = lim.IPP_SIDES_TWO_SIDED_SHORT_EDGE then { c with duplex := 1 }
        else if x.text = lim.IPP_SIDES_TWO_SIDED_LONG_EDGE then { c with duplex := 1 }
        else c) c0).canPrintPDF = c0.canPrintPDF ∧
      (l.foldl (fun (c : printer_capabilities_t) (x : ipp_value_t) =>
        if x.text = lim.IPP_SIDES_TWO_SIDED_SHORT_EDGE then { c with duplex := 1 }
        else if x.text = lim.IPP_SIDES_TWO_SIDED_LONG_EDGE then { c with duplex := 1 }
        else c) c0).canPrintPCLm = c0.canPrintPCLm ∧
      (l.foldl (fun (c : printer_capabilities_t) (x : ipp_value_t) =>
        if x.text = lim.IPP_SIDES_TWO_SIDED_SHORT_EDGE then { c with duplex := 1 }
        else if x.text = lim.IPP_SIDES_TWO_SIDED_LONG_EDGE then { c with duplex := 1 }
        else c) c0).canPrintPWG = c0.canPrintPWG := by
    intro l c0
    refine ⟨?_, ?_, ?_⟩
    · apply foldl_keeps (fun x => x.canPrintPDF)
      · intro c x
        dsimp only
        repeat' split
        all_goals rfl
      · rfl
    · apply foldl_keeps (fun x => x.canPrintPCLm)
      · intro c x
        dsimp only
        repeat' split
        all_goals rfl
      · rfl
    · apply foldl_keeps (fun x => x.canPrintPWG)
      · intro c x
        dsimp only
        repeat' split
        all_goals rfl
      · rfl
  have hdoc : ∀ c0 : printer_capabilities_t,
      (match ippFindAttribute response "document-format-supported" .IPP_TAG_MIMETYPE with
        | some attrptr =>
          attrptr.values.foldl (fun (c : printer_capabilities_t) (x : ipp_value_t) =>
            if x.text = "image/pdf" then { c with canPrintPDF := 1 }
            else if x.text = "application/pdf" then { c with canPrintPDF := 1 }
            else if x.text = "application/PCLm" then { c with canPrintPCLm := 1 }
            else if x.text = "application/pdf" then { c with canPrintPDF := 1 }
            else if x.text = "image/pwg-raster" then { c with canPrintPWG := 1 }
            else c) c0
        | none => c0).canPrintPDF =
        (if listsFormat response "image/pdf" || listsFormat response "application/pdf" then 1
          else c0.canPrintPDF) ∧
      (match ippFindAttribute response "document-format-supported" .IPP_TAG_MIMETYPE with
        | some attrptr =>
          attrptr.values.foldl (fun (c : printer_capabilities_t) (x : ipp_value_t) =>
            if x.text = "image/pdf" then { c with canPrintPDF := 1 }
            else if x.text = "application/pdf" then { c with canPrintPDF := 1 }
            else if x.text = "application/PCLm" then { c with canPrintPCLm := 1 }
            else if x.text = "application/pdf" then { c with canPrintPDF := 1 }
            else if x.text = "image/pwg-raster" then { c with canPrintPWG := 1 }
            else c) c0
        | none => c0).canPrintPCLm =
        (if listsFormat response "application/PCLm" then 1 else c0.canPrintPCLm) ∧
      (match ippFindAttribute response "document-format-supported" .IPP_TAG_MIMETYPE with
        | some attrptr =>
          attrptr.values.foldl (fun (c : printer_capabilities_t) (x : ipp_value_t) =>
            if x.text = "image/pdf" then { c with canPrintPDF := 1 }
            else if x.text = "application/pdf" then { c with canPrintPDF := 1 }
            else if x.text = "application/PCLm" then { c with canPrintPCLm := 1 }
            else if x.text = "application/pdf" then { c with canPrintPDF := 1 }
            else if x.text = "image/pwg-raster" then { c with canPrintPWG := 1 }
            else c) c0
        | none => c0).canPrintPWG =
        (if listsFormat response "image/pwg-raster" then 1 else c0.canPrintPWG) := by
    intro c0
    unfold listsFormat attributeValues
    cases ippFindAttribute response "document-format-supported" .IPP_TAG_MIMETYPE with
    | none => simp
    | some attrptr =>
      simp only
      exact formats_fold_flags attrptr.values c0
  unfold parse_printerAttributes_formats
  simp only
  cases ippFindAttribute response "sides-supported" .IPP_TAG_KEYWORD with
  | none => exact hdoc c
  | some attrptr =>
    simp only
    rw [(hsides attrptr.values _).1, (hsides attrptr.values _).2.1,
      (hsides attrptr.values _).2.2]
    exact hdoc c

theorem parse_printerAttributes_flags (value : media_size_enumerator → media_size_t)
    (lim : Limits) (response : ipp_t) (tmp : media_size_t) (c : printer_capabilities_t) :
    (parse_printerAttributes value lim response tmp c).canPrintPDF =
      (if listsFormat response "image/pdf" || listsFormat response "application/pdf" then 1
        else c.canPrintPDF) ∧
    (parse_printerAttributes value lim response tmp c).canPrintPCLm =
      (if listsFormat response "application/PCLm" then 1 else c.canPrintPCLm) ∧
    (parse_printerAttributes value lim response tmp c).canPrintPWG =
      (if listsFormat response "image/pwg-raster" then 1 else c.canPrintPWG) := by
  unfold parse_printerAttributes
  simp only
  refine ⟨?_, ?_, ?_⟩
  · rw [parse_printerAttributes_trays_canPrintPDF, parse_printerAttributes_strip_canPrintPDF,
      parse_printerAttributes_margins_canPrintPDF, parse_printerAttributes_versions_canPrintPDF,
      parse_printerAttributes_resolutions_canPrintPDF,
      parse_printerAttributes_mediaTypes_canPrintPDF,
      (parse_printerAttributes_formats_flags lim response _).1,
      parse_printerAttributes_colorCopies_canPrintPDF,
      parse_printerAttributes_mediaDefault_canPrintPDF,
      parse_printerAttributes_identity_canPrintPDF,
      parse_printerAttributes_mediaSizes_canPrintPDF, parse_printerUris_canPrintPDF,
      parse_getMediaSupported_canPrintPDF]
  · rw [parse_printerAttributes_trays_canPrintPCLm, parse_printerAttributes_strip_canPrintPCLm,
      parse_printerAttributes_margins_canPrintPCLm,
      parse_printerAttributes_versions_canPrintPCLm,
      parse_printerAttributes_resolutions_canPrintPCLm,
      parse_printerAttributes_mediaTypes_canPrintPCLm,
      (parse_printerAttributes_formats_flags lim response _).2.1,
      parse_printerAttributes_colorCopies_canPrintPCLm,
      parse_printerAttributes_mediaDefault_canPrintPCLm,
      parse_printerAttributes_identity_canPrintPCLm,
      parse_printerAttributes_mediaSizes_canPrintPCLm, parse_printerUris_canPrintPCLm,
      parse_getMediaSupported_canPrintPCLm]
  · rw [parse_printerAttributes_trays_canPrintPWG, parse_printerAttributes_strip_canPrintPWG,
      parse_printerAttributes_margins_canPrintPWG, parse_printerAttributes_versions_canPrintPWG,
      parse_printerAttributes_resolutions_canPrintPWG,
      parse_printerAttributes_mediaTypes_canPrintPWG,
      (parse_printerAttributes_formats_flags lim response _).2.2,
      parse_printerAttributes_colorCopies_canPrintPWG,
      parse_printerAttributes_mediaDefault_canPrintPWG,
      parse_printerAttributes_identity_canPrintPWG,
      parse_printerAttributes_mediaSizes_canPrintPWG, parse_printerUris_canPrintPWG,
      parse_getMediaSupported_canPrintPWG]

/-- C24: for a structure whose three flags start at 0, after `parse_printerAttributes`
`canPrintPDF` is 1 exactly when `document-format-supported` lists `image/pdf` or
`application/pdf`, `canPrintPCLm` is 1 exactly when it lists `application/PCLm` and
`canPrintPWG` is 1 exactly when it lists `image/pwg-raster`, and each flag is 0 otherwise;
the block with the second test for `application/pdf` removed computes the same structure as
the block of the source, for every response and every structure. -/
theorem C24_document_formats (value : media_size_enumerator → media_size_t) (lim : Limits)
    (response : ipp_t) (media_sizeTemp : media_size_t) (capabilities : printer_capabilities_t) :
    (capabilities.canPrintPDF = 0 → capabilities.canPrintPCLm = 0 →
      capabilities.canPrintPWG = 0 →
      ((parse_printerAttributes value lim response media_sizeTemp capabilities).canPrintPDF =
          1 ↔
        (listsFormat response "application/pdf" = true ∨
          listsFormat response "image/pdf" = true)) ∧
      ((parse_printerAttributes value lim response media_sizeTemp capabilities).canPrintPCLm =
          1 ↔ listsFormat response "application/PCLm" = true) ∧
      ((parse_printerAttributes value lim response media_sizeTemp capabilities).canPrintPWG =
          1 ↔ listsFormat response "image/pwg-raster" = true) ∧
      ((parse_printerAttributes value lim response media_sizeTemp capabilities).canPrintPDF =
          1 ∨
        (parse_printerAttributes value lim response media_sizeTemp capabilities).canPrintPDF =
          0) ∧
      ((parse_printerAttributes value lim response media_sizeTemp capabilities).canPrintPCLm =
          1 ∨
        (parse_printerAttributes value lim response media_sizeTemp capabilities).canPrintPCLm =
          0) ∧
      ((parse_printerAttributes value lim response media_sizeTemp capabilities).canPrintPWG =
          1 ∨
        (parse_printerAttributes value lim response media_sizeTemp capabilities).canPrintPWG =
          0)) ∧
    (∀ (r : ipp_t) (c : printer_capabilities_t),
      parse_printerAttributes_formats_single lim r c = parse_printerAttributes_formats lim r c) := by
  constructor
  · intro h1 h2 h3
    obtain ⟨f1, f2, f3⟩ := parse_printerAttributes_flags value lim response media_sizeTemp
      capabilities
    rw [f1, f2, f3, h1, h2, h3]
    refine ⟨?_, ?_, ?_, ?_, ?_, ?_⟩
    · cases ha : listsFormat response "image/pdf" <;>
        cases hb : listsFormat response "application/pdf" <;> simp
    · cases ha : listsFormat response "application/PCLm" <;> simp
    · cases ha : listsFormat response "image/pwg-raster" <;> simp
    · cases ha : listsFormat response "image/pdf" <;>
        cases hb : listsFormat response "application/pdf" <;> simp
    · cases ha : listsFormat response "application/PCLm" <;> simp
    · cases ha : listsFormat response "image/pwg-raster" <;> simp
  · intro r c
    unfold parse_printerAttributes_formats_single parse_printerAttributes_formats
    have hstep : (fun (c : printer_capabilities_t) (x : ipp_value_t) =>
        if x.text = "image/pdf" then { c with canPrintPDF := 1 }
        else if x.text = "application/pdf" then { c with canPrintPDF := 1 }
        else if x.text = "application/PCLm" then { c with canPrintPCLm := 1 }
        else if x.text = "image/pwg-raster" then { c with canPrintPWG := 1 }
        else c) =
        (fun (c : printer_capabilities_t) (x : ipp_value_t) =>
        if x.text = "image/pdf" then { c with canPrintPDF := 1 }
        else if x.text = "application/pdf" then { c with canPrintPDF := 1 }
        else if x.text = "application/PCLm" then { c with canPrintPCLm := 1 }
        else if x.text = "application/pdf" then { c with canPrintPDF := 1 }
        else if x.text = "image/pwg-raster" then { c with canPrintPWG := 1 }
        else c) := by
      funext c x
      split_ifs <;> rfl
    rw [hstep]

/-- C24, instance: a response that lists `application/pdf` and `image/pwg-raster`. -/
theorem C24_document_formats_witness :
    (parse_printerAttributes sampleMediaValue sampleLimits
      (responseOf [attributeOf "document-format-supported" .IPP_TAG_MIMETYPE
        [.string "application/pdf", .string "image/pwg-raster"]])
      0 freshCapabilities).canPrintPDF = 1 ∧
    (parse_printerAttributes sampleMediaValue sampleLimits
      (responseOf [attributeOf "document-format-supported" .IPP_TAG_MIMETYPE
        [.string "application/pdf", .string "image/pwg-raster"]])
      0 freshCapabilities).canPrintPCLm = 0 :=
  have h := (C24_document_formats sampleMediaValue sampleLimits
    (responseOf [attributeOf "document-format-supported" .IPP_TAG_MIMETYPE
      [.string "application/pdf", .string "image/pwg-raster"]])
    0 freshCapabilities).1 rfl rfl rfl
  ⟨h.1.mpr (Or.inl (by decide)),
   (h.2.2.2.2.1).resolve_left (fun h1 => absurd (h.2.1.mp h1) (by decide))⟩

/-! ## C25: the strip height -/

theorem parse_printerAttributes_strip_stripHeight (lim : Limits) (response : ipp_t)
    (c : printer_capabilities_t) :
    (parse_printerAttributes_strip lim response c).stripHeight =
      match ippFindAttribute response "pclm-strip-height-preferred" .IPP_TAG_INTEGER with
      | some attrptr =>
        if ippGetInteger attrptr 0 = 0 ∨ ippGetInteger attrptr 0 > 256 then lim.STRIPE_HEIGHT
        else ippGetInteger attrptr 0
      | none => lim.STRIPE_HEIGHT := by
  unfold parse_printerAttributes_strip
  simp only
  cases ippFindAttribute response "pclm-strip-height-preferred" .IPP_TAG_INTEGER with
  | none =>
    simp only
    repeat' split
    all_goals rfl
  | some attrptr =>
    simp only
    by_cases h : ippGetInteger attrptr 0 = 0 ∨ ippGetInteger attrptr 0 > 256
    · simp only [h, if_true]
      repeat' split
      all_goals rfl
    · simp only [h, if_false]
      repeat' split
      all_goals rfl

theorem parse_printerAttributes_stripHeight (value : media_size_enumerator → media_size_t)
    (lim : Limits) (response : ipp_t) (tmp : media_size_t) (c : printer_capabilities_t) :
    (parse_printerAttributes value lim response tmp c).stripHeight =
      match ippFindAttribute response "pclm-strip-height-preferred" .IPP_TAG_INTEGER with
      | some attrptr =>
        if ippGetInteger attrptr 0 = 0 ∨ ippGetInteger attrptr 0 > 256 then lim.STRIPE_HEIGHT
        else ippGetInteger attrptr 0
      | none => lim.STRIPE_HEIGHT := by
  unfold parse_printerAttributes
  simp only
  rw [parse_printerAttributes_trays_stripHeight, parse_printerAttributes_strip_stripHeight]

/-- C25, counterexample: `pclm-strip-height-preferred` is -5, a value outside (0, 256], and
the strip height becomes -5, not `STRIPE_HEIGHT` (16 in the sample). -/
theorem C25_counterexample :
    (parse_printerAttributes sampleMediaValue sampleLimits
      (responseOf [attributeOf "pclm-strip-height-preferred" .IPP_TAG_INTEGER [.integer (-5)]])
      0 freshCapabilities).stripHeight = -5 ∧
    sampleLimits.STRIPE_HEIGHT = 16 ∧ ¬ ((0 : Int) < -5) := by
  refine ⟨?_, rfl, by decide⟩
  rw [parse_printerAttributes_stripHeight]
  decide

/-- C25, amended: after `parse_printerAttributes`, `stripHeight` is `STRIPE_HEIGHT` when
there is no `pclm-strip-height-preferred` attribute with integer tag, or when its first
value `v` (0 when that value is no integer) is 0 or exceeds 256; in every other case, that
is for `v` from 1 to 256 and for every negative `v`, it is `v`. -/
theorem C25_strip_height (value : media_size_enumerator → media_size_t) (lim : Limits)
    (response : ipp_t) (media_sizeTemp : media_size_t) (capabilities : printer_capabilities_t) :
    (ippFindAttribute response "pclm-strip-height-preferred" .IPP_TAG_INTEGER = none →
      (parse_printerAttributes value lim response media_sizeTemp capabilities).stripHeight =
        lim.STRIPE_HEIGHT) ∧
    (∀ attrptr,
      ippFindAttribute response "pclm-strip-height-preferred" .IPP_TAG_INTEGER =
        some attrptr →
      (ippGetInteger attrptr 0 = 0 ∨ ippGetInteger attrptr 0 > 256 →
        (parse_printerAttributes value lim response media_sizeTemp capabilities).stripHeight =
          lim.STRIPE_HEIGHT) ∧
      (ippGetInteger attrptr 0 ≠ 0 → ippGetInteger attrptr 0 ≤ 256 →
        (parse_printerAttributes value lim response media_sizeTemp capabilities).stripHeight =
          ippGetInteger attrptr 0)) := by
  constructor
  · intro hnone
    rw [parse_printerAttributes_stripHeight, hnone]
  · intro attrptr hsome
    constructor
    · intro h
      rw [parse_printerAttributes_stripHeight, hsome]
      simp only [h, if_true]
    · intro h0 h256
      rw [parse_printerAttributes_stripHeight, hsome]
      have : ¬ (ippGetInteger attrptr 0 = 0 ∨ ippGetInteger attrptr 0 > 256) := by
        rintro (h | h)
        · exact h0 h
        · omega
      simp only [this, if_false]

/-- C25, instances: the value 64 is stored; the value 512 gives `STRIPE_HEIGHT`. -/
theorem C25_strip_height_witness :
    (parse_printerAttributes sampleMediaValue sampleLimits
      (responseOf [attributeOf "pclm-strip-height-preferred" .IPP_TAG_INTEGER [.integer 64]])
      0 freshCapabilities).stripHeight = 64 ∧
    (parse_printerAttributes sampleMediaValue sampleLimits
      (responseOf [attributeOf "pclm-strip-height-preferred" .IPP_TAG_INTEGER [.integer 512]])
      0 freshCapabilities).stripHeight = 16 :=
  ⟨((C25_strip_height sampleMediaValue sampleLimits
      (responseOf [attributeOf "pclm-strip-height-preferred" .IPP_TAG_INTEGER [.integer 64]])
      0 freshCapabilities).2
      (attributeOf "pclm-strip-height-preferred" .IPP_TAG_INTEGER [.integer 64])
      (by decide)).2 (by decide) (by decide),
   ((C25_strip_height sampleMediaValue sampleLimits
      (responseOf [attributeOf "pclm-strip-height-preferred" .IPP_TAG_INTEGER [.integer 512]])
      0 freshCapabilities).2
      (attributeOf "pclm-strip-height-preferred" .IPP_TAG_INTEGER [.integer 512])
      (by decide)).1 (Or.inr (by decide))⟩

/-! ## The bounded search `strnstr` -/

theorem strnstr_loop_isSome (c : Char) (rest : List Char) (buffer : List Char) :
    ∀ (len pos : Nat), pos + len = buffer.length →
      ((strnstr_loop c rest buffer pos len).isSome = true ↔
        (c :: rest) <:+: buffer.drop pos) := by
  intro len
  induction len with
  | zero =>
    intro pos hpos
    have hdrop : buffer.drop pos = [] := List.drop_eq_nil_of_le (by omega)
    rw [hdrop]
    unfold strnstr_loop
    simp
  | succ len ih =>
    intro pos hpos
    have hlt : pos < buffer.length := by omega
    have hdrop : buffer.drop pos = buffer[pos] :: buffer.drop (pos + 1) :=
      List.drop_eq_getElem_cons hlt
    have hlen : (buffer.drop (pos + 1)).length = len := by
      rw [List.length_drop]
      omega
    have hget : buffer[pos]? = some buffer[pos] := List.getElem?_eq_getElem hlt
    rw [hdrop, List.infix_cons_iff]
    unfold strnstr_loop
    by_cases hshort : len + 1 ≤ rest.length
    · simp only [hshort, if_true, Option.isSome_none, Bool.false_eq_true, false_iff]
      rintro (h | h)
      · have := h.length_le
        simp only [List.length_cons, hlen] at this
        omega
      · have := h.length_le
        simp only [List.length_cons, hlen] at this
        omega
    · simp only [hshort, if_false, hget, Option.some.injEq]
      by_cases hc : buffer[pos] = c
      · simp only [hc, if_true]
        by_cases hm : (buffer.drop (pos + 1)).take rest.length = rest
        · simp only [hm, if_true, Option.isSome_some, true_iff]
          left
          rw [List.cons_prefix_cons]
          exact ⟨rfl, List.prefix_iff_eq_take.mpr hm.symm⟩
        · simp only [hm, if_false]
          rw [ih (pos + 1) (by omega)]
          constructor
          · intro h
            exact Or.inr h
          · rintro (h | h)
            · rw [List.cons_prefix_cons] at h
              exact absurd (List.prefix_iff_eq_take.mp h.2).symm hm
            · exact h
      · simp only [hc, if_false]
        rw [ih (pos + 1) (by omega)]
        constructor
        · intro h
          exact Or.inr h
        · rintro (h | h)
          · rw [List.cons_prefix_cons] at h
            exact absurd h.1.symm hc
          · exact h

/-- For a non-empty needle, `strnstr` over the whole buffer finds something exactly when the
needle occurs in the buffer. -/
theorem strnstr_isSome (buffer : List Char) (c : Char) (rest : List Char) :
    (strnstr buffer (c :: rest) buffer.length).isSome = true ↔ (c :: rest) <:+: buffer := by
  unfold strnstr
  simp only
  by_cases h0 : buffer.length ≤ 0
  · have hb : buffer = [] := List.length_eq_zero.mp (by omega)
    subst hb
    simp
  · rw [if_neg h0]
    have := strnstr_loop_isSome c rest buffer buffer.length 0 (by omega)
    rw [List.drop_zero] at this
    exact this

/-! ## C26: the face-down tray -/

theorem trays_fold_faceDown :
    ∀ (values : List ipp_value_t) (c : printer_capabilities_t),
      (values.foldl (fun (c : printer_capabilities_t) (x : ipp_value_t) =>
        if x.octets.length > 0 ∧
            (strnstr x.octets "faceUp".data x.octets.length).isSome = true then
          { c with faceDownTray := 0 }
        else c) c).faceDownTray =
        if values.any (fun x => decide ("faceUp".data <:+: x.octets)) then 0
        else c.faceDownTray := by
  have hcond : ∀ x : ipp_value_t,
      (x.octets.length > 0 ∧
        (strnstr x.octets "faceUp".data x.octets.length).isSome = true) ↔
      "faceUp".data <:+: x.octets := by
    intro x
    have hdata : "faceUp".data = 'f' :: ['a', 'c', 'e', 'U', 'p'] := rfl
    rw [hdata, strnstr_isSome]
    constructor
    · exact fun h => h.2
    · intro h
      refine ⟨?_, h⟩
      have := h.length_le
      simp only [List.length_cons, List.length_nil] at this
      omega
  intro values
  induction values with
  | nil => intro c; simp
  | cons x xs ih =>
    intro c
    rw [List.foldl_cons, ih, List.any_cons]
    by_cases hx : "faceUp".data <:+: x.octets
    · have h1 := (hcond x).mpr hx
      simp only [h1, and_self, if_true, hx, decide_True, Bool.true_or]
      split <;> rfl
    · have h1 : ¬ (x.octets.length > 0 ∧
          (strnstr x.octets "faceUp".data x.octets.length).isSome = true) :=
        fun h => hx ((hcond x).mp h)
      simp only [h1, if_false, hx, decide_False, Bool.false_or]

theorem parse_printerAttributes_trays_faceDownTray (response : ipp_t)
    (c : printer_capabilities_t) :
    (parse_printerAttributes_trays response c).faceDownTray =
      if firstOutputBinFaceUp response || someOutputTrayFaceUp response then 0 else 1 := by
  unfold parse_printerAttributes_trays firstOutputBinFaceUp someOutputTrayFaceUp
    attributeValues
  simp only
  cases ippFindAttribute response "output-bin-supported" .IPP_TAG_KEYWORD with
  | none =>
    cases ippFindAttribute response "printer-output-tray" .IPP_TAG_STRING with
    | none =>
      simp only [List.any_nil, Bool.or_false, Bool.false_eq_true, if_false]
      repeat' first
        | rfl
        | (apply foldl_keeps (fun x => x.faceDownTray)
           · intro c x
             dsimp only
             repeat' split
             all_goals rfl)
        | split
    | some tray =>
      simp only [Bool.false_or]
      cases ha : tray.values.any (fun x => decide ("faceUp".data <:+: x.octets))
      all_goals
        simp only [Bool.false_eq_true, if_false, if_true]
        repeat' first
          | rfl
          | (apply foldl_keeps (fun x => x.faceDownTray)
             · intro c x
               dsimp only
               repeat' split
               all_goals rfl)
          | (rw [trays_fold_faceDown, ha]
             simp only [Bool.false_eq_true, if_false, if_true])
          | split
  | some bin =>
    simp only
    cases ippFindAttribute response "printer-output-tray" .IPP_TAG_STRING with
    | none =>
      simp only [List.any_nil, Bool.or_false]
      by_cases hs : strstr (ippGetString bin 0) "face-up" = true
      · simp only [hs, if_true]
        repeat' first
          | rfl
          | (apply foldl_keeps (fun x => x.faceDownTray)
             · intro c x
               dsimp only
               repeat' split
               all_goals rfl)
          | split
      · simp only [hs, if_false]
        repeat' first
          | rfl
          | (apply foldl_keeps (fun x => x.faceDownTray)
             · intro c x
               dsimp only
               repeat' split
               all_goals rfl)
          | split
    | some tray =>
      simp only
      by_cases hs : strstr (ippGetString bin 0) "face-up" = true
      · simp only [hs, if_true, Bool.true_or]
        repeat' first
          | rfl
          | (apply foldl_keeps (fun x => x.faceDownTray)
             · intro c x
               dsimp only
               repeat' split
               all_goals rfl)
          | (rw [trays_fold_faceDown]
             simp only [ite_self])
          | split
      · have hs2 : strstr (ippGetString bin 0) "face-up" = false := by
          simpa using hs
        simp only [hs2, Bool.false_eq_true, if_false, Bool.false_or]
        repeat' first
          | rfl
          | (apply foldl_keeps (fun x => x.faceDownTray)
             · intro c x
               dsimp only
               repeat' split
               all_goals rfl)
          | rw [trays_fold_faceDown]
          | split

theorem parse_printerAttributes_faceDownTray (value : media_size_enumerator → media_size_t)
    (lim : Limits) (response : ipp_t) (tmp : media_size_t) (c : printer_capabilities_t) :
    (parse_printerAttributes value lim response tmp c).faceDownTray =
      if firstOutputBinFaceUp response || someOutputTrayFaceUp response then 0 else 1 := by
  unfold parse_printerAttributes
  simp only
  rw [parse_printerAttributes_trays_faceDownTray]

/-- C26, counterexample: the second value of `output-bin-supported` contains `face-up`, the
first does not, and `faceDownTray` is 1. -/
theorem C26_counterexample :
    (parse_printerAttributes sampleMediaValue sampleLimits
      (responseOf [keywordAttribute "output-bin-supported" ["face-down", "face-up"]])
      0 freshCapabilities).faceDownTray = 1 ∧
    (attributeValues
      (responseOf [keywordAttribute "output-bin-supported" ["face-down", "face-up"]])
      "output-bin-supported" .IPP_TAG_KEYWORD).any (fun x => strstr x.text "face-up") =
        true := by
  constructor
  · rw [parse_printerAttributes_faceDownTray]
    decide
  · decide

/-- C26, amended: after `parse_printerAttributes`, `faceDownTray` is 0 exactly when the
first value of the `output-bin-supported` keyword attribute contains `face-up`, or some
value of the `printer-output-tray` octet string attribute contains `faceUp` among its bytes
(a zero byte does not end the search); in every other case it is 1. Later values of
`output-bin-supported` are not looked at. -/
theorem C26_face_down_tray (value : media_size_enumerator → media_size_t) (lim : Limits)
    (response : ipp_t) (media_sizeTemp : media_size_t) (capabilities : printer_capabilities_t) :
    ((parse_printerAttributes value lim response media_sizeTemp capabilities).faceDownTray =
        0 ↔
      ((∃ attrptr, ippFindAttribute response "output-bin-supported" .IPP_TAG_KEYWORD =
          some attrptr ∧ "face-up".data <:+: (ippGetString attrptr 0).data) ∨
        ∃ x ∈ attributeValues response "printer-output-tray" .IPP_TAG_STRING,
          "faceUp".data <:+: x.octets)) ∧
    ((parse_printerAttributes value lim response media_sizeTemp capabilities).faceDownTray =
        0 ∨
      (parse_printerAttributes value lim response media_sizeTemp capabilities).faceDownTray =
        1) := by
  have hbin : firstOutputBinFaceUp response = true ↔
      ∃ attrptr, ippFindAttribute response "output-bin-supported" .IPP_TAG_KEYWORD =
        some attrptr ∧ "face-up".data <:+: (ippGetString attrptr 0).data := by
    unfold firstOutputBinFaceUp
    cases ippFindAttribute response "output-bin-supported" .IPP_TAG_KEYWORD with
    | none => simp
    | some bin =>
      simp only [Option.some.injEq, exists_eq_left']
      unfold strstr
      rw [strstr_chars_iff]
  have htray : someOutputTrayFaceUp response = true ↔
      ∃ x ∈ attributeValues response "printer-output-tray" .IPP_TAG_STRING,
        "faceUp".data <:+: x.octets := by
    unfold someOutputTrayFaceUp
    rw [List.any_eq_true]
    simp only [decide_eq_true_eq]
  rw [parse_printerAttributes_faceDownTray, ← hbin, ← htray]
  cases firstOutputBinFaceUp response <;> cases someOutputTrayFaceUp response <;> simp

/-- C26, instances: an octet string with the bytes of `faceUp` after a zero byte clears the
flag; a first output bin `face-up` clears it. -/
theorem C26_face_down_tray_witness :
    (parse_printerAttributes sampleMediaValue sampleLimits
      (responseOf [attributeOf "printer-output-tray" .IPP_TAG_STRING
        [.octetString ⟨[Char.ofNat 0, 'f', 'a', 'c', 'e', 'U', 'p', ';']⟩]])
      0 freshCapabilities).faceDownTray = 0 ∧
    (parse_printerAttributes sampleMediaValue sampleLimits
      (responseOf [keywordAttribute "output-bin-supported" ["face-up", "face-down"]])
      0 freshCapabilities).faceDownTray = 0 :=
  ⟨(C26_face_down_tray sampleMediaValue sampleLimits
      (responseOf [attributeOf "printer-output-tray" .IPP_TAG_STRING
        [.octetString ⟨[Char.ofNat 0, 'f', 'a', 'c', 'e', 'U', 'p', ';']⟩]])
      0 freshCapabilities).1.mpr
      (Or.inr ⟨.octetString ⟨[Char.ofNat 0, 'f', 'a', 'c', 'e', 'U', 'p', ';']⟩,
        by decide, by decide⟩),
   (C26_face_down_tray sampleMediaValue sampleLimits
      (responseOf [keywordAttribute "output-bin-supported" ["face-up", "face-down"]])
      0 freshCapabilities).1.mpr
      (Or.inl ⟨keywordAttribute "output-bin-supported" ["face-up", "face-down"],
        by decide, by decide⟩)⟩

/-! ## C27: `NULL` arguments -/

/-- C27: `get_PrinterState` called with `printer_state == NULL` and the other arguments
valid, towards a printer that answers with a `printer-state` attribute: the request is
sent, and the call ends in the store `*printer_state = printer_ippstate` through the `NULL`
pointer. `get_JobStatus`, called with `job_state == NULL`, returns `IPP_OK` before it sends
anything; `get_PrinterState` does so only for `printer_state_dyn == NULL`. -/
theorem C27_null_printer_state_dereferenced :
    get_PrinterState sampleConfig sampleTokens envPrinterIdle 1 (some sampleHttp) sampleUri
        (some samplePrinterStateDyn) none World.initial =
      .error .null_dereference ∧
    (ipp_doCupsRequest sampleConfig envPrinterIdle 1 (some sampleHttp)
        (some (ippNewRequest IPP_GET_PRINTER_ATTRIBUTES))
        (some (getResourceFromURI sampleUri)) (some sampleUri) World.initial).2.2.sent.length =
      1 ∧
    (get_JobStatus sampleConfig envPrinterIdle 1 (some sampleHttp) sampleUri (some ()) none
        World.initial).1 = some IPP_OK ∧
    (get_JobStatus sampleConfig envPrinterIdle 1 (some sampleHttp) sampleUri (some ()) none
        World.initial).2.2 = World.initial ∧
    (∀ (cfg : Config) (t : StateReasonTokens) (env : Env) (fuel : Nat) (http : Option http_t)
        (printer_uri : Uri) (printer_state : Option ipp_pstate_t) (w : World),
      get_PrinterState cfg t env fuel http printer_uri none printer_state w =
        .ok (some IPP_OK, none, printer_state, w)) := by
  refine ⟨?_, ?_, ?_, ?_, ?_⟩
  · rfl
  · decide
  · decide
  · decide
  · intro cfg t env fuel http printer_uri printer_state w
    rfl

/-! ## C28: `parse_printerAttributes` depends on the response and the capabilities only -/

theorem foldl_fst_indep {α σ τ : Type} (step : σ × τ → α → σ × τ)
    (h : ∀ s t1 t2 x, (step (s, t1) x).1 = (step (s, t2) x).1) :
    ∀ (l : List α) (s : σ) (t1 t2 : τ),
      (l.foldl step (s, t1)).1 = (l.foldl step (s, t2)).1 := by
  intro l
  induction l with
  | nil => intro s t1 t2; rfl
  | cons x xs ih =>
    intro s t1 t2
    rw [List.foldl_cons, List.foldl_cons]
    have e1 : step (s, t1) x = ((step (s, t1) x).1, (step (s, t1) x).2) := rfl
    have e2 : step (s, t2) x = ((step (s, t1) x).1, (step (s, t2) x).2) := by
      rw [h s t1 t2 x]
    rw [e1, e2]
    exact ih _ _ _

theorem found_neg_or_row (value : media_size_enumerator → media_size_t) (kw : String) :
    (∀ t, ipp_find_media_size value kw t = (-1, t) ∧ getMediaSizeFromTag value kw t = (-1, t)) ∨
    ∃ n, ∃ hn : n < (SupportedMediaSizes value).length,
      ∀ t, ipp_find_media_size value kw t =
          ((n : Int), ((SupportedMediaSizes value).get ⟨n, hn⟩).media_size) ∧
        getMediaSizeFromTag value kw t =
          ((n : Int), ((SupportedMediaSizes value).get ⟨n, hn⟩).media_size) := by
  cases hci : catalogIndex value kw with
  | none => exact Or.inl (fun t => ipp_find_media_size_none value kw t hci)
  | some i =>
    obtain ⟨hi, _⟩ := ipp_find_media_size_some value kw 0 i hci
    refine Or.inr ⟨i, hi, fun t => ?_⟩
    obtain ⟨_, h1, h2⟩ := ipp_find_media_size_some value kw t i hci
    exact ⟨h1, h2⟩

theorem dimens_neg_or_row (value : media_size_enumerator → media_size_t) (w h : Nat) :
    (∀ t, getMediaSizeNameFromDimens value w h t = (-1, t)) ∨
    ∃ n, ∃ hn : n < (SupportedMediaSizes value).length,
      ∀ t, getMediaSizeNameFromDimens value w h t =
          ((n : Int), ((SupportedMediaSizes value).get ⟨n, hn⟩).media_size) := by
  by_cases hlt : (SupportedMediaSizes value).findIdx (fun e =>
      e.WidthInMicrometers / 10 == w && e.HeightInMicrometers / 10 == h) <
        (SupportedMediaSizes value).length
  · refine Or.inr ⟨_, hlt, fun t => ?_⟩
    unfold getMediaSizeNameFromDimens
    simp only [hlt, dite_true]
  · refine Or.inl (fun t => ?_)
    unfold getMediaSizeNameFromDimens
    simp only [hlt, dite_false]

theorem parse_getMediaSupported_colReady_indep (value : media_size_enumerator → media_size_t)
    (lim : Limits) (ms : media_supported_t) (t1 t2 : media_size_t) (x : ipp_value_t) :
    (parse_getMediaSupported_colReady value lim (ms, t1) x).1 =
      (parse_getMediaSupported_colReady value lim (ms, t2) x).1 := by
  unfold parse_getMediaSupported_colReady
  simp only
  split
  · rfl
  · rcases dimens_neg_or_row value
      (toUnsigned (x.members.foldl (parse_getMediaSupported_member lim)
        ({ media_tray_tag := "", x_dimension := 0, y_dimension := 0 }, 0, 0)).1.x_dimension)
      (toUnsigned (x.members.foldl (parse_getMediaSupported_member lim)
        ({ media_tray_tag := "", x_dimension := 0, y_dimension := 0 }, 0, 0)).1.y_dimension)
      with h | ⟨n, hn, h⟩
    · rw [h t1, h t2]
      simp only
      rw [addMediaIfNotDuplicate_neg, addMediaIfNotDuplicate_neg]
    · rw [h t1, h t2]

theorem parse_getMediaSupported_ready_indep (value : media_size_enumerator → media_size_t)
    (lim : Limits) (ms : media_supported_t) (t1 t2 : media_size_t) (x : ipp_value_t) :
    (parse_getMediaSupported_ready value lim (ms, t1) x).1 =
      (parse_getMediaSupported_ready value lim (ms, t2) x).1 := by
  unfold parse_getMediaSupported_ready
  simp only
  rcases found_neg_or_row value (strncpy x.text lim.MAX_STRING) with h | ⟨n, hn, h⟩
  · rw [(h t1).2, (h t2).2]
    simp only
    rw [addMediaIfNotDuplicate_neg, addMediaIfNotDuplicate_neg]
  · rw [(h t1).2, (h t2).2]

theorem parse_getMediaSupported_supported_indep
    (value : media_size_enumerator → media_size_t)
    (ms : media_supported_t) (t1 t2 : media_size_t) (x : ipp_value_t) :
    (parse_getMediaSupported_supported value (ms, t1) x).1 =
      (parse_getMediaSupported_supported value (ms, t2) x).1 := by
  unfold parse_getMediaSupported_supported
  simp only
  rcases found_neg_or_row value x.text with h | ⟨n, hn, h⟩
  · rw [(h t1).1, (h t2).1]
    simp
  · rw [(h t1).1, (h t2).1]

theorem parse_getMediaSupported_afterReady_indep
    (value : media_size_enumerator → media_size_t) (lim : Limits) (response : ipp_t)
    (t1 t2 : media_size_t) :
    (parse_getMediaSupported_afterReady value lim response t1).1 =
      (parse_getMediaSupported_afterReady value lim response t2).1 := by
  have hcol : (parse_getMediaSupported_afterColReady value lim response t1).1 =
      (parse_getMediaSupported_afterColReady value lim response t2).1 := by
    unfold parse_getMediaSupported_afterColReady
    cases ippFindAttribute response "media-col-ready" .IPP_TAG_BEGIN_COLLECTION with
    | none => rfl
    | some attrptr =>
      exact foldl_fst_indep _ (parse_getMediaSupported_colReady_indep value lim) _ _ _ _
  have hpair : ∀ t, parse_getMediaSupported_afterColReady value lim response t =
      ((parse_getMediaSupported_afterColReady value lim response t1).1,
        (parse_getMediaSupported_afterColReady value lim response t).2) := by
    intro t
    have : (parse_getMediaSupported_afterColReady value lim response t).1 =
        (parse_getMediaSupported_afterColReady value lim response t1).1 := by
      unfold parse_getMediaSupported_afterColReady
      cases ippFindAttribute response "media-col-ready" .IPP_TAG_BEGIN_COLLECTION with
      | none => rfl
      | some attrptr =>
        exact foldl_fst_indep _ (parse_getMediaSupported_colReady_indep value lim) _ _ _ _
    rw [← this]
  unfold parse_getMediaSupported_afterReady
  simp only
  rw [hpair t1, hpair t2]
  simp only
  split
  · cases ippFindAttribute response "media-ready" .IPP_TAG_KEYWORD with
    | none => rfl
    | some attrptr =>
      exact foldl_fst_indep _ (parse_getMediaSupported_ready_indep value lim) _ _ _ _
  · rfl

theorem parse_getMediaSupported_indep (value : media_size_enumerator → media_size_t)
    (lim : Limits) (response : ipp_t) (t1 t2 : media_size_t) (c : printer_capabilities_t) :
    parse_getMediaSupported value lim response t1 c =
      parse_getMediaSupported value lim response t2 c := by
  have h := parse_getMediaSupported_afterReady_indep value lim response t1 t2
  have hpair : ∀ t, parse_getMediaSupported_afterReady value lim response t =
      ((parse_getMediaSupported_afterReady value lim response t1).1,
        (parse_getMediaSupported_afterReady value lim response t).2) := by
    intro t
    rw [← parse_getMediaSupported_afterReady_indep value lim response t t1]
  unfold parse_getMediaSupported
  simp only
  rw [hpair t1, hpair t2]
  simp only
  cases ippFindAttribute response "media-supported" .IPP_TAG_KEYWORD with
  | none => rfl
  | some attrptr =>
    simp only
    rw [foldl_fst_indep _ (parse_getMediaSupported_supported_indep value) attrptr.values _ _
      (parse_getMediaSupported_afterReady value lim response t2).2]

/-- C28: `parse_printerAttributes` reads the response, the capabilities and the constant
table, and nothing of the process: the only other thing that enters, the content of the
stack where `parse_getMediaSupported` keeps `media_sizeTemp`, has no effect on the result.
Equal responses and equal structures give equal structures. -/
theorem C28_parse_printerAttributes_function_of_inputs
    (value : media_size_enumerator → media_size_t) (lim : Limits) (response : ipp_t)
    (capabilities : printer_capabilities_t) (media_sizeTemp1 media_sizeTemp2 : media_size_t) :
    parse_printerAttributes value lim response media_sizeTemp1 capabilities =
      parse_printerAttributes value lim response media_sizeTemp2 capabilities := by
  unfold parse_printerAttributes
  rw [parse_getMediaSupported_indep value lim response media_sizeTemp1 media_sizeTemp2]

/-! ## C29: the array of reasons has no bound in the code -/

theorem stateResponse_reasons (st : Int) (strs : List String) :
    ippFindAttribute (stateResponse st strs) "printer-state-reasons" .IPP_TAG_KEYWORD =
      some { name := "printer-state-reasons", value_tag := .IPP_TAG_KEYWORD,
             values := strs.map ipp_value_t.string } := by
  unfold ippFindAttribute stateResponse
  simp only [List.find?_cons]
  have e1 : ("printer-state" == "printer-state-reasons") = false := by decide
  have e2 : ("printer-state-reasons" == "printer-state-reasons") = true := by decide
  have e3 : (ipp_tag_t.IPP_TAG_KEYWORD == ipp_tag_t.IPP_TAG_KEYWORD) = true := by decide
  simp only [e1, e2, e3, Bool.false_and, Bool.and_self]

theorem stateResponse_state (st : Int) (strs : List String) (ps : ipp_pstate_t)
    (d : printer_state_dyn_t) :
    (get_PrinterStateReason_state (stateResponse st strs) ps d).1 = st ∧
    ∀ j, 0 < j → (get_PrinterStateReason_state (stateResponse st strs) ps d).2.2.printer_reasons j =
      d.printer_reasons j := by
  unfold get_PrinterStateReason_state ippFindAttribute stateResponse
  simp only [List.find?_cons]
  have e1 : ("printer-state" == "printer-state") = true := by decide
  have e3 : (ipp_tag_t.IPP_TAG_ENUM == ipp_tag_t.IPP_TAG_ENUM) = true := by decide
  simp only [e1, e3, Bool.and_self]
  refine ⟨rfl, fun j _ => ?_⟩
  simp only [ippGetInteger, List.getElem?_cons_zero]
  repeat' split
  all_goals rfl

/-- C29: whatever the number of entries of `printer_reasons` is said to be, a response with
one recognised reason more than that makes `get_PrinterStateReason` write the entry with
that index: for `capacity + 1` values `media-jam`, entry `capacity` holds the code for a jam
afterwards, while it held `PRINT_STATUS_MAX_STATE` before. The function compares
`reason_idx` with nothing. -/
theorem C29_reasons_written_without_bound (capacity : Nat) :
    (get_PrinterStateReason sampleTokens
      (stateResponse IPP_PRINTER_IDLE (List.replicate (capacity + 1) "media-jam"))
      IPP_PRINTER_IDLE samplePrinterStateDyn).2.printer_reasons capacity =
        .PRINT_STATUS_JAMMED ∧
    samplePrinterStateDyn.printer_reasons capacity = .PRINT_STATUS_MAX_STATE := by
  refine ⟨?_, rfl⟩
  rw [get_PrinterStateReason_reasons sampleTokens _ IPP_PRINTER_IDLE samplePrinterStateDyn _
    (stateResponse_reasons IPP_PRINTER_IDLE _) capacity]
  simp only
  rw [recordedReasonCodes_strings, (stateResponse_state _ _ _ _).1]
  have hcode : get_PrinterStateReason_code sampleTokens IPP_PRINTER_IDLE "media-jam" =
      some .PRINT_STATUS_JAMMED := by decide
  have hrep : ∀ n : Nat, (List.replicate n "media-jam").filterMap
      (get_PrinterStateReason_code sampleTokens IPP_PRINTER_IDLE) =
      List.replicate n print_status_t.PRINT_STATUS_JAMMED := by
    intro n
    induction n with
    | zero => rfl
    | succ n ih =>
      rw [List.replicate_succ, List.filterMap_cons, hcode, ih, List.replicate_succ]
  rw [hrep]
  have : (List.replicate (capacity + 1) print_status_t.PRINT_STATUS_JAMMED)[capacity]? =
      some .PRINT_STATUS_JAMMED := by
    rw [List.getElem?_replicate]
    simp
  rw [this]
  rfl

/-! ## C34: what `strnstr` returns and what it reads -/

theorem occursAt_cons (buffer : List Char) (c : Char) (rest : List Char) (pos : Nat) :
    occursAt buffer (c :: rest) pos ↔
      buffer[pos]? = some c ∧ (buffer.drop (pos + 1)).take rest.length = rest := by
  unfold occursAt
  by_cases hlt : pos < buffer.length
  · rw [List.drop_eq_getElem_cons hlt, List.length_cons, List.take_succ_cons, List.cons.injEq,
      List.getElem?_eq_getElem hlt, Option.some.injEq]
  · have hdrop : buffer.drop pos = [] := List.drop_eq_nil_of_le (by omega)
    rw [hdrop, List.getElem?_eq_none (by omega)]
    simp

theorem strnstr_loop_succ (c : Char) (rest : List Char) (buffer : List Char) (pos len : Nat) :
    strnstr_loop c rest buffer pos (len + 1) =
      if len + 1 ≤ rest.length then none
      else if occursAt buffer (c :: rest) pos then some pos
      else strnstr_loop c rest buffer (pos + 1) len := by
  rw [strnstr_loop]
  by_cases hshort : len + 1 ≤ rest.length
  · rw [if_pos hshort, if_pos hshort]
  · rw [if_neg hshort, if_neg hshort]
    by_cases hc : buffer[pos]? = some c
    · rw [if_pos hc]
      by_cases hm : (buffer.drop (pos + 1)).take rest.length = rest
      · rw [if_pos hm, if_pos ((occursAt_cons buffer c rest pos).mpr ⟨hc, hm⟩)]
      · rw [if_neg hm, if_neg (fun h => hm ((occursAt_cons buffer c rest pos).mp h).2)]
    · rw [if_neg hc, if_neg (fun h => hc ((occursAt_cons buffer c rest pos).mp h).1)]

theorem strnstr_loop_some (c : Char) (rest : List Char) (buffer : List Char) :
    ∀ (len pos p : Nat),
      strnstr_loop c rest buffer pos len = some p ↔
        (pos ≤ p ∧ p + (rest.length + 1) ≤ pos + len ∧ occursAt buffer (c :: rest) p ∧
          ∀ q, pos ≤ q → q < p → ¬ occursAt buffer (c :: rest) q) := by
  intro len
  induction len with
  | zero =>
    intro pos p
    rw [strnstr_loop]
    constructor
    · intro h
      exact absurd h (by simp)
    · rintro ⟨h1, h2, _, _⟩
      omega
  | succ len ih =>
    intro pos p
    rw [strnstr_loop_succ]
    by_cases hshort : len + 1 ≤ rest.length
    · rw [if_pos hshort]
      constructor
      · intro h
        exact absurd h (by simp)
      · rintro ⟨h1, h2, _, _⟩
        omega
    · rw [if_neg hshort]
      by_cases hocc : occursAt buffer (c :: rest) pos
      · rw [if_pos hocc, Option.some.injEq]
        constructor
        · intro h
          subst h
          exact ⟨le_refl _, by omega, hocc, fun q h1 h2 => by omega⟩
        · rintro ⟨h1, _, _, h4⟩
          by_contra hne
          exact h4 pos (le_refl _) (by omega) hocc
      · rw [if_neg hocc, ih (pos + 1) p]
        constructor
        · rintro ⟨h1, h2, h3, h4⟩
          refine ⟨by omega, by omega, h3, fun q hq1 hq2 => ?_⟩
          by_cases hq : q = pos
          · rw [hq]
            exact hocc
          · exact h4 q (by omega) hq2
        · rintro ⟨h1, h2, h3, h4⟩
          have hne : p ≠ pos := fun h => hocc (h ▸ h3)
          exact ⟨by omega, by omega, h3, fun q hq1 hq2 => h4 q (by omega) hq2⟩

theorem strnstr_loop_reads_lt (c : Char) (rest : List Char) (buffer : List Char) :
    ∀ (len pos i : Nat), i ∈ strnstr_loop_reads c rest buffer pos len → i < pos + len := by
  intro len
  induction len with
  | zero =>
    intro pos i h
    rw [strnstr_loop_reads] at h
    exact absurd h (List.not_mem_nil i)
  | succ len ih =>
    intro pos i h
    rw [strnstr_loop_reads] at h
    split at h
    · exact absurd h (List.not_mem_nil i)
    · split at h
      · split at h
        · rw [List.mem_cons, List.mem_range'_1] at h
          omega
        · rw [List.mem_cons, List.mem_append, List.mem_range'_1] at h
          rcases h with h | h | h
          · omega
          · omega
          · have := ih (pos + 1) i h
            omega
      · rw [List.mem_cons] at h
        rcases h with h | h
        · omega
        · have := ih (pos + 1) i h
          omega

theorem occursAt_take (buffer needle : List Char) (len q : Nat)
    (hq : q + needle.length ≤ len) :
    occursAt (buffer.take len) needle q ↔ occursAt buffer needle q := by
  unfold occursAt
  rw [List.drop_take, List.take_take, min_eq_left (by omega)]

/-- C34: for a non-empty needle and `len` no larger than the buffer, `strnstr(s, needle,
len)` returns the position `pos` exactly when the needle stands at `pos` with all its bytes
below index `len` and stands at no earlier position; it returns `NULL` exactly when the
needle stands at no position with all its bytes below `len`, in particular when `len` is 0;
every index it reads is below `len`, and bytes at index `len` or beyond have no influence
on the result. Bytes of the buffer are compared as they are: a zero byte is a byte like any
other. -/
theorem C34_strnstr (buffer needle : List Char) (len : Nat) (hneedle : needle ≠ [])
    (hlen : len ≤ buffer.length) :
    (∀ pos, strnstr buffer needle len = some pos ↔
      (pos + needle.length ≤ len ∧ occursAt buffer needle pos ∧
        ∀ q, q < pos → ¬ occursAt buffer needle q)) ∧
    (strnstr buffer needle len = none ↔
      ∀ q, q + needle.length ≤ len → ¬ occursAt buffer needle q) ∧
    (len = 0 → strnstr buffer needle len = none) ∧
    (∀ i ∈ strnstr_reads buffer needle len, i < len ∧ i < buffer.length) ∧
    (∀ buffer2 : List Char, buffer2.take len = buffer.take len →
      strnstr buffer2 needle len = strnstr buffer needle len) := by
  cases needle with
  | nil => exact absurd rfl hneedle
  | cons c rest =>
    have hsome : ∀ (b : List Char) (pos : Nat), strnstr b (c :: rest) len = some pos ↔
        (pos + (c :: rest).length ≤ len ∧ occursAt b (c :: rest) pos ∧
          ∀ q, q < pos → ¬ occursAt b (c :: rest) q) := by
      intro b pos
      unfold strnstr
      simp only
      by_cases h0 : len ≤ 0
      · rw [if_pos h0]
        constructor
        · intro h
          exact absurd h (by simp)
        · rintro ⟨h1, _, _⟩
          rw [List.length_cons] at h1
          omega
      · rw [if_neg h0, strnstr_loop_some, List.length_cons]
        constructor
        · rintro ⟨_, h2, h3, h4⟩
          exact ⟨by omega, h3, fun q hq => h4 q (Nat.zero_le _) hq⟩
        · rintro ⟨h2, h3, h4⟩
          exact ⟨Nat.zero_le _, by omega, h3, fun q _ hq => h4 q hq⟩
    have hnone : strnstr buffer (c :: rest) len = none ↔
        ∀ q, q + (c :: rest).length ≤ len → ¬ occursAt buffer (c :: rest) q := by
      constructor
      · intro h q
        induction q using Nat.strong_induction_on with
        | _ q ihq =>
          intro hq hocc
          have : strnstr buffer (c :: rest) len = some q :=
            (hsome buffer q).mpr ⟨hq, hocc, fun r hr => ihq r hr (by omega)⟩
          rw [h] at this
          exact absurd this (by simp)
      · intro h
        cases hres : strnstr buffer (c :: rest) len with
        | none => rfl
        | some p =>
          have := (hsome buffer p).mp hres
          exact absurd this.2.1 (h p this.1)
    refine ⟨hsome buffer, hnone, ?_, ?_, ?_⟩
    · intro h0
      rw [hnone]
      intro q hq
      rw [List.length_cons] at hq
      omega
    · intro i hi
      unfold strnstr_reads at hi
      simp only at hi
      split at hi
      · exact absurd hi (List.not_mem_nil i)
      · have := strnstr_loop_reads_lt c rest buffer len 0 i hi
        omega
    · intro buffer2 h2
      apply Option.ext
      intro p
      rw [Option.mem_def, Option.mem_def, hsome buffer2 p, hsome buffer p]
      have hocc : ∀ q, q + (c :: rest).length ≤ len →
          (occursAt buffer2 (c :: rest) q ↔ occursAt buffer (c :: rest) q) := by
        intro q hq
        rw [← occursAt_take buffer2 (c :: rest) len q hq, h2,
          occursAt_take buffer (c :: rest) len q hq]
      constructor
      · rintro ⟨h1, h3, h4⟩
        exact ⟨h1, (hocc p h1).mp h3, fun q hq hq2 => h4 q hq ((hocc q (by omega)).mpr hq2)⟩
      · rintro ⟨h1, h3, h4⟩
        exact ⟨h1, (hocc p h1).mpr h3, fun q hq hq2 => h4 q hq ((hocc q (by omega)).mp hq2)⟩

/-- C34, instance: in the eight bytes `0 f a c e U p ;` the needle `faceUp` is found at
index 1, behind the zero byte, when `len` is 8 or 7, and not when `len` is 6. -/
theorem C34_strnstr_witness :
    strnstr [Char.ofNat 0, 'f', 'a', 'c', 'e', 'U', 'p', ';'] "faceUp".data 7 = some 1 ∧
    strnstr [Char.ofNat 0, 'f', 'a', 'c', 'e', 'U', 'p', ';'] "faceUp".data 6 = none :=
  ⟨((C34_strnstr [Char.ofNat 0, 'f', 'a', 'c', 'e', 'U', 'p', ';'] "faceUp".data 7
      (by decide) (by decide)).1 1).mpr ⟨by decide, by decide, by decide⟩,
   (C34_strnstr [Char.ofNat 0, 'f', 'a', 'c', 'e', 'U', 'p', ';'] "faceUp".data 6
      (by decide) (by decide)).2.1.mpr (fun q hq => by
        have hl : "faceUp".data.length = 6 := rfl
        rw [hl] at hq
        have h0 : q = 0 := by omega
        subst h0
        decide)⟩

/-! ## C35: the margins of `media-col-default` -/

theorem parse_getMediaSupported_printerMargins (value : media_size_enumerator → media_size_t)
    (lim : Limits) (response : ipp_t) (tmp : media_size_t) (c : printer_capabilities_t) :
    printerMargins (parse_getMediaSupported value lim response tmp c).2 = printerMargins c := by
  have h := congrArg printerMargins (parse_getMediaSupported_frame_eq value lim response tmp c)
  exact h

theorem parse_printerUris_printerMargins (lim : Limits) (response : ipp_t)
    (c : printer_capabilities_t) :
    printerMargins (parse_printerUris lim response c) = printerMargins c := by
  have h := congrArg printerMargins (parse_printerUris_frame_eq lim response c)
  exact h

theorem parse_printerAttributes_mediaSizes_printerMargins (lim : Limits)
    (media_supported : media_supported_t) (c : printer_capabilities_t) :
    printerMargins (parse_printerAttributes_mediaSizes lim media_supported c) =
      printerMargins c := by
  have h := congrArg printerMargins (parse_printerAttributes_mediaSizes_frame_eq lim media_supported c)
  exact h

theorem parse_printerAttributes_identity_printerMargins (lim : Limits) (response : ipp_t)
    (c : printer_capabilities_t) :
    printerMargins (parse_printerAttributes_identity lim response c) = printerMargins c := by
  have h := congrArg printerMargins (parse_printerAttributes_identity_frame_eq lim response c)
  exact h

theorem parse_printerAttributes_mediaDefault_printerMargins (lim : Limits) (response : ipp_t)
    (c : printer_capabilities_t) :
    printerMargins (parse_printerAttributes_mediaDefault lim response c) = printerMargins c := by
  have h := congrArg printerMargins (parse_printerAttributes_mediaDefault_frame_eq lim response c)
  exact h

theorem parse_printerAttributes_colorCopies_printerMargins (lim : Limits) (response : ipp_t)
    (c : printer_capabilities_t) :
    printerMargins (parse_printerAttributes_colorCopies lim response c) = printerMargins c := by
  have h := congrArg printerMargins (parse_printerAttributes_colorCopies_frame_eq lim response c)
  exact h

theorem parse_printerAttributes_formats_printerMargins (lim : Limits) (response : ipp_t)
    (c : printer_capabilities_t) :
    printerMargins (parse_printerAttributes_formats lim response c) = printerMargins c := by
  have h := congrArg printerMargins (parse_printerAttributes_formats_frame_eq lim response c)
  exact h

theorem parse_printerAttributes_mediaTypes_printerMargins (lim : Limits) (response : ipp_t)
    (c : printer_capabilities_t) :
    printerMargins (parse_printerAttributes_mediaTypes lim response c) = printerMargins c := by
  have h := congrArg printerMargins (parse_printerAttributes_mediaTypes_frame_eq lim response c)
  exact h

theorem parse_printerAttributes_resolutions_printerMargins (lim : Limits) (response : ipp_t)
    (c : printer_capabilities_t) :
    printerMargins (parse_printerAttributes_resolutions lim response c) = printerMargins c := by
  have h := congrArg printerMargins (parse_printerAttributes_resolutions_frame_eq lim response c)
  exact h

theorem parse_printerAttributes_versions_printerMargins (response : ipp_t)
    (c : printer_capabilities_t) :
    printerMargins (parse_printerAttributes_versions response c) = printerMargins c := by
  have h := congrArg printerMargins (parse_printerAttributes_versions_frame_eq response c)
  exact h

theorem parse_printerAttributes_strip_printerMargins (lim : Limits) (response : ipp_t)
    (c : printer_capabilities_t) :
    printerMargins (parse_printerAttributes_strip lim response c) = printerMargins c := by
  have h := congrArg printerMargins (parse_printerAttributes_strip_frame_eq lim response c)
  exact h

theorem parse_printerAttributes_trays_printerMargins (response : ipp_t)
    (c : printer_capabilities_t) :
    printerMargins (parse_printerAttributes_trays response c) = printerMargins c := by
  have h := congrArg printerMargins (parse_printerAttributes_trays_frame_eq response c)
  exact h

theorem lastMemberInteger_append_of_eq (attrs : List ipp_member_attribute_t)
    (a : ipp_member_attribute_t) (name : String) (h : a.name = name) :
    lastMemberInteger (attrs ++ [a]) name = some (ippGetInteger_member a 0) := by
  unfold lastMemberInteger
  rw [List.filter_append]
  have : List.filter (fun a => decide (a.name = name)) [a] = [a] := by
    simp [List.filter_cons, h]
  rw [this, List.getLast?_append, List.getLast?_singleton]
  rfl

theorem lastMemberInteger_append_of_ne (attrs : List ipp_member_attribute_t)
    (a : ipp_member_attribute_t) (name : String) (h : a.name ≠ name) :
    lastMemberInteger (attrs ++ [a]) name = lastMemberInteger attrs name := by
  unfold lastMemberInteger
  rw [List.filter_append]
  have : List.filter (fun a => decide (a.name = name)) [a] = [] := by
    simp [List.filter_cons, h]
  rw [this, List.append_nil]

/-- The loop over the attributes of the collection: each margin field ends as the value
of the last attribute of its name, wherever that attribute stands. -/
theorem margins_fold (attrs : List ipp_member_attribute_t) (c : printer_capabilities_t) :
    printerMargins
      (attrs.foldl (fun (c : printer_capabilities_t) (a : ipp_member_attribute_t) =>
        if a.name = "media-top-margin" then
          { c with printerTopMargin := ippGetInteger_member a 0 }
        else if a.name = "media-bottom-margin" then
          { c with printerBottomMargin := ippGetInteger_member a 0 }
        else if a.name = "media-left-margin" then
          { c with printerLeftMargin := ippGetInteger_member a 0 }
        else if a.name = "media-right-margin" then
          { c with printerRightMargin := ippGetInteger_member a 0 }
        else c) c) =
      ((lastMemberInteger attrs "media-top-margin").getD c.printerTopMargin,
       (lastMemberInteger attrs "media-bottom-margin").getD c.printerBottomMargin,
       (lastMemberInteger attrs "media-left-margin").getD c.printerLeftMargin,
       (lastMemberInteger attrs "media-right-margin").getD c.printerRightMargin) := by
  induction attrs using List.reverseRecOn with
  | nil => rfl
  | append_singleton attrs a ih =>
    rw [List.foldl_append, List.foldl_cons, List.foldl_nil]
    unfold printerMargins at ih ⊢
    simp only [Prod.mk.injEq] at ih ⊢
    obtain ⟨i1, i2, i3, i4⟩ := ih
    have n12 : ("media-top-margin" : String) ≠ "media-bottom-margin" := by decide
    have n13 : ("media-top-margin" : String) ≠ "media-left-margin" := by decide
    have n14 : ("media-top-margin" : String) ≠ "media-right-margin" := by decide
    have n23 : ("media-bottom-margin" : String) ≠ "media-left-margin" := by decide
    have n24 : ("media-bottom-margin" : String) ≠ "media-right-margin" := by decide
    have n34 : ("media-left-margin" : String) ≠ "media-right-margin" := by decide
    by_cases h1 : a.name = "media-top-margin"
    · rw [if_pos h1, lastMemberInteger_append_of_eq attrs a _ h1,
        lastMemberInteger_append_of_ne attrs a _ (h1 ▸ n12),
        lastMemberInteger_append_of_ne attrs a _ (h1 ▸ n13),
        lastMemberInteger_append_of_ne attrs a _ (h1 ▸ n14)]
      exact ⟨rfl, i2, i3, i4⟩
    · rw [if_neg h1]
      by_cases h2 : a.name = "media-bottom-margin"
      · rw [if_pos h2, lastMemberInteger_append_of_ne attrs a _ h1,
          lastMemberInteger_append_of_eq attrs a _ h2,
          lastMemberInteger_append_of_ne attrs a _ (h2 ▸ n23),
          lastMemberInteger_append_of_ne attrs a _ (h2 ▸ n24)]
        exact ⟨i1, rfl, i3, i4⟩
      · rw [if_neg h2]
        by_cases h3 : a.name = "media-left-margin"
        · rw [if_pos h3, lastMemberInteger_append_of_ne attrs a _ h1,
            lastMemberInteger_append_of_ne attrs a _ h2,
            lastMemberInteger_append_of_eq attrs a _ h3,
            lastMemberInteger_append_of_ne attrs a _ (h3 ▸ n34)]
          exact ⟨i1, i2, rfl, i4⟩
        · rw [if_neg h3]
          by_cases h4 : a.name = "media-right-margin"
          · rw [if_pos h4, lastMemberInteger_append_of_ne attrs a _ h1,
              lastMemberInteger_append_of_ne attrs a _ h2,
              lastMemberInteger_append_of_ne attrs a _ h3,
              lastMemberInteger_append_of_eq attrs a _ h4]
            exact ⟨i1, i2, i3, rfl⟩
          · rw [if_neg h4, lastMemberInteger_append_of_ne attrs a _ h1,
              lastMemberInteger_append_of_ne attrs a _ h2,
              lastMemberInteger_append_of_ne attrs a _ h3,
              lastMemberInteger_append_of_ne attrs a _ h4]
            exact ⟨i1, i2, i3, i4⟩

theorem parse_printerAttributes_margins_printerMargins (response : ipp_t)
    (c : printer_capabilities_t) :
    printerMargins (parse_printerAttributes_margins response c) =
      ((lastMemberInteger (mediaColDefaultMembers response) "media-top-margin").getD
          c.printerTopMargin,
       (lastMemberInteger (mediaColDefaultMembers response) "media-bottom-margin").getD
          c.printerBottomMargin,
       (lastMemberInteger (mediaColDefaultMembers response) "media-left-margin").getD
          c.printerLeftMargin,
       (lastMemberInteger (mediaColDefaultMembers response) "media-right-margin").getD
          c.printerRightMargin) := by
  unfold parse_printerAttributes_margins mediaColDefaultMembers
  cases ippFindAttribute response "media-col-default" .IPP_TAG_BEGIN_COLLECTION with
  | none => rfl
  | some attrptr =>
    simp only
    cases attrptr.values with
    | nil => rfl
    | cons x xs =>
      simp only
      exact margins_fold x.members c

theorem parse_printerAttributes_printerMargins (value : media_size_enumerator → media_size_t)
    (lim : Limits) (response : ipp_t) (tmp : media_size_t) (c : printer_capabilities_t) :
    printerMargins (parse_printerAttributes value lim response tmp c) =
      ((lastMemberInteger (mediaColDefaultMembers response) "media-top-margin").getD
          c.printerTopMargin,
       (lastMemberInteger (mediaColDefaultMembers response) "media-bottom-margin").getD
          c.printerBottomMargin,
       (lastMemberInteger (mediaColDefaultMembers response) "media-left-margin").getD
          c.printerLeftMargin,
       (lastMemberInteger (mediaColDefaultMembers response) "media-right-margin").getD
          c.printerRightMargin) := by
  have hbefore : printerMargins
      (parse_printerAttributes_versions response
        (parse_printerAttributes_resolutions lim response
          (parse_printerAttributes_mediaTypes lim response
            (parse_printerAttributes_formats lim response
              (parse_printerAttributes_colorCopies lim response
                (parse_printerAttributes_mediaDefault lim response
                  (parse_printerAttributes_identity lim response
                    (parse_printerAttributes_mediaSizes lim
                      (parse_getMediaSupported value lim response tmp c).1
                      (parse_printerUris lim response
                        (parse_getMediaSupported value lim response tmp c).2))))))))) =
      printerMargins c := by
    rw [parse_printerAttributes_versions_printerMargins,
      parse_printerAttributes_resolutions_printerMargins,
      parse_printerAttributes_mediaTypes_printerMargins,
      parse_printerAttributes_formats_printerMargins,
      parse_printerAttributes_colorCopies_printerMargins,
      parse_printerAttributes_mediaDefault_printerMargins,
      parse_printerAttributes_identity_printerMargins,
      parse_printerAttributes_mediaSizes_printerMargins, parse_printerUris_printerMargins,
      parse_getMediaSupported_printerMargins]
  unfold parse_printerAttributes
  simp only
  rw [parse_printerAttributes_trays_printerMargins, parse_printerAttributes_strip_printerMargins,
    parse_printerAttributes_margins_printerMargins]
  unfold printerMargins at hbefore
  simp only [Prod.mk.injEq] at hbefore
  rw [hbefore.1, hbefore.2.1, hbefore.2.2.1, hbefore.2.2.2]

/-- C35, counterexample: in the collection of the sample response five attributes that are
no margins stand before the four margins, and `parse_printerAttributes` reads all four
margins: none of the fields keeps the value 0 it had before. -/
theorem C35_counterexample :
    printerMargins (parse_printerAttributes sampleMediaValue sampleLimits lateMarginsResponse
      0 freshCapabilities) = (500, 600, 700, 800) ∧
    ((mediaColDefaultMembers lateMarginsResponse).take 5).all
      (fun a => a.name ∉ ["media-top-margin", "media-bottom-margin", "media-left-margin",
        "media-right-margin"]) = true ∧
    printerMargins freshCapabilities = (0, 0, 0, 0) := by
  refine ⟨?_, by decide, rfl⟩
  rw [parse_printerAttributes_printerMargins]
  decide

/-- C35, amended: the loop over the attributes of the first collection of
`media-col-default` never ends early (its counter `j` is never incremented, so the test
`j < 4` always holds): after `parse_printerAttributes` each margin field holds the first
value of the last attribute of its name in that collection, however many attributes of
other names stand before it, and keeps its previous value exactly when the collection has
no attribute of that name. A margin attribute that is present is always read. -/
theorem C35_margins_all_read (value : media_size_enumerator → media_size_t) (lim : Limits)
    (response : ipp_t) (media_sizeTemp : media_size_t) (capabilities : printer_capabilities_t) :
    printerMargins (parse_printerAttributes value lim response media_sizeTemp capabilities) =
      ((lastMemberInteger (mediaColDefaultMembers response) "media-top-margin").getD
          capabilities.printerTopMargin,
       (lastMemberInteger (mediaColDefaultMembers response) "media-bottom-margin").getD
          capabilities.printerBottomMargin,
       (lastMemberInteger (mediaColDefaultMembers response) "media-left-margin").getD
          capabilities.printerLeftMargin,
       (lastMemberInteger (mediaColDefaultMembers response) "media-right-margin").getD
          capabilities.printerRightMargin) ∧
    (∀ name, (∃ a ∈ mediaColDefaultMembers response, a.name = name) →
      ∃ before a after, mediaColDefaultMembers response = before ++ a :: after ∧
        a.name = name ∧ (∀ b ∈ after, b.name ≠ name) ∧
        lastMemberInteger (mediaColDefaultMembers response) name =
          some (ippGetInteger_member a 0)) ∧
    (∀ name, (∀ a ∈ mediaColDefaultMembers response, a.name ≠ name) →
      lastMemberInteger (mediaColDefaultMembers response) name = none) := by
  refine ⟨parse_printerAttributes_printerMargins value lim response media_sizeTemp capabilities,
    ?_, ?_⟩
  · intro name
    generalize mediaColDefaultMembers response = attrs
    induction attrs using List.reverseRecOn with
    | nil =>
      rintro ⟨a, ha, _⟩
      exact absurd ha (List.not_mem_nil a)
    | append_singleton attrs a ih =>
      intro hex
      by_cases h : a.name = name
      · exact ⟨attrs, a, [], rfl, h, fun b hb => absurd hb (List.not_mem_nil b),
          lastMemberInteger_append_of_eq attrs a name h⟩
      · have hex2 : ∃ b ∈ attrs, b.name = name := by
          obtain ⟨b, hb, hbn⟩ := hex
          rw [List.mem_append, List.mem_singleton] at hb
          rcases hb with hb | hb
          · exact ⟨b, hb, hbn⟩
          · exact absurd (hb ▸ hbn) h
        obtain ⟨before, b, after, hsplit, hbn, hafter, hlast⟩ := ih hex2
        refine ⟨before, b, after ++ [a], ?_, hbn, ?_, ?_⟩
        · rw [hsplit, List.append_assoc, List.cons_append]
        · intro x hx
          rw [List.mem_append, List.mem_singleton] at hx
          rcases hx with hx | hx
          · exact hafter x hx
          · rw [hx]
            exact h
        · rw [lastMemberInteger_append_of_ne attrs a name h]
          exact hlast
  · intro name hnone
    unfold lastMemberInteger
    have : (mediaColDefaultMembers response).filter (fun a => decide (a.name = name)) = [] := by
      rw [List.filter_eq_nil_iff]
      intro a ha
      simpa using hnone a ha
    rw [this]
    rfl

/-- C35, amended, instance: the four margins of the sample response, which stand behind
five other attributes, are the ones stored. -/
theorem C35_margins_all_read_witness :
    printerMargins (parse_printerAttributes sampleMediaValue sampleLimits lateMarginsResponse
      0 freshCapabilities) = (500, 600, 700, 800) :=
  (C35_margins_all_read sampleMediaValue sampleLimits lateMarginsResponse 0
    freshCapabilities).1.trans (by decide)

/-! ## C36: the negotiated version is always 2.0, 1.1 or 1.0 -/

theorem negotiatedVersion_known (v : ipp_version_supported_t) (p : Int × Int)
    (h : negotiatedVersion v = some p) : p ∈ [((2 : Int), (0 : Int)), (1, 1), (1, 0)] := by
  unfold negotiatedVersion at h
  split_ifs at h
  all_goals
    rw [Option.some.injEq] at h
    rw [← h]
    decide

theorem probe_loop_known (cfg : Config) (env : Env) (u : Uri) (M m : Int) (su br : Nat)
    (w : World) (hw : knownVersion w) :
    knownVersion (test_and_set_ipp_version_loop cfg env u M m su br w).2 := by
  by_cases h : (test_and_set_ipp_version_loop cfg env u M m su br w).1 = .OK
  · obtain ⟨k, resp, -, -, -, hv⟩ := probe_loop_ok cfg env u M m su br w h
    exact negotiatedVersion_known _ _ hv
  · obtain ⟨h1, h2⟩ := probe_loop_error cfg env u M m su br w h
    unfold knownVersion
    rw [h1, h2]
    exact hw

theorem determine_known (cfg : Config) (env : Env) (u : Uri) (http : Option http_t)
    (w : World) (hw : knownVersion w) :
    knownVersion (determine_ipp_version cfg env u http w).2 := by
  have k1 : knownVersion (test_and_set_ipp_version cfg env u 1 1 w).2 :=
    probe_loop_known cfg env u 1 1 0 0 w hw
  have k2 : knownVersion (test_and_set_ipp_version cfg env u 1 0
      (test_and_set_ipp_version cfg env u 1 1 w).2).2 :=
    probe_loop_known cfg env u 1 0 0 0 _ k1
  have k3 : knownVersion (test_and_set_ipp_version cfg env u 2 0
      (test_and_set_ipp_version cfg env u 1 0
        (test_and_set_ipp_version cfg env u 1 1 w).2).2).2 :=
    probe_loop_known cfg env u 2 0 0 0 _ k2
  cases http with
  | none => exact hw
  | some hh =>
    simp only [determine_ipp_version]
    split_ifs
    · exact k1
    · exact k2
    · exact k3
    · exact k3

theorem set_ipp_version_known (cfg : Config) (env : Env) (op : Option ipp_t) (u : Uri)
    (http : Option http_t) (s : ipp_version_state) (w : World) (hw : knownVersion w) :
    knownVersion (set_ipp_version cfg env op u http s w).2.2 := by
  cases op with
  | none => exact hw
  | some op =>
    cases s with
    | NEW_REQUEST_SEQUENCE =>
      simp only [set_ipp_version]
      unfold knownVersion
      dsimp only
      decide
    | IPP_VERSION_RESOLVED => exact hw
    | IPP_VERSION_UNSUPPORTED =>
      simp only [set_ipp_version]
      split_ifs
      · exact determine_known cfg env u http w hw
      · exact determine_known cfg env u http w hw

theorem send_known (env : Env) (w : World) (r : SendRecord) (hw : knownVersion w) :
    knownVersion (w.send env r).2 := hw

theorem doCups_body_known (cfg : Config) (env : Env) (http : http_t) (st : DoCupsState)
    (w : World) (hw : knownVersion w) :
    knownVersion (ipp_doCupsRequest_body cfg env http st w).2 := by
  have hrun : knownVersion (wprintIsRunning env w).2 := hw
  have hset := set_ipp_version_known cfg env (some st.request) st.printer_uri (some http)
    st.ipp_version_supported (wprintIsRunning env w).2 hrun
  unfold ipp_doCupsRequest_body
  simp only
  split
  · exact hrun
  · split
    · rename_i request w1 heq
      rw [heq] at hset
      have hsent : knownVersion (w1.send env (requestRecord st request)).2 := hset
      repeat' split
      all_goals exact hsent
    · rename_i x1 x2 w1 hne heq
      rw [heq] at hset
      exact hset

theorem doCups_loop_known (cfg : Config) (env : Env) (http : http_t) :
    ∀ (fuel : Nat) (st : DoCupsState) (w : World), knownVersion w →
      knownVersion (ipp_doCupsRequest_loop cfg env http fuel st w).2.2 := by
  intro fuel
  induction fuel with
  | zero =>
    intro st w hw
    exact hw
  | succ fuel ih =>
    intro st w hw
    have hb := doCups_body_known cfg env http st w hw
    rw [ipp_doCupsRequest_loop]
    split
    · rename_i st1 w1 heq
      rw [heq] at hb
      exact ih st1 w1 hb
    · rename_i r st1 w1 heq
      rw [heq] at hb
      exact hb

theorem jobStatus_body_known (cfg : Config) (env : Env) (http : Option http_t)
    (st : JobStatusState) (w : World) (hw : knownVersion w) :
    knownVersion (get_JobStatus_body cfg env http st w).2 := by
  have hset := set_ipp_version_known cfg env (some (ippNewRequest IPP_GET_JOB_ATTRIBUTES))
    st.printer_uri http st.ipp_version_supported w hw
  unfold get_JobStatus_body
  simp only
  split
  · rename_i request w1 heq
    rw [heq] at hset
    have hsent : knownVersion
        (w1.send env (jobRequestRecord { st with ipp_status := IPP_OK } request)).2 := hset
    repeat' split
    all_goals exact hsent
  · rename_i x1 x2 w1 hne heq
    rw [heq] at hset
    exact hset

theorem jobStatus_loop_known (cfg : Config) (env : Env) (http : Option http_t) :
    ∀ (fuel : Nat) (st : JobStatusState) (w : World), knownVersion w →
      knownVersion (get_JobStatus_loop cfg env http fuel st w).2.2 := by
  intro fuel
  induction fuel with
  | zero =>
    intro st w hw
    exact hw
  | succ fuel ih =>
    intro st w hw
    have hb := jobStatus_body_known cfg env http st w hw
    rw [get_JobStatus_loop]
    split
    · rename_i st1 w1 heq
      rw [heq] at hb
      exact hb
    · rename_i st1 w1 heq
      rw [heq] at hb
      split
      · exact ih st1 w1 hb
      · exact hb

/-- C36: the negotiated version held by the process is one of (2,0), (1,1), (1,0) at
process start, and each of `set_ipp_version`, `determine_ipp_version` and
`test_and_set_ipp_version` (started with any counters, so also any later round of it)
leaves it so, for every request pointer, state argument, probe version, connection handle
and script of printer answers; so do whole runs of `ipp_doCupsRequest` and of
`get_JobStatus`, the callers through which the three are reached. -/
theorem C36_negotiated_version_known (cfg : Config) (env : Env) (op_to_set : Option ipp_t)
    (printer_uri : Uri) (http : Option http_t) (use_existing_version : ipp_version_state)
    (major minor : Int) (su br : Nat) (fuel : Nat) (h : http_t) (st : DoCupsState)
    (jst : JobStatusState) (w : World) (hw : knownVersion w) :
    knownVersion World.initial ∧
    knownVersion
      (set_ipp_version cfg env op_to_set printer_uri http use_existing_version w).2.2 ∧
    knownVersion (determine_ipp_version cfg env printer_uri http w).2 ∧
    knownVersion (test_and_set_ipp_version cfg env printer_uri major minor w).2 ∧
    knownVersion (test_and_set_ipp_version_loop cfg env printer_uri major minor su br w).2 ∧
    knownVersion (ipp_doCupsRequest_loop cfg env h fuel st w).2.2 ∧
    knownVersion (get_JobStatus_loop cfg env http fuel jst w).2.2 :=
  ⟨by decide,
   set_ipp_version_known cfg env op_to_set printer_uri http use_existing_version w hw,
   determine_known cfg env printer_uri http w hw,
   probe_loop_known cfg env printer_uri major minor 0 0 w hw,
   probe_loop_known cfg env printer_uri major minor su br w hw,
   doCups_loop_known cfg env h fuel st w hw,
   jobStatus_loop_known cfg env http fuel jst w hw⟩

/-- C36, instance: from the start state, a re-resolution against a printer that lists all
three versions leaves a known version. -/
theorem C36_negotiated_version_known_witness :
    knownVersion World.initial ∧
    knownVersion (determine_ipp_version sampleConfig envAllVersions sampleUri
      (some sampleHttp) World.initial).2 :=
  ⟨by decide,
   (C36_negotiated_version_known sampleConfig envAllVersions (some sampleRequest) sampleUri
      (some sampleHttp) .IPP_VERSION_UNSUPPORTED 1 1 0 0 1 sampleHttp
      (DoCupsState.init sampleRequest "/ipp/print" sampleUri) (JobStatusState.init sampleUri)
      World.initial (by decide)).2.2.1⟩

/-! ## C39: `set_ipp_version` returning `ERROR` -/

theorem determine_error (cfg : Config) (env : Env) (u : Uri) (http : Option http_t)
    (w : World) (h : (determine_ipp_version cfg env u http w).1 ≠ .OK) :
    (determine_ipp_version cfg env u http w).2.ipp_version_major = w.ipp_version_major ∧
    (determine_ipp_version cfg env u http w).2.ipp_version_minor = w.ipp_version_minor := by
  cases http with
  | none => exact ⟨rfl, rfl⟩
  | some hh =>
    simp only [determine_ipp_version] at h ⊢
    by_cases h1 : (test_and_set_ipp_version cfg env u 1 1 w).1 = .OK
    · simp only [h1, if_true, ne_eq, not_true_eq_false] at h
    · by_cases h2 : (test_and_set_ipp_version cfg env u 1 0
          (test_and_set_ipp_version cfg env u 1 1 w).2).1 = .OK
      · simp only [h1, h2, if_true, if_false, ne_eq, not_true_eq_false] at h
      · by_cases h3 : (test_and_set_ipp_version cfg env u 2 0
            (test_and_set_ipp_version cfg env u 1 0
              (test_and_set_ipp_version cfg env u 1 1 w).2).2).1 = .OK
        · simp only [h1, h2, h3, if_true, if_false, ne_eq, not_true_eq_false] at h
        · simp only [h1, h2, h3, if_false]
          obtain ⟨a1, a2⟩ := probe_loop_error cfg env u 1 1 0 0 w h1
          obtain ⟨b1, b2⟩ := probe_loop_error cfg env u 1 0 0 0 _ h2
          obtain ⟨c1, c2⟩ := probe_loop_error cfg env u 2 0 0 0 _ h3
          exact ⟨c1.trans (b1.trans a1), c2.trans (b2.trans a2)⟩

/-- C39: when `set_ipp_version` returns `ERROR`, the negotiated version of the process is
what it was before the call and the request is handed back as it was given (its version
not stamped). `ERROR` is returned exactly when the request is `NULL`, or the state argument
is `IPP_VERSION_UNSUPPORTED` and `determine_ipp_version` fails, which it does when `http`
is `NULL` and when none of the three probes returns `OK`. -/
theorem C39_set_ipp_version_error (cfg : Config) (env : Env) (op_to_set : Option ipp_t)
    (printer_uri : Uri) (http : Option http_t) (use_existing_version : ipp_version_state)
    (w : World)
    (h : (set_ipp_version cfg env op_to_set printer_uri http use_existing_version w).1 =
      .ERROR) :
    (set_ipp_version cfg env op_to_set printer_uri http use_existing_version
      w).2.2.ipp_version_major = w.ipp_version_major ∧
    (set_ipp_version cfg env op_to_set printer_uri http use_existing_version
      w).2.2.ipp_version_minor = w.ipp_version_minor ∧
    (set_ipp_version cfg env op_to_set printer_uri http use_existing_version w).2.1 =
      op_to_set ∧
    (op_to_set = none ∨
      (use_existing_version = .IPP_VERSION_UNSUPPORTED ∧
        (determine_ipp_version cfg env printer_uri http w).1 = .ERROR ∧
        (http = none ∨
          ((test_and_set_ipp_version cfg env printer_uri 1 1 w).1 = .ERROR ∧
           (test_and_set_ipp_version cfg env printer_uri 1 0
              (test_and_set_ipp_version cfg env printer_uri 1 1 w).2).1 = .ERROR ∧
           (test_and_set_ipp_version cfg env printer_uri 2 0
              (test_and_set_ipp_version cfg env printer_uri 1 0
                (test_and_set_ipp_version cfg env printer_uri 1 1 w).2).2).1 = .ERROR)))) := by
  have hne : ∀ x : status_t, x ≠ .OK → x = .ERROR := by
    intro x hx
    cases x
    · exact absurd rfl hx
    · rfl
  cases op_to_set with
  | none => exact ⟨rfl, rfl, rfl, Or.inl rfl⟩
  | some op =>
    cases use_existing_version with
    | NEW_REQUEST_SEQUENCE => simp [set_ipp_version] at h
    | IPP_VERSION_RESOLVED => simp [set_ipp_version] at h
    | IPP_VERSION_UNSUPPORTED =>
      have hd : (determine_ipp_version cfg env printer_uri http w).1 ≠ .OK := by
        intro hok
        simp only [set_ipp_version] at h
        rw [if_neg (not_not.mpr hok)] at h
        have h2 : status_t.OK = status_t.ERROR := h
        exact absurd h2 (by decide)
      have hs : set_ipp_version cfg env (some op) printer_uri http .IPP_VERSION_UNSUPPORTED w =
          (.ERROR, some op, (determine_ipp_version cfg env printer_uri http w).2) := by
        simp only [set_ipp_version]
        rw [if_pos hd]
      rw [hs]
      obtain ⟨e1, e2⟩ := determine_error cfg env printer_uri http w hd
      refine ⟨e1, e2, rfl, Or.inr ⟨rfl, hne _ hd, ?_⟩⟩
      cases http with
      | none => exact Or.inl rfl
      | some hh =>
        right
        simp only [determine_ipp_version] at hd
        by_cases h1 : (test_and_set_ipp_version cfg env printer_uri 1 1 w).1 = .OK
        · simp only [h1, if_true, ne_eq, not_true_eq_false] at hd
        · by_cases h2 : (test_and_set_ipp_version cfg env printer_uri 1 0
              (test_and_set_ipp_version cfg env printer_uri 1 1 w).2).1 = .OK
          · simp only [h1, h2, if_true, if_false, ne_eq, not_true_eq_false] at hd
          · by_cases h3 : (test_and_set_ipp_version cfg env printer_uri 2 0
                (test_and_set_ipp_version cfg env printer_uri 1 0
                  (test_and_set_ipp_version cfg env printer_uri 1 1 w).2).2).1 = .OK
            · simp only [h1, h2, h3, if_true, if_false, ne_eq, not_true_eq_false] at hd
            · exact ⟨hne _ h1, hne _ h2, hne _ h3⟩

/-- C39, instance: with `http == NULL` the re-resolution fails at once; the version stays
2.0 and the request keeps the version it came with. -/
theorem C39_set_ipp_version_error_witness :
    (set_ipp_version sampleConfig envAllVersions (some (ippSetVersion sampleRequest 1 1))
      sampleUri none .IPP_VERSION_UNSUPPORTED World.initial).2.2.ipp_version_major = 2 ∧
    (set_ipp_version sampleConfig envAllVersions (some (ippSetVersion sampleRequest 1 1))
      sampleUri none .IPP_VERSION_UNSUPPORTED World.initial).2.1 =
      some (ippSetVersion sampleRequest 1 1) :=
  ⟨(C39_set_ipp_version_error sampleConfig envAllVersions
      (some (ippSetVersion sampleRequest 1 1)) sampleUri none .IPP_VERSION_UNSUPPORTED
      World.initial rfl).1,
   (C39_set_ipp_version_error sampleConfig envAllVersions
      (some (ippSetVersion sampleRequest 1 1)) sampleUri none .IPP_VERSION_UNSUPPORTED
      World.initial rfl).2.2.1⟩

/-! ## C38: what a probe does with a response -/

theorem parse_IPPVersions_step_flags (z : ipp_version_supported_t) (x : ipp_value_t) :
    (parse_IPPVersions_step z x).supportsIpp10 =
        (z.supportsIpp10 || decide (ipp_value_t.string "1.0" = x)) ∧
    (parse_IPPVersions_step z x).supportsIpp11 =
        (z.supportsIpp11 || decide (ipp_value_t.string "1.1" = x)) ∧
    (parse_IPPVersions_step z x).supportsIpp20 =
        (z.supportsIpp20 || decide (ipp_value_t.string "2.0" = x)) := by
  unfold parse_IPPVersions_step
  by_cases h1 : x = .string "1.0"
  · subst h1
    simp
  · by_cases h2 : x = .string "1.1"
    · subst h2
      simp
    · by_cases h3 : x = .string "2.0"
      · subst h3
        simp
      · have e1 : ¬ ipp_value_t.string "1.0" = x := fun h => h1 h.symm
        have e2 : ¬ ipp_value_t.string "1.1" = x := fun h => h2 h.symm
        have e3 : ¬ ipp_value_t.string "2.0" = x := fun h => h3 h.symm
        simp [h1, h2, h3, e1, e2, e3]

theorem parse_IPPVersions_fold_flags (vals : List ipp_value_t) :
    ∀ z : ipp_version_supported_t,
      (vals.foldl parse_IPPVersions_step z).supportsIpp10 =
          (z.supportsIpp10 || decide (ipp_value_t.string "1.0" ∈ vals)) ∧
      (vals.foldl parse_IPPVersions_step z).supportsIpp11 =
          (z.supportsIpp11 || decide (ipp_value_t.string "1.1" ∈ vals)) ∧
      (vals.foldl parse_IPPVersions_step z).supportsIpp20 =
          (z.supportsIpp20 || decide (ipp_value_t.string "2.0" ∈ vals)) := by
  induction vals with
  | nil =>
    intro z
    simp
  | cons x xs ih =>
    intro z
    obtain ⟨s1, s2, s3⟩ := parse_IPPVersions_step_flags z x
    obtain ⟨i1, i2, i3⟩ := ih (parse_IPPVersions_step z x)
    rw [List.foldl_cons, i1, i2, i3, s1, s2, s3]
    simp only [List.mem_cons, Bool.decide_or, Bool.or_assoc, and_self]

/-- The flags of `parse_IPPVersions` tell which of the three keywords the attribute
`ipp-versions-supported` lists. -/
theorem parse_IPPVersions_flags (response : ipp_t) :
    (parse_IPPVersions response).supportsIpp10 = listsVersion response "1.0" ∧
    (parse_IPPVersions response).supportsIpp11 = listsVersion response "1.1" ∧
    (parse_IPPVersions response).supportsIpp20 = listsVersion response "2.0" := by
  unfold parse_IPPVersions listsVersion
  cases ippFindAttribute response "ipp-versions-supported" .IPP_TAG_KEYWORD with
  | none => exact ⟨rfl, rfl, rfl⟩
  | some attrptr =>
    simp only
    obtain ⟨f1, f2, f3⟩ := parse_IPPVersions_fold_flags attrptr.values
      { supportsIpp10 := false, supportsIpp11 := false, supportsIpp20 := false }
    rw [f1, f2, f3]
    simp only [Bool.false_or, and_self]

/-- A round of the probe loop, with any counters, whose send is answered by a response that
is not bad-request. -/
theorem probe_loop_answered (cfg : Config) (env : Env) (u : Uri) (M m : Int) (su br : Nat)
    (w : World) (resp : ipp_t) (s : ipp_status_t)
    (h : env.transport w.sent.length = ⟨some resp, s⟩) (hs : s ≠ IPP_BAD_REQUEST) :
    test_and_set_ipp_version_loop cfg env u M m su br w =
      if listsVersion resp "2.0" = true then
        (.OK, { w with sent := w.sent ++ [probeRecord u M m],
                       ipp_version_major := 2, ipp_version_minor := 0 })
      else if listsVersion resp "1.1" = true then
        (.OK, { w with sent := w.sent ++ [probeRecord u M m],
                       ipp_version_major := 1, ipp_version_minor := 1 })
      else if listsVersion resp "1.0" = true then
        (.OK, { w with sent := w.sent ++ [probeRecord u M m],
                       ipp_version_major := 1, ipp_version_minor := 0 })
      else (.ERROR, { w with sent := w.sent ++ [probeRecord u M m] }) := by
  obtain ⟨f1, f2, f3⟩ := parse_IPPVersions_flags resp
  rw [probe_loop_unfold]
  simp only [test_and_set_ipp_version_body, World.send, h, hs, if_false, f1, f2, f3]
  split_ifs <;> rfl

/-- C38: when the send of a round of `test_and_set_ipp_version(major, minor)` (the first
round or any later one, whatever the retry counters are by then) is answered by a response
whose status is not bad-request, the probe ends in that round. If `ipp-versions-supported`
lists `2.0` the stored version becomes (2,0); else if it lists `1.1`, (1,1); else if it
lists `1.0`, (1,0); the result is `OK` in these cases. If it lists none of the three the
result is `ERROR` and the stored version stays. The result and the stored version are the
same for every version the probe is sent with; only the logged probe differs. -/
theorem C38_probe_outcome (cfg : Config) (env : Env) (printer_uri : Uri) (major minor : Int)
    (service_unavailable_retry_count bad_request_retry_count : Nat) (w : World)
    (response : ipp_t) (ipp_status : ipp_status_t)
    (h : env.transport w.sent.length = ⟨some response, ipp_status⟩)
    (hs : ipp_status ≠ IPP_BAD_REQUEST) :
    test_and_set_ipp_version_loop cfg env printer_uri major minor
        service_unavailable_retry_count bad_request_retry_count w =
      (if listsVersion response "2.0" = true then
        (.OK, { w with sent := w.sent ++ [probeRecord printer_uri major minor],
                       ipp_version_major := 2, ipp_version_minor := 0 })
      else if listsVersion response "1.1" = true then
        (.OK, { w with sent := w.sent ++ [probeRecord printer_uri major minor],
                       ipp_version_major := 1, ipp_version_minor := 1 })
      else if listsVersion response "1.0" = true then
        (.OK, { w with sent := w.sent ++ [probeRecord printer_uri major minor],
                       ipp_version_major := 1, ipp_version_minor := 0 })
      else (.ERROR, { w with sent := w.sent ++ [probeRecord printer_uri major minor] })) ∧
    test_and_set_ipp_version cfg env printer_uri major minor w =
      test_and_set_ipp_version_loop cfg env printer_uri major minor
        service_unavailable_retry_count bad_request_retry_count w ∧
    (∀ major2 minor2 : Int,
      (test_and_set_ipp_version cfg env printer_uri major2 minor2 w).1 =
        (test_and_set_ipp_version cfg env printer_uri major minor w).1 ∧
      (test_and_set_ipp_version cfg env printer_uri major2 minor2 w).2.ipp_version_major =
        (test_and_set_ipp_version cfg env printer_uri major minor w).2.ipp_version_major ∧
      (test_and_set_ipp_version cfg env printer_uri major2 minor2 w).2.ipp_version_minor =
        (test_and_set_ipp_version cfg env printer_uri major minor w).2.ipp_version_minor) ∧
    ((test_and_set_ipp_version cfg env printer_uri major minor w).1 = .ERROR ↔
      (listsVersion response "2.0" = false ∧ listsVersion response "1.1" = false ∧
        listsVersion response "1.0" = false)) := by
  have e := fun (M m : Int) (su br : Nat) =>
    probe_loop_answered cfg env printer_uri M m su br w response ipp_status h hs
  refine ⟨e _ _ _ _, ?_, ?_, ?_⟩
  · rw [test_and_set_ipp_version, e, e]
  · intro major2 minor2
    rw [test_and_set_ipp_version, test_and_set_ipp_version, e, e]
    split_ifs <;> exact ⟨rfl, rfl, rfl⟩
  · rw [test_and_set_ipp_version, e]
    cases listsVersion response "2.0" <;> cases listsVersion response "1.1" <;>
      cases listsVersion response "1.0" <;> simp

/-- C38, instance: a probe sent with 1.0 to a printer that lists 1.1 and 2.0 stores 2.0. -/
theorem C38_probe_outcome_witness :
    test_and_set_ipp_version_loop sampleConfig
        { transport := fun _ => ⟨some (versionsResponse ["1.1", "2.0"]), IPP_OK⟩,
          running := fun _ => true }
        sampleUri 1 0 0 0 World.initial =
      (.OK, { World.initial with sent := [probeRecord sampleUri 1 0],
                                 ipp_version_major := 2, ipp_version_minor := 0 }) :=
  (C38_probe_outcome sampleConfig
    { transport := fun _ => ⟨some (versionsResponse ["1.1", "2.0"]), IPP_OK⟩,
      running := fun _ => true }
    sampleUri 1 0 0 0 World.initial (versionsResponse ["1.1", "2.0"]) IPP_OK rfl
    (by decide)).1.trans (by decide)

/-! ## C40: the URI chosen by `parse_printerUris` -/

theorem foldl_filter_guard {α σ : Type} (p : α → Bool) (q : σ → Prop) [DecidablePred q]
    (f : σ → α → σ) (l : List α) :
    ∀ s : σ, l.foldl (fun s x => if p x = true ∧ q s then f s x else s) s =
      (l.filter p).foldl (fun s x => if q s then f s x else s) s := by
  induction l with
  | nil =>
    intro s
    rfl
  | cons x xs ih =>
    intro s
    rw [List.foldl_cons, ih, List.filter_cons]
    by_cases hp : p x = true
    · have e : (if p x = true ∧ q s then f s x else s) = (if q s then f s x else s) := by
        simp only [hp, true_and]
      rw [if_pos hp, List.foldl_cons, e]
    · have e : (if p x = true ∧ q s then f s x else s) = s := if_neg (fun h => hp h.1)
      rw [if_neg hp, e]

theorem startsWithToken_strlcpy (u TOKEN : String) (size : Nat)
    (h : TOKEN.data.length + 1 ≤ size) :
    startsWithToken (strlcpy u size) TOKEN = startsWithToken u TOKEN := by
  unfold startsWithToken strlcpy
  rw [Bool.eq_iff_iff, List.isPrefixOf_iff_prefix, List.isPrefixOf_iff_prefix,
    List.prefix_take_iff]
  constructor
  · intro hp
    exact hp.1
  · intro hp
    exact ⟨hp, by omega⟩

/-- The copy loop of `parse_printerUris` over the valid URIs. -/
theorem uris_fold (size : Nat) (hsize : 8 ≤ size) (V : List String) :
    ∀ cap : printer_capabilities_t,
      (V.foldl (fun (cap : printer_capabilities_t) (u : String) =>
        if startsWithToken cap.printerUri "ipps://" = false then
          { cap with printerUri := strlcpy u size }
        else cap) cap).printerUri =
      if startsWithToken cap.printerUri "ipps://" = true then cap.printerUri
      else
        match V.find? (fun u => startsWithToken u "ipps://") with
        | some u => strlcpy u size
        | none => (V.getLast?.map (fun u => strlcpy u size)).getD cap.printerUri := by
  have htok : ("ipps://" : String).data.length + 1 ≤ size := by
    have : ("ipps://" : String).data.length = 7 := rfl
    omega
  induction V with
  | nil =>
    intro cap
    simp
  | cons u us ih =>
    intro cap
    rw [List.foldl_cons, ih]
    by_cases hcap : startsWithToken cap.printerUri "ipps://" = true
    · have hf : ¬ startsWithToken cap.printerUri "ipps://" = false := by simp [hcap]
      rw [if_neg hf, if_pos hcap, if_pos hcap]
    · have hf : startsWithToken cap.printerUri "ipps://" = false := by simpa using hcap
      rw [if_pos hf, if_neg hcap]
      dsimp only
      rw [startsWithToken_strlcpy u "ipps://" size htok, List.find?_cons]
      by_cases hu : startsWithToken u "ipps://" = true
      · rw [if_pos hu, hu]
      · have huf : startsWithToken u "ipps://" = false := by simpa using hu
        rw [if_neg hu, huf]
        dsimp only
        cases us.find? (fun u => startsWithToken u "ipps://") with
        | some v => rfl
        | none =>
          dsimp only
          rw [List.getLast?_cons]
          cases us.getLast? with
          | none => rfl
          | some v => rfl

theorem uris_fold_lists (size : Nat) (uris auths : List ipp_value_t)
    (capabilities : printer_capabilities_t) :
    (uris.take MAX_URIS).enum.foldl
      (fun (cap : printer_capabilities_t) (iu : Nat × ipp_value_t) =>
        let valid : Bool :=
          match (auths.take MAX_URIS)[iu.1]? with
          | some a => a.text == "none" || a.text == "requesting-user-name"
          | none => true
        if valid = true ∧ startsWithToken cap.printerUri "ipps://" = false then
          { cap with printerUri := strlcpy iu.2.text size }
        else cap) capabilities =
      ((((uris.take MAX_URIS).enum.filter
        (fun iu =>
          match auths[iu.1]? with
          | some a => a.text == "none" || a.text == "requesting-user-name"
          | none => true)).map (fun iu => iu.2.text))).foldl
        (fun (cap : printer_capabilities_t) (u : String) =>
          if startsWithToken cap.printerUri "ipps://" = false then
            { cap with printerUri := strlcpy u size }
          else cap) capabilities := by
  dsimp only
  rw [foldl_filter_guard
    (fun (iu : Nat × ipp_value_t) =>
      match (auths.take MAX_URIS)[iu.1]? with
      | some a => a.text == "none" || a.text == "requesting-user-name"
      | none => true)
    (fun (cap : printer_capabilities_t) => startsWithToken cap.printerUri "ipps://" = false)
    (fun (cap : printer_capabilities_t) (iu : Nat × ipp_value_t) =>
      { cap with printerUri := strlcpy iu.2.text size })]
  rw [List.foldl_map]
  congr 1
  apply List.filter_congr
  intro iu hiu
  have hlt := List.fst_lt_of_mem_enum hiu
  rw [List.length_take] at hlt
  have h10 : iu.1 < MAX_URIS := by omega
  rw [List.getElem?_take_of_lt h10]

theorem parse_printerUris_eq_fold (lim : Limits) (response : ipp_t)
    (capabilities : printer_capabilities_t) :
    parse_printerUris lim response capabilities =
      (validUris response).foldl (fun (cap : printer_capabilities_t) (u : String) =>
        if startsWithToken cap.printerUri "ipps://" = false then
          { cap with printerUri := strlcpy u lim.sizeof_printerUri }
        else cap) capabilities := by
  unfold parse_printerUris validUris attributeValues
  cases ippFindAttribute response "printer-uri-supported" .IPP_TAG_URI with
  | none =>
    cases ippFindAttribute response "uri-authentication-supported" .IPP_TAG_KEYWORD with
    | none => exact uris_fold_lists lim.sizeof_printerUri [] [] capabilities
    | some auth => exact uris_fold_lists lim.sizeof_printerUri [] auth.values capabilities
  | some uri =>
    cases ippFindAttribute response "uri-authentication-supported" .IPP_TAG_KEYWORD with
    | none => exact uris_fold_lists lim.sizeof_printerUri uri.values [] capabilities
    | some auth =>
      exact uris_fold_lists lim.sizeof_printerUri uri.values auth.values capabilities

theorem parse_printerUris_printerUri (lim : Limits) (response : ipp_t)
    (capabilities : printer_capabilities_t) (hsize : 8 ≤ lim.sizeof_printerUri) :
    (parse_printerUris lim response capabilities).printerUri =
      if startsWithToken capabilities.printerUri "ipps://" = true then capabilities.printerUri
      else
        match (validUris response).find? (fun u => startsWithToken u "ipps://") with
        | some u => strlcpy u lim.sizeof_printerUri
        | none =>
          ((validUris response).getLast?.map
            (fun u => strlcpy u lim.sizeof_printerUri)).getD capabilities.printerUri := by
  rw [parse_printerUris_eq_fold, uris_fold lim.sizeof_printerUri hsize]

theorem strlcpy_fits (u : String) (size : Nat) (h : u.length < size) : strlcpy u size = u := by
  unfold strlcpy
  have hl : u.data.length ≤ size - 1 := by
    have : u.data.length = u.length := rfl
    omega
  rw [List.take_of_length_le hl]

/-- C40: `parse_printerUris` with a buffer `printerUri` of at least 8 bytes. When the
buffer holds a string starting with `ipps://` on entry, it is unchanged. Otherwise let V
be `validUris`: if V has a URI starting with `ipps://`, the buffer receives the first such
URI; if it has none and V is not empty, the last element of V; if V is empty it is
unchanged. What the buffer receives is the `strlcpy` of the URI, that is the URI itself
whenever it fits the buffer. No other field is written. -/
theorem C40_parse_printerUris (lim : Limits) (response : ipp_t)
    (capabilities : printer_capabilities_t) (hsize : 8 ≤ lim.sizeof_printerUri) :
    (startsWithToken capabilities.printerUri "ipps://" = true →
      parse_printerUris lim response capabilities = capabilities) ∧
    (startsWithToken capabilities.printerUri "ipps://" = false →
      (∀ u, (validUris response).find? (fun u => startsWithToken u "ipps://") = some u →
        (parse_printerUris lim response capabilities).printerUri =
          strlcpy u lim.sizeof_printerUri) ∧
      ((validUris response).find? (fun u => startsWithToken u "ipps://") = none →
        ∀ u, (validUris response).getLast? = some u →
          (parse_printerUris lim response capabilities).printerUri =
            strlcpy u lim.sizeof_printerUri) ∧
      (validUris response = [] →
        parse_printerUris lim response capabilities = capabilities)) ∧
    (∀ u : String, u.length < lim.sizeof_printerUri → strlcpy u lim.sizeof_printerUri = u) ∧
    parse_printerUris_frame (parse_printerUris lim response capabilities) =
      parse_printerUris_frame capabilities := by
  have hframe := parse_printerUris_frame_eq lim response capabilities
  have hall : ∀ c1 c2 : printer_capabilities_t,
      parse_printerUris_frame c1 = parse_printerUris_frame c2 → c1.printerUri = c2.printerUri →
      c1 = c2 := by
    intro c1 c2 hf hu
    cases c1
    cases c2
    unfold parse_printerUris_frame at hf
    simp only [printer_capabilities_t.mk.injEq] at hf ⊢
    simp only at hu
    simp only [hf, hu, and_self]
  have hmain := parse_printerUris_printerUri lim response capabilities hsize
  refine ⟨?_, ?_, fun u hu => strlcpy_fits u _ hu, hframe⟩
  · intro hstart
    apply hall _ _ hframe
    rw [hmain, if_pos hstart]
  · intro hstart
    have hns : ¬ startsWithToken capabilities.printerUri "ipps://" = true := by simp [hstart]
    rw [if_neg hns] at hmain
    refine ⟨?_, ?_, ?_⟩
    · intro u hu
      rw [hmain, hu]
    · intro hnone u hu
      rw [hmain, hnone, hu]
      rfl
    · intro hnil
      apply hall _ _ hframe
      rw [hmain, hnil]
      rfl

/-- C40, instance: of the three sample URIs the second asks for a certificate; the first
valid URI starting with `ipps://` is the third, and it is the one stored. -/
theorem C40_parse_printerUris_witness :
    validUris urisResponse =
      ["ipp://printer.local/ipp/print", "ipps://printer.local/ipp/print"] ∧
    (parse_printerUris sampleLimits urisResponse freshCapabilities).printerUri =
      "ipps://printer.local/ipp/print" :=
  ⟨by decide,
   (((C40_parse_printerUris sampleLimits urisResponse freshCapabilities (by decide)).2.1
      (by decide)).1 "ipps://printer.local/ipp/print" (by decide)).trans (by decide)⟩

/-! ## C33: the retry budget of a probe -/

/-- A round of the probe loop whose send ends in bad-request, with or without a response:
the counter is compared with the limit before it is raised. -/
theorem probe_body_bad_request (cfg : Config) (env : Env) (u : Uri) (M m : Int) (su br : Nat)
    (w : World) (h : (env.transport w.sent.length).lastError = IPP_BAD_REQUEST) :
    test_and_set_ipp_version_body cfg env u M m su br w =
      (if br > cfg.IPP_BAD_REQUEST_MAX_RETRIES then ProbeStep.break_ .ERROR
        else ProbeStep.continue_ su (br + 1),
       { w with sent := w.sent ++ [probeRecord u M m] }) := by
  unfold test_and_set_ipp_version_body
  simp only [World.send, h]
  split <;>
    simp [IPP_INTERNAL_ERROR, IPP_SERVICE_UNAVAILABLE, IPP_BAD_REQUEST] <;>
    split_ifs <;> rfl

/-- A round of the probe loop whose send gets no response, last error
service-unavailable. -/
theorem probe_body_service_unavailable (cfg : Config) (env : Env) (u : Uri) (M m : Int)
    (su br : Nat) (w : World)
    (h : env.transport w.sent.length = ⟨none, IPP_SERVICE_UNAVAILABLE⟩) :
    test_and_set_ipp_version_body cfg env u M m su br w =
      (if su < cfg.IPP_SERVICE_ERROR_MAX_RETRIES then ProbeStep.continue_ (su + 1) br
        else ProbeStep.break_ .ERROR,
       { w with sent := w.sent ++ [probeRecord u M m] }) := by
  unfold test_and_set_ipp_version_body
  simp only [World.send, h]
  simp [IPP_INTERNAL_ERROR, IPP_SERVICE_UNAVAILABLE, IPP_BAD_REQUEST, IPP_NOT_FOUND]
  split_ifs <;> rfl

theorem probe_loop_bad_request (cfg : Config) (env : Env) (u : Uri) (M m : Int) :
    ∀ (n su br : Nat) (w : World),
      br + n = cfg.IPP_BAD_REQUEST_MAX_RETRIES + 1 →
      (∀ j, j ≤ n → (env.transport (w.sent.length + j)).lastError = IPP_BAD_REQUEST) →
      test_and_set_ipp_version_loop cfg env u M m su br w =
        (.ERROR, { w with sent := w.sent ++ List.replicate (n + 1) (probeRecord u M m) }) := by
  intro n
  induction n with
  | zero =>
    intro su br w hc hout
    have hb := probe_body_bad_request cfg env u M m su br w (by simpa using hout 0 (le_refl _))
    rw [if_pos (by omega)] at hb
    rw [probe_loop_unfold, hb]
    rfl
  | succ n ih =>
    intro su br w hc hout
    have hb := probe_body_bad_request cfg env u M m su br w (by simpa using hout 0 (by omega))
    rw [if_neg (by omega)] at hb
    rw [probe_loop_unfold, hb]
    simp only
    rw [ih su (br + 1) { w with sent := w.sent ++ [probeRecord u M m] } (by omega)
      (fun j hj => by
        have := hout (j + 1) (by omega)
        simpa [Nat.add_assoc, Nat.add_comm 1 j] using this)]
    simp [List.replicate_succ]

theorem probe_loop_service_unavailable (cfg : Config) (env : Env) (u : Uri) (M m : Int) :
    ∀ (n su br : Nat) (w : World),
      su + n = cfg.IPP_SERVICE_ERROR_MAX_RETRIES →
      (∀ j, j ≤ n → env.transport (w.sent.length + j) = ⟨none, IPP_SERVICE_UNAVAILABLE⟩) →
      test_and_set_ipp_version_loop cfg env u M m su br w =
        (.ERROR, { w with sent := w.sent ++ List.replicate (n + 1) (probeRecord u M m) }) := by
  intro n
  induction n with
  | zero =>
    intro su br w hc hout
    have hb := probe_body_service_unavailable cfg env u M m su br w
      (by simpa using hout 0 (le_refl _))
    rw [if_neg (by omega)] at hb
    rw [probe_loop_unfold, hb]
    rfl
  | succ n ih =>
    intro su br w hc hout
    have hb := probe_body_service_unavailable cfg env u M m su br w
      (by simpa using hout 0 (by omega))
    rw [if_pos (by omega)] at hb
    rw [probe_loop_unfold, hb]
    simp only
    rw [ih (su + 1) br { w with sent := w.sent ++ [probeRecord u M m] } (by omega)
      (fun j hj => by
        have := hout (j + 1) (by omega)
        simpa [Nat.add_assoc, Nat.add_comm 1 j] using this)]
    simp [List.replicate_succ]

/-- C33: a probe whose sends all end in bad-request (with or without a response) makes
`IPP_BAD_REQUEST_MAX_RETRIES + 2` send attempts before it returns `ERROR`: its test
`bad_request_retry_count > IPP_BAD_REQUEST_MAX_RETRIES` comes before the increment, so it
retries once more than the limit, and once more than `ipp_doCupsRequest` does. A probe whose
sends all get no response with last error service-unavailable makes
`IPP_SERVICE_ERROR_MAX_RETRIES + 1` send attempts and returns `ERROR`. Both counters start
at zero in every probe. -/
theorem C33_probe_retry_budget (cfg : Config) (env : Env) (printer_uri : Uri)
    (major minor : Int) (w : World) :
    ((∀ j, j ≤ cfg.IPP_BAD_REQUEST_MAX_RETRIES + 1 →
        (env.transport (w.sent.length + j)).lastError = IPP_BAD_REQUEST) →
      test_and_set_ipp_version cfg env printer_uri major minor w =
        (.ERROR,
          { w with
            sent := w.sent ++ List.replicate (cfg.IPP_BAD_REQUEST_MAX_RETRIES + 2)
              (probeRecord printer_uri major minor) })) ∧
    ((∀ j, j ≤ cfg.IPP_SERVICE_ERROR_MAX_RETRIES →
        env.transport (w.sent.length + j) = ⟨none, IPP_SERVICE_UNAVAILABLE⟩) →
      test_and_set_ipp_version cfg env printer_uri major minor w =
        (.ERROR,
          { w with
            sent := w.sent ++ List.replicate (cfg.IPP_SERVICE_ERROR_MAX_RETRIES + 1)
              (probeRecord printer_uri major minor) })) ∧
    test_and_set_ipp_version cfg env printer_uri major minor w =
      test_and_set_ipp_version_loop cfg env printer_uri major minor 0 0 w := by
  refine ⟨fun h => ?_, fun h => ?_, rfl⟩
  · exact probe_loop_bad_request cfg env printer_uri major minor
      (cfg.IPP_BAD_REQUEST_MAX_RETRIES + 1) 0 0 w (by omega) h
  · exact probe_loop_service_unavailable cfg env printer_uri major minor
      cfg.IPP_SERVICE_ERROR_MAX_RETRIES 0 0 w (by omega) h

/-- C33, instance: with `IPP_BAD_REQUEST_MAX_RETRIES = 2` and every send answered by a
response carrying bad-request, a probe makes four send attempts, where `ipp_doCupsRequest`
makes three; with `IPP_SERVICE_ERROR_MAX_RETRIES = 3` and every send ending in
service-unavailable, a probe makes four. -/
theorem C33_probe_retry_budget_witness :
    (test_and_set_ipp_version sampleConfig envBadRequestResponse sampleUri 1 1
      World.initial).2.sent.length = 4 ∧
    (test_and_set_ipp_version sampleConfig envBadRequestResponse sampleUri 1 1
      World.initial).1 = .ERROR ∧
    (ipp_doCupsRequest sampleConfig envBadRequestResponse 3 (some sampleHttp)
      (some sampleRequest) (some "/ipp/print") (some sampleUri) World.initial).2.2.sent.length =
      3 ∧
    (test_and_set_ipp_version sampleConfig envServiceUnavailable sampleUri 1 1
      World.initial).2.sent.length = 4 := by
  have h1 := (C33_probe_retry_budget sampleConfig envBadRequestResponse sampleUri 1 1
    World.initial).1 (fun _ _ => rfl)
  have h2 := (C33_probe_retry_budget sampleConfig envServiceUnavailable sampleUri 1 1
    World.initial).2.1 (fun _ _ => rfl)
  rw [h1, h2]
  refine ⟨by decide, rfl, by decide, by decide⟩

/-! ## C32: the retry budget of `get_JobStatus` -/

/-- One round of `get_JobStatus` in the resolved state whose send gets no response, last
error service-unavailable. -/
theorem jobStatus_body_su (cfg : Config) (env : Env) (http : Option http_t)
    (st : JobStatusState) (w : World)
    (hres : st.ipp_version_supported = .IPP_VERSION_RESOLVED)
    (hout : env.transport w.sent.length = ⟨none, IPP_SERVICE_UNAVAILABLE⟩) :
    get_JobStatus_body cfg env http st w =
      (if st.service_unavailable_retry_count < cfg.IPP_SERVICE_ERROR_MAX_RETRIES then
          JobStatusStep.continue_
            { st with ipp_status := IPP_SERVICE_UNAVAILABLE,
                      service_unavailable_retry_count :=
                        st.service_unavailable_retry_count + 1 }
        else
          JobStatusStep.break_
            { st with ipp_status := IPP_SERVICE_UNAVAILABLE, decoded := some none },
        { w with sent := w.sent ++ [jobStampedRecord st w] }) := by
  simp only [get_JobStatus_body, hres, set_ipp_version, World.send, hout]
  simp [IPP_NOT_FOUND, IPP_INTERNAL_ERROR, IPP_SERVICE_UNAVAILABLE, IPP_BAD_REQUEST,
    jobRequestRecord, jobStampedRecord, ippSetVersion]
  split_ifs <;> rfl

/-- One round of `get_JobStatus` in the resolved state whose send ends in bad-request, with
or without a response: the round ends with `continue` whatever the counter is. -/
theorem jobStatus_body_br (cfg : Config) (env : Env) (http : Option http_t)
    (st : JobStatusState) (w : World)
    (hres : st.ipp_version_supported = .IPP_VERSION_RESOLVED)
    (hout : (env.transport w.sent.length).lastError = IPP_BAD_REQUEST) :
    get_JobStatus_body cfg env http st w =
      (JobStatusStep.continue_
          { st with ipp_status := IPP_BAD_REQUEST,
                    bad_request_retry_count := st.bad_request_retry_count + 1 },
        { w with sent := w.sent ++ [jobStampedRecord st w] }) := by
  simp only [get_JobStatus_body, hres, set_ipp_version, World.send, hout]
  split <;>
    simp [IPP_NOT_FOUND, IPP_INTERNAL_ERROR, IPP_SERVICE_UNAVAILABLE, IPP_BAD_REQUEST,
      jobRequestRecord, jobStampedRecord, ippSetVersion]

theorem jobStatus_loop_su (cfg : Config) (env : Env) (http : Option http_t) :
    ∀ (n : Nat) (st : JobStatusState) (w : World) (fuel : Nat),
      st.ipp_version_supported = .IPP_VERSION_RESOLVED →
      st.service_unavailable_retry_count + n + 1 = cfg.IPP_SERVICE_ERROR_MAX_RETRIES →
      st.bad_request_retry_count < cfg.IPP_BAD_REQUEST_MAX_RETRIES →
      (∀ j, j ≤ n → env.transport (w.sent.length + j) = ⟨none, IPP_SERVICE_UNAVAILABLE⟩) →
      n + 1 ≤ fuel →
      ∃ st1, get_JobStatus_loop cfg env http fuel st w =
        (true, st1,
          { w with sent := w.sent ++ List.replicate (n + 1) (jobStampedRecord st w) }) ∧
        st1.ipp_status = IPP_SERVICE_UNAVAILABLE := by
  intro n
  induction n with
  | zero =>
    intro st w fuel hres hc hbr hout hfuel
    obtain ⟨f, rfl⟩ : ∃ f, fuel = f + 1 := ⟨fuel - 1, by omega⟩
    have hb := jobStatus_body_su cfg env http st w hres (by simpa using hout 0 (le_refl _))
    rw [if_pos (by omega)] at hb
    simp only [get_JobStatus_loop, hb]
    rw [if_neg (by omega)]
    exact ⟨_, rfl, rfl⟩
  | succ n ih =>
    intro st w fuel hres hc hbr hout hfuel
    obtain ⟨f, rfl⟩ : ∃ f, fuel = f + 1 := ⟨fuel - 1, by omega⟩
    have hb := jobStatus_body_su cfg env http st w hres (by simpa using hout 0 (by omega))
    rw [if_pos (by omega)] at hb
    simp only [get_JobStatus_loop, hb]
    rw [if_pos (by omega)]
    obtain ⟨st1, h1, h2⟩ := ih
      { st with ipp_status := IPP_SERVICE_UNAVAILABLE,
                service_unavailable_retry_count := st.service_unavailable_retry_count + 1 }
      { w with sent := w.sent ++ [jobStampedRecord st w] }
      f hres (by dsimp only; omega) hbr
      (fun j hj => by
        have := hout (j + 1) (by omega)
        simpa [Nat.add_assoc, Nat.add_comm 1 j] using this)
      (by omega)
    refine ⟨st1, ?_, h2⟩
    rw [h1]
    simp [List.replicate_succ, jobStampedRecord]

theorem jobStatus_loop_br (cfg : Config) (env : Env) (http : Option http_t) :
    ∀ (n : Nat) (st : JobStatusState) (w : World) (fuel : Nat),
      st.ipp_version_supported = .IPP_VERSION_RESOLVED →
      st.bad_request_retry_count + n + 1 = cfg.IPP_BAD_REQUEST_MAX_RETRIES →
      st.service_unavailable_retry_count < cfg.IPP_SERVICE_ERROR_MAX_RETRIES →
      (∀ j, j ≤ n → (env.transport (w.sent.length + j)).lastError = IPP_BAD_REQUEST) →
      n + 1 ≤ fuel →
      ∃ st1, get_JobStatus_loop cfg env http fuel st w =
        (true, st1,
          { w with sent := w.sent ++ List.replicate (n + 1) (jobStampedRecord st w) }) ∧
        st1.ipp_status = IPP_BAD_REQUEST := by
  intro n
  induction n with
  | zero =>
    intro st w fuel hres hc hsu hout hfuel
    obtain ⟨f, rfl⟩ : ∃ f, fuel = f + 1 := ⟨fuel - 1, by omega⟩
    have hb := jobStatus_body_br cfg env http st w hres (by simpa using hout 0 (le_refl _))
    simp only [get_JobStatus_loop, hb]
    rw [if_neg (by omega)]
    exact ⟨_, rfl, rfl⟩
  | succ n ih =>
    intro st w fuel hres hc hsu hout hfuel
    obtain ⟨f, rfl⟩ : ∃ f, fuel = f + 1 := ⟨fuel - 1, by omega⟩
    have hb := jobStatus_body_br cfg env http st w hres (by simpa using hout 0 (by omega))
    simp only [get_JobStatus_loop, hb]
    rw [if_pos (by omega)]
    obtain ⟨st1, h1, h2⟩ := ih
      { st with ipp_status := IPP_BAD_REQUEST,
                bad_request_retry_count := st.bad_request_retry_count + 1 }
      { w with sent := w.sent ++ [jobStampedRecord st w] }
      f hres (by dsimp only; omega) hsu
      (fun j hj => by
        have := hout (j + 1) (by omega)
        simpa [Nat.add_assoc, Nat.add_comm 1 j] using this)
      (by omega)
    refine ⟨st1, ?_, h2⟩
    rw [h1]
    simp [List.replicate_succ, jobStampedRecord]

/-- When one of the two limits is 0, a round that ends in service-unavailable or in
bad-request is the only one. -/
theorem jobStatus_loop_single (cfg : Config) (env : Env) (http : Option http_t)
    (st : JobStatusState) (w : World) (fuel : Nat)
    (hres : st.ipp_version_supported = .IPP_VERSION_RESOLVED)
    (hzero : cfg.IPP_SERVICE_ERROR_MAX_RETRIES = 0 ∨ cfg.IPP_BAD_REQUEST_MAX_RETRIES = 0)
    (hout : env.transport w.sent.length = ⟨none, IPP_SERVICE_UNAVAILABLE⟩ ∨
      (env.transport w.sent.length).lastError = IPP_BAD_REQUEST) :
    ∃ st1, get_JobStatus_loop cfg env http (fuel + 1) st w =
      (true, st1,
        { w with sent := w.sent ++ [jobStampedRecord st w] }) ∧
      st1.ipp_status = (env.transport w.sent.length).lastError := by
  rcases hout with hout | hout
  · have hb := jobStatus_body_su cfg env http st w hres hout
    by_cases hlt : st.service_unavailable_retry_count < cfg.IPP_SERVICE_ERROR_MAX_RETRIES
    · rw [if_pos hlt] at hb
      simp only [get_JobStatus_loop, hb]
      rw [if_neg (by omega)]
      exact ⟨_, rfl, by rw [hout]⟩
    · rw [if_neg hlt] at hb
      simp only [get_JobStatus_loop, hb]
      exact ⟨_, rfl, by rw [hout]⟩
  · have hb := jobStatus_body_br cfg env http st w hres hout
    simp only [get_JobStatus_loop, hb]
    rw [if_neg (by omega)]
    exact ⟨_, rfl, hout.symm⟩

/-- C32, counterexample: with `IPP_SERVICE_ERROR_MAX_RETRIES = 3` and every send ending in
service-unavailable without a response, `get_JobStatus` makes three send attempts, not four;
with `IPP_BAD_REQUEST_MAX_RETRIES = 2` and every send answered with bad-request it makes
two, not three. -/
theorem C32_counterexample :
    sampleConfig.IPP_SERVICE_ERROR_MAX_RETRIES = 3 ∧
    (get_JobStatus sampleConfig envServiceUnavailable 10 (some sampleHttp) sampleUri (some ())
      (some ()) World.initial).1 = some IPP_SERVICE_UNAVAILABLE ∧
    (get_JobStatus sampleConfig envServiceUnavailable 10 (some sampleHttp) sampleUri (some ())
      (some ()) World.initial).2.2.sent.length = 3 ∧
    sampleConfig.IPP_BAD_REQUEST_MAX_RETRIES = 2 ∧
    (get_JobStatus sampleConfig envBadRequestResponse 10 (some sampleHttp) sampleUri (some ())
      (some ()) World.initial).1 = some IPP_BAD_REQUEST ∧
    (get_JobStatus sampleConfig envBadRequestResponse 10 (some sampleHttp) sampleUri (some ())
      (some ()) World.initial).2.2.sent.length = 2 := by
  refine ⟨rfl, ?_, ?_, rfl, ?_, ?_⟩ <;> decide

/-- C32, amended: in `get_JobStatus` (non-NULL out-pointers) a `continue` leads to the loop
condition `bad_request_retry_count < IPP_BAD_REQUEST_MAX_RETRIES &&
service_unavailable_retry_count < IPP_SERVICE_ERROR_MAX_RETRIES`, so the loop is left as
soon as a counter reaches its limit. When both limits are positive: if every send gets no
response with last error service-unavailable, the call makes exactly
`IPP_SERVICE_ERROR_MAX_RETRIES` send attempts and returns `IPP_SERVICE_UNAVAILABLE`; if
every send ends in bad-request, it makes exactly `IPP_BAD_REQUEST_MAX_RETRIES` send
attempts and returns `IPP_BAD_REQUEST`. When one of the limits is 0 it makes exactly one
send attempt in either case. -/
theorem C32_job_status_retry_budget (cfg : Config) (env : Env) (http : Option http_t)
    (printer_uri : Uri) (w : World) (fuel : Nat) :
    (0 < cfg.IPP_SERVICE_ERROR_MAX_RETRIES → 0 < cfg.IPP_BAD_REQUEST_MAX_RETRIES →
      (∀ j, j < cfg.IPP_SERVICE_ERROR_MAX_RETRIES →
        env.transport (w.sent.length + j) = ⟨none, IPP_SERVICE_UNAVAILABLE⟩) →
      cfg.IPP_SERVICE_ERROR_MAX_RETRIES ≤ fuel →
      (get_JobStatus cfg env fuel http printer_uri (some ()) (some ()) w).1 =
        some IPP_SERVICE_UNAVAILABLE ∧
      (get_JobStatus cfg env fuel http printer_uri (some ()) (some ()) w).2.2 =
        { w with
          sent := w.sent ++ List.replicate cfg.IPP_SERVICE_ERROR_MAX_RETRIES
            (jobStampedRecord (JobStatusState.init printer_uri) w) }) ∧
    (0 < cfg.IPP_SERVICE_ERROR_MAX_RETRIES → 0 < cfg.IPP_BAD_REQUEST_MAX_RETRIES →
      (∀ j, j < cfg.IPP_BAD_REQUEST_MAX_RETRIES →
        (env.transport (w.sent.length + j)).lastError = IPP_BAD_REQUEST) →
      cfg.IPP_BAD_REQUEST_MAX_RETRIES ≤ fuel →
      (get_JobStatus cfg env fuel http printer_uri (some ()) (some ()) w).1 =
        some IPP_BAD_REQUEST ∧
      (get_JobStatus cfg env fuel http printer_uri (some ()) (some ()) w).2.2 =
        { w with
          sent := w.sent ++ List.replicate cfg.IPP_BAD_REQUEST_MAX_RETRIES
            (jobStampedRecord (JobStatusState.init printer_uri) w) }) ∧
    ((cfg.IPP_SERVICE_ERROR_MAX_RETRIES = 0 ∨ cfg.IPP_BAD_REQUEST_MAX_RETRIES = 0) →
      (env.transport w.sent.length = ⟨none, IPP_SERVICE_UNAVAILABLE⟩ ∨
        (env.transport w.sent.length).lastError = IPP_BAD_REQUEST) →
      (get_JobStatus cfg env (fuel + 1) http printer_uri (some ()) (some ()) w).1 =
        some (env.transport w.sent.length).lastError ∧
      (get_JobStatus cfg env (fuel + 1) http printer_uri (some ()) (some ()) w).2.2 =
        { w with sent := w.sent ++ [jobStampedRecord (JobStatusState.init printer_uri) w] }) := by
  refine ⟨?_, ?_, ?_⟩
  · intro hS hB hout hfuel
    obtain ⟨n, hn⟩ : ∃ n, cfg.IPP_SERVICE_ERROR_MAX_RETRIES = n + 1 :=
      ⟨cfg.IPP_SERVICE_ERROR_MAX_RETRIES - 1, by omega⟩
    obtain ⟨st1, h1, h2⟩ := jobStatus_loop_su cfg env http n (JobStatusState.init printer_uri)
      w fuel rfl (by simp only [JobStatusState.init]; omega) hB
      (fun j hj => hout j (by omega)) (by omega)
    have e : get_JobStatus cfg env fuel http printer_uri (some ()) (some ()) w =
        (some st1.ipp_status, st1,
          { w with
            sent := w.sent ++ List.replicate (n + 1)
              (jobStampedRecord (JobStatusState.init printer_uri) w) }) := by
      simp only [get_JobStatus, h1, if_true]
    rw [e, h2, hn]
    exact ⟨rfl, rfl⟩
  · intro hS hB hout hfuel
    obtain ⟨n, hn⟩ : ∃ n, cfg.IPP_BAD_REQUEST_MAX_RETRIES = n + 1 :=
      ⟨cfg.IPP_BAD_REQUEST_MAX_RETRIES - 1, by omega⟩
    obtain ⟨st1, h1, h2⟩ := jobStatus_loop_br cfg env http n (JobStatusState.init printer_uri)
      w fuel rfl (by simp only [JobStatusState.init]; omega) hS
      (fun j hj => hout j (by omega)) (by omega)
    have e : get_JobStatus cfg env fuel http printer_uri (some ()) (some ()) w =
        (some st1.ipp_status, st1,
          { w with
            sent := w.sent ++ List.replicate (n + 1)
              (jobStampedRecord (JobStatusState.init printer_uri) w) }) := by
      simp only [get_JobStatus, h1, if_true]
    rw [e, h2, hn]
    exact ⟨rfl, rfl⟩
  · intro hzero hout
    obtain ⟨st1, h1, h2⟩ := jobStatus_loop_single cfg env http
      (JobStatusState.init printer_uri) w fuel rfl hzero hout
    have e : get_JobStatus cfg env (fuel + 1) http printer_uri (some ()) (some ()) w =
        (some st1.ipp_status, st1,
          { w with sent := w.sent ++ [jobStampedRecord (JobStatusState.init printer_uri) w] }) := by
      simp only [get_JobStatus, h1, if_true]
    rw [e, h2]
    exact ⟨rfl, rfl⟩

/-- C32, amended, instance: limits 3 and 2; three sends under service-unavailable. -/
theorem C32_job_status_retry_budget_witness :
    (get_JobStatus sampleConfig envServiceUnavailable 3 (some sampleHttp) sampleUri (some ())
      (some ()) World.initial).1 = some IPP_SERVICE_UNAVAILABLE ∧
    (get_JobStatus sampleConfig envServiceUnavailable 3 (some sampleHttp) sampleUri (some ())
      (some ()) World.initial).2.2 =
      { World.initial with
        sent := List.replicate 3
          { sender := .request, version_major := 2, version_minor := 0,
            resource := "/ipp/print", printer_uri := sampleUri } } :=
  (C32_job_status_retry_budget sampleConfig envServiceUnavailable (some sampleHttp) sampleUri
    World.initial 3).1 (by decide) (by decide) (fun _ _ => rfl) (by decide)

/-! ## C37: version-not-supported answers are retried without bound -/

/-- The first round under `envAlwaysRejected`: no probe, the request is rejected. -/
theorem doCups_body_rejected_first (cfg : Config) (http : http_t) (st : DoCupsState)
    (w : World) (hst : st.ipp_version_supported = .IPP_VERSION_RESOLVED)
    (heven : w.sent.length % 2 = 0) :
    ipp_doCupsRequest_body cfg envAlwaysRejected http st w =
      (.continue_
        { st with request := ippSetVersion st.request w.ipp_version_major w.ipp_version_minor,
                  response := none, ipp_version_supported := .IPP_VERSION_UNSUPPORTED },
        { w with polls := w.polls + 1, sent := w.sent ++ [stampedRecord st w] }) := by
  have hout : envAlwaysRejected.transport w.sent.length =
      ⟨some (versionsResponse []), IPP_VERSION_NOT_SUPPORTED⟩ := by
    simp only [envAlwaysRejected, heven, if_true]
  simp only [ipp_doCupsRequest_body, wprintIsRunning, hst, set_ipp_version, World.send, hout]
  simp [envAlwaysRejected, IPP_VERSION_NOT_SUPPORTED, IPP_BAD_REQUEST, requestRecord,
    stampedRecord, ippSetVersion]

/-- A later round under `envAlwaysRejected`: one probe, which stores 2.0, then the request,
which is rejected again. -/
theorem doCups_body_rejected (cfg : Config) (http : http_t) (st : DoCupsState) (w : World)
    (hst : st.ipp_version_supported = .IPP_VERSION_UNSUPPORTED)
    (hodd : w.sent.length % 2 = 1) :
    ipp_doCupsRequest_body cfg envAlwaysRejected http st w =
      (.continue_
        { st with request := ippSetVersion st.request 2 0,
                  response := none, ipp_version_supported := .IPP_VERSION_UNSUPPORTED },
        { ipp_version_major := 2, ipp_version_minor := 0, polls := w.polls + 1,
          sent := w.sent ++ [probeRecord st.printer_uri 1 1,
            { sender := .request, version_major := 2, version_minor := 0,
              resource := st.http_resource, printer_uri := st.printer_uri }] }) := by
  have hout1 : envAlwaysRejected.transport (wprintIsRunning envAlwaysRejected w).2.sent.length =
      ⟨some (versionsResponse ["2.0"]), IPP_OK⟩ := by
    have : ¬ w.sent.length % 2 = 0 := by omega
    simp only [envAlwaysRejected, wprintIsRunning, this, if_false]
  have hprobe := probe_answered cfg envAlwaysRejected st.printer_uri 1 1
    (wprintIsRunning envAlwaysRejected w).2 (versionsResponse ["2.0"]) IPP_OK hout1 (by decide)
  have hneg : negotiatedVersion (parse_IPPVersions (versionsResponse ["2.0"])) =
      some (2, 0) := by decide
  rw [hneg] at hprobe
  simp only at hprobe
  have hset : set_ipp_version cfg envAlwaysRejected (some st.request) st.printer_uri (some http)
      st.ipp_version_supported (wprintIsRunning envAlwaysRejected w).2 =
      (.OK, some (ippSetVersion st.request 2 0),
        { ipp_version_major := 2, ipp_version_minor := 0, polls := w.polls + 1,
          sent := w.sent ++ [probeRecord st.printer_uri 1 1] }) := by
    rw [hst]
    simp only [set_ipp_version, determine_ipp_version, hprobe]
    rfl
  have hout2 : envAlwaysRejected.transport
      (w.sent ++ [probeRecord st.printer_uri 1 1]).length =
      ⟨some (versionsResponse []), IPP_VERSION_NOT_SUPPORTED⟩ := by
    have : (w.sent.length + 1) % 2 = 0 := by omega
    simp only [envAlwaysRejected, List.length_append, List.length_singleton, this, if_true]
  have hrun1 : (wprintIsRunning envAlwaysRejected w).1 = true := rfl
  unfold ipp_doCupsRequest_body
  simp only [hrun1, hset, World.send, Bool.true_eq_false, if_false, hout2]
  simp [IPP_VERSION_NOT_SUPPORTED, IPP_BAD_REQUEST, requestRecord, ippSetVersion, hst]

theorem doCups_loop_rejected (cfg : Config) (http : http_t) :
    ∀ (fuel : Nat) (st : DoCupsState) (w : World),
      st.ipp_version_supported = .IPP_VERSION_UNSUPPORTED →
      w.sent.length % 2 = 1 →
      (ipp_doCupsRequest_loop cfg envAlwaysRejected http fuel st w).1 = none ∧
      (ipp_doCupsRequest_loop cfg envAlwaysRejected http fuel st w).2.2.sent =
        w.sent ++ (List.replicate fuel
          [probeRecord st.printer_uri 1 1,
            { sender := .request, version_major := 2, version_minor := 0,
              resource := st.http_resource, printer_uri := st.printer_uri }]).flatten := by
  intro fuel
  induction fuel with
  | zero =>
    intro st w _ _
    simp [ipp_doCupsRequest_loop]
  | succ fuel ih =>
    intro st w hst hodd
    have hb := doCups_body_rejected cfg http st w hst hodd
    simp only [ipp_doCupsRequest_loop, hb]
    obtain ⟨h1, h2⟩ := ih
      { st with request := ippSetVersion st.request 2 0,
                response := none, ipp_version_supported := .IPP_VERSION_UNSUPPORTED }
      { ipp_version_major := 2, ipp_version_minor := 0, polls := w.polls + 1,
        sent := w.sent ++ [probeRecord st.printer_uri 1 1,
          { sender := .request, version_major := 2, version_minor := 0,
            resource := st.http_resource, printer_uri := st.printer_uri }] }
      rfl (by simp only [List.length_append, List.length_cons, List.length_nil]; omega)
    refine ⟨h1, ?_⟩
    rw [h2, List.replicate_succ, List.flatten_cons, List.append_assoc]

/-- C37: under `envAlwaysRejected` (the flag is set, every request of the call is answered
by a response carrying version-not-supported, every probe by a response that lists 2.0) a
call of `ipp_doCupsRequest` never returns: for every `k`, after `k + 1` rounds it has made
`k + 1` send attempts of its request, each but the first after one probe, and is still in
its loop. No counter is raised in these rounds. -/
theorem C37_version_not_supported_unbounded (cfg : Config) (http : http_t) (request : ipp_t)
    (http_resource : String) (printer_uri : Uri) (k : Nat) :
    (ipp_doCupsRequest cfg envAlwaysRejected (k + 1) (some http) (some request)
      (some http_resource) (some printer_uri) World.initial).1 = none ∧
    (ipp_doCupsRequest cfg envAlwaysRejected (k + 1) (some http) (some request)
      (some http_resource) (some printer_uri) World.initial).2.2.sent =
      { sender := .request, version_major := 2, version_minor := 0,
        resource := http_resource, printer_uri := printer_uri } ::
        (List.replicate k
          [probeRecord printer_uri 1 1,
            { sender := .request, version_major := 2, version_minor := 0,
              resource := http_resource, printer_uri := printer_uri }]).flatten ∧
    requestSends (ipp_doCupsRequest cfg envAlwaysRejected (k + 1) (some http) (some request)
      (some http_resource) (some printer_uri) World.initial).2.2.sent = k + 1 ∧
    (∀ i, envAlwaysRejected.transport (2 * i) =
      ⟨some (versionsResponse []), IPP_VERSION_NOT_SUPPORTED⟩) ∧
    (∀ i, envAlwaysRejected.transport (2 * i + 1) =
      ⟨some (versionsResponse ["2.0"]), IPP_OK⟩) ∧
    (∀ i, envAlwaysRejected.running i = true) := by
  have hb := doCups_body_rejected_first cfg http
    (DoCupsState.init request http_resource printer_uri) World.initial rfl rfl
  obtain ⟨h1, h2⟩ := doCups_loop_rejected cfg http k
    { DoCupsState.init request http_resource printer_uri with
      request := ippSetVersion request 2 0, response := none,
      ipp_version_supported := .IPP_VERSION_UNSUPPORTED }
    { World.initial with
      polls := 1,
      sent := [stampedRecord (DoCupsState.init request http_resource printer_uri)
        World.initial] }
    rfl rfl
  have hloop : ipp_doCupsRequest_loop cfg envAlwaysRejected http (k + 1)
      (DoCupsState.init request http_resource printer_uri) World.initial =
      ipp_doCupsRequest_loop cfg envAlwaysRejected http k
        { DoCupsState.init request http_resource printer_uri with
          request := ippSetVersion request 2 0, response := none,
          ipp_version_supported := .IPP_VERSION_UNSUPPORTED }
        { World.initial with
          polls := 1,
          sent := [stampedRecord (DoCupsState.init request http_resource printer_uri)
            World.initial] } := by
    rw [ipp_doCupsRequest_loop, hb]
    rfl
  have hsent : (ipp_doCupsRequest cfg envAlwaysRejected (k + 1) (some http) (some request)
      (some http_resource) (some printer_uri) World.initial).2.2.sent =
      { sender := .request, version_major := 2, version_minor := 0,
        resource := http_resource, printer_uri := printer_uri } ::
        (List.replicate k
          [probeRecord printer_uri 1 1,
            { sender := .request, version_major := 2, version_minor := 0,
              resource := http_resource, printer_uri := printer_uri }]).flatten := by
    simp only [ipp_doCupsRequest]
    rw [hloop, h2]
    rfl
  refine ⟨?_, hsent, ?_, ?_, ?_, fun _ => rfl⟩
  · simp only [ipp_doCupsRequest]
    rw [hloop, h1]
  · rw [hsent]
    unfold requestSends
    have hk : ∀ n : Nat, List.countP (fun r : SendRecord => r.sender == Sender.request)
        (List.replicate n
          [probeRecord printer_uri 1 1,
            { sender := .request, version_major := 2, version_minor := 0,
              resource := http_resource, printer_uri := printer_uri }]).flatten = n := by
      intro n
      induction n with
      | zero => rfl
      | succ n ihn =>
        rw [List.replicate_succ, List.flatten_cons, List.countP_append, ihn]
        simp [List.countP_cons, probeRecord]
        omega
    rw [List.countP_cons, hk]
    simp
  · intro i
    have : (2 * i) % 2 = 0 := by omega
    simp only [envAlwaysRejected, this, if_true]
  · intro i
    have : ¬ (2 * i + 1) % 2 = 0 := by omega
    simp only [envAlwaysRejected, this, if_false]

/-! ## C31: the number of send attempts of `ipp_doCupsRequest` -/

theorem doCups_body_afterSend (cfg : Config) (env : Env) (http : http_t) (st : DoCupsState)
    (w : World) (request : ipp_t) (w1 : World) (hrun : env.running w.polls = true)
    (hw1 : roundStamp cfg env http st w = (.OK, some request, w1)) :
    ipp_doCupsRequest_body cfg env http st w =
      (ipp_doCupsRequest_afterSend cfg { st with request := request }
          (env.transport w1.sent.length),
        { w1 with sent := w1.sent ++ [requestRecord st request] }) := by
  have hrun1 : (wprintIsRunning env w).1 = true := hrun
  unfold roundStamp at hw1
  unfold ipp_doCupsRequest_body ipp_doCupsRequest_afterSend
  simp only [hrun1, hw1, World.send, Bool.true_eq_false, if_false]
  generalize env.transport w1.sent.length = o
  obtain ⟨response, lastError⟩ := o
  cases response <;> simp only <;> split_ifs <;> rfl

theorem afterSend_facts (cfg : Config) (st1 : DoCupsState) (o : Outcome)
    (h1 : st1.internal_error_retry_count ≤ cfg.IPP_INTERNAL_ERROR_MAX_RETRIES)
    (h2 : st1.service_unavailable_retry_count ≤ cfg.IPP_SERVICE_ERROR_MAX_RETRIES)
    (h3 : st1.bad_request_retry_count ≤ cfg.IPP_BAD_REQUEST_MAX_RETRIES) :
    (ipp_doCupsRequest_afterSend cfg st1 o).state.internal_error_retry_count =
        st1.internal_error_retry_count + (if o.internalError = true then 1 else 0) ∧
    (ipp_doCupsRequest_afterSend cfg st1 o).state.service_unavailable_retry_count =
        st1.service_unavailable_retry_count + (if o.serviceUnavailable = true then 1 else 0) ∧
    (ipp_doCupsRequest_afterSend cfg st1 o).state.bad_request_retry_count =
        st1.bad_request_retry_count + (if o.badRequest = true then 1 else 0) ∧
    (∀ st2, ipp_doCupsRequest_afterSend cfg st1 o = .continue_ st2 →
      1 + retryRoom cfg st2 =
        retryRoom cfg st1 + (if o.versionNotSupported = true then 1 else 0) ∧
      st2.internal_error_retry_count ≤ cfg.IPP_INTERNAL_ERROR_MAX_RETRIES ∧
      st2.service_unavailable_retry_count ≤ cfg.IPP_SERVICE_ERROR_MAX_RETRIES ∧
      st2.bad_request_retry_count ≤ cfg.IPP_BAD_REQUEST_MAX_RETRIES) := by
  obtain ⟨response, e⟩ := o
  have c1 : IPP_INTERNAL_ERROR = (1280 : Int) := rfl
  have c2 : HTTP_ERROR = (-1 : Int) := rfl
  have c3 : IPP_SERVICE_UNAVAILABLE = (1282 : Int) := rfl
  have c4 : IPP_BAD_REQUEST = (1024 : Int) := rfl
  have c5 : IPP_NOT_FOUND = (1030 : Int) := rfl
  have c6 : IPP_VERSION_NOT_SUPPORTED = (1283 : Int) := rfl
  simp only [Outcome.internalError, Outcome.serviceUnavailable, Outcome.badRequest,
    Outcome.versionNotSupported, retryRoom, ipp_doCupsRequest_afterSend, c1, c2, c3, c4, c5, c6]
  cases response with
  | none =>
    simp only [Option.isNone_none, Option.isSome_none, Bool.true_and, Bool.false_and,
      Bool.or_eq_true, decide_eq_true_eq, Bool.false_eq_true, if_false]
    refine ⟨?_, ?_, ?_, ?_⟩
    · split_ifs <;> simp only [DoCupsStep.state] <;> (try unfold ipp_status_t at *) <;> omega
    · split_ifs <;> simp only [DoCupsStep.state] <;> (try unfold ipp_status_t at *) <;> omega
    · split_ifs <;> simp only [DoCupsStep.state] <;> (try unfold ipp_status_t at *) <;> omega
    · intro st2 hst2
      split_ifs at hst2 <;>
        (rw [DoCupsStep.continue_.injEq] at hst2
         subst hst2
         dsimp only
         unfold ipp_status_t at *
         omega)
  | some response =>
    simp only [Option.isNone_some, Option.isSome_some, Bool.true_and, Bool.false_and,
      Bool.or_eq_true, decide_eq_true_eq, Bool.false_eq_true, if_false]
    refine ⟨?_, ?_, ?_, ?_⟩
    · split_ifs <;> simp only [DoCupsStep.state] <;> (try unfold ipp_status_t at *) <;> omega
    · split_ifs <;> simp only [DoCupsStep.state] <;> (try unfold ipp_status_t at *) <;> omega
    · split_ifs <;> simp only [DoCupsStep.state] <;> (try unfold ipp_status_t at *) <;> omega
    · intro st2 hst2
      split_ifs at hst2 <;>
        (rw [DoCupsStep.continue_.injEq] at hst2
         subst hst2
         dsimp only
         unfold ipp_status_t at *
         split_ifs <;> omega)

theorem requestOutcomes_append (env : Env) (a : List SendRecord) :
    ∀ (k : Nat) (b : List SendRecord),
      requestOutcomes env k (a ++ b) =
        requestOutcomes env k a ++ requestOutcomes env (k + a.length) b := by
  induction a with
  | nil =>
    intro k b
    rfl
  | cons r rs ih =>
    intro k b
    rw [List.cons_append, requestOutcomes, requestOutcomes, ih (k + 1) b, List.length_cons]
    have e : k + 1 + rs.length = k + (rs.length + 1) := by omega
    rw [e]
    split_ifs <;> rfl

theorem requestOutcomes_probes (env : Env) (P : List SendRecord)
    (hP : ∀ p ∈ P, p.sender = Sender.probe) :
    ∀ k, requestOutcomes env k P = [] := by
  induction P with
  | nil =>
    intro k
    rfl
  | cons p ps ih =>
    intro k
    have hp : ¬ p.sender = Sender.request := by
      rw [hP p (List.mem_cons_self p ps)]
      decide
    rw [requestOutcomes, if_neg hp]
    exact ih (fun q hq => hP q (List.mem_cons_of_mem p hq)) (k + 1)

theorem requestSends_probes (P : List SendRecord) (hP : ∀ p ∈ P, p.sender = Sender.probe) :
    requestSends P = 0 := by
  unfold requestSends
  rw [List.countP_eq_zero]
  intro p hp
  rw [hP p hp]
  decide

theorem requestSends_append (a b : List SendRecord) :
    requestSends (a ++ b) = requestSends a + requestSends b :=
  List.countP_append _ a b

/-- What one round of `ipp_doCupsRequest` adds, for counters within their limits: the
records `N`, among which at most one request; each counter grows by the number of outcomes
of its own kind; a round that ends with `continue` has sent the request, has used up one
retry unless the outcome was a version-not-supported response, and keeps the counters
within their limits. -/
theorem doCups_body_facts (cfg : Config) (env : Env) (http : http_t) (st : DoCupsState)
    (w : World)
    (h1 : st.internal_error_retry_count ≤ cfg.IPP_INTERNAL_ERROR_MAX_RETRIES)
    (h2 : st.service_unavailable_retry_count ≤ cfg.IPP_SERVICE_ERROR_MAX_RETRIES)
    (h3 : st.bad_request_retry_count ≤ cfg.IPP_BAD_REQUEST_MAX_RETRIES) :
    ∃ N, (ipp_doCupsRequest_body cfg env http st w).2.sent = w.sent ++ N ∧
      requestSends N = (requestOutcomes env w.sent.length N).length ∧
      (requestOutcomes env w.sent.length N).length ≤ 1 ∧
      (ipp_doCupsRequest_body cfg env http st w).1.state.internal_error_retry_count =
        st.internal_error_retry_count +
          (requestOutcomes env w.sent.length N).countP Outcome.internalError ∧
      (ipp_doCupsRequest_body cfg env http st w).1.state.service_unavailable_retry_count =
        st.service_unavailable_retry_count +
          (requestOutcomes env w.sent.length N).countP Outcome.serviceUnavailable ∧
      (ipp_doCupsRequest_body cfg env http st w).1.state.bad_request_retry_count =
        st.bad_request_retry_count +
          (requestOutcomes env w.sent.length N).countP Outcome.badRequest ∧
      (∀ st2, (ipp_doCupsRequest_body cfg env http st w).1 = .continue_ st2 →
        (requestOutcomes env w.sent.length N).length = 1 ∧
        1 + retryRoom cfg st2 = retryRoom cfg st +
          (requestOutcomes env w.sent.length N).countP Outcome.versionNotSupported ∧
        st2.internal_error_retry_count ≤ cfg.IPP_INTERNAL_ERROR_MAX_RETRIES ∧
        st2.service_unavailable_retry_count ≤ cfg.IPP_SERVICE_ERROR_MAX_RETRIES ∧
        st2.bad_request_retry_count ≤ cfg.IPP_BAD_REQUEST_MAX_RETRIES) := by
  by_cases hrun : env.running w.polls = true
  · obtain ⟨P, hP, hprobes⟩ := set_ipp_version_log cfg env (some st.request) st.printer_uri
      (some http) st.ipp_version_supported (wprintIsRunning env w).2
    have hPO := requestOutcomes_probes env P hprobes
    have hPS := requestSends_probes P hprobes
    by_cases hset : (roundStamp cfg env http st w).1 = .OK
    · obtain ⟨w1, hw1⟩ := set_ipp_version_ok cfg env _ _ _ _ _ hset
      generalize ippSetVersion st.request w1.ipp_version_major w1.ipp_version_minor = req
        at hw1
      have hw1s : w1.sent = w.sent ++ P := by
        rw [hw1] at hP
        exact hP
      have hb := doCups_body_afterSend cfg env http st w req w1 hrun hw1
      obtain ⟨f1, f2, f3, f4⟩ := afterSend_facts cfg { st with request := req }
        (env.transport w1.sent.length) h1 h2 h3
      have hO : requestOutcomes env w.sent.length (P ++ [requestRecord st req]) =
          [env.transport w1.sent.length] := by
        rw [requestOutcomes_append, hPO, List.nil_append, requestOutcomes, requestOutcomes,
          hw1s, List.length_append]
        rfl
      refine ⟨P ++ [requestRecord st req], ?_, ?_, ?_, ?_, ?_, ?_, ?_⟩
      · rw [hb]
        simp only
        rw [hw1s, List.append_assoc]
      · rw [hO, requestSends_append, hPS]
        rfl
      · rw [hO]
        exact le_refl _
      · rw [hO, hb, List.countP_singleton]
        exact f1
      · rw [hO, hb, List.countP_singleton]
        exact f2
      · rw [hO, hb, List.countP_singleton]
        exact f3
      · intro st2 hst2
        rw [hb] at hst2
        rw [hO, List.countP_singleton]
        exact ⟨rfl, f4 st2 hst2⟩
    · have hb := doCups_body_stamp_fails cfg env http st w hrun hset
      refine ⟨P, ?_, ?_, ?_, ?_, ?_, ?_, ?_⟩
      · rw [hb]
        exact hP
      · rw [hPO, hPS]
        rfl
      · rw [hPO]
        exact Nat.zero_le _
      · rw [hPO, hb]
        rfl
      · rw [hPO, hb]
        rfl
      · rw [hPO, hb]
        rfl
      · intro st2 hst2
        rw [hb] at hst2
        cases hst2
  · have hrun2 : env.running w.polls = false := by simpa using hrun
    have hb := doCups_body_stopped cfg env http st w hrun2
    refine ⟨[], ?_, ?_, ?_, ?_, ?_, ?_, ?_⟩
    · rw [hb, List.append_nil]
    · rfl
    · exact Nat.zero_le _
    · rw [hb]
      rfl
    · rw [hb]
      rfl
    · rw [hb]
      rfl
    · intro st2 hst2
      rw [hb] at hst2
      cases hst2

/-- The account of a whole run of the loop of `ipp_doCupsRequest`. -/
theorem doCups_loop_facts (cfg : Config) (env : Env) (http : http_t) :
    ∀ (fuel : Nat) (st : DoCupsState) (w : World),
      st.internal_error_retry_count ≤ cfg.IPP_INTERNAL_ERROR_MAX_RETRIES →
      st.service_unavailable_retry_count ≤ cfg.IPP_SERVICE_ERROR_MAX_RETRIES →
      st.bad_request_retry_count ≤ cfg.IPP_BAD_REQUEST_MAX_RETRIES →
      ∃ N, (ipp_doCupsRequest_loop cfg env http fuel st w).2.2.sent = w.sent ++ N ∧
        requestSends N = (requestOutcomes env w.sent.length N).length ∧
        (ipp_doCupsRequest_loop cfg env http fuel st w).2.1.internal_error_retry_count =
          st.internal_error_retry_count +
            (requestOutcomes env w.sent.length N).countP Outcome.internalError ∧
        (ipp_doCupsRequest_loop cfg env http fuel st w).2.1.service_unavailable_retry_count =
          st.service_unavailable_retry_count +
            (requestOutcomes env w.sent.length N).countP Outcome.serviceUnavailable ∧
        (ipp_doCupsRequest_loop cfg env http fuel st w).2.1.bad_request_retry_count =
          st.bad_request_retry_count +
            (requestOutcomes env w.sent.length N).countP Outcome.badRequest ∧
        ((ipp_doCupsRequest_loop cfg env http fuel st w).1 = none →
          (requestOutcomes env w.sent.length N).length = fuel ∧
          fuel + retryRoom cfg (ipp_doCupsRequest_loop cfg env http fuel st w).2.1 =
            retryRoom cfg st +
              (requestOutcomes env w.sent.length N).countP Outcome.versionNotSupported) ∧
        (requestOutcomes env w.sent.length N).length ≤
          retryRoom cfg st + 1 +
            (requestOutcomes env w.sent.length N).countP Outcome.versionNotSupported ∧
        (ipp_doCupsRequest_loop cfg env http fuel st w).2.1.internal_error_retry_count ≤
          cfg.IPP_INTERNAL_ERROR_MAX_RETRIES + 1 ∧
        (ipp_doCupsRequest_loop cfg env http fuel st w).2.1.service_unavailable_retry_count ≤
          cfg.IPP_SERVICE_ERROR_MAX_RETRIES + 1 ∧
        (ipp_doCupsRequest_loop cfg env http fuel st w).2.1.bad_request_retry_count ≤
          cfg.IPP_BAD_REQUEST_MAX_RETRIES + 1 := by
  intro fuel
  induction fuel with
  | zero =>
    intro st w h1 h2 h3
    refine ⟨[], ?_, rfl, rfl, rfl, rfl, fun _ => ⟨rfl, ?_⟩, Nat.zero_le _, ?_, ?_, ?_⟩
    · simp [ipp_doCupsRequest_loop]
    · simp [ipp_doCupsRequest_loop, requestOutcomes]
    · exact Nat.le_succ_of_le h1
    · exact Nat.le_succ_of_le h2
    · exact Nat.le_succ_of_le h3
  | succ fuel ih =>
    intro st w h1 h2 h3
    obtain ⟨Nb, b1, b2, b3, b4, b5, b6, b7⟩ := doCups_body_facts cfg env http st w h1 h2 h3
    rw [ipp_doCupsRequest_loop]
    split
    · rename_i st1 w1 heq
      rw [heq] at b1 b4 b5 b6 b7
      simp only [DoCupsStep.state] at b1 b4 b5 b6 b7
      obtain ⟨c1, c2, c3, c4, c5⟩ := b7 st1 rfl
      obtain ⟨Nr, r1, r2, r3, r4, r5, r6, r7, r8, r9, r10⟩ := ih st1 w1 c3 c4 c5
      have hlen : w1.sent.length = w.sent.length + Nb.length := by
        rw [b1, List.length_append]
      rw [hlen] at r2 r3 r4 r5 r6 r7
      refine ⟨Nb ++ Nr, ?_, ?_, ?_, ?_, ?_, ?_, ?_, r8, r9, r10⟩
      · rw [r1, b1, List.append_assoc]
      · rw [requestSends_append, requestOutcomes_append, List.length_append, b2, r2]
      · rw [requestOutcomes_append, List.countP_append, r3, b4]
        omega
      · rw [requestOutcomes_append, List.countP_append, r4, b5]
        omega
      · rw [requestOutcomes_append, List.countP_append, r5, b6]
        omega
      · intro hnone
        obtain ⟨q1, q2⟩ := r6 hnone
        rw [requestOutcomes_append, List.length_append, List.countP_append]
        constructor
        · omega
        · omega
      · rw [requestOutcomes_append, List.length_append, List.countP_append]
        omega
    · rename_i r st1 w1 heq
      rw [heq] at b1 b4 b5 b6
      simp only [DoCupsStep.state] at b1 b4 b5 b6
      have k1 : List.countP Outcome.internalError (requestOutcomes env w.sent.length Nb) ≤
          (requestOutcomes env w.sent.length Nb).length := List.countP_le_length _
      have k2 : List.countP Outcome.serviceUnavailable (requestOutcomes env w.sent.length Nb) ≤
          (requestOutcomes env w.sent.length Nb).length := List.countP_le_length _
      have k3 : List.countP Outcome.badRequest (requestOutcomes env w.sent.length Nb) ≤
          (requestOutcomes env w.sent.length Nb).length := List.countP_le_length _
      refine ⟨Nb, b1, b2, b4, b5, b6, ?_, ?_, ?_, ?_, ?_⟩
      · intro hnone
        exact absurd hnone (by simp)
      · omega
      · dsimp only
        omega
      · dsimp only
        omega
      · dsimp only
        omega

/-- C31: one call of `ipp_doCupsRequest` with non-NULL arguments, for any script of
outcomes and any number of rounds run. With the outcomes of its own send attempts (calls of
`ippSendRequest`; the requests of version probes are not among them) taken in order:
each of the three counters ends as the number of outcomes of its own kind (no response
with internal-error or a transport error; no response with service-unavailable;
bad-request), so none is raised by outcomes of another kind, and these numbers are at most
the respective limit plus one; the number of send attempts is at most the sum of the three
limits plus one plus the number of version-not-supported responses; and the call can still
be in its loop after `fuel` rounds only if `fuel` is at most the sum of the three limits
plus the number of version-not-supported responses received. -/
theorem C31_send_attempts_bound (cfg : Config) (env : Env) (http : http_t) (request : ipp_t)
    (http_resource : String) (printer_uri : Uri) (w : World) (fuel : Nat) :
    requestSends (ipp_doCupsRequest cfg env fuel (some http) (some request)
        (some http_resource) (some printer_uri) w).2.2.sent =
      requestSends w.sent +
        (callOutcomes env w (ipp_doCupsRequest cfg env fuel (some http) (some request)
          (some http_resource) (some printer_uri) w).2.2).length ∧
    (callOutcomes env w (ipp_doCupsRequest cfg env fuel (some http) (some request)
        (some http_resource) (some printer_uri) w).2.2).length ≤
      cfg.IPP_INTERNAL_ERROR_MAX_RETRIES + cfg.IPP_SERVICE_ERROR_MAX_RETRIES +
        cfg.IPP_BAD_REQUEST_MAX_RETRIES + 1 +
        (callOutcomes env w (ipp_doCupsRequest cfg env fuel (some http) (some request)
          (some http_resource) (some printer_uri) w).2.2).countP
            Outcome.versionNotSupported ∧
    (∀ st, (ipp_doCupsRequest cfg env fuel (some http) (some request)
        (some http_resource) (some printer_uri) w).2.1 = some st →
      st.internal_error_retry_count =
        (callOutcomes env w (ipp_doCupsRequest cfg env fuel (some http) (some request)
          (some http_resource) (some printer_uri) w).2.2).countP Outcome.internalError ∧
      st.service_unavailable_retry_count =
        (callOutcomes env w (ipp_doCupsRequest cfg env fuel (some http) (some request)
          (some http_resource) (some printer_uri) w).2.2).countP
            Outcome.serviceUnavailable ∧
      st.bad_request_retry_count =
        (callOutcomes env w (ipp_doCupsRequest cfg env fuel (some http) (some request)
          (some http_resource) (some printer_uri) w).2.2).countP Outcome.badRequest ∧
      st.internal_error_retry_count ≤ cfg.IPP_INTERNAL_ERROR_MAX_RETRIES + 1 ∧
      st.service_unavailable_retry_count ≤ cfg.IPP_SERVICE_ERROR_MAX_RETRIES + 1 ∧
      st.bad_request_retry_count ≤ cfg.IPP_BAD_REQUEST_MAX_RETRIES + 1) ∧
    ((ipp_doCupsRequest cfg env fuel (some http) (some request)
        (some http_resource) (some printer_uri) w).1 = none →
      fuel ≤ cfg.IPP_INTERNAL_ERROR_MAX_RETRIES + cfg.IPP_SERVICE_ERROR_MAX_RETRIES +
        cfg.IPP_BAD_REQUEST_MAX_RETRIES +
        (callOutcomes env w (ipp_doCupsRequest cfg env fuel (some http) (some request)
          (some http_resource) (some printer_uri) w).2.2).countP
            Outcome.versionNotSupported) := by
  obtain ⟨N, n1, n2, n3, n4, n5, n6, n7, n8, n9, n10⟩ := doCups_loop_facts cfg env http fuel
    (DoCupsState.init request http_resource printer_uri) w (Nat.zero_le _) (Nat.zero_le _)
    (Nat.zero_le _)
  have hcall : ipp_doCupsRequest cfg env fuel (some http) (some request) (some http_resource)
      (some printer_uri) w =
      ((ipp_doCupsRequest_loop cfg env http fuel
          (DoCupsState.init request http_resource printer_uri) w).1,
        some (ipp_doCupsRequest_loop cfg env http fuel
          (DoCupsState.init request http_resource printer_uri) w).2.1,
        (ipp_doCupsRequest_loop cfg env http fuel
          (DoCupsState.init request http_resource printer_uri) w).2.2) := rfl
  have hroom : retryRoom cfg (DoCupsState.init request http_resource printer_uri) =
      cfg.IPP_INTERNAL_ERROR_MAX_RETRIES + cfg.IPP_SERVICE_ERROR_MAX_RETRIES +
        cfg.IPP_BAD_REQUEST_MAX_RETRIES := rfl
  have h0 : (DoCupsState.init request http_resource printer_uri).internal_error_retry_count =
      0 ∧ (DoCupsState.init request http_resource printer_uri).service_unavailable_retry_count =
      0 ∧ (DoCupsState.init request http_resource printer_uri).bad_request_retry_count = 0 :=
    ⟨rfl, rfl, rfl⟩
  have hO : callOutcomes env w (ipp_doCupsRequest_loop cfg env http fuel
      (DoCupsState.init request http_resource printer_uri) w).2.2 =
      requestOutcomes env w.sent.length N := by
    unfold callOutcomes
    rw [n1, List.drop_left]
  rw [hcall]
  simp only
  rw [hO, n1, requestSends_append, n2]
  rw [hroom] at n6 n7
  rw [h0.1] at n3
  rw [h0.2.1] at n4
  rw [h0.2.2] at n5
  refine ⟨rfl, n7, ?_, ?_⟩
  · intro st hst
    rw [Option.some.injEq] at hst
    subst hst
    exact ⟨by omega, by omega, by omega, n8, n9, n10⟩
  · intro hnone
    obtain ⟨q1, q2⟩ := n6 hnone
    omega

/-- C31, instance: limits 1, 3 and 2; under service-unavailable outcomes only the call
makes four send attempts, within the bound 1 + 3 + 2 + 1 + 0. -/
theorem C31_send_attempts_bound_witness :
    (callOutcomes envServiceUnavailable World.initial
      (ipp_doCupsRequest sampleConfig envServiceUnavailable 9 (some sampleHttp)
        (some sampleRequest) (some "/ipp/print") (some sampleUri) World.initial).2.2).length ≤
      1 + 3 + 2 + 1 +
        (callOutcomes envServiceUnavailable World.initial
          (ipp_doCupsRequest sampleConfig envServiceUnavailable 9 (some sampleHttp)
            (some sampleRequest) (some "/ipp/print") (some sampleUri)
            World.initial).2.2).countP Outcome.versionNotSupported ∧
    (ipp_doCupsRequest sampleConfig envServiceUnavailable 9 (some sampleHttp)
      (some sampleRequest) (some "/ipp/print") (some sampleUri) World.initial).1 ≠ none :=
  ⟨(C31_send_attempts_bound sampleConfig envServiceUnavailable sampleHttp sampleRequest
      "/ipp/print" sampleUri World.initial 9).2.1,
   fun h => absurd
    ((C31_send_attempts_bound sampleConfig envServiceUnavailable sampleHttp sampleRequest
      "/ipp/print" sampleUri World.initial 9).2.2.2 h) (by decide)⟩

end IppHelper
